import Mathlib

/-! # Anvil command buffers: recording state machine and command journal

A shallow embedding of `Anvil/src/wrappers/command_buffer.cpp`.

* A command buffer is a record of the members the recording code reads and
  writes (`m_recording_in_progress`, `m_is_renderpass_active`, `m_commands`)
  together with the effects it has on the outside world, kept as explicit
  traces: the Vulkan calls issued on `m_command_buffer`, the notifications
  delivered to callback subscribers, the assertion failures raised and the
  writes made past the end of a fixed-size local array.
* Every `record_*`, `start_recording`, `stop_recording` and `reset` member
  function is a pure function from the state (and the arguments) to the
  returned `bool` and the new state.
* The model is the build in which `STORE_COMMAND_BUFFER_COMMANDS` is defined,
  that is, the build in which the journal `m_commands` exists.
* Numeric arguments are natural numbers (the code only stores and forwards
  them), floats are carried as their bit pattern, and a C array argument is a
  list next to its element count, exactly as the C++ signature has it.
* Every shared pointer argument points to a live object and the device outlives
  the command buffer: null dereferences and expired weak pointers are outside
  the model.
-/

set_option linter.dupNamespace false

namespace Anvil

/-! ## Vulkan scalars and payload structures (stored and forwarded only) -/

/-- Native (driver-level) object handle; `VK_NULL_HANDLE` is zero. -/
abbrev VkHandle := Nat
/-- Device size in bytes (`VkDeviceSize`). -/
abbrev VkDeviceSize := Nat
/-- Any Vulkan bit-mask type (`VkFlags`). -/
abbrev VkFlags := Nat
/-- Any Vulkan enumeration value carried through unchanged. -/
abbrev VkEnum := Nat
/-- Bit pattern of a C `float`; the code never computes with it. -/
abbrev VkFloat := Nat
/-- Address held in a raw pointer the code stores without dereferencing. -/
abbrev RawPtr := Nat
/-- Anvil index types (`QueryIndex`, `PipelineID`, `SubPassID`). -/
abbrev AnvilIndex := Nat

def VK_COMMAND_BUFFER_USAGE_ONE_TIME_SUBMIT_BIT : VkFlags := 1
def VK_COMMAND_BUFFER_USAGE_RENDER_PASS_CONTINUE_BIT : VkFlags := 2
def VK_COMMAND_BUFFER_USAGE_SIMULTANEOUS_USE_BIT : VkFlags := 4
def VK_COMMAND_BUFFER_RESET_RELEASE_RESOURCES_BIT : VkFlags := 1
def VK_PIPELINE_BIND_POINT_GRAPHICS : VkEnum := 0
def VK_PIPELINE_BIND_POINT_COMPUTE : VkEnum := 1

structure VkBufferCopy where
  (srcOffset dstOffset size : VkDeviceSize)
deriving DecidableEq, Repr

structure VkClearAttachment where
  (aspectMask : VkFlags) (colorAttachment : Nat) (clearValue : Nat)
deriving DecidableEq, Repr

structure VkBufferImageCopy where (data : Nat) deriving DecidableEq, Repr
structure VkImageCopy where (data : Nat) deriving DecidableEq, Repr
structure VkImageBlit where (data : Nat) deriving DecidableEq, Repr
structure VkImageResolve where (data : Nat) deriving DecidableEq, Repr
structure VkImageSubresourceRange where (data : Nat) deriving DecidableEq, Repr
structure VkClearRect where (data : Nat) deriving DecidableEq, Repr
structure VkClearValue where (data : Nat) deriving DecidableEq, Repr
structure VkClearColorValue where (data : Nat) deriving DecidableEq, Repr
structure VkClearDepthStencilValue where (data : Nat) deriving DecidableEq, Repr
structure VkViewport where (data : Nat) deriving DecidableEq, Repr
structure VkRect2D where (data : Nat) deriving DecidableEq, Repr
structure VkMemoryBarrier where (data : Nat) deriving DecidableEq, Repr
structure VkBufferMemoryBarrier where (data : Nat) deriving DecidableEq, Repr
structure VkImageMemoryBarrier where (data : Nat) deriving DecidableEq, Repr

/-! ## Resource wrappers held through `std::shared_ptr`

Each is the identity of the wrapper object the shared pointer owns together
with the native handle its accessor returns. -/

/-- Shared pointer to an `Anvil::Buffer`; `get_buffer` is its `VkBuffer`. -/
structure BufferPtr where
  (object : Nat) (get_buffer : VkHandle)
deriving DecidableEq, Repr

/-- Shared pointer to an `Anvil::Image`; `get_image` is its `VkImage`. -/
structure ImagePtr where
  (object : Nat) (get_image : VkHandle)
deriving DecidableEq, Repr

/-- Shared pointer to an `Anvil::Event`; `get_event` is its `VkEvent`. -/
structure EventPtr where
  (object : Nat) (get_event : VkHandle)
deriving DecidableEq, Repr

/-- Shared pointer to an `Anvil::QueryPool`. -/
structure QueryPoolPtr where
  (object : Nat) (get_query_pool : VkHandle)
deriving DecidableEq, Repr

/-- Shared pointer to an `Anvil::PipelineLayout`. -/
structure PipelineLayoutPtr where
  (object : Nat) (get_pipeline_layout : VkHandle)
deriving DecidableEq, Repr

/-- Shared pointer to an `Anvil::DescriptorSet`. -/
structure DescriptorSetPtr where
  (object : Nat) (get_descriptor_set_vk : VkHandle)
deriving DecidableEq, Repr

/-- Shared pointer to an `Anvil::RenderPass`. -/
structure RenderPassPtr where
  (object : Nat) (get_render_pass : VkHandle)
deriving DecidableEq, Repr

/-- Shared pointer to an `Anvil::Framebuffer`. The wrapper keeps one native
framebuffer per render pass it was baked for: `baked` lists them by the
identity of the render-pass wrapper. -/
structure FramebufferPtr where
  (object : Nat) (baked : List (Nat × VkHandle))
deriving DecidableEq, Repr

/-- Native framebuffer for a render pass (`Framebuffer::get_framebuffer`);
`VK_NULL_HANDLE` when none was baked for it. -/
def FramebufferPtr.get_framebuffer (fb : FramebufferPtr) (rp : RenderPassPtr) : VkHandle :=
  ((fb.baked.find? (fun e => e.1 == rp.object)).map Prod.snd).getD 0

/-- Shared pointer to an `Anvil::SecondaryCommandBuffer`. -/
structure SecondaryCommandBufferPtr where
  (object : Nat) (get_command_buffer : VkHandle)
deriving DecidableEq, Repr

/-- Anvil memory barrier descriptor; `get_barrier_vk` is its Vulkan form. -/
structure MemoryBarrier where
  (object : Nat) (get_barrier_vk : VkMemoryBarrier)
deriving DecidableEq, Repr

/-- Anvil buffer barrier descriptor; `get_barrier_vk` is its Vulkan form. -/
structure BufferBarrier where
  (object : Nat) (get_barrier_vk : VkBufferMemoryBarrier)
deriving DecidableEq, Repr

/-- Anvil image barrier descriptor; `get_barrier_vk` is its Vulkan form. -/
structure ImageBarrier where
  (object : Nat) (get_barrier_vk : VkImageMemoryBarrier)
deriving DecidableEq, Repr

/-- The loop `for (n = 0; n < count; ++n) v.push_back(ptr[n])` every command
constructor uses to copy a caller array into the descriptor. -/
def push_back_all {α : Type} (count : Nat) (ptr : List α) : List α :=
  ptr.take count

/-! ## Command descriptors

One structure per descriptor class, with the members its constructor assigns,
and the constructor as a function of the constructor arguments. -/

structure BeginQueryCommand where
  (entry : AnvilIndex) (flags : VkFlags) (query_pool_ptr : QueryPoolPtr)
deriving DecidableEq, Repr

def BeginQueryCommand.BeginQueryCommand (in_query_pool_ptr : QueryPoolPtr) (in_entry : AnvilIndex)
    (in_flags : VkFlags) : BeginQueryCommand :=
  { entry := in_entry, flags := in_flags, query_pool_ptr := in_query_pool_ptr }

structure BeginRenderPassCommand where
  (contents : VkEnum) (fbo_ptr : FramebufferPtr) (render_area : VkRect2D)
  (render_pass_ptr : RenderPassPtr) (clear_values : List VkClearValue)
deriving DecidableEq, Repr

def BeginRenderPassCommand.BeginRenderPassCommand (in_n_clear_values : Nat)
    (in_clear_value_ptrs : List VkClearValue) (in_fbo_ptr : FramebufferPtr)
    (in_render_area : VkRect2D) (in_render_pass_ptr : RenderPassPtr) (in_contents : VkEnum) :
    BeginRenderPassCommand :=
  { contents := in_contents, fbo_ptr := in_fbo_ptr, render_area := in_render_area,
    render_pass_ptr := in_render_pass_ptr,
    clear_values := push_back_all in_n_clear_values in_clear_value_ptrs }

structure BindDescriptorSetsCommand where
  (first_set : Nat) (layout_ptr : PipelineLayoutPtr) (pipeline_bind_point : VkEnum)
  (descriptor_sets : List DescriptorSetPtr) (dynamic_offsets : List Nat)
deriving DecidableEq, Repr

def BindDescriptorSetsCommand.BindDescriptorSetsCommand (in_pipeline_bind_point : VkEnum)
    (in_layout_ptr : PipelineLayoutPtr) (in_first_set in_set_count : Nat)
    (in_descriptor_set_ptrs : List DescriptorSetPtr) (in_dynamic_offset_count : Nat)
    (in_dynamic_offset_ptrs : List Nat) : BindDescriptorSetsCommand :=
  { first_set := in_first_set, layout_ptr := in_layout_ptr,
    pipeline_bind_point := in_pipeline_bind_point,
    descriptor_sets := push_back_all in_set_count in_descriptor_set_ptrs,
    dynamic_offsets := push_back_all in_dynamic_offset_count in_dynamic_offset_ptrs }

structure BindIndexBufferCommand where
  (buffer : VkHandle) (buffer_ptr : BufferPtr) (index_type : VkEnum) (offset : VkDeviceSize)
deriving DecidableEq, Repr

def BindIndexBufferCommand.BindIndexBufferCommand (in_buffer_ptr : BufferPtr)
    (in_offset : VkDeviceSize) (in_index_type : VkEnum) : BindIndexBufferCommand :=
  { buffer := in_buffer_ptr.get_buffer, buffer_ptr := in_buffer_ptr,
    index_type := in_index_type, offset := in_offset }

structure BindPipelineCommand where
  (pipeline_bind_point : VkEnum) (pipeline_id : AnvilIndex)
deriving DecidableEq, Repr

def BindPipelineCommand.BindPipelineCommand (in_pipeline_bind_point : VkEnum)
    (in_pipeline_id : AnvilIndex) : BindPipelineCommand :=
  { pipeline_bind_point := in_pipeline_bind_point, pipeline_id := in_pipeline_id }

structure BindVertexBuffersCommandBinding where
  (buffer : VkHandle) (buffer_ptr : BufferPtr) (offset : VkDeviceSize)
deriving DecidableEq, Repr

def BindVertexBuffersCommandBinding.BindVertexBuffersCommandBinding (in_buffer_ptr : BufferPtr)
    (in_offset : VkDeviceSize) : BindVertexBuffersCommandBinding :=
  { buffer := in_buffer_ptr.get_buffer, buffer_ptr := in_buffer_ptr, offset := in_offset }

structure BindVertexBuffersCommand where
  (start_binding : Nat) (bindings : List BindVertexBuffersCommandBinding)
deriving DecidableEq, Repr

/-- The constructor reads `in_buffer_ptrs[n]` and `in_offset_ptrs[n]` for each
`n < in_binding_count`. -/
def BindVertexBuffersCommand.BindVertexBuffersCommand (in_start_binding in_binding_count : Nat)
    (in_buffer_ptrs : List BufferPtr) (in_offset_ptrs : List VkDeviceSize) :
    BindVertexBuffersCommand :=
  { start_binding := in_start_binding,
    bindings := push_back_all in_binding_count
      (List.zipWith BindVertexBuffersCommandBinding.BindVertexBuffersCommandBinding
        in_buffer_ptrs in_offset_ptrs) }

structure BlitImageCommand where
  (dst_image : VkHandle) (dst_image_layout : VkEnum) (dst_image_ptr : ImagePtr)
  (filter : VkEnum) (src_image : VkHandle) (src_image_layout : VkEnum)
  (src_image_ptr : ImagePtr) (regions : List VkImageBlit)
deriving DecidableEq, Repr

def BlitImageCommand.BlitImageCommand (in_src_image_ptr : ImagePtr) (in_src_image_layout : VkEnum)
    (in_dst_image_ptr : ImagePtr) (in_dst_image_layout : VkEnum) (in_region_count : Nat)
    (in_region_ptrs : List VkImageBlit) (in_filter : VkEnum) : BlitImageCommand :=
  { dst_image := in_dst_image_ptr.get_image, dst_image_layout := in_dst_image_layout,
    dst_image_ptr := in_dst_image_ptr, filter := in_filter,
    src_image := in_src_image_ptr.get_image, src_image_layout := in_src_image_layout,
    src_image_ptr := in_src_image_ptr,
    regions := push_back_all in_region_count in_region_ptrs }

structure ClearAttachmentsCommandAttachment where
  (aspect_mask : VkFlags) (clear_value : Nat) (color_attachment : Nat)
deriving DecidableEq, Repr

structure ClearAttachmentsCommand where
  (attachments : List ClearAttachmentsCommandAttachment) (rects : List VkClearRect)
deriving DecidableEq, Repr

def ClearAttachmentsCommand.ClearAttachmentsCommand (in_n_attachments : Nat)
    (in_attachments : List VkClearAttachment) (in_n_rects : Nat)
    (in_rect_ptrs : List VkClearRect) : ClearAttachmentsCommand :=
  { attachments := push_back_all in_n_attachments
      (in_attachments.map (fun a =>
        { aspect_mask := a.aspectMask, clear_value := a.clearValue,
          color_attachment := a.colorAttachment })),
    rects := push_back_all in_n_rects in_rect_ptrs }

structure ClearColorImageCommand where
  (color : VkClearColorValue) (image : VkHandle) (image_layout : VkEnum)
  (image_ptr : ImagePtr) (ranges : List VkImageSubresourceRange)
deriving DecidableEq, Repr

def ClearColorImageCommand.ClearColorImageCommand (in_image_ptr : ImagePtr)
    (in_image_layout : VkEnum) (in_color_ptr : VkClearColorValue) (in_range_count : Nat)
    (in_range_ptrs : List VkImageSubresourceRange) : ClearColorImageCommand :=
  { color := in_color_ptr, image := in_image_ptr.get_image, image_layout := in_image_layout,
    image_ptr := in_image_ptr, ranges := push_back_all in_range_count in_range_ptrs }

structure ClearDepthStencilImageCommand where
  (depth_stencil : VkClearDepthStencilValue) (image : VkHandle) (image_layout : VkEnum)
  (image_ptr : ImagePtr) (ranges : List VkImageSubresourceRange)
deriving DecidableEq, Repr

def ClearDepthStencilImageCommand.ClearDepthStencilImageCommand (in_image_ptr : ImagePtr)
    (in_image_layout : VkEnum) (in_depth_stencil_ptr : VkClearDepthStencilValue)
    (in_range_count : Nat) (in_range_ptrs : List VkImageSubresourceRange) :
    ClearDepthStencilImageCommand :=
  { depth_stencil := in_depth_stencil_ptr, image := in_image_ptr.get_image,
    image_layout := in_image_layout, image_ptr := in_image_ptr,
    ranges := push_back_all in_range_count in_range_ptrs }

structure CopyBufferCommand where
  (dst_buffer : VkHandle) (dst_buffer_ptr : BufferPtr) (src_buffer : VkHandle)
  (src_buffer_ptr : BufferPtr) (regions : List VkBufferCopy)
deriving DecidableEq, Repr

def CopyBufferCommand.CopyBufferCommand (in_src_buffer_ptr in_dst_buffer_ptr : BufferPtr)
    (in_region_count : Nat) (in_region_ptrs : List VkBufferCopy) : CopyBufferCommand :=
  { dst_buffer := in_dst_buffer_ptr.get_buffer, dst_buffer_ptr := in_dst_buffer_ptr,
    src_buffer := in_src_buffer_ptr.get_buffer, src_buffer_ptr := in_src_buffer_ptr,
    regions := push_back_all in_region_count in_region_ptrs }

structure CopyBufferToImageCommand where
  (dst_image : VkHandle) (dst_image_layout : VkEnum) (dst_image_ptr : ImagePtr)
  (src_buffer : VkHandle) (src_buffer_ptr : BufferPtr) (regions : List VkBufferImageCopy)
deriving DecidableEq, Repr

def CopyBufferToImageCommand.CopyBufferToImageCommand (in_src_buffer_ptr : BufferPtr)
    (in_dst_image_ptr : ImagePtr) (in_dst_image_layout : VkEnum) (in_region_count : Nat)
    (in_region_ptrs : List VkBufferImageCopy) : CopyBufferToImageCommand :=
  { dst_image := in_dst_image_ptr.get_image, dst_image_layout := in_dst_image_layout,
    dst_image_ptr := in_dst_image_ptr, src_buffer := in_src_buffer_ptr.get_buffer,
    src_buffer_ptr := in_src_buffer_ptr,
    regions := push_back_all in_region_count in_region_ptrs }

structure CopyImageCommand where
  (dst_image : VkHandle) (dst_image_layout : VkEnum) (dst_image_ptr : ImagePtr)
  (src_image : VkHandle) (src_image_layout : VkEnum) (src_image_ptr : ImagePtr)
  (regions : List VkImageCopy)
deriving DecidableEq, Repr

def CopyImageCommand.CopyImageCommand (in_src_image_ptr : ImagePtr) (in_src_image_layout : VkEnum)
    (in_dst_image_ptr : ImagePtr) (in_dst_image_layout : VkEnum) (in_region_count : Nat)
    (in_region_ptrs : List VkImageCopy) : CopyImageCommand :=
  { dst_image := in_dst_image_ptr.get_image, dst_image_layout := in_dst_image_layout,
    dst_image_ptr := in_dst_image_ptr, src_image := in_src_image_ptr.get_image,
    src_image_layout := in_src_image_layout, src_image_ptr := in_src_image_ptr,
    regions := push_back_all in_region_count in_region_ptrs }

structure CopyImageToBufferCommand where
  (dst_buffer : VkHandle) (dst_buffer_ptr : BufferPtr) (src_image : VkHandle)
  (src_image_layout : VkEnum) (src_image_ptr : ImagePtr) (regions : List VkBufferImageCopy)
deriving DecidableEq, Repr

def CopyImageToBufferCommand.CopyImageToBufferCommand (in_src_image_ptr : ImagePtr)
    (in_src_image_layout : VkEnum) (in_dst_buffer_ptr : BufferPtr) (in_region_count : Nat)
    (in_region_ptrs : List VkBufferImageCopy) : CopyImageToBufferCommand :=
  { dst_buffer := in_dst_buffer_ptr.get_buffer, dst_buffer_ptr := in_dst_buffer_ptr,
    src_image := in_src_image_ptr.get_image, src_image_layout := in_src_image_layout,
    src_image_ptr := in_src_image_ptr,
    regions := push_back_all in_region_count in_region_ptrs }

structure CopyQueryPoolResultsCommand where
  (dst_buffer : VkHandle) (dst_buffer_ptr : BufferPtr) (dst_offset dst_stride : VkDeviceSize)
  (flags : VkFlags) (query_count : Nat) (query_pool_ptr : QueryPoolPtr)
  (start_query : AnvilIndex)
deriving DecidableEq, Repr

def CopyQueryPoolResultsCommand.CopyQueryPoolResultsCommand (in_query_pool_ptr : QueryPoolPtr)
    (in_start_query : AnvilIndex) (in_query_count : Nat) (in_dst_buffer_ptr : BufferPtr)
    (in_dst_offset in_dst_stride : VkDeviceSize) (in_flags : VkFlags) :
    CopyQueryPoolResultsCommand :=
  { dst_buffer := in_dst_buffer_ptr.get_buffer, dst_buffer_ptr := in_dst_buffer_ptr,
    dst_offset := in_dst_offset, dst_stride := in_dst_stride, flags := in_flags,
    query_count := in_query_count, query_pool_ptr := in_query_pool_ptr,
    start_query := in_start_query }

structure DispatchCommand where
  (x y z : Nat)
deriving DecidableEq, Repr

def DispatchCommand.DispatchCommand (in_x in_y in_z : Nat) : DispatchCommand :=
  { x := in_x, y := in_y, z := in_z }

structure DispatchIndirectCommand where
  (buffer : VkHandle) (buffer_ptr : BufferPtr) (offset : VkDeviceSize)
deriving DecidableEq, Repr

def DispatchIndirectCommand.DispatchIndirectCommand (in_buffer_ptr : BufferPtr)
    (in_offset : VkDeviceSize) : DispatchIndirectCommand :=
  { buffer := in_buffer_ptr.get_buffer, buffer_ptr := in_buffer_ptr, offset := in_offset }

structure DrawCommand where
  (first_instance first_vertex instance_count vertex_count : Nat)
deriving DecidableEq, Repr

def DrawCommand.DrawCommand (in_vertex_count in_instance_count in_first_vertex
    in_first_instance : Nat) : DrawCommand :=
  { first_instance := in_first_instance, first_vertex := in_first_vertex,
    instance_count := in_instance_count, vertex_count := in_vertex_count }

structure DrawIndexedCommand where
  (first_index first_instance index_count instance_count : Nat) (vertex_offset : Int)
deriving DecidableEq, Repr

def DrawIndexedCommand.DrawIndexedCommand (in_index_count in_instance_count in_first_index : Nat)
    (in_vertex_offset : Int) (in_first_instance : Nat) : DrawIndexedCommand :=
  { first_index := in_first_index, first_instance := in_first_instance,
    index_count := in_index_count, instance_count := in_instance_count,
    vertex_offset := in_vertex_offset }

structure DrawIndexedIndirectCommand where
  (buffer : VkHandle) (buffer_ptr : BufferPtr) (draw_count : Nat) (offset : VkDeviceSize)
  (stride : Nat)
deriving DecidableEq, Repr

def DrawIndexedIndirectCommand.DrawIndexedIndirectCommand (in_buffer_ptr : BufferPtr)
    (in_offset : VkDeviceSize) (in_draw_count in_stride : Nat) : DrawIndexedIndirectCommand :=
  { buffer := in_buffer_ptr.get_buffer, buffer_ptr := in_buffer_ptr,
    draw_count := in_draw_count, offset := in_offset, stride := in_stride }

/-- The constructor assigns no member from `in_offset`. -/
structure DrawIndexedIndirectCountAMDCommand where
  (buffer : VkHandle) (buffer_ptr : BufferPtr) (count_buffer : VkHandle)
  (count_buffer_ptr : BufferPtr) (count_offset : VkDeviceSize) (max_draw_count stride : Nat)
deriving DecidableEq, Repr

def DrawIndexedIndirectCountAMDCommand.DrawIndexedIndirectCountAMDCommand
    (in_buffer_ptr : BufferPtr) (_in_offset : VkDeviceSize) (in_count_buffer_ptr : BufferPtr)
    (in_count_offset : VkDeviceSize) (in_max_draw_count in_stride : Nat) :
    DrawIndexedIndirectCountAMDCommand :=
  { buffer := in_buffer_ptr.get_buffer, buffer_ptr := in_buffer_ptr,
    count_buffer := in_count_buffer_ptr.get_buffer, count_buffer_ptr := in_count_buffer_ptr,
    count_offset := in_count_offset, max_draw_count := in_max_draw_count,
    stride := in_stride }

structure DrawIndirectCommand where
  (buffer : VkHandle) (buffer_ptr : BufferPtr) (count : Nat) (offset : VkDeviceSize)
  (stride : Nat)
deriving DecidableEq, Repr

def DrawIndirectCommand.DrawIndirectCommand (in_buffer_ptr : BufferPtr)
    (in_offset : VkDeviceSize) (in_count in_stride : Nat) : DrawIndirectCommand :=
  { buffer := in_buffer_ptr.get_buffer, buffer_ptr := in_buffer_ptr, count := in_count,
    offset := in_offset, stride := in_stride }

/-- The constructor assigns no member from `in_offset`. -/
structure DrawIndirectCountAMDCommand where
  (buffer : VkHandle) (buffer_ptr : BufferPtr) (count_buffer : VkHandle)
  (count_buffer_ptr : BufferPtr) (count_offset : VkDeviceSize) (max_draw_count stride : Nat)
deriving DecidableEq, Repr

def DrawIndirectCountAMDCommand.DrawIndirectCountAMDCommand (in_buffer_ptr : BufferPtr)
    (_in_offset : VkDeviceSize) (in_count_buffer_ptr : BufferPtr)
    (in_count_offset : VkDeviceSize) (in_max_draw_count in_stride : Nat) :
    DrawIndirectCountAMDCommand :=
  { buffer := in_buffer_ptr.get_buffer, buffer_ptr := in_buffer_ptr,
    count_buffer := in_count_buffer_ptr.get_buffer, count_buffer_ptr := in_count_buffer_ptr,
    count_offset := in_count_offset, max_draw_count := in_max_draw_count,
    stride := in_stride }

structure EndQueryCommand where
  (entry : AnvilIndex) (query_pool_ptr : QueryPoolPtr)
deriving DecidableEq, Repr

def EndQueryCommand.EndQueryCommand (in_query_pool_ptr : QueryPoolPtr) (in_entry : AnvilIndex) :
    EndQueryCommand :=
  { entry := in_entry, query_pool_ptr := in_query_pool_ptr }

structure EndRenderPassCommand where
deriving DecidableEq, Repr

def EndRenderPassCommand.EndRenderPassCommand : EndRenderPassCommand := {}

structure ExecuteCommandsCommand where
  (command_buffers : List VkHandle) (command_buffer_ptrs : List SecondaryCommandBufferPtr)
deriving DecidableEq, Repr

def ExecuteCommandsCommand.ExecuteCommandsCommand (in_cmd_buffers_count : Nat)
    (in_cmd_buffer_ptrs : List SecondaryCommandBufferPtr) : ExecuteCommandsCommand :=
  { command_buffers := push_back_all in_cmd_buffers_count
      (in_cmd_buffer_ptrs.map SecondaryCommandBufferPtr.get_command_buffer),
    command_buffer_ptrs := push_back_all in_cmd_buffers_count in_cmd_buffer_ptrs }

structure FillBufferCommand where
  (data : Nat) (dst_buffer : VkHandle) (dst_buffer_ptr : BufferPtr)
  (dst_offset size : VkDeviceSize)
deriving DecidableEq, Repr

def FillBufferCommand.FillBufferCommand (in_dst_buffer_ptr : BufferPtr)
    (in_dst_offset in_size : VkDeviceSize) (in_data : Nat) : FillBufferCommand :=
  { data := in_data, dst_buffer := in_dst_buffer_ptr.get_buffer,
    dst_buffer_ptr := in_dst_buffer_ptr, dst_offset := in_dst_offset, size := in_size }

structure NextSubpassCommand where
  (contents : VkEnum)
deriving DecidableEq, Repr

def NextSubpassCommand.NextSubpassCommand (in_contents : VkEnum) : NextSubpassCommand :=
  { contents := in_contents }

structure PipelineBarrierCommand where
  (by_region : Nat) (dst_stage_mask src_stage_mask : VkFlags)
  (buffer_barriers : List BufferBarrier) (image_barriers : List ImageBarrier)
  (memory_barriers : List MemoryBarrier)
deriving DecidableEq, Repr

def PipelineBarrierCommand.PipelineBarrierCommand (in_src_stage_mask in_dst_stage_mask : VkFlags)
    (in_by_region : Nat) (in_memory_barrier_count : Nat)
    (in_memory_barrier_ptr_ptr : List MemoryBarrier) (in_buffer_memory_barrier_count : Nat)
    (in_buffer_memory_barrier_ptr_ptr : List BufferBarrier)
    (in_image_memory_barrier_count : Nat) (in_image_memory_barrier_ptr_ptr : List ImageBarrier) :
    PipelineBarrierCommand :=
  { by_region := in_by_region, dst_stage_mask := in_dst_stage_mask,
    src_stage_mask := in_src_stage_mask,
    buffer_barriers :=
      push_back_all in_buffer_memory_barrier_count in_buffer_memory_barrier_ptr_ptr,
    image_barriers :=
      push_back_all in_image_memory_barrier_count in_image_memory_barrier_ptr_ptr,
    memory_barriers := push_back_all in_memory_barrier_count in_memory_barrier_ptr_ptr }

structure PushConstantsCommand where
  (layout_ptr : PipelineLayoutPtr) (offset size : Nat) (stage_flags : VkFlags)
  (values : RawPtr)
deriving DecidableEq, Repr

def PushConstantsCommand.PushConstantsCommand (in_layout_ptr : PipelineLayoutPtr)
    (in_stage_flags : VkFlags) (in_offset in_size : Nat) (in_values : RawPtr) :
    PushConstantsCommand :=
  { layout_ptr := in_layout_ptr, offset := in_offset, size := in_size,
    stage_flags := in_stage_flags, values := in_values }

structure ResetEventCommand where
  (event : VkHandle) (event_ptr : EventPtr) (stage_mask : VkFlags)
deriving DecidableEq, Repr

def ResetEventCommand.ResetEventCommand (in_event_ptr : EventPtr) (in_stage_mask : VkFlags) :
    ResetEventCommand :=
  { event := in_event_ptr.get_event, event_ptr := in_event_ptr, stage_mask := in_stage_mask }

structure ResetQueryPoolCommand where
  (query_count : Nat) (query_pool_ptr : QueryPoolPtr) (start_query : AnvilIndex)
deriving DecidableEq, Repr

def ResetQueryPoolCommand.ResetQueryPoolCommand (in_query_pool_ptr : QueryPoolPtr)
    (in_start_query : AnvilIndex) (in_query_count : Nat) : ResetQueryPoolCommand :=
  { query_count := in_query_count, query_pool_ptr := in_query_pool_ptr,
    start_query := in_start_query }

structure ResolveImageCommand where
  (dst_image : VkHandle) (dst_image_layout : VkEnum) (dst_image_ptr : ImagePtr)
  (src_image : VkHandle) (src_image_layout : VkEnum) (src_image_ptr : ImagePtr)
  (regions : List VkImageResolve)
deriving DecidableEq, Repr

def ResolveImageCommand.ResolveImageCommand (in_src_image_ptr : ImagePtr)
    (in_src_image_layout : VkEnum) (in_dst_image_ptr : ImagePtr) (in_dst_image_layout : VkEnum)
    (in_region_count : Nat) (in_region_ptrs : List VkImageResolve) : ResolveImageCommand :=
  { dst_image := in_dst_image_ptr.get_image, dst_image_layout := in_dst_image_layout,
    dst_image_ptr := in_dst_image_ptr, src_image := in_src_image_ptr.get_image,
    src_image_layout := in_src_image_layout, src_image_ptr := in_src_image_ptr,
    regions := push_back_all in_region_count in_region_ptrs }

structure SetBlendConstantsCommand where
  (blend_constants : List VkFloat)
deriving DecidableEq, Repr

/-- The constructor copies `sizeof(float) * 4` bytes with `memcpy`. -/
def SetBlendConstantsCommand.SetBlendConstantsCommand (in_blend_constants : List VkFloat) :
    SetBlendConstantsCommand :=
  { blend_constants := in_blend_constants.take 4 }

structure SetDepthBiasCommand where
  (depth_bias_clamp depth_bias_constant_factor slope_scaled_depth_bias : VkFloat)
deriving DecidableEq, Repr

def SetDepthBiasCommand.SetDepthBiasCommand (in_depth_bias_constant_factor in_depth_bias_clamp
    in_slope_scaled_depth_bias : VkFloat) : SetDepthBiasCommand :=
  { depth_bias_clamp := in_depth_bias_clamp,
    depth_bias_constant_factor := in_depth_bias_constant_factor,
    slope_scaled_depth_bias := in_slope_scaled_depth_bias }

structure SetDepthBoundsCommand where
  (max_depth_bounds min_depth_bounds : VkFloat)
deriving DecidableEq, Repr

def SetDepthBoundsCommand.SetDepthBoundsCommand (in_min_depth_bounds in_max_depth_bounds : VkFloat) :
    SetDepthBoundsCommand :=
  { max_depth_bounds := in_max_depth_bounds, min_depth_bounds := in_min_depth_bounds }

structure SetEventCommand where
  (event : VkHandle) (event_ptr : EventPtr) (stage_mask : VkFlags)
deriving DecidableEq, Repr

def SetEventCommand.SetEventCommand (in_event_ptr : EventPtr) (in_stage_mask : VkFlags) :
    SetEventCommand :=
  { event := in_event_ptr.get_event, event_ptr := in_event_ptr, stage_mask := in_stage_mask }

structure SetLineWidthCommand where
  (line_width : VkFloat)
deriving DecidableEq, Repr

def SetLineWidthCommand.SetLineWidthCommand (in_line_width : VkFloat) : SetLineWidthCommand :=
  { line_width := in_line_width }

structure SetScissorCommand where
  (first_scissor : Nat) (scissors : List VkRect2D)
deriving DecidableEq, Repr

def SetScissorCommand.SetScissorCommand (in_first_scissor in_scissor_count : Nat)
    (in_scissor_ptrs : List VkRect2D) : SetScissorCommand :=
  { first_scissor := in_first_scissor,
    scissors := push_back_all in_scissor_count in_scissor_ptrs }

structure SetStencilCompareMaskCommand where
  (face_mask : VkFlags) (stencil_compare_mask : Nat)
deriving DecidableEq, Repr

def SetStencilCompareMaskCommand.SetStencilCompareMaskCommand (in_face_mask : VkFlags)
    (in_stencil_compare_mask : Nat) : SetStencilCompareMaskCommand :=
  { face_mask := in_face_mask, stencil_compare_mask := in_stencil_compare_mask }

structure SetStencilReferenceCommand where
  (face_mask : VkFlags) (stencil_reference : Nat)
deriving DecidableEq, Repr

def SetStencilReferenceCommand.SetStencilReferenceCommand (in_face_mask : VkFlags)
    (in_stencil_reference : Nat) : SetStencilReferenceCommand :=
  { face_mask := in_face_mask, stencil_reference := in_stencil_reference }

structure SetStencilWriteMaskCommand where
  (face_mask : VkFlags) (stencil_write_mask : Nat)
deriving DecidableEq, Repr

def SetStencilWriteMaskCommand.SetStencilWriteMaskCommand (in_face_mask : VkFlags)
    (in_stencil_write_mask : Nat) : SetStencilWriteMaskCommand :=
  { face_mask := in_face_mask, stencil_write_mask := in_stencil_write_mask }

structure SetViewportCommand where
  (first_viewport : Nat) (viewports : List VkViewport)
deriving DecidableEq, Repr

def SetViewportCommand.SetViewportCommand (in_first_viewport in_viewport_count : Nat)
    (in_viewport_ptrs : List VkViewport) : SetViewportCommand :=
  { first_viewport := in_first_viewport,
    viewports := push_back_all in_viewport_count in_viewport_ptrs }

structure UpdateBufferCommand where
  (data_ptr : RawPtr) (data_size : VkDeviceSize) (dst_buffer : VkHandle)
  (dst_buffer_ptr : BufferPtr) (dst_offset : VkDeviceSize)
deriving DecidableEq, Repr

def UpdateBufferCommand.UpdateBufferCommand (in_dst_buffer_ptr : BufferPtr)
    (in_dst_offset in_data_size : VkDeviceSize) (in_data_ptr : RawPtr) : UpdateBufferCommand :=
  { data_ptr := in_data_ptr, data_size := in_data_size,
    dst_buffer := in_dst_buffer_ptr.get_buffer, dst_buffer_ptr := in_dst_buffer_ptr,
    dst_offset := in_dst_offset }

structure WaitEventsCommand where
  (dst_stage_mask src_stage_mask : VkFlags) (events : List VkHandle)
  (event_ptrs : List EventPtr) (buffer_barriers : List BufferBarrier)
  (image_barriers : List ImageBarrier) (memory_barriers : List MemoryBarrier)
deriving DecidableEq, Repr

def WaitEventsCommand.WaitEventsCommand (in_event_count : Nat) (in_event_ptrs : List EventPtr)
    (in_src_stage_mask in_dst_stage_mask : VkFlags) (in_memory_barrier_count : Nat)
    (in_memory_barriers_ptr : List MemoryBarrier) (in_buffer_memory_barrier_count : Nat)
    (in_buffer_memory_barriers_ptr : List BufferBarrier) (in_image_memory_barrier_count : Nat)
    (in_image_memory_barriers_ptr : List ImageBarrier) : WaitEventsCommand :=
  { dst_stage_mask := in_dst_stage_mask, src_stage_mask := in_src_stage_mask,
    events := push_back_all in_event_count (in_event_ptrs.map EventPtr.get_event),
    event_ptrs := push_back_all in_event_count in_event_ptrs,
    buffer_barriers :=
      push_back_all in_buffer_memory_barrier_count in_buffer_memory_barriers_ptr,
    image_barriers :=
      push_back_all in_image_memory_barrier_count in_image_memory_barriers_ptr,
    memory_barriers := push_back_all in_memory_barrier_count in_memory_barriers_ptr }

structure WriteTimestampCommand where
  (entry : AnvilIndex) (pipeline_stage : VkFlags) (query_pool_ptr : QueryPoolPtr)
deriving DecidableEq, Repr

def WriteTimestampCommand.WriteTimestampCommand (in_pipeline_stage : VkFlags)
    (in_query_pool_ptr : QueryPoolPtr) (in_entry : AnvilIndex) : WriteTimestampCommand :=
  { entry := in_entry, pipeline_stage := in_pipeline_stage,
    query_pool_ptr := in_query_pool_ptr }

/-- A descriptor as a `record_*` function hands it to `m_commands.push_back`:
an object of any one of the descriptor classes, as its constructor built it.
The constructor names the class, which fixes the `COMMAND_TYPE_*` tag its base
`Command` carries. -/
inductive Command where
  | begin_query (c : BeginQueryCommand)
  | begin_render_pass (c : BeginRenderPassCommand)
  | bind_descriptor_sets (c : BindDescriptorSetsCommand)
  | bind_index_buffer (c : BindIndexBufferCommand)
  | bind_pipeline (c : BindPipelineCommand)
  | bind_vertex_buffers (c : BindVertexBuffersCommand)
  | blit_image (c : BlitImageCommand)
  | clear_attachments (c : ClearAttachmentsCommand)
  | clear_color_image (c : ClearColorImageCommand)
  | clear_depth_stencil_image (c : ClearDepthStencilImageCommand)
  | copy_buffer (c : CopyBufferCommand)
  | copy_buffer_to_image (c : CopyBufferToImageCommand)
  | copy_image (c : CopyImageCommand)
  | copy_image_to_buffer (c : CopyImageToBufferCommand)
  | copy_query_pool_results (c : CopyQueryPoolResultsCommand)
  | dispatch (c : DispatchCommand)
  | dispatch_indirect (c : DispatchIndirectCommand)
  | draw (c : DrawCommand)
  | draw_indexed (c : DrawIndexedCommand)
  | draw_indexed_indirect (c : DrawIndexedIndirectCommand)
  | draw_indexed_indirect_count_AMD (c : DrawIndexedIndirectCountAMDCommand)
  | draw_indirect (c : DrawIndirectCommand)
  | draw_indirect_count_AMD (c : DrawIndirectCountAMDCommand)
  | end_query (c : EndQueryCommand)
  | end_render_pass (c : EndRenderPassCommand)
  | execute_commands (c : ExecuteCommandsCommand)
  | fill_buffer (c : FillBufferCommand)
  | next_subpass (c : NextSubpassCommand)
  | pipeline_barrier (c : PipelineBarrierCommand)
  | push_constants (c : PushConstantsCommand)
  | reset_event (c : ResetEventCommand)
  | reset_query_pool (c : ResetQueryPoolCommand)
  | resolve_image (c : ResolveImageCommand)
  | set_blend_constants (c : SetBlendConstantsCommand)
  | set_depth_bias (c : SetDepthBiasCommand)
  | set_depth_bounds (c : SetDepthBoundsCommand)
  | set_event (c : SetEventCommand)
  | set_line_width (c : SetLineWidthCommand)
  | set_scissor (c : SetScissorCommand)
  | set_stencil_compare_mask (c : SetStencilCompareMaskCommand)
  | set_stencil_reference (c : SetStencilReferenceCommand)
  | set_stencil_write_mask (c : SetStencilWriteMaskCommand)
  | set_viewport (c : SetViewportCommand)
  | update_buffer (c : UpdateBufferCommand)
  | wait_events (c : WaitEventsCommand)
  | write_timestamp (c : WriteTimestampCommand)
deriving DecidableEq, Repr

/-- The `COMMAND_TYPE_*` tag each descriptor constructor passes to `Command`. -/
inductive CommandType where
  | COMMAND_TYPE_BEGIN_QUERY | COMMAND_TYPE_BEGIN_RENDER_PASS
  | COMMAND_TYPE_BIND_DESCRIPTOR_SETS | COMMAND_TYPE_BIND_INDEX_BUFFER
  | COMMAND_TYPE_BIND_PIPELINE | COMMAND_TYPE_BIND_VERTEX_BUFFER
  | COMMAND_TYPE_BLIT_IMAGE | COMMAND_TYPE_CLEAR_ATTACHMENTS
  | COMMAND_TYPE_CLEAR_COLOR_IMAGE | COMMAND_TYPE_CLEAR_DEPTH_STENCIL_IMAGE
  | COMMAND_TYPE_COPY_BUFFER | COMMAND_TYPE_COPY_BUFFER_TO_IMAGE
  | COMMAND_TYPE_COPY_IMAGE | COMMAND_TYPE_COPY_IMAGE_TO_BUFFER
  | COMMAND_TYPE_COPY_QUERY_POOL_RESULTS | COMMAND_TYPE_DISPATCH
  | COMMAND_TYPE_DISPATCH_INDIRECT | COMMAND_TYPE_DRAW | COMMAND_TYPE_DRAW_INDEXED
  | COMMAND_TYPE_DRAW_INDEXED_INDIRECT | COMMAND_TYPE_DRAW_INDEXED_INDIRECT_COUNT_AMD
  | COMMAND_TYPE_DRAW_INDIRECT | COMMAND_TYPE_DRAW_INDIRECT_COUNT_AMD
  | COMMAND_TYPE_END_QUERY | COMMAND_TYPE_END_RENDER_PASS
  | COMMAND_TYPE_EXECUTE_COMMANDS | COMMAND_TYPE_FILL_BUFFER
  | COMMAND_TYPE_NEXT_SUBPASS | COMMAND_TYPE_PIPELINE_BARRIER
  | COMMAND_TYPE_PUSH_CONSTANTS | COMMAND_TYPE_RESET_EVENT
  | COMMAND_TYPE_RESET_QUERY_POOL | COMMAND_TYPE_RESOLVE_IMAGE
  | COMMAND_TYPE_SET_BLEND_CONSTANTS | COMMAND_TYPE_SET_DEPTH_BIAS
  | COMMAND_TYPE_SET_DEPTH_BOUNDS | COMMAND_TYPE_SET_EVENT
  | COMMAND_TYPE_SET_LINE_WIDTH | COMMAND_TYPE_SET_SCISSOR
  | COMMAND_TYPE_SET_STENCIL_COMPARE_MASK | COMMAND_TYPE_SET_STENCIL_REFERENCE
  | COMMAND_TYPE_SET_STENCIL_WRITE_MASK | COMMAND_TYPE_SET_VIEWPORT
  | COMMAND_TYPE_UPDATE_BUFFER | COMMAND_TYPE_WAIT_EVENTS
  | COMMAND_TYPE_WRITE_TIMESTAMP
deriving DecidableEq, Repr

open CommandType in
/-- Tag of a journal entry (the member `type` of the base `Command`). -/
def Command.type : Command → CommandType
  | .begin_query _ => COMMAND_TYPE_BEGIN_QUERY
  | .begin_render_pass _ => COMMAND_TYPE_BEGIN_RENDER_PASS
  | .bind_descriptor_sets _ => COMMAND_TYPE_BIND_DESCRIPTOR_SETS
  | .bind_index_buffer _ => COMMAND_TYPE_BIND_INDEX_BUFFER
  | .bind_pipeline _ => COMMAND_TYPE_BIND_PIPELINE
  | .bind_vertex_buffers _ => COMMAND_TYPE_BIND_VERTEX_BUFFER
  | .blit_image _ => COMMAND_TYPE_BLIT_IMAGE
  | .clear_attachments _ => COMMAND_TYPE_CLEAR_ATTACHMENTS
  | .clear_color_image _ => COMMAND_TYPE_CLEAR_COLOR_IMAGE
  | .clear_depth_stencil_image _ => COMMAND_TYPE_CLEAR_DEPTH_STENCIL_IMAGE
  | .copy_buffer _ => COMMAND_TYPE_COPY_BUFFER
  | .copy_buffer_to_image _ => COMMAND_TYPE_COPY_BUFFER_TO_IMAGE
  | .copy_image _ => COMMAND_TYPE_COPY_IMAGE
  | .copy_image_to_buffer _ => COMMAND_TYPE_COPY_IMAGE_TO_BUFFER
  | .copy_query_pool_results _ => COMMAND_TYPE_COPY_QUERY_POOL_RESULTS
  | .dispatch _ => COMMAND_TYPE_DISPATCH
  | .dispatch_indirect _ => COMMAND_TYPE_DISPATCH_INDIRECT
  | .draw _ => COMMAND_TYPE_DRAW
  | .draw_indexed _ => COMMAND_TYPE_DRAW_INDEXED
  | .draw_indexed_indirect _ => COMMAND_TYPE_DRAW_INDEXED_INDIRECT
  | .draw_indexed_indirect_count_AMD _ => COMMAND_TYPE_DRAW_INDEXED_INDIRECT_COUNT_AMD
  | .draw_indirect _ => COMMAND_TYPE_DRAW_INDIRECT
  | .draw_indirect_count_AMD _ => COMMAND_TYPE_DRAW_INDIRECT_COUNT_AMD
  | .end_query _ => COMMAND_TYPE_END_QUERY
  | .end_render_pass _ => COMMAND_TYPE_END_RENDER_PASS
  | .execute_commands _ => COMMAND_TYPE_EXECUTE_COMMANDS
  | .fill_buffer _ => COMMAND_TYPE_FILL_BUFFER
  | .next_subpass _ => COMMAND_TYPE_NEXT_SUBPASS
  | .pipeline_barrier _ => COMMAND_TYPE_PIPELINE_BARRIER
  | .push_constants _ => COMMAND_TYPE_PUSH_CONSTANTS
  | .reset_event _ => COMMAND_TYPE_RESET_EVENT
  | .reset_query_pool _ => COMMAND_TYPE_RESET_QUERY_POOL
  | .resolve_image _ => COMMAND_TYPE_RESOLVE_IMAGE
  | .set_blend_constants _ => COMMAND_TYPE_SET_BLEND_CONSTANTS
  | .set_depth_bias _ => COMMAND_TYPE_SET_DEPTH_BIAS
  | .set_depth_bounds _ => COMMAND_TYPE_SET_DEPTH_BOUNDS
  | .set_event _ => COMMAND_TYPE_SET_EVENT
  | .set_line_width _ => COMMAND_TYPE_SET_LINE_WIDTH
  | .set_scissor _ => COMMAND_TYPE_SET_SCISSOR
  | .set_stencil_compare_mask _ => COMMAND_TYPE_SET_STENCIL_COMPARE_MASK
  | .set_stencil_reference _ => COMMAND_TYPE_SET_STENCIL_REFERENCE
  | .set_stencil_write_mask _ => COMMAND_TYPE_SET_STENCIL_WRITE_MASK
  | .set_viewport _ => COMMAND_TYPE_SET_VIEWPORT
  | .update_buffer _ => COMMAND_TYPE_UPDATE_BUFFER
  | .wait_events _ => COMMAND_TYPE_WAIT_EVENTS
  | .write_timestamp _ => COMMAND_TYPE_WRITE_TIMESTAMP

/-! ## Native calls

One constructor per Vulkan entry point the file calls on `m_command_buffer`,
carrying the arguments after the command-buffer handle, in call order. An
array argument is the list the callee is handed together with its count. -/

/-- The members of `VkCommandBufferInheritanceInfo` the code assigns. -/
structure VkCommandBufferInheritanceInfo where
  (framebuffer : VkHandle) (occlusionQueryEnable : Bool) (pipelineStatistics : VkFlags)
  (queryFlags : Bool) (renderPass : VkHandle) (subpass : AnvilIndex)
deriving DecidableEq, Repr

/-- The members of `VkCommandBufferBeginInfo` the code assigns;
`pInheritanceInfo` is `none` for the null pointer. -/
structure VkCommandBufferBeginInfo where
  (flags : VkFlags) (pInheritanceInfo : Option VkCommandBufferInheritanceInfo)
deriving DecidableEq, Repr

/-- The members of `VkRenderPassBeginInfo` the code assigns. -/
structure VkRenderPassBeginInfo where
  (clearValueCount : Nat) (framebuffer : VkHandle) (pClearValues : List VkClearValue)
  (renderArea : VkRect2D) (renderPass : VkHandle)
deriving DecidableEq, Repr

inductive VkCall where
  | vkBeginCommandBuffer (pBeginInfo : VkCommandBufferBeginInfo)
  | vkEndCommandBuffer
  | vkResetCommandBuffer (flags : VkFlags)
  | vkCmdBeginQuery (queryPool : VkHandle) (query : AnvilIndex) (flags : VkFlags)
  | vkCmdBeginRenderPass (pRenderPassBegin : VkRenderPassBeginInfo) (contents : VkEnum)
  | vkCmdBindDescriptorSets (pipelineBindPoint : VkEnum) (layout : VkHandle)
      (firstSet descriptorSetCount : Nat) (pDescriptorSets : List VkHandle)
      (dynamicOffsetCount : Nat) (pDynamicOffsets : List Nat)
  | vkCmdBindIndexBuffer (buffer : VkHandle) (offset : VkDeviceSize) (indexType : VkEnum)
  | vkCmdBindPipeline (pipelineBindPoint : VkEnum) (pipeline : VkHandle)
  | vkCmdBindVertexBuffers (firstBinding bindingCount : Nat) (pBuffers : List VkHandle)
      (pOffsets : List VkDeviceSize)
  | vkCmdBlitImage (srcImage : VkHandle) (srcImageLayout : VkEnum) (dstImage : VkHandle)
      (dstImageLayout : VkEnum) (regionCount : Nat) (pRegions : List VkImageBlit)
      (filter : VkEnum)
  | vkCmdClearAttachments (attachmentCount : Nat) (pAttachments : List VkClearAttachment)
      (rectCount : Nat) (pRects : List VkClearRect)
  | vkCmdClearColorImage (image : VkHandle) (imageLayout : VkEnum)
      (pColor : VkClearColorValue) (rangeCount : Nat) (pRanges : List VkImageSubresourceRange)
  | vkCmdClearDepthStencilImage (image : VkHandle) (imageLayout : VkEnum)
      (pDepthStencil : VkClearDepthStencilValue) (rangeCount : Nat)
      (pRanges : List VkImageSubresourceRange)
  | vkCmdCopyBuffer (srcBuffer dstBuffer : VkHandle) (regionCount : Nat)
      (pRegions : List VkBufferCopy)
  | vkCmdCopyBufferToImage (srcBuffer dstImage : VkHandle) (dstImageLayout : VkEnum)
      (regionCount : Nat) (pRegions : List VkBufferImageCopy)
  | vkCmdCopyImage (srcImage : VkHandle) (srcImageLayout : VkEnum) (dstImage : VkHandle)
      (dstImageLayout : VkEnum) (regionCount : Nat) (pRegions : List VkImageCopy)
  | vkCmdCopyImageToBuffer (srcImage : VkHandle) (srcImageLayout : VkEnum)
      (dstBuffer : VkHandle) (regionCount : Nat) (pRegions : List VkBufferImageCopy)
  | vkCmdCopyQueryPoolResults (queryPool : VkHandle) (firstQuery : AnvilIndex)
      (queryCount : Nat) (dstBuffer : VkHandle) (dstOffset stride : VkDeviceSize)
      (flags : VkFlags)
  | vkCmdDispatch (x y z : Nat)
  | vkCmdDispatchIndirect (buffer : VkHandle) (offset : VkDeviceSize)
  | vkCmdDraw (vertexCount instanceCount firstVertex firstInstance : Nat)
  | vkCmdDrawIndexed (indexCount instanceCount firstIndex : Nat) (vertexOffset : Int)
      (firstInstance : Nat)
  | vkCmdDrawIndexedIndirect (buffer : VkHandle) (offset : VkDeviceSize)
      (drawCount stride : Nat)
  | vkCmdDrawIndexedIndirectCountAMD (buffer : VkHandle) (offset : VkDeviceSize)
      (countBuffer : VkHandle) (countBufferOffset : VkDeviceSize) (maxDrawCount stride : Nat)
  | vkCmdDrawIndirect (buffer : VkHandle) (offset : VkDeviceSize) (drawCount stride : Nat)
  | vkCmdDrawIndirectCountAMD (buffer : VkHandle) (offset : VkDeviceSize)
      (countBuffer : VkHandle) (countBufferOffset : VkDeviceSize) (maxDrawCount stride : Nat)
  | vkCmdEndQuery (queryPool : VkHandle) (query : AnvilIndex)
  | vkCmdEndRenderPass
  | vkCmdExecuteCommands (commandBufferCount : Nat) (pCommandBuffers : List VkHandle)
  | vkCmdFillBuffer (dstBuffer : VkHandle) (dstOffset size : VkDeviceSize) (data : Nat)
  | vkCmdNextSubpass (contents : VkEnum)
  | vkCmdPipelineBarrier (srcStageMask dstStageMask : VkFlags) (dependencyFlags : Nat)
      (memoryBarrierCount : Nat) (pMemoryBarriers : List VkMemoryBarrier)
      (bufferMemoryBarrierCount : Nat) (pBufferMemoryBarriers : List VkBufferMemoryBarrier)
      (imageMemoryBarrierCount : Nat) (pImageMemoryBarriers : List VkImageMemoryBarrier)
  | vkCmdPushConstants (layout : VkHandle) (stageFlags : VkFlags) (offset size : Nat)
      (pValues : RawPtr)
  | vkCmdResetEvent (event : VkHandle) (stageMask : VkFlags)
  | vkCmdResetQueryPool (queryPool : VkHandle) (firstQuery : AnvilIndex) (queryCount : Nat)
  | vkCmdResolveImage (srcImage : VkHandle) (srcImageLayout : VkEnum) (dstImage : VkHandle)
      (dstImageLayout : VkEnum) (regionCount : Nat) (pRegions : List VkImageResolve)
  | vkCmdSetBlendConstants (blendConstants : List VkFloat)
  | vkCmdSetDepthBias (depthBiasConstantFactor depthBiasClamp depthBiasSlopeFactor : VkFloat)
  | vkCmdSetDepthBounds (minDepthBounds maxDepthBounds : VkFloat)
  | vkCmdSetEvent (event : VkHandle) (stageMask : VkFlags)
  | vkCmdSetLineWidth (lineWidth : VkFloat)
  | vkCmdSetScissor (firstScissor scissorCount : Nat) (pScissors : List VkRect2D)
  | vkCmdSetStencilCompareMask (faceMask : VkFlags) (compareMask : Nat)
  | vkCmdSetStencilReference (faceMask : VkFlags) (reference : Nat)
  | vkCmdSetStencilWriteMask (faceMask : VkFlags) (writeMask : Nat)
  | vkCmdSetViewport (firstViewport viewportCount : Nat) (pViewports : List VkViewport)
  | vkCmdUpdateBuffer (dstBuffer : VkHandle) (dstOffset dataSize : VkDeviceSize)
      (pData : RawPtr)
  | vkCmdWaitEvents (eventCount : Nat) (pEvents : List VkHandle)
      (srcStageMask dstStageMask : VkFlags) (memoryBarrierCount : Nat)
      (pMemoryBarriers : List VkMemoryBarrier) (bufferMemoryBarrierCount : Nat)
      (pBufferMemoryBarriers : List VkBufferMemoryBarrier) (imageMemoryBarrierCount : Nat)
      (pImageMemoryBarriers : List VkImageMemoryBarrier)
  | vkCmdWriteTimestamp (pipelineStage : VkFlags) (queryPool : VkHandle) (query : AnvilIndex)
deriving Repr

/-! ## Command buffer state -/

inductive CommandBufferType where
  | COMMAND_BUFFER_TYPE_PRIMARY
  | COMMAND_BUFFER_TYPE_SECONDARY
deriving DecidableEq, Repr

inductive CommandBufferCallbackID where
  | COMMAND_BUFFER_CALLBACK_ID_BEGIN_RENDER_PASS_COMMAND_RECORDED
  | COMMAND_BUFFER_CALLBACK_ID_END_RENDER_PASS_COMMAND_RECORDED
  | COMMAND_BUFFER_CALLBACK_ID_PIPELINE_BARRIER_COMMAND_RECORDED
deriving DecidableEq, Repr

/-- What `record_bind_pipeline` asks of the device: the native pipeline each
pipeline manager returns for a pipeline id. -/
structure Device where
  (compute_pipelines graphics_pipelines : List (AnvilIndex × VkHandle))
deriving DecidableEq, Repr

def Device.get_compute_pipeline (d : Device) (id : AnvilIndex) : VkHandle :=
  ((d.compute_pipelines.find? (fun e => e.1 == id)).map Prod.snd).getD 0

def Device.get_graphics_pipeline (d : Device) (id : AnvilIndex) : VkHandle :=
  ((d.graphics_pipelines.find? (fun e => e.1 == id)).map Prod.snd).getD 0

/-- One invocation of a callback subscriber: the callback id, the descriptor
handed over, and what the subscriber can observe of the command buffer at that
moment (the journal and the number of native calls issued so far). -/
structure CallbackEvent where
  (id : CommandBufferCallbackID) (command_data : Command) (m_commands : List Command)
  (n_vk_calls : Nat)
deriving Repr

/-- State of a `CommandBufferBase` object.

* `m_command_buffer` .. `m_commands` are the data members. `m_commands` is
  kept as the sequence of descriptors handed to `push_back` since the journal
  was last cleared. The container is declared in `command_buffer.h`, which is
  not among the sources, and nothing in `command_buffer.cpp` reads an entry
  back; what the container keeps of a descriptor it is handed by value, the
  shared pointers among its members in particular, is not part of the model.
* `m_command_stashing_disabled` is the class-static flag, carried with the
  object so that every member function can read it.
* `m_callbacks` lists the registered subscribers by the callback id each one
  subscribed to (the state of the `CallbacksSupportProvider` base).
* `vk_calls` is the trace of native calls issued on `m_command_buffer`,
  `notifications` the trace of subscriber invocations, `assertion_failures`
  counts failed `anvil_assert`s and `out_of_bounds_writes` counts the elements
  stored past the end of a fixed-size local array. -/
structure CommandBufferBase where
  (m_command_buffer : VkHandle) (m_device_ptr : Device)
  (m_is_renderpass_active m_recording_in_progress : Bool) (m_type : CommandBufferType)
  (m_commands : List Command) (m_command_stashing_disabled : Bool)
  (m_callbacks : List CommandBufferCallbackID)
  (vk_calls : List VkCall) (notifications : List CallbackEvent)
  (assertion_failures out_of_bounds_writes : Nat)
deriving Repr

/-- Constructor of `CommandBufferBase`: null native handle, both flags false,
empty journal, no subscriber. `command_stashing_disabled` is the value the
class-static flag has at that time. -/
def CommandBufferBase.construct (device_ptr : Device) (type : CommandBufferType)
    (command_stashing_disabled : Bool) : CommandBufferBase :=
  { m_command_buffer := 0, m_device_ptr := device_ptr, m_is_renderpass_active := false,
    m_recording_in_progress := false, m_type := type, m_commands := [],
    m_command_stashing_disabled := command_stashing_disabled, m_callbacks := [],
    vk_calls := [], notifications := [], assertion_failures := 0,
    out_of_bounds_writes := 0 }

/-- Constructor of `PrimaryCommandBuffer`; `allocated` is the handle
`vkAllocateCommandBuffers` stores in `m_command_buffer`. -/
def PrimaryCommandBuffer.PrimaryCommandBuffer (device_ptr : Device) (allocated : VkHandle)
    (command_stashing_disabled : Bool) : CommandBufferBase :=
  { CommandBufferBase.construct device_ptr
      CommandBufferType.COMMAND_BUFFER_TYPE_PRIMARY command_stashing_disabled with
    m_command_buffer := allocated }

/-- Constructor of `SecondaryCommandBuffer`; `allocated` is the handle
`vkAllocateCommandBuffers` stores in `m_command_buffer`. -/
def SecondaryCommandBuffer.SecondaryCommandBuffer (device_ptr : Device) (allocated : VkHandle)
    (command_stashing_disabled : Bool) : CommandBufferBase :=
  { CommandBufferBase.construct device_ptr
      CommandBufferType.COMMAND_BUFFER_TYPE_SECONDARY command_stashing_disabled with
    m_command_buffer := allocated }

namespace CommandBufferBase

/-- Modelled from the spec: `anvil_assert` comes from `misc/debug.h`, which is
not among the sources. A precondition failure is reported and the call goes on
to fail: a failed assertion is counted and control continues with the next
statement (in every guard of this file that is the `goto end` that makes the
call return `false`). -/
def anvil_assert (cb : CommandBufferBase) (assertion : Bool) : CommandBufferBase :=
  if assertion then cb else { cb with assertion_failures := cb.assertion_failures + 1 }

/-- The journal block of every `record_*` function:
`if (!m_command_stashing_disabled) m_commands.push_back(command)`, where
`command` is a temporary of the descriptor class of that function. -/
def push_back_command (cb : CommandBufferBase) (command : Command) : CommandBufferBase :=
  if !cb.m_command_stashing_disabled then { cb with m_commands := cb.m_commands ++ [command] }
  else cb

/-- Issues one native call on `m_command_buffer`. -/
def vk (cb : CommandBufferBase) (call : VkCall) : CommandBufferBase :=
  { cb with vk_calls := cb.vk_calls ++ [call] }

/-- A loop `for (n = 0; n < count; ++n) local[n] = ...` over a local array of
`capacity` elements: the stores with `n >= capacity` land past its end. -/
def fill_local_array (cb : CommandBufferBase) (capacity count : Nat) : CommandBufferBase :=
  { cb with out_of_bounds_writes := cb.out_of_bounds_writes + (count - capacity) }

/-- Clears the journal (`m_commands.clear()`). -/
def clear_commands (cb : CommandBufferBase) : CommandBufferBase :=
  { cb with m_commands := [] }

/-- Modelled from the spec: `CallbacksSupportProvider` comes from
`misc/callbacks.h`, which is not among the sources. The number of subscribers
registered for a callback id. -/
def get_n_of_callback_subscribers (cb : CommandBufferBase) (id : CommandBufferCallbackID) : Nat :=
  cb.m_callbacks.count id

/-- Modelled from the spec: `CallbacksSupportProvider::callback` comes from
`misc/callbacks.h`, which is not among the sources. Every subscriber registered
for the id is invoked once, synchronously, with the descriptor as payload; a
subscriber observes the command buffer and does not change it. -/
def callback (cb : CommandBufferBase) (id : CommandBufferCallbackID) (command_data : Command) :
    CommandBufferBase :=
  let event : CallbackEvent :=
    { id := id, command_data := command_data, m_commands := cb.m_commands,
      n_vk_calls := cb.vk_calls.length }
  { cb with notifications :=
      cb.notifications ++ List.replicate (cb.get_n_of_callback_subscribers id) event }

end CommandBufferBase

/-! ## The `record_*` member functions of `CommandBufferBase`

Each returns the `bool` result together with the state after the call. -/

namespace CommandBufferBase

def record_begin_query (cb : CommandBufferBase) (in_query_pool_ptr : QueryPoolPtr)
    (in_entry : AnvilIndex) (in_flags : VkFlags) : Bool × CommandBufferBase :=
  if !cb.m_recording_in_progress then (false, cb.anvil_assert cb.m_recording_in_progress)
  else
    let cb := cb.push_back_command (.begin_query
      (BeginQueryCommand.BeginQueryCommand in_query_pool_ptr in_entry in_flags))
    let cb := cb.vk (.vkCmdBeginQuery in_query_pool_ptr.get_query_pool in_entry in_flags)
    (true, cb)

def record_bind_descriptor_sets (cb : CommandBufferBase) (in_pipeline_bind_point : VkEnum)
    (in_layout_ptr : PipelineLayoutPtr) (in_first_set in_set_count : Nat)
    (in_descriptor_set_ptrs : List DescriptorSetPtr) (in_dynamic_offset_count : Nat)
    (in_dynamic_offset_ptrs : List Nat) : Bool × CommandBufferBase :=
  let cb := cb.anvil_assert (decide (in_set_count < 16))
  let dss_vk := (in_descriptor_set_ptrs.take in_set_count).map
    DescriptorSetPtr.get_descriptor_set_vk
  let cb := cb.fill_local_array 16 in_set_count
  if !cb.m_recording_in_progress then (false, cb.anvil_assert cb.m_recording_in_progress)
  else
    let cb := cb.push_back_command (.bind_descriptor_sets
      (BindDescriptorSetsCommand.BindDescriptorSetsCommand in_pipeline_bind_point in_layout_ptr
        in_first_set in_set_count in_descriptor_set_ptrs in_dynamic_offset_count
        in_dynamic_offset_ptrs))
    let cb := cb.vk (.vkCmdBindDescriptorSets in_pipeline_bind_point
      in_layout_ptr.get_pipeline_layout in_first_set in_set_count dss_vk
      in_dynamic_offset_count in_dynamic_offset_ptrs)
    (true, cb)

def record_bind_index_buffer (cb : CommandBufferBase) (in_buffer_ptr : BufferPtr)
    (in_offset : VkDeviceSize) (in_index_type : VkEnum) : Bool × CommandBufferBase :=
  if !cb.m_recording_in_progress then (false, cb.anvil_assert cb.m_recording_in_progress)
  else
    let cb := cb.push_back_command (.bind_index_buffer
      (BindIndexBufferCommand.BindIndexBufferCommand in_buffer_ptr in_offset in_index_type))
    let cb := cb.vk (.vkCmdBindIndexBuffer in_buffer_ptr.get_buffer in_offset in_index_type)
    (true, cb)

def record_bind_pipeline (cb : CommandBufferBase) (in_pipeline_bind_point : VkEnum)
    (in_pipeline_id : AnvilIndex) : Bool × CommandBufferBase :=
  if !cb.m_recording_in_progress then (false, cb.anvil_assert cb.m_recording_in_progress)
  else
    let pipeline_vk :=
      if in_pipeline_bind_point = VK_PIPELINE_BIND_POINT_COMPUTE then
        cb.m_device_ptr.get_compute_pipeline in_pipeline_id
      else cb.m_device_ptr.get_graphics_pipeline in_pipeline_id
    let cb := cb.push_back_command (.bind_pipeline
      (BindPipelineCommand.BindPipelineCommand in_pipeline_bind_point in_pipeline_id))
    let cb := cb.vk (.vkCmdBindPipeline in_pipeline_bind_point pipeline_vk)
    (true, cb)

def record_bind_vertex_buffers (cb : CommandBufferBase) (in_start_binding in_binding_count : Nat)
    (in_buffer_ptrs : List BufferPtr) (in_offset_ptrs : List VkDeviceSize) :
    Bool × CommandBufferBase :=
  let cb := cb.anvil_assert (decide (in_binding_count < 16))
  if !cb.m_recording_in_progress then (false, cb.anvil_assert cb.m_recording_in_progress)
  else
    let cb := cb.push_back_command (.bind_vertex_buffers
      (BindVertexBuffersCommand.BindVertexBuffersCommand in_start_binding in_binding_count
        in_buffer_ptrs in_offset_ptrs))
    let buffers := (in_buffer_ptrs.take in_binding_count).map BufferPtr.get_buffer
    let cb := cb.fill_local_array 16 in_binding_count
    let cb := cb.vk (.vkCmdBindVertexBuffers in_start_binding in_binding_count buffers
      in_offset_ptrs)
    (true, cb)

def record_blit_image (cb : CommandBufferBase) (in_src_image_ptr : ImagePtr)
    (in_src_image_layout : VkEnum) (in_dst_image_ptr : ImagePtr) (in_dst_image_layout : VkEnum)
    (in_region_count : Nat) (in_region_ptrs : List VkImageBlit) (in_filter : VkEnum) :
    Bool × CommandBufferBase :=
  if cb.m_is_renderpass_active then (false, cb.anvil_assert (!cb.m_is_renderpass_active))
  else if !cb.m_recording_in_progress then
    (false, cb.anvil_assert cb.m_recording_in_progress)
  else
    let cb := cb.push_back_command (.blit_image
      (BlitImageCommand.BlitImageCommand in_src_image_ptr in_src_image_layout in_dst_image_ptr
        in_dst_image_layout in_region_count in_region_ptrs in_filter))
    let cb := cb.vk (.vkCmdBlitImage in_src_image_ptr.get_image in_src_image_layout
      in_dst_image_ptr.get_image in_dst_image_layout in_region_count in_region_ptrs in_filter)
    (true, cb)

def record_clear_attachments (cb : CommandBufferBase) (in_n_attachments : Nat)
    (in_attachment_ptrs : List VkClearAttachment) (in_n_rects : Nat)
    (in_rect_ptrs : List VkClearRect) : Bool × CommandBufferBase :=
  if !cb.m_is_renderpass_active then (false, cb.anvil_assert cb.m_is_renderpass_active)
  else if !cb.m_recording_in_progress then
    (false, cb.anvil_assert cb.m_recording_in_progress)
  else
    let cb := cb.push_back_command (.clear_attachments
      (ClearAttachmentsCommand.ClearAttachmentsCommand in_n_attachments in_attachment_ptrs
        in_n_rects in_rect_ptrs))
    let cb := cb.vk (.vkCmdClearAttachments in_n_attachments in_attachment_ptrs in_n_rects
      in_rect_ptrs)
    (true, cb)

def record_clear_color_image (cb : CommandBufferBase) (in_image_ptr : ImagePtr)
    (in_image_layout : VkEnum) (in_color_ptr : VkClearColorValue) (in_range_count : Nat)
    (in_range_ptrs : List VkImageSubresourceRange) : Bool × CommandBufferBase :=
  if cb.m_is_renderpass_active then (false, cb.anvil_assert (!cb.m_is_renderpass_active))
  else if !cb.m_recording_in_progress then
    (false, cb.anvil_assert cb.m_recording_in_progress)
  else
    let cb := cb.push_back_command (.clear_color_image
      (ClearColorImageCommand.ClearColorImageCommand in_image_ptr in_image_layout in_color_ptr
        in_range_count in_range_ptrs))
    let cb := cb.vk (.vkCmdClearColorImage in_image_ptr.get_image in_image_layout in_color_ptr
      in_range_count in_range_ptrs)
    (true, cb)

def record_clear_depth_stencil_image (cb : CommandBufferBase) (in_image_ptr : ImagePtr)
    (in_image_layout : VkEnum) (in_depth_stencil_ptr : VkClearDepthStencilValue)
    (in_range_count : Nat) (in_range_ptrs : List VkImageSubresourceRange) :
    Bool × CommandBufferBase :=
  if cb.m_is_renderpass_active then (false, cb.anvil_assert (!cb.m_is_renderpass_active))
  else if !cb.m_recording_in_progress then
    (false, cb.anvil_assert cb.m_recording_in_progress)
  else
    let cb := cb.push_back_command (.clear_depth_stencil_image
      (ClearDepthStencilImageCommand.ClearDepthStencilImageCommand in_image_ptr in_image_layout
        in_depth_stencil_ptr in_range_count in_range_ptrs))
    let cb := cb.vk (.vkCmdClearDepthStencilImage in_image_ptr.get_image in_image_layout
      in_depth_stencil_ptr in_range_count in_range_ptrs)
    (true, cb)

def record_copy_buffer (cb : CommandBufferBase) (in_src_buffer_ptr in_dst_buffer_ptr : BufferPtr)
    (in_region_count : Nat) (in_region_ptrs : List VkBufferCopy) : Bool × CommandBufferBase :=
  if cb.m_is_renderpass_active then (false, cb.anvil_assert (!cb.m_is_renderpass_active))
  else if !cb.m_recording_in_progress then
    (false, cb.anvil_assert cb.m_recording_in_progress)
  else
    let cb := cb.push_back_command (.copy_buffer
      (CopyBufferCommand.CopyBufferCommand in_src_buffer_ptr in_dst_buffer_ptr in_region_count
        in_region_ptrs))
    let cb := cb.vk (.vkCmdCopyBuffer in_src_buffer_ptr.get_buffer in_dst_buffer_ptr.get_buffer
      in_region_count in_region_ptrs)
    (true, cb)

def record_copy_buffer_to_image (cb : CommandBufferBase) (in_src_buffer_ptr : BufferPtr)
    (in_dst_image_ptr : ImagePtr) (in_dst_image_layout : VkEnum) (in_region_count : Nat)
    (in_region_ptrs : List VkBufferImageCopy) : Bool × CommandBufferBase :=
  if cb.m_is_renderpass_active then (false, cb.anvil_assert (!cb.m_is_renderpass_active))
  else if !cb.m_recording_in_progress then
    (false, cb.anvil_assert cb.m_recording_in_progress)
  else
    let cb := cb.push_back_command (.copy_buffer_to_image
      (CopyBufferToImageCommand.CopyBufferToImageCommand in_src_buffer_ptr in_dst_image_ptr
        in_dst_image_layout in_region_count in_region_ptrs))
    let cb := cb.vk (.vkCmdCopyBufferToImage in_src_buffer_ptr.get_buffer
      in_dst_image_ptr.get_image in_dst_image_layout in_region_count in_region_ptrs)
    (true, cb)

def record_copy_image (cb : CommandBufferBase) (in_src_image_ptr : ImagePtr)
    (in_src_image_layout : VkEnum) (in_dst_image_ptr : ImagePtr) (in_dst_image_layout : VkEnum)
    (in_region_count : Nat) (in_region_ptrs : List VkImageCopy) : Bool × CommandBufferBase :=
  if cb.m_is_renderpass_active then (false, cb.anvil_assert (!cb.m_is_renderpass_active))
  else if !cb.m_recording_in_progress then
    (false, cb.anvil_assert cb.m_recording_in_progress)
  else
    let cb := cb.push_back_command (.copy_image
      (CopyImageCommand.CopyImageCommand in_src_image_ptr in_src_image_layout in_dst_image_ptr
        in_dst_image_layout in_region_count in_region_ptrs))
    let cb := cb.vk (.vkCmdCopyImage in_src_image_ptr.get_image in_src_image_layout
      in_dst_image_ptr.get_image in_dst_image_layout in_region_count in_region_ptrs)
    (true, cb)

def record_copy_image_to_buffer (cb : CommandBufferBase) (in_src_image_ptr : ImagePtr)
    (in_src_image_layout : VkEnum) (in_dst_buffer_ptr : BufferPtr) (in_region_count : Nat)
    (in_region_ptrs : List VkBufferImageCopy) : Bool × CommandBufferBase :=
  if cb.m_is_renderpass_active then (false, cb.anvil_assert (!cb.m_is_renderpass_active))
  else if !cb.m_recording_in_progress then
    (false, cb.anvil_assert cb.m_recording_in_progress)
  else
    let cb := cb.push_back_command (.copy_image_to_buffer
      (CopyImageToBufferCommand.CopyImageToBufferCommand in_src_image_ptr in_src_image_layout
        in_dst_buffer_ptr in_region_count in_region_ptrs))
    let cb := cb.vk (.vkCmdCopyImageToBuffer in_src_image_ptr.get_image in_src_image_layout
      in_dst_buffer_ptr.get_buffer in_region_count in_region_ptrs)
    (true, cb)

def record_copy_query_pool_results (cb : CommandBufferBase) (in_query_pool_ptr : QueryPoolPtr)
    (in_start_query : AnvilIndex) (in_query_count : Nat) (in_dst_buffer_ptr : BufferPtr)
    (in_dst_offset in_dst_stride : VkDeviceSize) (in_flags : VkFlags) :
    Bool × CommandBufferBase :=
  if cb.m_is_renderpass_active then (false, cb.anvil_assert (!cb.m_is_renderpass_active))
  else if !cb.m_recording_in_progress then
    (false, cb.anvil_assert cb.m_recording_in_progress)
  else
    let cb := cb.push_back_command (.copy_query_pool_results
      (CopyQueryPoolResultsCommand.CopyQueryPoolResultsCommand in_query_pool_ptr in_start_query
        in_query_count in_dst_buffer_ptr in_dst_offset in_dst_stride in_flags))
    let cb := cb.vk (.vkCmdCopyQueryPoolResults in_query_pool_ptr.get_query_pool in_start_query
      in_query_count in_dst_buffer_ptr.get_buffer in_dst_offset in_dst_stride in_flags)
    (true, cb)

def record_dispatch (cb : CommandBufferBase) (in_x in_y in_z : Nat) :
    Bool × CommandBufferBase :=
  if cb.m_is_renderpass_active then (false, cb.anvil_assert (!cb.m_is_renderpass_active))
  else if !cb.m_recording_in_progress then
    (false, cb.anvil_assert cb.m_recording_in_progress)
  else
    let cb := cb.push_back_command (.dispatch (DispatchCommand.DispatchCommand in_x in_y in_z))
    let cb := cb.vk (.vkCmdDispatch in_x in_y in_z)
    (true, cb)

def record_dispatch_indirect (cb : CommandBufferBase) (in_buffer_ptr : BufferPtr) (in_offset : VkDeviceSize) :
    Bool × CommandBufferBase :=
  if cb.m_is_renderpass_active then (false, cb.anvil_assert (!cb.m_is_renderpass_active))
  else if !cb.m_recording_in_progress then
    (false, cb.anvil_assert cb.m_recording_in_progress)
  else
    let cb := cb.push_back_command (.dispatch_indirect
      (DispatchIndirectCommand.DispatchIndirectCommand in_buffer_ptr in_offset))
    let cb := cb.vk (.vkCmdDispatchIndirect in_buffer_ptr.get_buffer in_offset)
    (true, cb)

def record_draw (cb : CommandBufferBase) (in_vertex_count in_instance_count in_first_vertex
    in_first_instance : Nat) :
    Bool × CommandBufferBase :=
  if !cb.m_is_renderpass_active then (false, cb.anvil_assert cb.m_is_renderpass_active)
  else if !cb.m_recording_in_progress then
    (false, cb.anvil_assert cb.m_recording_in_progress)
  else
    let cb := cb.push_back_command (.draw (DrawCommand.DrawCommand in_vertex_count in_instance_count
      in_first_vertex in_first_instance))
    let cb := cb.vk (.vkCmdDraw in_vertex_count in_instance_count in_first_vertex
      in_first_instance)
    (true, cb)

def record_draw_indexed (cb : CommandBufferBase) (in_index_count in_instance_count in_first_index : Nat)
    (in_vertex_offset : Int) (in_first_instance : Nat) :
    Bool × CommandBufferBase :=
  if !cb.m_is_renderpass_active then (false, cb.anvil_assert cb.m_is_renderpass_active)
  else if !cb.m_recording_in_progress then
    (false, cb.anvil_assert cb.m_recording_in_progress)
  else
    let cb := cb.push_back_command (.draw_indexed (DrawIndexedCommand.DrawIndexedCommand in_index_count
      in_instance_count in_first_index in_vertex_offset in_first_instance))
    let cb := cb.vk (.vkCmdDrawIndexed in_index_count in_instance_count in_first_index
      in_vertex_offset in_first_instance)
    (true, cb)

def record_draw_indexed_indirect (cb : CommandBufferBase) (in_buffer_ptr : BufferPtr) (in_offset : VkDeviceSize)
    (in_count in_stride : Nat) :
    Bool × CommandBufferBase :=
  if !cb.m_is_renderpass_active then (false, cb.anvil_assert cb.m_is_renderpass_active)
  else if !cb.m_recording_in_progress then
    (false, cb.anvil_assert cb.m_recording_in_progress)
  else
    let cb := cb.push_back_command (.draw_indexed_indirect
      (DrawIndexedIndirectCommand.DrawIndexedIndirectCommand in_buffer_ptr in_offset in_count
        in_stride))
    let cb := cb.vk (.vkCmdDrawIndexedIndirect in_buffer_ptr.get_buffer in_offset in_count
      in_stride)
    (true, cb)

def record_draw_indexed_indirect_count_AMD (cb : CommandBufferBase) (in_buffer_ptr : BufferPtr) (in_offset : VkDeviceSize)
    (in_count_buffer_ptr : BufferPtr) (in_count_offset : VkDeviceSize)
    (in_max_draw_count in_stride : Nat) :
    Bool × CommandBufferBase :=
  if !cb.m_is_renderpass_active then (false, cb.anvil_assert cb.m_is_renderpass_active)
  else if !cb.m_recording_in_progress then
    (false, cb.anvil_assert cb.m_recording_in_progress)
  else
    let cb := cb.push_back_command (.draw_indexed_indirect_count_AMD
      (DrawIndexedIndirectCountAMDCommand.DrawIndexedIndirectCountAMDCommand in_buffer_ptr
        in_offset in_count_buffer_ptr in_count_offset in_max_draw_count in_stride))
    let cb := cb.vk (.vkCmdDrawIndexedIndirectCountAMD in_buffer_ptr.get_buffer in_offset
      in_count_buffer_ptr.get_buffer in_count_offset in_max_draw_count in_stride)
    (true, cb)

def record_draw_indirect (cb : CommandBufferBase) (in_buffer_ptr : BufferPtr) (in_offset : VkDeviceSize)
    (in_count in_stride : Nat) :
    Bool × CommandBufferBase :=
  if !cb.m_is_renderpass_active then (false, cb.anvil_assert cb.m_is_renderpass_active)
  else if !cb.m_recording_in_progress then
    (false, cb.anvil_assert cb.m_recording_in_progress)
  else
    let cb := cb.push_back_command (.draw_indirect
      (DrawIndirectCommand.DrawIndirectCommand in_buffer_ptr in_offset in_count in_stride))
    let cb := cb.vk (.vkCmdDrawIndirect in_buffer_ptr.get_buffer in_offset in_count in_stride)
    (true, cb)

def record_draw_indirect_count_AMD (cb : CommandBufferBase) (in_buffer_ptr : BufferPtr) (in_offset : VkDeviceSize)
    (in_count_buffer_ptr : BufferPtr) (in_count_offset : VkDeviceSize)
    (in_max_draw_count in_stride : Nat) :
    Bool × CommandBufferBase :=
  if !cb.m_is_renderpass_active then (false, cb.anvil_assert cb.m_is_renderpass_active)
  else if !cb.m_recording_in_progress then
    (false, cb.anvil_assert cb.m_recording_in_progress)
  else
    let cb := cb.push_back_command (.draw_indirect_count_AMD
      (DrawIndirectCountAMDCommand.DrawIndirectCountAMDCommand in_buffer_ptr in_offset
        in_count_buffer_ptr in_count_offset in_max_draw_count in_stride))
    let cb := cb.vk (.vkCmdDrawIndirectCountAMD in_buffer_ptr.get_buffer in_offset
      in_count_buffer_ptr.get_buffer in_count_offset in_max_draw_count in_stride)
    (true, cb)

def record_end_query (cb : CommandBufferBase) (in_query_pool_ptr : QueryPoolPtr) (in_entry : AnvilIndex) :
    Bool × CommandBufferBase :=
  if !cb.m_recording_in_progress then (false, cb.anvil_assert cb.m_recording_in_progress)
  else
    let cb := cb.push_back_command (.end_query (EndQueryCommand.EndQueryCommand in_query_pool_ptr in_entry))
    let cb := cb.vk (.vkCmdEndQuery in_query_pool_ptr.get_query_pool in_entry)
    (true, cb)

def record_fill_buffer (cb : CommandBufferBase) (in_dst_buffer_ptr : BufferPtr)
    (in_dst_offset in_size : VkDeviceSize) (in_data : Nat) :
    Bool × CommandBufferBase :=
  if cb.m_is_renderpass_active then (false, cb.anvil_assert (!cb.m_is_renderpass_active))
  else if !cb.m_recording_in_progress then
    (false, cb.anvil_assert cb.m_recording_in_progress)
  else
    let cb := cb.push_back_command (.fill_buffer
      (FillBufferCommand.FillBufferCommand in_dst_buffer_ptr in_dst_offset in_size in_data))
    let cb := cb.vk (.vkCmdFillBuffer in_dst_buffer_ptr.get_buffer in_dst_offset in_size in_data)
    (true, cb)

def record_pipeline_barrier (cb : CommandBufferBase) (in_src_stage_mask in_dst_stage_mask : VkFlags)
    (in_by_region : Nat) (in_memory_barrier_count : Nat)
    (in_memory_barriers_ptr : List MemoryBarrier) (in_buffer_memory_barrier_count : Nat)
    (in_buffer_memory_barriers_ptr : List BufferBarrier) (in_image_memory_barrier_count : Nat)
    (in_image_memory_barriers_ptr : List ImageBarrier) : Bool × CommandBufferBase :=
  if !cb.m_recording_in_progress then (false, cb.anvil_assert cb.m_recording_in_progress)
  else
    let cb := cb.push_back_command (.pipeline_barrier
      (PipelineBarrierCommand.PipelineBarrierCommand in_src_stage_mask in_dst_stage_mask
        in_by_region in_memory_barrier_count in_memory_barriers_ptr
        in_buffer_memory_barrier_count in_buffer_memory_barriers_ptr
        in_image_memory_barrier_count in_image_memory_barriers_ptr))
    let cb :=
      if cb.get_n_of_callback_subscribers
          .COMMAND_BUFFER_CALLBACK_ID_PIPELINE_BARRIER_COMMAND_RECORDED > 0 then
        let command_data := PipelineBarrierCommand.PipelineBarrierCommand in_src_stage_mask
          in_dst_stage_mask in_by_region in_memory_barrier_count in_memory_barriers_ptr
          in_buffer_memory_barrier_count in_buffer_memory_barriers_ptr
          in_image_memory_barrier_count in_image_memory_barriers_ptr
        cb.callback .COMMAND_BUFFER_CALLBACK_ID_PIPELINE_BARRIER_COMMAND_RECORDED
          (.pipeline_barrier command_data)
      else cb
    let cb := cb.anvil_assert (decide (16 ≥ in_buffer_memory_barrier_count) &&
      decide (16 ≥ in_image_memory_barrier_count) && decide (16 ≥ in_memory_barrier_count))
    let buffer_barriers_vk := (in_buffer_memory_barriers_ptr.take
      in_buffer_memory_barrier_count).map BufferBarrier.get_barrier_vk
    let cb := cb.fill_local_array 16 in_buffer_memory_barrier_count
    let image_barriers_vk := (in_image_memory_barriers_ptr.take
      in_image_memory_barrier_count).map ImageBarrier.get_barrier_vk
    let cb := cb.fill_local_array 16 in_image_memory_barrier_count
    let memory_barriers_vk := (in_memory_barriers_ptr.take
      in_memory_barrier_count).map MemoryBarrier.get_barrier_vk
    let cb := cb.fill_local_array 16 in_memory_barrier_count
    let cb := cb.vk (.vkCmdPipelineBarrier in_src_stage_mask in_dst_stage_mask in_by_region
      in_memory_barrier_count memory_barriers_vk in_buffer_memory_barrier_count
      buffer_barriers_vk in_image_memory_barrier_count image_barriers_vk)
    (true, cb)

def record_push_constants (cb : CommandBufferBase) (in_layout_ptr : PipelineLayoutPtr)
    (in_stage_flags : VkFlags) (in_offset in_size : Nat) (in_values : RawPtr) :
    Bool × CommandBufferBase :=
  if !cb.m_recording_in_progress then (false, cb.anvil_assert cb.m_recording_in_progress)
  else
    let cb := cb.push_back_command (.push_constants
      (PushConstantsCommand.PushConstantsCommand in_layout_ptr in_stage_flags in_offset in_size
        in_values))
    let cb := cb.vk (.vkCmdPushConstants in_layout_ptr.get_pipeline_layout in_stage_flags
      in_offset in_size in_values)
    (true, cb)

def record_reset_event (cb : CommandBufferBase) (in_event_ptr : EventPtr) (in_stage_mask : VkFlags) :
    Bool × CommandBufferBase :=
  if cb.m_is_renderpass_active then (false, cb.anvil_assert (!cb.m_is_renderpass_active))
  else if !cb.m_recording_in_progress then
    (false, cb.anvil_assert cb.m_recording_in_progress)
  else
    let cb := cb.push_back_command (.reset_event
      (ResetEventCommand.ResetEventCommand in_event_ptr in_stage_mask))
    let cb := cb.vk (.vkCmdResetEvent in_event_ptr.get_event in_stage_mask)
    (true, cb)

def record_reset_query_pool (cb : CommandBufferBase) (in_query_pool_ptr : QueryPoolPtr)
    (in_start_query : AnvilIndex) (in_query_count : Nat) :
    Bool × CommandBufferBase :=
  if cb.m_is_renderpass_active then (false, cb.anvil_assert (!cb.m_is_renderpass_active))
  else if !cb.m_recording_in_progress then
    (false, cb.anvil_assert cb.m_recording_in_progress)
  else
    let cb := cb.push_back_command (.reset_query_pool
      (ResetQueryPoolCommand.ResetQueryPoolCommand in_query_pool_ptr in_start_query
        in_query_count))
    let cb := cb.vk (.vkCmdResetQueryPool in_query_pool_ptr.get_query_pool in_start_query
      in_query_count)
    (true, cb)

def record_resolve_image (cb : CommandBufferBase) (in_src_image_ptr : ImagePtr)
    (in_src_image_layout : VkEnum) (in_dst_image_ptr : ImagePtr) (in_dst_image_layout : VkEnum)
    (in_region_count : Nat) (in_region_ptrs : List VkImageResolve) :
    Bool × CommandBufferBase :=
  if cb.m_is_renderpass_active then (false, cb.anvil_assert (!cb.m_is_renderpass_active))
  else if !cb.m_recording_in_progress then
    (false, cb.anvil_assert cb.m_recording_in_progress)
  else
    let cb := cb.push_back_command (.resolve_image
      (ResolveImageCommand.ResolveImageCommand in_src_image_ptr in_src_image_layout
        in_dst_image_ptr in_dst_image_layout in_region_count in_region_ptrs))
    let cb := cb.vk (.vkCmdResolveImage in_src_image_ptr.get_image in_src_image_layout
      in_dst_image_ptr.get_image in_dst_image_layout in_region_count in_region_ptrs)
    (true, cb)

def record_set_blend_constants (cb : CommandBufferBase) (in_blend_constants : List VkFloat) :
    Bool × CommandBufferBase :=
  if !cb.m_recording_in_progress then (false, cb.anvil_assert cb.m_recording_in_progress)
  else
    let cb := cb.push_back_command (.set_blend_constants
      (SetBlendConstantsCommand.SetBlendConstantsCommand in_blend_constants))
    let cb := cb.vk (.vkCmdSetBlendConstants in_blend_constants)
    (true, cb)

def record_set_depth_bias (cb : CommandBufferBase) (in_depth_bias_constant_factor in_depth_bias_clamp
    in_slope_scaled_depth_bias : VkFloat) :
    Bool × CommandBufferBase :=
  if !cb.m_recording_in_progress then (false, cb.anvil_assert cb.m_recording_in_progress)
  else
    let cb := cb.push_back_command (.set_depth_bias
      (SetDepthBiasCommand.SetDepthBiasCommand in_depth_bias_constant_factor in_depth_bias_clamp
        in_slope_scaled_depth_bias))
    let cb := cb.vk (.vkCmdSetDepthBias in_depth_bias_constant_factor in_depth_bias_clamp
      in_slope_scaled_depth_bias)
    (true, cb)

def record_set_depth_bounds (cb : CommandBufferBase) (in_min_depth_bounds in_max_depth_bounds : VkFloat) :
    Bool × CommandBufferBase :=
  if !cb.m_recording_in_progress then (false, cb.anvil_assert cb.m_recording_in_progress)
  else
    let cb := cb.push_back_command (.set_depth_bounds
      (SetDepthBoundsCommand.SetDepthBoundsCommand in_min_depth_bounds in_max_depth_bounds))
    let cb := cb.vk (.vkCmdSetDepthBounds in_min_depth_bounds in_max_depth_bounds)
    (true, cb)

def record_set_event (cb : CommandBufferBase) (in_event_ptr : EventPtr) (in_stage_mask : VkFlags) :
    Bool × CommandBufferBase :=
  if cb.m_is_renderpass_active then (false, cb.anvil_assert (!cb.m_is_renderpass_active))
  else if !cb.m_recording_in_progress then
    (false, cb.anvil_assert cb.m_recording_in_progress)
  else
    let cb := cb.push_back_command (.set_event (SetEventCommand.SetEventCommand in_event_ptr in_stage_mask))
    let cb := cb.vk (.vkCmdSetEvent in_event_ptr.get_event in_stage_mask)
    (true, cb)

def record_set_line_width (cb : CommandBufferBase) (in_line_width : VkFloat) :
    Bool × CommandBufferBase :=
  if !cb.m_recording_in_progress then (false, cb.anvil_assert cb.m_recording_in_progress)
  else
    let cb := cb.push_back_command (.set_line_width (SetLineWidthCommand.SetLineWidthCommand in_line_width))
    let cb := cb.vk (.vkCmdSetLineWidth in_line_width)
    (true, cb)

def record_set_scissor (cb : CommandBufferBase) (in_first_scissor in_scissor_count : Nat)
    (in_scissor_ptrs : List VkRect2D) :
    Bool × CommandBufferBase :=
  if !cb.m_recording_in_progress then (false, cb.anvil_assert cb.m_recording_in_progress)
  else
    let cb := cb.push_back_command (.set_scissor
      (SetScissorCommand.SetScissorCommand in_first_scissor in_scissor_count in_scissor_ptrs))
    let cb := cb.vk (.vkCmdSetScissor in_first_scissor in_scissor_count in_scissor_ptrs)
    (true, cb)

def record_set_stencil_compare_mask (cb : CommandBufferBase) (in_face_mask : VkFlags)
    (in_stencil_compare_mask : Nat) :
    Bool × CommandBufferBase :=
  if !cb.m_recording_in_progress then (false, cb.anvil_assert cb.m_recording_in_progress)
  else
    let cb := cb.push_back_command (.set_stencil_compare_mask
      (SetStencilCompareMaskCommand.SetStencilCompareMaskCommand in_face_mask
        in_stencil_compare_mask))
    let cb := cb.vk (.vkCmdSetStencilCompareMask in_face_mask in_stencil_compare_mask)
    (true, cb)

def record_set_stencil_reference (cb : CommandBufferBase) (in_face_mask : VkFlags)
    (in_stencil_reference : Nat) :
    Bool × CommandBufferBase :=
  if !cb.m_recording_in_progress then (false, cb.anvil_assert cb.m_recording_in_progress)
  else
    let cb := cb.push_back_command (.set_stencil_reference
      (SetStencilReferenceCommand.SetStencilReferenceCommand in_face_mask in_stencil_reference))
    let cb := cb.vk (.vkCmdSetStencilReference in_face_mask in_stencil_reference)
    (true, cb)

def record_set_stencil_write_mask (cb : CommandBufferBase) (in_face_mask : VkFlags)
    (in_stencil_write_mask : Nat) :
    Bool × CommandBufferBase :=
  if !cb.m_recording_in_progress then (false, cb.anvil_assert cb.m_recording_in_progress)
  else
    let cb := cb.push_back_command (.set_stencil_write_mask
      (SetStencilWriteMaskCommand.SetStencilWriteMaskCommand in_face_mask
        in_stencil_write_mask))
    let cb := cb.vk (.vkCmdSetStencilWriteMask in_face_mask in_stencil_write_mask)
    (true, cb)

def record_set_viewport (cb : CommandBufferBase) (in_first_viewport in_viewport_count : Nat)
    (in_viewport_ptrs : List VkViewport) :
    Bool × CommandBufferBase :=
  if !cb.m_recording_in_progress then (false, cb.anvil_assert cb.m_recording_in_progress)
  else
    let cb := cb.push_back_command (.set_viewport
      (SetViewportCommand.SetViewportCommand in_first_viewport in_viewport_count
        in_viewport_ptrs))
    let cb := cb.vk (.vkCmdSetViewport in_first_viewport in_viewport_count in_viewport_ptrs)
    (true, cb)

def record_update_buffer (cb : CommandBufferBase) (in_dst_buffer_ptr : BufferPtr)
    (in_dst_offset in_data_size : VkDeviceSize) (in_data_ptr : RawPtr) :
    Bool × CommandBufferBase :=
  if cb.m_is_renderpass_active then (false, cb.anvil_assert (!cb.m_is_renderpass_active))
  else if !cb.m_recording_in_progress then
    (false, cb.anvil_assert cb.m_recording_in_progress)
  else
    let cb := cb.push_back_command (.update_buffer
      (UpdateBufferCommand.UpdateBufferCommand in_dst_buffer_ptr in_dst_offset in_data_size
        in_data_ptr))
    let cb := cb.vk (.vkCmdUpdateBuffer in_dst_buffer_ptr.get_buffer in_dst_offset in_data_size
      in_data_ptr)
    (true, cb)

def record_wait_events (cb : CommandBufferBase) (in_event_count : Nat)
    (in_events : List EventPtr) (in_src_stage_mask in_dst_stage_mask : VkFlags)
    (in_memory_barrier_count : Nat) (in_memory_barriers_ptr : List MemoryBarrier)
    (in_buffer_memory_barrier_count : Nat) (in_buffer_memory_barriers_ptr : List BufferBarrier)
    (in_image_memory_barrier_count : Nat) (in_image_memory_barriers_ptr : List ImageBarrier) :
    Bool × CommandBufferBase :=
  let cb := cb.anvil_assert (decide (in_event_count > 0))
  let cb := cb.anvil_assert (decide (in_event_count < 16))
  let cb := cb.anvil_assert (decide (in_buffer_memory_barrier_count < 16))
  let cb := cb.anvil_assert (decide (in_image_memory_barrier_count < 16))
  let cb := cb.anvil_assert (decide (in_memory_barrier_count < 16))
  if !cb.m_recording_in_progress then (false, cb.anvil_assert cb.m_recording_in_progress)
  else
    let cb := cb.push_back_command (.wait_events
      (WaitEventsCommand.WaitEventsCommand in_event_count in_events in_src_stage_mask
        in_dst_stage_mask in_memory_barrier_count in_memory_barriers_ptr
        in_buffer_memory_barrier_count in_buffer_memory_barriers_ptr
        in_image_memory_barrier_count in_image_memory_barriers_ptr))
    let events := (in_events.take in_event_count).map EventPtr.get_event
    let cb := cb.fill_local_array 16 in_event_count
    let buffer_barriers_vk := (in_buffer_memory_barriers_ptr.take
      in_buffer_memory_barrier_count).map BufferBarrier.get_barrier_vk
    let cb := cb.fill_local_array 16 in_buffer_memory_barrier_count
    let image_barriers_vk := (in_image_memory_barriers_ptr.take
      in_image_memory_barrier_count).map ImageBarrier.get_barrier_vk
    let cb := cb.fill_local_array 16 in_image_memory_barrier_count
    let memory_barriers_vk := (in_memory_barriers_ptr.take
      in_memory_barrier_count).map MemoryBarrier.get_barrier_vk
    let cb := cb.fill_local_array 16 in_memory_barrier_count
    let cb := cb.vk (.vkCmdWaitEvents in_event_count events in_src_stage_mask
      in_dst_stage_mask in_memory_barrier_count memory_barriers_vk
      in_buffer_memory_barrier_count buffer_barriers_vk in_image_memory_barrier_count
      image_barriers_vk)
    (true, cb)

def record_write_timestamp (cb : CommandBufferBase) (in_pipeline_stage : VkFlags)
    (in_query_pool_ptr : QueryPoolPtr) (in_query_index : AnvilIndex) :
    Bool × CommandBufferBase :=
  if !cb.m_recording_in_progress then (false, cb.anvil_assert cb.m_recording_in_progress)
  else
    let cb := cb.push_back_command (.write_timestamp
      (WriteTimestampCommand.WriteTimestampCommand in_pipeline_stage in_query_pool_ptr
        in_query_index))
    let cb := cb.vk (.vkCmdWriteTimestamp in_pipeline_stage in_query_pool_ptr.get_query_pool
      in_query_index)
    (true, cb)

/-! ## State changes

`vk_call_successful` is what `is_vk_call_successful(result_vk)` evaluates to for
the value the driver returned from the native call (the test is defined in
`misc/debug.h`, which is not among the sources). -/

def reset (cb : CommandBufferBase) (should_release_resources : Bool)
    (vk_call_successful : Bool) : Bool × CommandBufferBase :=
  if cb.m_recording_in_progress then (false, cb.anvil_assert (!cb.m_recording_in_progress))
  else
    let cb := cb.vk (.vkResetCommandBuffer
      (if should_release_resources then VK_COMMAND_BUFFER_RESET_RELEASE_RESOURCES_BIT else 0))
    if !vk_call_successful then (false, cb.anvil_assert vk_call_successful)
    else
      let cb := cb.clear_commands
      (true, cb)

def stop_recording (cb : CommandBufferBase) (vk_call_successful : Bool) :
    Bool × CommandBufferBase :=
  if !cb.m_recording_in_progress then (false, cb.anvil_assert cb.m_recording_in_progress)
  else
    let cb := cb.vk .vkEndCommandBuffer
    if !vk_call_successful then (false, cb.anvil_assert vk_call_successful)
    else
      let cb := { cb with m_recording_in_progress := false }
      (true, cb)

end CommandBufferBase

/-! ## Member functions of `PrimaryCommandBuffer` -/

namespace PrimaryCommandBuffer

open CommandBufferCallbackID in
def record_begin_render_pass (cb : CommandBufferBase) (in_n_clear_values : Nat)
    (in_clear_value_ptrs : List VkClearValue) (in_fbo_ptr : FramebufferPtr)
    (in_render_area : VkRect2D) (in_render_pass_ptr : RenderPassPtr) (in_contents : VkEnum) :
    Bool × CommandBufferBase :=
  if cb.m_is_renderpass_active then (false, cb.anvil_assert (!cb.m_is_renderpass_active))
  else if !cb.m_recording_in_progress then
    (false, cb.anvil_assert cb.m_recording_in_progress)
  else
    let cb :=
      if cb.get_n_of_callback_subscribers
          COMMAND_BUFFER_CALLBACK_ID_BEGIN_RENDER_PASS_COMMAND_RECORDED > 0 then
        let command_data := BeginRenderPassCommand.BeginRenderPassCommand in_n_clear_values
          in_clear_value_ptrs in_fbo_ptr in_render_area in_render_pass_ptr in_contents
        cb.callback COMMAND_BUFFER_CALLBACK_ID_BEGIN_RENDER_PASS_COMMAND_RECORDED
          (.begin_render_pass command_data)
      else cb
    let cb := cb.push_back_command (.begin_render_pass
      (BeginRenderPassCommand.BeginRenderPassCommand in_n_clear_values in_clear_value_ptrs
        in_fbo_ptr in_render_area in_render_pass_ptr in_contents))
    let render_pass_begin_info : VkRenderPassBeginInfo :=
      { clearValueCount := in_n_clear_values,
        framebuffer := in_fbo_ptr.get_framebuffer in_render_pass_ptr,
        pClearValues := in_clear_value_ptrs, renderArea := in_render_area,
        renderPass := in_render_pass_ptr.get_render_pass }
    let cb := cb.vk (.vkCmdBeginRenderPass render_pass_begin_info in_contents)
    let cb := { cb with m_is_renderpass_active := true }
    (true, cb)

open CommandBufferCallbackID in
def record_end_render_pass (cb : CommandBufferBase) : Bool × CommandBufferBase :=
  if !cb.m_is_renderpass_active then (false, cb.anvil_assert cb.m_is_renderpass_active)
  else if !cb.m_recording_in_progress then
    (false, cb.anvil_assert cb.m_recording_in_progress)
  else
    let cb :=
      if cb.get_n_of_callback_subscribers
          COMMAND_BUFFER_CALLBACK_ID_END_RENDER_PASS_COMMAND_RECORDED > 0 then
        let command_data := EndRenderPassCommand.EndRenderPassCommand
        cb.callback COMMAND_BUFFER_CALLBACK_ID_END_RENDER_PASS_COMMAND_RECORDED
          (.end_render_pass command_data)
      else cb
    let cb := cb.push_back_command (.end_render_pass EndRenderPassCommand.EndRenderPassCommand)
    let cb := cb.vk .vkCmdEndRenderPass
    let cb := { cb with m_is_renderpass_active := false }
    (true, cb)

def record_execute_commands (cb : CommandBufferBase) (in_cmd_buffers_count : Nat)
    (in_cmd_buffer_ptrs : List SecondaryCommandBufferPtr) : Bool × CommandBufferBase :=
  let cb := cb.anvil_assert (decide (in_cmd_buffers_count < 16))
  if !cb.m_recording_in_progress then (false, cb.anvil_assert cb.m_recording_in_progress)
  else
    let cb := cb.push_back_command (.execute_commands
      (ExecuteCommandsCommand.ExecuteCommandsCommand in_cmd_buffers_count in_cmd_buffer_ptrs))
    let cmd_buffers := (in_cmd_buffer_ptrs.take in_cmd_buffers_count).map
      SecondaryCommandBufferPtr.get_command_buffer
    let cb := cb.fill_local_array 16 in_cmd_buffers_count
    let cb := cb.vk (.vkCmdExecuteCommands in_cmd_buffers_count cmd_buffers)
    (true, cb)

def record_next_subpass (cb : CommandBufferBase) (in_contents : VkEnum) :
    Bool × CommandBufferBase :=
  if !cb.m_is_renderpass_active then (false, cb.anvil_assert cb.m_is_renderpass_active)
  else if !cb.m_recording_in_progress then
    (false, cb.anvil_assert cb.m_recording_in_progress)
  else
    let cb := cb.push_back_command (.next_subpass
      (NextSubpassCommand.NextSubpassCommand in_contents))
    let cb := cb.vk (.vkCmdNextSubpass in_contents)
    (true, cb)

def start_recording (cb : CommandBufferBase) (one_time_submit simultaneous_use_allowed : Bool)
    (vk_call_successful : Bool) : Bool × CommandBufferBase :=
  if cb.m_recording_in_progress then (false, cb.anvil_assert (!cb.m_recording_in_progress))
  else
    let command_buffer_begin_info : VkCommandBufferBeginInfo :=
      { flags :=
          (if one_time_submit then VK_COMMAND_BUFFER_USAGE_ONE_TIME_SUBMIT_BIT else 0) |||
          (if simultaneous_use_allowed then VK_COMMAND_BUFFER_USAGE_SIMULTANEOUS_USE_BIT
           else 0),
        pInheritanceInfo := none }
    let cb := cb.vk (.vkBeginCommandBuffer command_buffer_begin_info)
    if !vk_call_successful then (false, cb.anvil_assert vk_call_successful)
    else
      let cb := cb.clear_commands
      let cb := { cb with m_recording_in_progress := true }
      (true, cb)

end PrimaryCommandBuffer

/-! ## Member functions of `SecondaryCommandBuffer` -/

/-- Occlusion query scope a secondary command buffer asks for. The code tests
the value against the two named enumerators only. -/
inductive OcclusionQuerySupportScope where
  | OCCLUSION_QUERY_SUPPORT_SCOPE_NOT_REQUIRED
  | OCCLUSION_QUERY_SUPPORT_SCOPE_REQUIRED
  | other_scope (value : Nat)
deriving DecidableEq, Repr

namespace SecondaryCommandBuffer

open OcclusionQuerySupportScope in
def start_recording (cb : CommandBufferBase) (one_time_submit simultaneous_use_allowed
    renderpass_usage_only : Bool) (framebuffer_ptr : FramebufferPtr)
    (render_pass_ptr : RenderPassPtr) (subpass_id : AnvilIndex)
    (required_occlusion_query_support_scope : OcclusionQuerySupportScope)
    (required_pipeline_statistics_scope : VkFlags) (vk_call_successful : Bool) :
    Bool × CommandBufferBase :=
  if cb.m_recording_in_progress then (false, cb.anvil_assert (!cb.m_recording_in_progress))
  else
    let command_buffer_inheritance_info : VkCommandBufferInheritanceInfo :=
      { framebuffer := framebuffer_ptr.get_framebuffer render_pass_ptr,
        occlusionQueryEnable := decide (required_occlusion_query_support_scope ≠
          OCCLUSION_QUERY_SUPPORT_SCOPE_NOT_REQUIRED),
        pipelineStatistics := required_pipeline_statistics_scope,
        queryFlags := decide (required_occlusion_query_support_scope =
          OCCLUSION_QUERY_SUPPORT_SCOPE_REQUIRED),
        renderPass := render_pass_ptr.get_render_pass, subpass := subpass_id }
    let command_buffer_begin_info : VkCommandBufferBeginInfo :=
      { flags :=
          (if one_time_submit then VK_COMMAND_BUFFER_USAGE_ONE_TIME_SUBMIT_BIT else 0) |||
          (if simultaneous_use_allowed then VK_COMMAND_BUFFER_USAGE_SIMULTANEOUS_USE_BIT
           else 0) |||
          (if renderpass_usage_only then VK_COMMAND_BUFFER_USAGE_RENDER_PASS_CONTINUE_BIT
           else 0),
        pInheritanceInfo := some command_buffer_inheritance_info }
    let cb := cb.vk (.vkBeginCommandBuffer command_buffer_begin_info)
    if !vk_call_successful then (false, cb.anvil_assert vk_call_successful)
    else
      let cb := cb.clear_commands
      let cb := { cb with m_is_renderpass_active := renderpass_usage_only }
      let cb := { cb with m_recording_in_progress := true }
      (true, cb)

end SecondaryCommandBuffer

/-! ## Calls as data

A `record_*` call with its arguments, so that statements can range over every
recording function and over sequences of calls. -/

/-- One call of a `record_*` member function: the function and its arguments,
in the order of the C++ signature. -/
inductive RecordCall where
  | begin_query (in_query_pool_ptr : QueryPoolPtr) (in_entry : AnvilIndex) (in_flags : VkFlags)
  | bind_descriptor_sets (in_pipeline_bind_point : VkEnum) (in_layout_ptr : PipelineLayoutPtr)
      (in_first_set in_set_count : Nat) (in_descriptor_set_ptrs : List DescriptorSetPtr)
      (in_dynamic_offset_count : Nat) (in_dynamic_offset_ptrs : List Nat)
  | bind_index_buffer (in_buffer_ptr : BufferPtr) (in_offset : VkDeviceSize)
      (in_index_type : VkEnum)
  | bind_pipeline (in_pipeline_bind_point : VkEnum) (in_pipeline_id : AnvilIndex)
  | bind_vertex_buffers (in_start_binding in_binding_count : Nat)
      (in_buffer_ptrs : List BufferPtr) (in_offset_ptrs : List VkDeviceSize)
  | blit_image (in_src_image_ptr : ImagePtr) (in_src_image_layout : VkEnum)
      (in_dst_image_ptr : ImagePtr) (in_dst_image_layout : VkEnum) (in_region_count : Nat)
      (in_region_ptrs : List VkImageBlit) (in_filter : VkEnum)
  | clear_attachments (in_n_attachments : Nat) (in_attachment_ptrs : List VkClearAttachment)
      (in_n_rects : Nat) (in_rect_ptrs : List VkClearRect)
  | clear_color_image (in_image_ptr : ImagePtr) (in_image_layout : VkEnum)
      (in_color_ptr : VkClearColorValue) (in_range_count : Nat)
      (in_range_ptrs : List VkImageSubresourceRange)
  | clear_depth_stencil_image (in_image_ptr : ImagePtr) (in_image_layout : VkEnum)
      (in_depth_stencil_ptr : VkClearDepthStencilValue) (in_range_count : Nat)
      (in_range_ptrs : List VkImageSubresourceRange)
  | copy_buffer (in_src_buffer_ptr in_dst_buffer_ptr : BufferPtr) (in_region_count : Nat)
      (in_region_ptrs : List VkBufferCopy)
  | copy_buffer_to_image (in_src_buffer_ptr : BufferPtr) (in_dst_image_ptr : ImagePtr)
      (in_dst_image_layout : VkEnum) (in_region_count : Nat)
      (in_region_ptrs : List VkBufferImageCopy)
  | copy_image (in_src_image_ptr : ImagePtr) (in_src_image_layout : VkEnum)
      (in_dst_image_ptr : ImagePtr) (in_dst_image_layout : VkEnum) (in_region_count : Nat)
      (in_region_ptrs : List VkImageCopy)
  | copy_image_to_buffer (in_src_image_ptr : ImagePtr) (in_src_image_layout : VkEnum)
      (in_dst_buffer_ptr : BufferPtr) (in_region_count : Nat)
      (in_region_ptrs : List VkBufferImageCopy)
  | copy_query_pool_results (in_query_pool_ptr : QueryPoolPtr) (in_start_query : AnvilIndex)
      (in_query_count : Nat) (in_dst_buffer_ptr : BufferPtr)
      (in_dst_offset in_dst_stride : VkDeviceSize) (in_flags : VkFlags)
  | dispatch (in_x in_y in_z : Nat)
  | dispatch_indirect (in_buffer_ptr : BufferPtr) (in_offset : VkDeviceSize)
  | draw (in_vertex_count in_instance_count in_first_vertex in_first_instance : Nat)
  | draw_indexed (in_index_count in_instance_count in_first_index : Nat) (in_vertex_offset : Int)
      (in_first_instance : Nat)
  | draw_indexed_indirect (in_buffer_ptr : BufferPtr) (in_offset : VkDeviceSize)
      (in_count in_stride : Nat)
  | draw_indexed_indirect_count_AMD (in_buffer_ptr : BufferPtr) (in_offset : VkDeviceSize)
      (in_count_buffer_ptr : BufferPtr) (in_count_offset : VkDeviceSize)
      (in_max_draw_count in_stride : Nat)
  | draw_indirect (in_buffer_ptr : BufferPtr) (in_offset : VkDeviceSize)
      (in_count in_stride : Nat)
  | draw_indirect_count_AMD (in_buffer_ptr : BufferPtr) (in_offset : VkDeviceSize)
      (in_count_buffer_ptr : BufferPtr) (in_count_offset : VkDeviceSize)
      (in_max_draw_count in_stride : Nat)
  | end_query (in_query_pool_ptr : QueryPoolPtr) (in_entry : AnvilIndex)
  | fill_buffer (in_dst_buffer_ptr : BufferPtr) (in_dst_offset in_size : VkDeviceSize)
      (in_data : Nat)
  | pipeline_barrier (in_src_stage_mask in_dst_stage_mask : VkFlags) (in_by_region : Nat)
      (in_memory_barrier_count : Nat) (in_memory_barriers_ptr : List MemoryBarrier)
      (in_buffer_memory_barrier_count : Nat) (in_buffer_memory_barriers_ptr : List BufferBarrier)
      (in_image_memory_barrier_count : Nat) (in_image_memory_barriers_ptr : List ImageBarrier)
  | push_constants (in_layout_ptr : PipelineLayoutPtr) (in_stage_flags : VkFlags)
      (in_offset in_size : Nat) (in_values : RawPtr)
  | reset_event (in_event_ptr : EventPtr) (in_stage_mask : VkFlags)
  | reset_query_pool (in_query_pool_ptr : QueryPoolPtr) (in_start_query : AnvilIndex)
      (in_query_count : Nat)
  | resolve_image (in_src_image_ptr : ImagePtr) (in_src_image_layout : VkEnum)
      (in_dst_image_ptr : ImagePtr) (in_dst_image_layout : VkEnum) (in_region_count : Nat)
      (in_region_ptrs : List VkImageResolve)
  | set_blend_constants (in_blend_constants : List VkFloat)
  | set_depth_bias
      (in_depth_bias_constant_factor in_depth_bias_clamp in_slope_scaled_depth_bias : VkFloat)
  | set_depth_bounds (in_min_depth_bounds in_max_depth_bounds : VkFloat)
  | set_event (in_event_ptr : EventPtr) (in_stage_mask : VkFlags)
  | set_line_width (in_line_width : VkFloat)
  | set_scissor (in_first_scissor in_scissor_count : Nat) (in_scissor_ptrs : List VkRect2D)
  | set_stencil_compare_mask (in_face_mask : VkFlags) (in_stencil_compare_mask : Nat)
  | set_stencil_reference (in_face_mask : VkFlags) (in_stencil_reference : Nat)
  | set_stencil_write_mask (in_face_mask : VkFlags) (in_stencil_write_mask : Nat)
  | set_viewport (in_first_viewport in_viewport_count : Nat) (in_viewport_ptrs : List VkViewport)
  | update_buffer (in_dst_buffer_ptr : BufferPtr) (in_dst_offset in_data_size : VkDeviceSize)
      (in_data_ptr : RawPtr)
  | wait_events (in_event_count : Nat) (in_events : List EventPtr)
      (in_src_stage_mask in_dst_stage_mask : VkFlags) (in_memory_barrier_count : Nat)
      (in_memory_barriers_ptr : List MemoryBarrier) (in_buffer_memory_barrier_count : Nat)
      (in_buffer_memory_barriers_ptr : List BufferBarrier) (in_image_memory_barrier_count : Nat)
      (in_image_memory_barriers_ptr : List ImageBarrier)
  | write_timestamp (in_pipeline_stage : VkFlags) (in_query_pool_ptr : QueryPoolPtr)
      (in_query_index : AnvilIndex)
  | begin_render_pass (in_n_clear_values : Nat) (in_clear_value_ptrs : List VkClearValue)
      (in_fbo_ptr : FramebufferPtr) (in_render_area : VkRect2D)
      (in_render_pass_ptr : RenderPassPtr) (in_contents : VkEnum)
  | end_render_pass
  | execute_commands (in_cmd_buffers_count : Nat)
      (in_cmd_buffer_ptrs : List SecondaryCommandBufferPtr)
  | next_subpass (in_contents : VkEnum)

/-- Performs the call: the `record_*` function the constructor names, applied
to the arguments it carries. -/
def record (cb : CommandBufferBase) : RecordCall → Bool × CommandBufferBase
  | .begin_query a0 a1 a2 => CommandBufferBase.record_begin_query cb a0 a1 a2
  | .bind_descriptor_sets a0 a1 a2 a3 a4 a5 a6 =>
      CommandBufferBase.record_bind_descriptor_sets cb a0 a1 a2 a3 a4 a5 a6
  | .bind_index_buffer a0 a1 a2 => CommandBufferBase.record_bind_index_buffer cb a0 a1 a2
  | .bind_pipeline a0 a1 => CommandBufferBase.record_bind_pipeline cb a0 a1
  | .bind_vertex_buffers a0 a1 a2 a3 =>
      CommandBufferBase.record_bind_vertex_buffers cb a0 a1 a2 a3
  | .blit_image a0 a1 a2 a3 a4 a5 a6 =>
      CommandBufferBase.record_blit_image cb a0 a1 a2 a3 a4 a5 a6
  | .clear_attachments a0 a1 a2 a3 => CommandBufferBase.record_clear_attachments cb a0 a1 a2 a3
  | .clear_color_image a0 a1 a2 a3 a4 =>
      CommandBufferBase.record_clear_color_image cb a0 a1 a2 a3 a4
  | .clear_depth_stencil_image a0 a1 a2 a3 a4 =>
      CommandBufferBase.record_clear_depth_stencil_image cb a0 a1 a2 a3 a4
  | .copy_buffer a0 a1 a2 a3 => CommandBufferBase.record_copy_buffer cb a0 a1 a2 a3
  | .copy_buffer_to_image a0 a1 a2 a3 a4 =>
      CommandBufferBase.record_copy_buffer_to_image cb a0 a1 a2 a3 a4
  | .copy_image a0 a1 a2 a3 a4 a5 => CommandBufferBase.record_copy_image cb a0 a1 a2 a3 a4 a5
  | .copy_image_to_buffer a0 a1 a2 a3 a4 =>
      CommandBufferBase.record_copy_image_to_buffer cb a0 a1 a2 a3 a4
  | .copy_query_pool_results a0 a1 a2 a3 a4 a5 a6 =>
      CommandBufferBase.record_copy_query_pool_results cb a0 a1 a2 a3 a4 a5 a6
  | .dispatch a0 a1 a2 => CommandBufferBase.record_dispatch cb a0 a1 a2
  | .dispatch_indirect a0 a1 => CommandBufferBase.record_dispatch_indirect cb a0 a1
  | .draw a0 a1 a2 a3 => CommandBufferBase.record_draw cb a0 a1 a2 a3
  | .draw_indexed a0 a1 a2 a3 a4 => CommandBufferBase.record_draw_indexed cb a0 a1 a2 a3 a4
  | .draw_indexed_indirect a0 a1 a2 a3 =>
      CommandBufferBase.record_draw_indexed_indirect cb a0 a1 a2 a3
  | .draw_indexed_indirect_count_AMD a0 a1 a2 a3 a4 a5 =>
      CommandBufferBase.record_draw_indexed_indirect_count_AMD cb a0 a1 a2 a3 a4 a5
  | .draw_indirect a0 a1 a2 a3 => CommandBufferBase.record_draw_indirect cb a0 a1 a2 a3
  | .draw_indirect_count_AMD a0 a1 a2 a3 a4 a5 =>
      CommandBufferBase.record_draw_indirect_count_AMD cb a0 a1 a2 a3 a4 a5
  | .end_query a0 a1 => CommandBufferBase.record_end_query cb a0 a1
  | .fill_buffer a0 a1 a2 a3 => CommandBufferBase.record_fill_buffer cb a0 a1 a2 a3
  | .pipeline_barrier a0 a1 a2 a3 a4 a5 a6 a7 a8 =>
      CommandBufferBase.record_pipeline_barrier cb a0 a1 a2 a3 a4 a5 a6 a7 a8
  | .push_constants a0 a1 a2 a3 a4 => CommandBufferBase.record_push_constants cb a0 a1 a2 a3 a4
  | .reset_event a0 a1 => CommandBufferBase.record_reset_event cb a0 a1
  | .reset_query_pool a0 a1 a2 => CommandBufferBase.record_reset_query_pool cb a0 a1 a2
  | .resolve_image a0 a1 a2 a3 a4 a5 =>
      CommandBufferBase.record_resolve_image cb a0 a1 a2 a3 a4 a5
  | .set_blend_constants a0 => CommandBufferBase.record_set_blend_constants cb a0
  | .set_depth_bias a0 a1 a2 => CommandBufferBase.record_set_depth_bias cb a0 a1 a2
  | .set_depth_bounds a0 a1 => CommandBufferBase.record_set_depth_bounds cb a0 a1
  | .set_event a0 a1 => CommandBufferBase.record_set_event cb a0 a1
  | .set_line_width a0 => CommandBufferBase.record_set_line_width cb a0
  | .set_scissor a0 a1 a2 => CommandBufferBase.record_set_scissor cb a0 a1 a2
  | .set_stencil_compare_mask a0 a1 => CommandBufferBase.record_set_stencil_compare_mask cb a0 a1
  | .set_stencil_reference a0 a1 => CommandBufferBase.record_set_stencil_reference cb a0 a1
  | .set_stencil_write_mask a0 a1 => CommandBufferBase.record_set_stencil_write_mask cb a0 a1
  | .set_viewport a0 a1 a2 => CommandBufferBase.record_set_viewport cb a0 a1 a2
  | .update_buffer a0 a1 a2 a3 => CommandBufferBase.record_update_buffer cb a0 a1 a2 a3
  | .wait_events a0 a1 a2 a3 a4 a5 a6 a7 a8 a9 =>
      CommandBufferBase.record_wait_events cb a0 a1 a2 a3 a4 a5 a6 a7 a8 a9
  | .write_timestamp a0 a1 a2 => CommandBufferBase.record_write_timestamp cb a0 a1 a2
  | .begin_render_pass a0 a1 a2 a3 a4 a5 =>
      PrimaryCommandBuffer.record_begin_render_pass cb a0 a1 a2 a3 a4 a5
  | .end_render_pass => PrimaryCommandBuffer.record_end_render_pass cb
  | .execute_commands a0 a1 => PrimaryCommandBuffer.record_execute_commands cb a0 a1
  | .next_subpass a0 => PrimaryCommandBuffer.record_next_subpass cb a0

/-- Render-pass membership an operation asks for, as the specification
tabulates it. -/
inductive RenderPassRequirement where
  | must_be_active
  | must_be_inactive
  | no_requirement
deriving DecidableEq, Repr

open RenderPassRequirement in
/-- The legality table of the specification: the membership requirement it
gives for each recording operation. The two render-pass brackets are not in
the table. -/
def RecordCall.requirement : RecordCall → Option RenderPassRequirement
  | .draw .. | .draw_indexed .. | .draw_indirect .. | .draw_indexed_indirect ..
  | .draw_indirect_count_AMD .. | .draw_indexed_indirect_count_AMD ..
  | .clear_attachments .. | .next_subpass .. => some must_be_active
  | .dispatch .. | .dispatch_indirect .. | .copy_buffer .. | .copy_image ..
  | .copy_buffer_to_image .. | .copy_image_to_buffer .. | .blit_image ..
  | .resolve_image .. | .fill_buffer .. | .update_buffer .. | .clear_color_image ..
  | .clear_depth_stencil_image .. | .reset_query_pool .. | .copy_query_pool_results ..
  | .set_event .. | .reset_event .. => some must_be_inactive
  | .begin_query .. | .end_query .. | .bind_pipeline .. | .bind_descriptor_sets ..
  | .bind_vertex_buffers .. | .bind_index_buffer .. | .push_constants ..
  | .pipeline_barrier .. | .wait_events .. | .write_timestamp .. | .set_viewport ..
  | .set_scissor .. | .set_line_width .. | .set_depth_bias .. | .set_depth_bounds ..
  | .set_blend_constants .. | .set_stencil_compare_mask .. | .set_stencil_reference ..
  | .set_stencil_write_mask .. | .execute_commands .. => some no_requirement
  | .begin_render_pass .. | .end_render_pass => none

/-- The per-call capacity of the specification: every variable-length argument
list it names (descriptor sets, vertex-buffer bindings, barriers, viewports,
scissors, wait-events, secondary buffers) has at most 16 elements. -/
def RecordCall.within_capacity : RecordCall → Prop
  | .bind_descriptor_sets _ _ _ in_set_count _ _ _ => in_set_count ≤ 16
  | .bind_vertex_buffers _ in_binding_count _ _ => in_binding_count ≤ 16
  | .pipeline_barrier _ _ _ in_memory_barrier_count _ in_buffer_memory_barrier_count _
      in_image_memory_barrier_count _ =>
      in_memory_barrier_count ≤ 16 ∧ in_buffer_memory_barrier_count ≤ 16 ∧
        in_image_memory_barrier_count ≤ 16
  | .wait_events in_event_count _ _ _ in_memory_barrier_count _
      in_buffer_memory_barrier_count _ in_image_memory_barrier_count _ =>
      in_event_count ≤ 16 ∧ in_memory_barrier_count ≤ 16 ∧
        in_buffer_memory_barrier_count ≤ 16 ∧ in_image_memory_barrier_count ≤ 16
  | .set_viewport _ in_viewport_count _ => in_viewport_count ≤ 16
  | .set_scissor _ in_scissor_count _ => in_scissor_count ≤ 16
  | .execute_commands in_cmd_buffers_count _ => in_cmd_buffers_count ≤ 16
  | _ => True

/-- Any call of the recording interface: a `record_*` call or one of the state
changes, the latter with the outcome of the native call it makes. -/
inductive ApiCall where
  | record (call : RecordCall)
  | primary_start_recording (one_time_submit simultaneous_use_allowed : Bool)
      (vk_call_successful : Bool)
  | secondary_start_recording (one_time_submit simultaneous_use_allowed
      renderpass_usage_only : Bool) (framebuffer_ptr : FramebufferPtr)
      (render_pass_ptr : RenderPassPtr) (subpass_id : AnvilIndex)
      (required_occlusion_query_support_scope : OcclusionQuerySupportScope)
      (required_pipeline_statistics_scope : VkFlags) (vk_call_successful : Bool)
  | stop_recording (vk_call_successful : Bool)
  | reset (should_release_resources : Bool) (vk_call_successful : Bool)

/-- Performs one call of the interface. -/
def ApiCall.apply (cb : CommandBufferBase) : ApiCall → Bool × CommandBufferBase
  | .record call => Anvil.record cb call
  | .primary_start_recording a0 a1 ok => PrimaryCommandBuffer.start_recording cb a0 a1 ok
  | .secondary_start_recording a0 a1 a2 a3 a4 a5 a6 a7 ok =>
      SecondaryCommandBuffer.start_recording cb a0 a1 a2 a3 a4 a5 a6 a7 ok
  | .stop_recording ok => CommandBufferBase.stop_recording cb ok
  | .reset a0 ok => CommandBufferBase.reset cb a0 ok

def ApiCall.is_record : ApiCall → Bool
  | .record _ => true
  | _ => false

def ApiCall.is_start_recording : ApiCall → Bool
  | .primary_start_recording .. | .secondary_start_recording .. => true
  | _ => false

/-- Performs a sequence of calls in order; returns the result of each call and
the final state. -/
def run : CommandBufferBase → List ApiCall → List Bool × CommandBufferBase
  | cb, [] => ([], cb)
  | cb, call :: calls =>
      let r := call.apply cb
      let rest := run r.2 calls
      (r.1 :: rest.1, rest.2)

/-- The render-pass guard each recording function opens with, as a function of
`m_is_renderpass_active`: `true` when the guard lets the call through. -/
def RecordCall.renderpass_guard (call : RecordCall) (is_renderpass_active : Bool) : Bool :=
  match call with
  | .begin_render_pass .. => !is_renderpass_active
  | .end_render_pass => is_renderpass_active
  | _ =>
    match call.requirement with
    | some .must_be_active => is_renderpass_active
    | some .must_be_inactive => !is_renderpass_active
    | _ => true

/-- The state `after` is the state `before` in every member and every trace,
the count of failed assertions apart. -/
def CommandBufferBase.untouched (before after : CommandBufferBase) : Prop :=
  after = { before with assertion_failures := after.assertion_failures }

/-- The descriptor a recording function constructs for its journal entry: the
argument of `m_commands.push_back` in the function of the same name. -/
def RecordCall.command : RecordCall → Command
  | .begin_query in_query_pool_ptr in_entry in_flags => .begin_query
      (BeginQueryCommand.BeginQueryCommand in_query_pool_ptr in_entry in_flags)
  | .bind_descriptor_sets in_pipeline_bind_point in_layout_ptr in_first_set in_set_count
      in_descriptor_set_ptrs in_dynamic_offset_count in_dynamic_offset_ptrs =>
      .bind_descriptor_sets (BindDescriptorSetsCommand.BindDescriptorSetsCommand
      in_pipeline_bind_point in_layout_ptr in_first_set in_set_count in_descriptor_set_ptrs
      in_dynamic_offset_count in_dynamic_offset_ptrs)
  | .bind_index_buffer in_buffer_ptr in_offset in_index_type => .bind_index_buffer
      (BindIndexBufferCommand.BindIndexBufferCommand in_buffer_ptr in_offset in_index_type)
  | .bind_pipeline in_pipeline_bind_point in_pipeline_id => .bind_pipeline
      (BindPipelineCommand.BindPipelineCommand in_pipeline_bind_point in_pipeline_id)
  | .bind_vertex_buffers in_start_binding in_binding_count in_buffer_ptrs in_offset_ptrs =>
      .bind_vertex_buffers (BindVertexBuffersCommand.BindVertexBuffersCommand in_start_binding
      in_binding_count in_buffer_ptrs in_offset_ptrs)
  | .blit_image in_src_image_ptr in_src_image_layout in_dst_image_ptr in_dst_image_layout
      in_region_count in_region_ptrs in_filter => .blit_image (BlitImageCommand.BlitImageCommand
      in_src_image_ptr in_src_image_layout in_dst_image_ptr in_dst_image_layout in_region_count
      in_region_ptrs in_filter)
  | .clear_attachments in_n_attachments in_attachment_ptrs in_n_rects in_rect_ptrs =>
      .clear_attachments (ClearAttachmentsCommand.ClearAttachmentsCommand in_n_attachments
      in_attachment_ptrs in_n_rects in_rect_ptrs)
  | .clear_color_image in_image_ptr in_image_layout in_color_ptr in_range_count in_range_ptrs =>
      .clear_color_image (ClearColorImageCommand.ClearColorImageCommand in_image_ptr
      in_image_layout in_color_ptr in_range_count in_range_ptrs)
  | .clear_depth_stencil_image in_image_ptr in_image_layout in_depth_stencil_ptr in_range_count
      in_range_ptrs => .clear_depth_stencil_image
      (ClearDepthStencilImageCommand.ClearDepthStencilImageCommand in_image_ptr in_image_layout
      in_depth_stencil_ptr in_range_count in_range_ptrs)
  | .copy_buffer in_src_buffer_ptr in_dst_buffer_ptr in_region_count in_region_ptrs =>
      .copy_buffer (CopyBufferCommand.CopyBufferCommand in_src_buffer_ptr in_dst_buffer_ptr
      in_region_count in_region_ptrs)
  | .copy_buffer_to_image in_src_buffer_ptr in_dst_image_ptr in_dst_image_layout in_region_count
      in_region_ptrs => .copy_buffer_to_image (CopyBufferToImageCommand.CopyBufferToImageCommand
      in_src_buffer_ptr in_dst_image_ptr in_dst_image_layout in_region_count in_region_ptrs)
  | .copy_image in_src_image_ptr in_src_image_layout in_dst_image_ptr in_dst_image_layout
      in_region_count in_region_ptrs => .copy_image (CopyImageCommand.CopyImageCommand
      in_src_image_ptr in_src_image_layout in_dst_image_ptr in_dst_image_layout in_region_count
      in_region_ptrs)
  | .copy_image_to_buffer in_src_image_ptr in_src_image_layout in_dst_buffer_ptr in_region_count
      in_region_ptrs => .copy_image_to_buffer (CopyImageToBufferCommand.CopyImageToBufferCommand
      in_src_image_ptr in_src_image_layout in_dst_buffer_ptr in_region_count in_region_ptrs)
  | .copy_query_pool_results in_query_pool_ptr in_start_query in_query_count in_dst_buffer_ptr
      in_dst_offset in_dst_stride in_flags => .copy_query_pool_results
      (CopyQueryPoolResultsCommand.CopyQueryPoolResultsCommand in_query_pool_ptr in_start_query
      in_query_count in_dst_buffer_ptr in_dst_offset in_dst_stride in_flags)
  | .dispatch in_x in_y in_z => .dispatch (DispatchCommand.DispatchCommand in_x in_y in_z)
  | .dispatch_indirect in_buffer_ptr in_offset => .dispatch_indirect
      (DispatchIndirectCommand.DispatchIndirectCommand in_buffer_ptr in_offset)
  | .draw in_vertex_count in_instance_count in_first_vertex in_first_instance => .draw
      (DrawCommand.DrawCommand in_vertex_count in_instance_count in_first_vertex
      in_first_instance)
  | .draw_indexed in_index_count in_instance_count in_first_index in_vertex_offset
      in_first_instance => .draw_indexed (DrawIndexedCommand.DrawIndexedCommand in_index_count
      in_instance_count in_first_index in_vertex_offset in_first_instance)
  | .draw_indexed_indirect in_buffer_ptr in_offset in_count in_stride => .draw_indexed_indirect
      (DrawIndexedIndirectCommand.DrawIndexedIndirectCommand in_buffer_ptr in_offset in_count
      in_stride)
  | .draw_indexed_indirect_count_AMD in_buffer_ptr in_offset in_count_buffer_ptr in_count_offset
      in_max_draw_count in_stride => .draw_indexed_indirect_count_AMD
      (DrawIndexedIndirectCountAMDCommand.DrawIndexedIndirectCountAMDCommand in_buffer_ptr
      in_offset in_count_buffer_ptr in_count_offset in_max_draw_count in_stride)
  | .draw_indirect in_buffer_ptr in_offset in_count in_stride => .draw_indirect
      (DrawIndirectCommand.DrawIndirectCommand in_buffer_ptr in_offset in_count in_stride)
  | .draw_indirect_count_AMD in_buffer_ptr in_offset in_count_buffer_ptr in_count_offset
      in_max_draw_count in_stride => .draw_indirect_count_AMD
      (DrawIndirectCountAMDCommand.DrawIndirectCountAMDCommand in_buffer_ptr in_offset
      in_count_buffer_ptr in_count_offset in_max_draw_count in_stride)
  | .end_query in_query_pool_ptr in_entry => .end_query (EndQueryCommand.EndQueryCommand
      in_query_pool_ptr in_entry)
  | .fill_buffer in_dst_buffer_ptr in_dst_offset in_size in_data => .fill_buffer
      (FillBufferCommand.FillBufferCommand in_dst_buffer_ptr in_dst_offset in_size in_data)
  | .pipeline_barrier in_src_stage_mask in_dst_stage_mask in_by_region in_memory_barrier_count
      in_memory_barriers_ptr in_buffer_memory_barrier_count in_buffer_memory_barriers_ptr
      in_image_memory_barrier_count in_image_memory_barriers_ptr => .pipeline_barrier
      (PipelineBarrierCommand.PipelineBarrierCommand in_src_stage_mask in_dst_stage_mask
      in_by_region in_memory_barrier_count in_memory_barriers_ptr in_buffer_memory_barrier_count
      in_buffer_memory_barriers_ptr in_image_memory_barrier_count in_image_memory_barriers_ptr)
  | .push_constants in_layout_ptr in_stage_flags in_offset in_size in_values => .push_constants
      (PushConstantsCommand.PushConstantsCommand in_layout_ptr in_stage_flags in_offset in_size
      in_values)
  | .reset_event in_event_ptr in_stage_mask => .reset_event (ResetEventCommand.ResetEventCommand
      in_event_ptr in_stage_mask)
  | .reset_query_pool in_query_pool_ptr in_start_query in_query_count => .reset_query_pool
      (ResetQueryPoolCommand.ResetQueryPoolCommand in_query_pool_ptr in_start_query
      in_query_count)
  | .resolve_image in_src_image_ptr in_src_image_layout in_dst_image_ptr in_dst_image_layout
      in_region_count in_region_ptrs => .resolve_image (ResolveImageCommand.ResolveImageCommand
      in_src_image_ptr in_src_image_layout in_dst_image_ptr in_dst_image_layout in_region_count
      in_region_ptrs)
  | .set_blend_constants in_blend_constants => .set_blend_constants
      (SetBlendConstantsCommand.SetBlendConstantsCommand in_blend_constants)
  | .set_depth_bias in_depth_bias_constant_factor in_depth_bias_clamp in_slope_scaled_depth_bias
      => .set_depth_bias (SetDepthBiasCommand.SetDepthBiasCommand in_depth_bias_constant_factor
      in_depth_bias_clamp in_slope_scaled_depth_bias)
  | .set_depth_bounds in_min_depth_bounds in_max_depth_bounds => .set_depth_bounds
      (SetDepthBoundsCommand.SetDepthBoundsCommand in_min_depth_bounds in_max_depth_bounds)
  | .set_event in_event_ptr in_stage_mask => .set_event (SetEventCommand.SetEventCommand
      in_event_ptr in_stage_mask)
  | .set_line_width in_line_width => .set_line_width (SetLineWidthCommand.SetLineWidthCommand
      in_line_width)
  | .set_scissor in_first_scissor in_scissor_count in_scissor_ptrs => .set_scissor
      (SetScissorCommand.SetScissorCommand in_first_scissor in_scissor_count in_scissor_ptrs)
  | .set_stencil_compare_mask in_face_mask in_stencil_compare_mask => .set_stencil_compare_mask
      (SetStencilCompareMaskCommand.SetStencilCompareMaskCommand in_face_mask
      in_stencil_compare_mask)
  | .set_stencil_reference in_face_mask in_stencil_reference => .set_stencil_reference
      (SetStencilReferenceCommand.SetStencilReferenceCommand in_face_mask in_stencil_reference)
  | .set_stencil_write_mask in_face_mask in_stencil_write_mask => .set_stencil_write_mask
      (SetStencilWriteMaskCommand.SetStencilWriteMaskCommand in_face_mask in_stencil_write_mask)
  | .set_viewport in_first_viewport in_viewport_count in_viewport_ptrs => .set_viewport
      (SetViewportCommand.SetViewportCommand in_first_viewport in_viewport_count in_viewport_ptrs)
  | .update_buffer in_dst_buffer_ptr in_dst_offset in_data_size in_data_ptr => .update_buffer
      (UpdateBufferCommand.UpdateBufferCommand in_dst_buffer_ptr in_dst_offset in_data_size
      in_data_ptr)
  | .wait_events in_event_count in_events in_src_stage_mask in_dst_stage_mask
      in_memory_barrier_count in_memory_barriers_ptr in_buffer_memory_barrier_count
      in_buffer_memory_barriers_ptr in_image_memory_barrier_count in_image_memory_barriers_ptr =>
      .wait_events (WaitEventsCommand.WaitEventsCommand in_event_count in_events in_src_stage_mask
      in_dst_stage_mask in_memory_barrier_count in_memory_barriers_ptr
      in_buffer_memory_barrier_count in_buffer_memory_barriers_ptr in_image_memory_barrier_count
      in_image_memory_barriers_ptr)
  | .write_timestamp in_pipeline_stage in_query_pool_ptr in_query_index => .write_timestamp
      (WriteTimestampCommand.WriteTimestampCommand in_pipeline_stage in_query_pool_ptr
      in_query_index)
  | .begin_render_pass in_n_clear_values in_clear_value_ptrs in_fbo_ptr in_render_area
      in_render_pass_ptr in_contents => .begin_render_pass
      (BeginRenderPassCommand.BeginRenderPassCommand in_n_clear_values in_clear_value_ptrs
      in_fbo_ptr in_render_area in_render_pass_ptr in_contents)
  | .end_render_pass => .end_render_pass EndRenderPassCommand.EndRenderPassCommand
  | .execute_commands in_cmd_buffers_count in_cmd_buffer_ptrs => .execute_commands
      (ExecuteCommandsCommand.ExecuteCommandsCommand in_cmd_buffers_count in_cmd_buffer_ptrs)
  | .next_subpass in_contents => .next_subpass (NextSubpassCommand.NextSubpassCommand in_contents)

/-- The native call a recording function issues: the `vkCmd*` call of the
function of the same name, with the local translation arrays it fills.
`device` is the device the command buffer was created for. -/
def RecordCall.vk_call (device : Device) : RecordCall → VkCall
  | .begin_query in_query_pool_ptr in_entry in_flags => .vkCmdBeginQuery
      in_query_pool_ptr.get_query_pool in_entry in_flags
  | .bind_descriptor_sets in_pipeline_bind_point in_layout_ptr in_first_set in_set_count
      in_descriptor_set_ptrs in_dynamic_offset_count in_dynamic_offset_ptrs =>
      let dss_vk := (in_descriptor_set_ptrs.take in_set_count).map
        DescriptorSetPtr.get_descriptor_set_vk
      .vkCmdBindDescriptorSets in_pipeline_bind_point in_layout_ptr.get_pipeline_layout
        in_first_set in_set_count dss_vk in_dynamic_offset_count in_dynamic_offset_ptrs
  | .bind_index_buffer in_buffer_ptr in_offset in_index_type => .vkCmdBindIndexBuffer
      in_buffer_ptr.get_buffer in_offset in_index_type
  | .bind_pipeline in_pipeline_bind_point in_pipeline_id =>
      let pipeline_vk := (if in_pipeline_bind_point = VK_PIPELINE_BIND_POINT_COMPUTE then
        device.get_compute_pipeline in_pipeline_id else device.get_graphics_pipeline
        in_pipeline_id)
      .vkCmdBindPipeline in_pipeline_bind_point pipeline_vk
  | .bind_vertex_buffers in_start_binding in_binding_count in_buffer_ptrs in_offset_ptrs =>
      let buffers := (in_buffer_ptrs.take in_binding_count).map BufferPtr.get_buffer
      .vkCmdBindVertexBuffers in_start_binding in_binding_count buffers in_offset_ptrs
  | .blit_image in_src_image_ptr in_src_image_layout in_dst_image_ptr in_dst_image_layout
      in_region_count in_region_ptrs in_filter => .vkCmdBlitImage in_src_image_ptr.get_image
      in_src_image_layout in_dst_image_ptr.get_image in_dst_image_layout in_region_count
      in_region_ptrs in_filter
  | .clear_attachments in_n_attachments in_attachment_ptrs in_n_rects in_rect_ptrs =>
      .vkCmdClearAttachments in_n_attachments in_attachment_ptrs in_n_rects in_rect_ptrs
  | .clear_color_image in_image_ptr in_image_layout in_color_ptr in_range_count in_range_ptrs =>
      .vkCmdClearColorImage in_image_ptr.get_image in_image_layout in_color_ptr in_range_count
      in_range_ptrs
  | .clear_depth_stencil_image in_image_ptr in_image_layout in_depth_stencil_ptr in_range_count
      in_range_ptrs => .vkCmdClearDepthStencilImage in_image_ptr.get_image in_image_layout
      in_depth_stencil_ptr in_range_count in_range_ptrs
  | .copy_buffer in_src_buffer_ptr in_dst_buffer_ptr in_region_count in_region_ptrs =>
      .vkCmdCopyBuffer in_src_buffer_ptr.get_buffer in_dst_buffer_ptr.get_buffer in_region_count
      in_region_ptrs
  | .copy_buffer_to_image in_src_buffer_ptr in_dst_image_ptr in_dst_image_layout in_region_count
      in_region_ptrs => .vkCmdCopyBufferToImage in_src_buffer_ptr.get_buffer
      in_dst_image_ptr.get_image in_dst_image_layout in_region_count in_region_ptrs
  | .copy_image in_src_image_ptr in_src_image_layout in_dst_image_ptr in_dst_image_layout
      in_region_count in_region_ptrs => .vkCmdCopyImage in_src_image_ptr.get_image
      in_src_image_layout in_dst_image_ptr.get_image in_dst_image_layout in_region_count
      in_region_ptrs
  | .copy_image_to_buffer in_src_image_ptr in_src_image_layout in_dst_buffer_ptr in_region_count
      in_region_ptrs => .vkCmdCopyImageToBuffer in_src_image_ptr.get_image in_src_image_layout
      in_dst_buffer_ptr.get_buffer in_region_count in_region_ptrs
  | .copy_query_pool_results in_query_pool_ptr in_start_query in_query_count in_dst_buffer_ptr
      in_dst_offset in_dst_stride in_flags => .vkCmdCopyQueryPoolResults
      in_query_pool_ptr.get_query_pool in_start_query in_query_count in_dst_buffer_ptr.get_buffer
      in_dst_offset in_dst_stride in_flags
  | .dispatch in_x in_y in_z => .vkCmdDispatch in_x in_y in_z
  | .dispatch_indirect in_buffer_ptr in_offset => .vkCmdDispatchIndirect in_buffer_ptr.get_buffer
      in_offset
  | .draw in_vertex_count in_instance_count in_first_vertex in_first_instance => .vkCmdDraw
      in_vertex_count in_instance_count in_first_vertex in_first_instance
  | .draw_indexed in_index_count in_instance_count in_first_index in_vertex_offset
      in_first_instance => .vkCmdDrawIndexed in_index_count in_instance_count in_first_index
      in_vertex_offset in_first_instance
  | .draw_indexed_indirect in_buffer_ptr in_offset in_count in_stride => .vkCmdDrawIndexedIndirect
      in_buffer_ptr.get_buffer in_offset in_count in_stride
  | .draw_indexed_indirect_count_AMD in_buffer_ptr in_offset in_count_buffer_ptr in_count_offset
      in_max_draw_count in_stride => .vkCmdDrawIndexedIndirectCountAMD in_buffer_ptr.get_buffer
      in_offset in_count_buffer_ptr.get_buffer in_count_offset in_max_draw_count in_stride
  | .draw_indirect in_buffer_ptr in_offset in_count in_stride => .vkCmdDrawIndirect
      in_buffer_ptr.get_buffer in_offset in_count in_stride
  | .draw_indirect_count_AMD in_buffer_ptr in_offset in_count_buffer_ptr in_count_offset
      in_max_draw_count in_stride => .vkCmdDrawIndirectCountAMD in_buffer_ptr.get_buffer in_offset
      in_count_buffer_ptr.get_buffer in_count_offset in_max_draw_count in_stride
  | .end_query in_query_pool_ptr in_entry => .vkCmdEndQuery in_query_pool_ptr.get_query_pool
      in_entry
  | .fill_buffer in_dst_buffer_ptr in_dst_offset in_size in_data => .vkCmdFillBuffer
      in_dst_buffer_ptr.get_buffer in_dst_offset in_size in_data
  | .pipeline_barrier in_src_stage_mask in_dst_stage_mask in_by_region in_memory_barrier_count
      in_memory_barriers_ptr in_buffer_memory_barrier_count in_buffer_memory_barriers_ptr
      in_image_memory_barrier_count in_image_memory_barriers_ptr =>
      let buffer_barriers_vk := (in_buffer_memory_barriers_ptr.take
        in_buffer_memory_barrier_count).map BufferBarrier.get_barrier_vk
      let image_barriers_vk := (in_image_memory_barriers_ptr.take
        in_image_memory_barrier_count).map ImageBarrier.get_barrier_vk
      let memory_barriers_vk := (in_memory_barriers_ptr.take in_memory_barrier_count).map
        MemoryBarrier.get_barrier_vk
      .vkCmdPipelineBarrier in_src_stage_mask in_dst_stage_mask in_by_region
        in_memory_barrier_count memory_barriers_vk in_buffer_memory_barrier_count
        buffer_barriers_vk in_image_memory_barrier_count image_barriers_vk
  | .push_constants in_layout_ptr in_stage_flags in_offset in_size in_values =>
      .vkCmdPushConstants in_layout_ptr.get_pipeline_layout in_stage_flags in_offset in_size
      in_values
  | .reset_event in_event_ptr in_stage_mask => .vkCmdResetEvent in_event_ptr.get_event
      in_stage_mask
  | .reset_query_pool in_query_pool_ptr in_start_query in_query_count => .vkCmdResetQueryPool
      in_query_pool_ptr.get_query_pool in_start_query in_query_count
  | .resolve_image in_src_image_ptr in_src_image_layout in_dst_image_ptr in_dst_image_layout
      in_region_count in_region_ptrs => .vkCmdResolveImage in_src_image_ptr.get_image
      in_src_image_layout in_dst_image_ptr.get_image in_dst_image_layout in_region_count
      in_region_ptrs
  | .set_blend_constants in_blend_constants => .vkCmdSetBlendConstants in_blend_constants
  | .set_depth_bias in_depth_bias_constant_factor in_depth_bias_clamp in_slope_scaled_depth_bias
      => .vkCmdSetDepthBias in_depth_bias_constant_factor in_depth_bias_clamp
      in_slope_scaled_depth_bias
  | .set_depth_bounds in_min_depth_bounds in_max_depth_bounds => .vkCmdSetDepthBounds
      in_min_depth_bounds in_max_depth_bounds
  | .set_event in_event_ptr in_stage_mask => .vkCmdSetEvent in_event_ptr.get_event in_stage_mask
  | .set_line_width in_line_width => .vkCmdSetLineWidth in_line_width
  | .set_scissor in_first_scissor in_scissor_count in_scissor_ptrs => .vkCmdSetScissor
      in_first_scissor in_scissor_count in_scissor_ptrs
  | .set_stencil_compare_mask in_face_mask in_stencil_compare_mask => .vkCmdSetStencilCompareMask
      in_face_mask in_stencil_compare_mask
  | .set_stencil_reference in_face_mask in_stencil_reference => .vkCmdSetStencilReference
      in_face_mask in_stencil_reference
  | .set_stencil_write_mask in_face_mask in_stencil_write_mask => .vkCmdSetStencilWriteMask
      in_face_mask in_stencil_write_mask
  | .set_viewport in_first_viewport in_viewport_count in_viewport_ptrs => .vkCmdSetViewport
      in_first_viewport in_viewport_count in_viewport_ptrs
  | .update_buffer in_dst_buffer_ptr in_dst_offset in_data_size in_data_ptr => .vkCmdUpdateBuffer
      in_dst_buffer_ptr.get_buffer in_dst_offset in_data_size in_data_ptr
  | .wait_events in_event_count in_events in_src_stage_mask in_dst_stage_mask
      in_memory_barrier_count in_memory_barriers_ptr in_buffer_memory_barrier_count
      in_buffer_memory_barriers_ptr in_image_memory_barrier_count in_image_memory_barriers_ptr =>
      let buffer_barriers_vk := (in_buffer_memory_barriers_ptr.take
        in_buffer_memory_barrier_count).map BufferBarrier.get_barrier_vk
      let image_barriers_vk := (in_image_memory_barriers_ptr.take
        in_image_memory_barrier_count).map ImageBarrier.get_barrier_vk
      let memory_barriers_vk := (in_memory_barriers_ptr.take in_memory_barrier_count).map
        MemoryBarrier.get_barrier_vk
      let events := (in_events.take in_event_count).map EventPtr.get_event
      .vkCmdWaitEvents in_event_count events in_src_stage_mask in_dst_stage_mask
        in_memory_barrier_count memory_barriers_vk in_buffer_memory_barrier_count
        buffer_barriers_vk in_image_memory_barrier_count image_barriers_vk
  | .write_timestamp in_pipeline_stage in_query_pool_ptr in_query_index => .vkCmdWriteTimestamp
      in_pipeline_stage in_query_pool_ptr.get_query_pool in_query_index
  | .begin_render_pass in_n_clear_values in_clear_value_ptrs in_fbo_ptr in_render_area
      in_render_pass_ptr in_contents =>
      let render_pass_begin_info : VkRenderPassBeginInfo :=
        { clearValueCount := in_n_clear_values,
          framebuffer := in_fbo_ptr.get_framebuffer in_render_pass_ptr,
          pClearValues := in_clear_value_ptrs, renderArea := in_render_area,
          renderPass := in_render_pass_ptr.get_render_pass }
      .vkCmdBeginRenderPass render_pass_begin_info in_contents
  | .end_render_pass => .vkCmdEndRenderPass
  | .execute_commands in_cmd_buffers_count in_cmd_buffer_ptrs =>
      let cmd_buffers := (in_cmd_buffer_ptrs.take in_cmd_buffers_count).map
        SecondaryCommandBufferPtr.get_command_buffer
      .vkCmdExecuteCommands in_cmd_buffers_count cmd_buffers
  | .next_subpass in_contents => .vkCmdNextSubpass in_contents

open CommandType in
/-- The kind of operation a recording function stands for: `record_x` is the
operation of kind `COMMAND_TYPE_X`. -/
def RecordCall.command_type : RecordCall → CommandType
  | .begin_query .. => COMMAND_TYPE_BEGIN_QUERY
  | .begin_render_pass .. => COMMAND_TYPE_BEGIN_RENDER_PASS
  | .bind_descriptor_sets .. => COMMAND_TYPE_BIND_DESCRIPTOR_SETS
  | .bind_index_buffer .. => COMMAND_TYPE_BIND_INDEX_BUFFER
  | .bind_pipeline .. => COMMAND_TYPE_BIND_PIPELINE
  | .bind_vertex_buffers .. => COMMAND_TYPE_BIND_VERTEX_BUFFER
  | .blit_image .. => COMMAND_TYPE_BLIT_IMAGE
  | .clear_attachments .. => COMMAND_TYPE_CLEAR_ATTACHMENTS
  | .clear_color_image .. => COMMAND_TYPE_CLEAR_COLOR_IMAGE
  | .clear_depth_stencil_image .. => COMMAND_TYPE_CLEAR_DEPTH_STENCIL_IMAGE
  | .copy_buffer .. => COMMAND_TYPE_COPY_BUFFER
  | .copy_buffer_to_image .. => COMMAND_TYPE_COPY_BUFFER_TO_IMAGE
  | .copy_image .. => COMMAND_TYPE_COPY_IMAGE
  | .copy_image_to_buffer .. => COMMAND_TYPE_COPY_IMAGE_TO_BUFFER
  | .copy_query_pool_results .. => COMMAND_TYPE_COPY_QUERY_POOL_RESULTS
  | .dispatch .. => COMMAND_TYPE_DISPATCH
  | .dispatch_indirect .. => COMMAND_TYPE_DISPATCH_INDIRECT
  | .draw .. => COMMAND_TYPE_DRAW
  | .draw_indexed .. => COMMAND_TYPE_DRAW_INDEXED
  | .draw_indexed_indirect .. => COMMAND_TYPE_DRAW_INDEXED_INDIRECT
  | .draw_indexed_indirect_count_AMD .. => COMMAND_TYPE_DRAW_INDEXED_INDIRECT_COUNT_AMD
  | .draw_indirect .. => COMMAND_TYPE_DRAW_INDIRECT
  | .draw_indirect_count_AMD .. => COMMAND_TYPE_DRAW_INDIRECT_COUNT_AMD
  | .end_query .. => COMMAND_TYPE_END_QUERY
  | .end_render_pass => COMMAND_TYPE_END_RENDER_PASS
  | .execute_commands .. => COMMAND_TYPE_EXECUTE_COMMANDS
  | .fill_buffer .. => COMMAND_TYPE_FILL_BUFFER
  | .next_subpass .. => COMMAND_TYPE_NEXT_SUBPASS
  | .pipeline_barrier .. => COMMAND_TYPE_PIPELINE_BARRIER
  | .push_constants .. => COMMAND_TYPE_PUSH_CONSTANTS
  | .reset_event .. => COMMAND_TYPE_RESET_EVENT
  | .reset_query_pool .. => COMMAND_TYPE_RESET_QUERY_POOL
  | .resolve_image .. => COMMAND_TYPE_RESOLVE_IMAGE
  | .set_blend_constants .. => COMMAND_TYPE_SET_BLEND_CONSTANTS
  | .set_depth_bias .. => COMMAND_TYPE_SET_DEPTH_BIAS
  | .set_depth_bounds .. => COMMAND_TYPE_SET_DEPTH_BOUNDS
  | .set_event .. => COMMAND_TYPE_SET_EVENT
  | .set_line_width .. => COMMAND_TYPE_SET_LINE_WIDTH
  | .set_scissor .. => COMMAND_TYPE_SET_SCISSOR
  | .set_stencil_compare_mask .. => COMMAND_TYPE_SET_STENCIL_COMPARE_MASK
  | .set_stencil_reference .. => COMMAND_TYPE_SET_STENCIL_REFERENCE
  | .set_stencil_write_mask .. => COMMAND_TYPE_SET_STENCIL_WRITE_MASK
  | .set_viewport .. => COMMAND_TYPE_SET_VIEWPORT
  | .update_buffer .. => COMMAND_TYPE_UPDATE_BUFFER
  | .wait_events .. => COMMAND_TYPE_WAIT_EVENTS
  | .write_timestamp .. => COMMAND_TYPE_WRITE_TIMESTAMP

open CommandType in
/-- The kind of operation a native recording entry point performs: `vkCmdX` is
the operation of kind `COMMAND_TYPE_X`. The three calls that change the state
of the command buffer itself record no operation. -/
def VkCall.command_type : VkCall → Option CommandType
  | .vkCmdBeginQuery .. => some COMMAND_TYPE_BEGIN_QUERY
  | .vkCmdBeginRenderPass .. => some COMMAND_TYPE_BEGIN_RENDER_PASS
  | .vkCmdBindDescriptorSets .. => some COMMAND_TYPE_BIND_DESCRIPTOR_SETS
  | .vkCmdBindIndexBuffer .. => some COMMAND_TYPE_BIND_INDEX_BUFFER
  | .vkCmdBindPipeline .. => some COMMAND_TYPE_BIND_PIPELINE
  | .vkCmdBindVertexBuffers .. => some COMMAND_TYPE_BIND_VERTEX_BUFFER
  | .vkCmdBlitImage .. => some COMMAND_TYPE_BLIT_IMAGE
  | .vkCmdClearAttachments .. => some COMMAND_TYPE_CLEAR_ATTACHMENTS
  | .vkCmdClearColorImage .. => some COMMAND_TYPE_CLEAR_COLOR_IMAGE
  | .vkCmdClearDepthStencilImage .. => some COMMAND_TYPE_CLEAR_DEPTH_STENCIL_IMAGE
  | .vkCmdCopyBuffer .. => some COMMAND_TYPE_COPY_BUFFER
  | .vkCmdCopyBufferToImage .. => some COMMAND_TYPE_COPY_BUFFER_TO_IMAGE
  | .vkCmdCopyImage .. => some COMMAND_TYPE_COPY_IMAGE
  | .vkCmdCopyImageToBuffer .. => some COMMAND_TYPE_COPY_IMAGE_TO_BUFFER
  | .vkCmdCopyQueryPoolResults .. => some COMMAND_TYPE_COPY_QUERY_POOL_RESULTS
  | .vkCmdDispatch .. => some COMMAND_TYPE_DISPATCH
  | .vkCmdDispatchIndirect .. => some COMMAND_TYPE_DISPATCH_INDIRECT
  | .vkCmdDraw .. => some COMMAND_TYPE_DRAW
  | .vkCmdDrawIndexed .. => some COMMAND_TYPE_DRAW_INDEXED
  | .vkCmdDrawIndexedIndirect .. => some COMMAND_TYPE_DRAW_INDEXED_INDIRECT
  | .vkCmdDrawIndexedIndirectCountAMD .. => some COMMAND_TYPE_DRAW_INDEXED_INDIRECT_COUNT_AMD
  | .vkCmdDrawIndirect .. => some COMMAND_TYPE_DRAW_INDIRECT
  | .vkCmdDrawIndirectCountAMD .. => some COMMAND_TYPE_DRAW_INDIRECT_COUNT_AMD
  | .vkCmdEndQuery .. => some COMMAND_TYPE_END_QUERY
  | .vkCmdEndRenderPass => some COMMAND_TYPE_END_RENDER_PASS
  | .vkCmdExecuteCommands .. => some COMMAND_TYPE_EXECUTE_COMMANDS
  | .vkCmdFillBuffer .. => some COMMAND_TYPE_FILL_BUFFER
  | .vkCmdNextSubpass .. => some COMMAND_TYPE_NEXT_SUBPASS
  | .vkCmdPipelineBarrier .. => some COMMAND_TYPE_PIPELINE_BARRIER
  | .vkCmdPushConstants .. => some COMMAND_TYPE_PUSH_CONSTANTS
  | .vkCmdResetEvent .. => some COMMAND_TYPE_RESET_EVENT
  | .vkCmdResetQueryPool .. => some COMMAND_TYPE_RESET_QUERY_POOL
  | .vkCmdResolveImage .. => some COMMAND_TYPE_RESOLVE_IMAGE
  | .vkCmdSetBlendConstants .. => some COMMAND_TYPE_SET_BLEND_CONSTANTS
  | .vkCmdSetDepthBias .. => some COMMAND_TYPE_SET_DEPTH_BIAS
  | .vkCmdSetDepthBounds .. => some COMMAND_TYPE_SET_DEPTH_BOUNDS
  | .vkCmdSetEvent .. => some COMMAND_TYPE_SET_EVENT
  | .vkCmdSetLineWidth .. => some COMMAND_TYPE_SET_LINE_WIDTH
  | .vkCmdSetScissor .. => some COMMAND_TYPE_SET_SCISSOR
  | .vkCmdSetStencilCompareMask .. => some COMMAND_TYPE_SET_STENCIL_COMPARE_MASK
  | .vkCmdSetStencilReference .. => some COMMAND_TYPE_SET_STENCIL_REFERENCE
  | .vkCmdSetStencilWriteMask .. => some COMMAND_TYPE_SET_STENCIL_WRITE_MASK
  | .vkCmdSetViewport .. => some COMMAND_TYPE_SET_VIEWPORT
  | .vkCmdUpdateBuffer .. => some COMMAND_TYPE_UPDATE_BUFFER
  | .vkCmdWaitEvents .. => some COMMAND_TYPE_WAIT_EVENTS
  | .vkCmdWriteTimestamp .. => some COMMAND_TYPE_WRITE_TIMESTAMP
  | .vkBeginCommandBuffer .. | .vkEndCommandBuffer | .vkResetCommandBuffer .. => none

/-- Performs a sequence of `record_*` calls in order. -/
def record_all (cb : CommandBufferBase) (calls : List RecordCall) :
    List Bool × CommandBufferBase :=
  run cb (calls.map ApiCall.record)

/-- The calls of a sequence that returned `true`, in call order. -/
def successful_calls (calls : List RecordCall) (results : List Bool) : List RecordCall :=
  ((calls.zip results).filter Prod.snd).map Prod.fst

/-- The value of `m_is_renderpass_active` a recording function leaves when it
returns `true`: the two render-pass brackets assign it, no other function
does. -/
def RecordCall.renderpass_after (call : RecordCall) (is_renderpass_active : Bool) : Bool :=
  match call with
  | .begin_render_pass .. => true
  | .end_render_pass => false
  | _ => is_renderpass_active

/-- Two states agree on what the native recording path reads and writes: both
flags, the native-call trace and the device. -/
def CommandBufferBase.same_native_path (a b : CommandBufferBase) : Prop :=
  a.m_recording_in_progress = b.m_recording_in_progress ∧
  a.m_is_renderpass_active = b.m_is_renderpass_active ∧
  a.vk_calls = b.vk_calls ∧ a.m_device_ptr = b.m_device_ptr

/-! ## Variable-length payloads -/

def VK_BUFFER_USAGE_TRANSFER_SRC_BIT : VkFlags := 1
def VK_BUFFER_USAGE_TRANSFER_DST_BIT : VkFlags := 2
def VK_SHARING_MODE_EXCLUSIVE : VkEnum := 0

/-- Modelled from the spec: `Anvil::QueueFamilyBits` comes from `misc/types.h`,
which is not among the sources. One bit per queue family. -/
abbrev QueueFamilyBits := Nat

/-- Modelled from the spec: see `QueueFamilyBits`. -/
def QUEUE_FAMILY_COMPUTE_BIT : QueueFamilyBits := 1
/-- Modelled from the spec: see `QueueFamilyBits`. -/
def QUEUE_FAMILY_DMA_BIT : QueueFamilyBits := 2
/-- Modelled from the spec: see `QueueFamilyBits`. -/
def QUEUE_FAMILY_GRAPHICS_BIT : QueueFamilyBits := 4

/-- Modelled from the spec: `Anvil::QueueFamilyType` comes from `misc/types.h`,
which is not among the sources. The queue families the device enumerates. -/
inductive QueueFamilyType where
  | QUEUE_FAMILY_TYPE_COMPUTE
  | QUEUE_FAMILY_TYPE_TRANSFER
  | QUEUE_FAMILY_TYPE_UNIVERSAL
deriving DecidableEq, Repr

/-- Contents of device memory: the bytes of each `VkDeviceMemory` object. -/
abbrev DeviceMemory := VkHandle → List Nat

/-- The `size` bytes of an allocation that start at `offset`. -/
def read_bytes (bytes : List Nat) (offset size : VkDeviceSize) : List Nat :=
  (bytes.drop offset).take size

/-- The allocation after `data` is stored at `offset`. -/
def write_bytes (bytes : List Nat) (offset : VkDeviceSize) (data : List Nat) : List Nat :=
  bytes.take offset ++ data ++ bytes.drop (offset + data.length)

/-- Modelled from the spec: `Anvil::MemoryBlock` comes from
`wrappers/memory_block.h`, which is not among the sources. It is the Memory
Region collaborator: a range of one device memory object, with the two
host-access properties it was created with. -/
structure MemoryBlock where
  (m_memory : VkHandle) (m_start_offset m_size : VkDeviceSize)
  (m_is_mappable m_is_coherent : Bool)
deriving DecidableEq, Repr

namespace MemoryBlock

/-- Modelled from the spec: see `MemoryBlock`. -/
def get_memory (block : MemoryBlock) : VkHandle := block.m_memory

/-- Modelled from the spec: see `MemoryBlock`. -/
def get_start_offset (block : MemoryBlock) : VkDeviceSize := block.m_start_offset

/-- Modelled from the spec: see `MemoryBlock`; `is_host_mappable()` of the
Memory Region interface. -/
def is_mappable (block : MemoryBlock) : Bool := block.m_is_mappable

/-- Modelled from the spec: see `MemoryBlock`. The bound memory of a derived
view is a derived sub-range of the bound memory of its parent; a parent
without bound memory has no sub-range to derive. -/
def create_derived (parent_memory_block_ptr : Option MemoryBlock)
    (start_offset size : VkDeviceSize) : Option MemoryBlock :=
  parent_memory_block_ptr.map (fun parent =>
    { parent with m_start_offset := parent.m_start_offset + start_offset, m_size := size })

/-- Modelled from the spec: see `MemoryBlock`; `map_read(offset, size, out)` of
the Memory Region interface. The region maps the range, copies it to `out` and
unmaps; it reports failure, and stores nothing, when it is not host-mappable or
the range does not lie inside the region. Returns the result and the bytes
stored through `out`. -/
def read (block : MemoryBlock) (memory : DeviceMemory) (start_offset size : VkDeviceSize) :
    Bool × List Nat :=
  if block.m_is_mappable && decide (start_offset + size ≤ block.m_size) then
    (true, read_bytes (memory block.m_memory) (block.m_start_offset + start_offset) size)
  else (false, [])

/-- Modelled from the spec: see `MemoryBlock`; `map_write(offset, size, data)`
of the Memory Region interface, the mirror image of `read`. Returns the result
and the contents of device memory after the call. -/
def write (block : MemoryBlock) (memory : DeviceMemory) (start_offset size : VkDeviceSize)
    (data : List Nat) : Bool × DeviceMemory :=
  if block.m_is_mappable && decide (start_offset + size ≤ block.m_size) then
    (true, Function.update memory block.m_memory
      (write_bytes (memory block.m_memory) (block.m_start_offset + start_offset)
        (data.take size)))
  else (false, memory)

end MemoryBlock

structure VkBufferCreateInfo where
  (flags : VkFlags) (pQueueFamilyIndices : List Nat) (queueFamilyIndexCount : Nat)
  (sharingMode : VkEnum) (size : VkDeviceSize) (usage : VkFlags)
deriving DecidableEq, Repr

structure VkMemoryRequirements where
  (size : VkDeviceSize) (memoryTypeBits : Nat)
deriving DecidableEq, Repr

/-- Modelled from the spec: `Anvil::Queue` comes from `wrappers/queue.h`, which
is not among the sources. A queue is named by its family and its index in the
family. -/
structure QueuePtr where
  (family : QueueFamilyType) (index : Nat)
deriving DecidableEq, Repr

/-- What `buffer.cpp` asks of the driver and of its collaborators, in call
order. -/
inductive DeviceEvent where
  | vkCreateBuffer (pCreateInfo : VkBufferCreateInfo) (pBuffer : VkHandle)
  | vkBindBufferMemory (buffer memory : VkHandle) (memoryOffset : VkDeviceSize)
  | vkDestroyBuffer (buffer : VkHandle)
  | vkFreeCommandBuffers (command_buffer : VkHandle)
  | memory_block_create (block : MemoryBlock)
  | alloc_primary_level_command_buffer (family : QueueFamilyType)
      (command_buffer : Option VkHandle)
  | submit_command_buffer (queue : QueuePtr) (command_buffer : CommandBufferBase)
      (should_block : Bool)
deriving Repr

/-- Modelled from the spec: the device (`wrappers/device.h`) and the driver
behind it are not among the sources. These are the answers `buffer.cpp` gets
from them: how many queues each family has and which index it has, the memory
requirements of a buffer of a given size, and whether each native call and
each collaborator call succeeds. -/
structure Driver where
  (n_compute_queues n_transfer_queues n_universal_queues : Nat)
  (queue_family_index : QueueFamilyType → Nat)
  (memory_requirements : VkDeviceSize → VkMemoryRequirements)
  (vkCreateBuffer_succeeds vkBindBufferMemory_succeeds : Bool)
  (vkBeginCommandBuffer_succeeds vkEndCommandBuffer_succeeds : Bool)
  (alloc_primary_level_command_buffer_succeeds submit_command_buffer_succeeds : Bool)

/-- State of the device as `buffer.cpp` sees it.

* `driver` and `device` are fixed: the driver's answers and the pipelines a
  command buffer can ask the device for.
* `m_command_stashing_disabled` is the class-static flag of `CommandBufferBase`.
* `memory` is the contents of device memory, `bound_memory` the memory object
  and offset bound to each native buffer.
* `next_handle` is the next unused handle or object identity.
* `events` is the trace of calls, `assertion_failures` counts failed
  `anvil_assert`s. -/
structure DeviceState where
  (driver : Driver) (device : Device) (m_command_stashing_disabled : Bool)
  (memory : DeviceMemory) (bound_memory : VkHandle → Option (VkHandle × VkDeviceSize))
  (next_handle : Nat) (events : List DeviceEvent) (assertion_failures : Nat)

namespace DeviceState

/-- Modelled from the spec: `anvil_assert` comes from `misc/debug.h`, which is
not among the sources. A failed assertion is counted and control continues
with the next statement. -/
def anvil_assert (d : DeviceState) (assertion : Bool) : DeviceState :=
  if assertion then d else { d with assertion_failures := d.assertion_failures + 1 }

/-- Appends one call to the trace. -/
def log (d : DeviceState) (event : DeviceEvent) : DeviceState :=
  { d with events := d.events ++ [event] }

/-- Takes the next unused handle. -/
def fresh (d : DeviceState) : DeviceState :=
  { d with next_handle := d.next_handle + 1 }

/-- Modelled from the spec: the driver is not among the sources.
`vkCreateBuffer` stores a new handle through `pBuffer` when it succeeds and
leaves `*pBuffer` as it was when it fails. -/
def vkCreateBuffer (d : DeviceState) (pCreateInfo : VkBufferCreateInfo) (pBuffer : VkHandle) :
    Bool × VkHandle × DeviceState :=
  if d.driver.vkCreateBuffer_succeeds then
    (true, d.next_handle, (d.log (.vkCreateBuffer pCreateInfo d.next_handle)).fresh)
  else (false, pBuffer, d.log (.vkCreateBuffer pCreateInfo pBuffer))

/-- Modelled from the spec: the driver is not among the sources.
`vkBindBufferMemory` binds the range of `memory` that starts at `memoryOffset`
to `buffer` when it succeeds. -/
def vkBindBufferMemory (d : DeviceState) (buffer memory : VkHandle)
    (memoryOffset : VkDeviceSize) : Bool × DeviceState :=
  let d := d.log (.vkBindBufferMemory buffer memory memoryOffset)
  let bound := Function.update d.bound_memory buffer (some (memory, memoryOffset))
  if d.driver.vkBindBufferMemory_succeeds then (true, { d with bound_memory := bound })
  else (false, d)

/-- Modelled from the spec: the driver is not among the sources.
`vkDestroyBuffer` releases the native buffer object. -/
def vkDestroyBuffer (d : DeviceState) (buffer : VkHandle) : DeviceState :=
  d.log (.vkDestroyBuffer buffer)

/-- Modelled from the spec: the driver is not among the sources.
`vkFreeCommandBuffers` of one command buffer releases the native command
buffer. -/
def vkFreeCommandBuffers (d : DeviceState) (command_buffer : VkHandle) : DeviceState :=
  d.log (.vkFreeCommandBuffers command_buffer)

/-- Modelled from the spec: `MemoryBlock::create` comes from
`wrappers/memory_block.h`, which is not among the sources. It allocates a new
device memory object of `size` bytes with the host-access properties asked
for; the new bytes are zero. -/
def memory_block_create (d : DeviceState) (_allowed_memory_bits : Nat) (size : VkDeviceSize)
    (should_be_mappable should_be_coherent : Bool) : MemoryBlock × DeviceState :=
  let block : MemoryBlock :=
    { m_memory := d.next_handle, m_start_offset := 0, m_size := size,
      m_is_mappable := should_be_mappable, m_is_coherent := should_be_coherent }
  let memory := Function.update d.memory d.next_handle (List.replicate size 0)
  let d := { d with memory := memory }
  (block, (d.log (.memory_block_create block)).fresh)

/-- Modelled from the spec: `Device::get_transfer_queue` comes from
`wrappers/device.h`, which is not among the sources. -/
def get_transfer_queue (_d : DeviceState) (n_queue : Nat) : QueuePtr :=
  { family := .QUEUE_FAMILY_TYPE_TRANSFER, index := n_queue }

/-- Modelled from the spec: `Device::get_universal_queue` comes from
`wrappers/device.h`, which is not among the sources. -/
def get_universal_queue (_d : DeviceState) (n_queue : Nat) : QueuePtr :=
  { family := .QUEUE_FAMILY_TYPE_UNIVERSAL, index := n_queue }

/-- Modelled from the spec: `Device::get_command_pool` and
`CommandPool::alloc_primary_level_command_buffer` come from `wrappers/device.h`
and `wrappers/command_pool.h`, which are not among the sources. The pool of the
queue family allocates a primary command buffer, of which the caller holds the
only owning pointer, or returns a null pointer when the allocation fails. -/
def alloc_primary_level_command_buffer (d : DeviceState) (family : QueueFamilyType) :
    Option CommandBufferBase × DeviceState :=
  if d.driver.alloc_primary_level_command_buffer_succeeds then
    (some (PrimaryCommandBuffer.PrimaryCommandBuffer d.device d.next_handle
        d.m_command_stashing_disabled),
      (d.log (.alloc_primary_level_command_buffer family (some d.next_handle))).fresh)
  else (none, d.log (.alloc_primary_level_command_buffer family none))

/-- Modelled from the spec: the driver is not among the sources. What one
region of a `vkCmdCopyBuffer` does to device memory when the GPU executes it:
the bytes are read from the memory bound to the source buffer and stored in
the memory bound to the destination buffer, both offsets relative to the start
of the bound range. -/
def execute_copy_region (bound_memory : VkHandle → Option (VkHandle × VkDeviceSize))
    (srcBuffer dstBuffer : VkHandle) (memory : DeviceMemory) (region : VkBufferCopy) :
    DeviceMemory :=
  match bound_memory srcBuffer, bound_memory dstBuffer with
  | some src, some dst =>
    Function.update memory dst.1
      (write_bytes (memory dst.1) (dst.2 + region.dstOffset)
        (read_bytes (memory src.1) (src.2 + region.srcOffset) region.size))
  | _, _ => memory

/-- Modelled from the spec: the driver is not among the sources. What the GPU
does to device memory when it executes one recorded native call; only buffer
copies touch it. -/
def execute (bound_memory : VkHandle → Option (VkHandle × VkDeviceSize))
    (memory : DeviceMemory) : VkCall → DeviceMemory
  | .vkCmdCopyBuffer srcBuffer dstBuffer regionCount pRegions =>
      (pRegions.take regionCount).foldl (execute_copy_region bound_memory srcBuffer dstBuffer)
        memory
  | _ => memory

/-- Modelled from the spec: `Queue::submit_command_buffer` comes from
`wrappers/queue.h`, which is not among the sources. The command buffer is
handed to the queue; with `should_block` the call returns after the GPU has
executed the recorded calls, in recording order. Nothing is executed when the
submission fails or the command buffer is still recording. -/
def submit_command_buffer (d : DeviceState) (queue : QueuePtr)
    (command_buffer : CommandBufferBase) (should_block : Bool) : DeviceState :=
  let d := d.log (.submit_command_buffer queue command_buffer should_block)
  let memory := command_buffer.vk_calls.foldl (execute d.bound_memory) d.memory
  if d.driver.submit_command_buffer_succeeds && should_block &&
      !command_buffer.m_recording_in_progress then
    { d with memory := memory }
  else d

end DeviceState

/-- Destructor of `CommandBufferBase` (`command_buffer.cpp`): returns the
device after the object is gone. The command pool the command buffer was
allocated from belongs to the device and is alive, so
`m_parent_command_pool_ptr.expired()` is `false`; the pool is told that the
wrapper is gone and the native command buffer is freed. A failed
`anvil_assert` is counted on the device, the object that counted its own being
gone. Clearing the journal of the dying object has no one left to see it. -/
def CommandBufferBase.destructor (cb : CommandBufferBase) (d : DeviceState) : DeviceState :=
  let d := d.anvil_assert (!cb.m_recording_in_progress)
  if cb.m_command_buffer != 0 then d.vkFreeCommandBuffers cb.m_command_buffer else d

/-- How a member function ends when it does not return. -/
inductive Fault where
  /-- A `std::shared_ptr` is constructed from an empty `std::weak_ptr`: the
  constructor throws `std::bad_weak_ptr`, and nothing in these sources catches
  it. -/
  | bad_weak_ptr
  /-- A member function is called through a null pointer: from there on the
  behaviour of the program is undefined. -/
  | null_pointer_dereference
deriving DecidableEq, Repr

/-- How a call of a member function ends: it returns a value, or it ends in a
fault without returning. -/
inductive Outcome (α : Type) where
  | returned (value : α)
  | faulted (fault : Fault)
deriving DecidableEq, Repr

/-- The value the call returned, if it returned. -/
def Outcome.value {α : Type} : Outcome α → Option α
  | .returned value => some value
  | .faulted _ => none

/-- Applies `f` to the value the call returned. -/
def Outcome.map {α β : Type} (f : α → β) : Outcome α → Outcome β
  | .returned value => .returned (f value)
  | .faulted fault => .faulted fault

/-- State of an `Anvil::Buffer` object: its data members, and `object`, the
identity of the object (what a shared pointer to it compares by).
`m_device_ptr` is a `std::weak_ptr`: `none` is the empty pointer a member
that no constructor initialiser mentions starts with. -/
structure Buffer where
  (object : Nat) (m_buffer : VkHandle) (m_buffer_memory_reqs : VkMemoryRequirements)
  (m_buffer_size : VkDeviceSize) (m_device_ptr : Option Device)
  (m_memory_block_ptr : Option MemoryBlock)
  (m_parent_buffer_ptr : Option Buffer) (m_start_offset : VkDeviceSize)
  (m_usage_flags : VkFlags)
deriving Repr

/-- First constructor of `Buffer`: a root buffer whose memory is bound later. -/
def Buffer.construct (object : Nat) (device_ptr : Device) (size : VkDeviceSize)
    (_queue_families : QueueFamilyBits) (_queue_sharing_mode : VkEnum) (usage_flags : VkFlags) :
    Buffer :=
  { object := object, m_buffer := 0, m_buffer_memory_reqs := { size := 0, memoryTypeBits := 0 },
    m_buffer_size := size, m_device_ptr := some device_ptr, m_memory_block_ptr := none,
    m_parent_buffer_ptr := none, m_start_offset := 0,
    m_usage_flags :=
      usage_flags ||| VK_BUFFER_USAGE_TRANSFER_DST_BIT ||| VK_BUFFER_USAGE_TRANSFER_SRC_BIT }

/-- Second constructor of `Buffer`: a root buffer that gets memory of its own. -/
def Buffer.construct_with_memory (d : DeviceState) (object : Nat) (device_ptr : Device)
    (size : VkDeviceSize) (_queue_families : QueueFamilyBits) (_queue_sharing_mode : VkEnum)
    (usage_flags : VkFlags) (should_be_mappable should_be_coherent : Bool)
    (_opt_client_data : Option (List Nat)) : Buffer × DeviceState :=
  let b : Buffer :=
    { object := object, m_buffer := 0,
      m_buffer_memory_reqs := { size := 0, memoryTypeBits := 0 },
      m_buffer_size := size, m_device_ptr := some device_ptr, m_memory_block_ptr := none,
      m_parent_buffer_ptr := none, m_start_offset := 0, m_usage_flags := usage_flags }
  if !should_be_mappable then
    let d := d.anvil_assert (!should_be_coherent)
    let usage :=
      b.m_usage_flags ||| VK_BUFFER_USAGE_TRANSFER_DST_BIT ||| VK_BUFFER_USAGE_TRANSFER_SRC_BIT
    ({ b with m_usage_flags := usage }, d)
  else (b, d)

/-- Third constructor of `Buffer`: a view of `size` bytes of the parent, from
`start_offset` on. The parent pointer is not null. The initialiser list does
not mention `m_device_ptr`, and the body does not assign it: the view's device
pointer is empty. -/
def Buffer.construct_view (d : DeviceState) (object : Nat) (parent_buffer_ptr : Buffer)
    (start_offset size : VkDeviceSize) : Buffer × DeviceState :=
  let b : Buffer :=
    { object := object, m_buffer := 0,
      m_buffer_memory_reqs := { size := 0, memoryTypeBits := 0 },
      m_buffer_size := size, m_device_ptr := none, m_memory_block_ptr := none,
      m_parent_buffer_ptr := some parent_buffer_ptr, m_start_offset := start_offset,
      m_usage_flags := 0 }
  let d := d.anvil_assert (decide (start_offset ≥ 0))
  let d := d.anvil_assert (decide (size > 0))
  ({ b with m_usage_flags := parent_buffer_ptr.m_usage_flags }, d)

namespace Buffer

/-- The shared pointer `shared_from_this()` returns. -/
def shared_from_this (b : Buffer) : BufferPtr :=
  { object := b.object, get_buffer := b.m_buffer }

/-- Returns the queue family indices written to the output array, in order.
Within these sources only `create_buffer` calls it; see there for the lock of
`m_device_ptr`. -/
def convert_queue_family_bits_to_family_indices (d : DeviceState)
    (queue_families : QueueFamilyBits) : List Nat × DeviceState :=
  let compute := queue_families &&& QUEUE_FAMILY_COMPUTE_BIT != 0
  let d := if compute then d.anvil_assert (decide (d.driver.n_compute_queues > 0)) else d
  let dma := queue_families &&& QUEUE_FAMILY_DMA_BIT != 0
  let d := if dma then d.anvil_assert (decide (d.driver.n_transfer_queues > 0)) else d
  let graphics := queue_families &&& QUEUE_FAMILY_GRAPHICS_BIT != 0
  let d := if graphics then d.anvil_assert (decide (d.driver.n_universal_queues > 0)) else d
  ((if compute then [d.driver.queue_family_index .QUEUE_FAMILY_TYPE_COMPUTE] else []) ++
   (if dma then [d.driver.queue_family_index .QUEUE_FAMILY_TYPE_TRANSFER] else []) ++
   (if graphics then [d.driver.queue_family_index .QUEUE_FAMILY_TYPE_UNIVERSAL] else []), d)

/-- Creates the native buffer and caches its memory requirements. Within these
sources only the two root overloads of `Buffer::create` call it, on the object
a root constructor has just initialised: `m_device_ptr` is set and the lock
the function opens with succeeds. -/
def create_buffer (b : Buffer) (d : DeviceState) (queue_families : QueueFamilyBits)
    (sharing_mode : VkEnum) (size : VkDeviceSize) : Buffer × DeviceState :=
  let converted := convert_queue_family_bits_to_family_indices d queue_families
  let queue_family_indices := converted.1
  let n_queue_family_indices := queue_family_indices.length
  let d := converted.2
  let d := d.anvil_assert (decide (n_queue_family_indices > 0))
  let d := d.anvil_assert (decide (n_queue_family_indices < 8))
  let buffer_create_info : VkBufferCreateInfo :=
    { flags := 0, pQueueFamilyIndices := queue_family_indices,
      queueFamilyIndexCount := n_queue_family_indices, sharingMode := sharing_mode,
      size := size, usage := b.m_usage_flags }
  let created := d.vkCreateBuffer buffer_create_info b.m_buffer
  let d := created.2.2.anvil_assert created.1
  let reqs := d.driver.memory_requirements size
  ({ b with m_buffer := created.2.1, m_buffer_memory_reqs := reqs }, d)

/-- First overload of `Buffer::create`: a root buffer without memory.
`device_ptr` points to the device whose state is `d`. -/
def create (d : DeviceState) (size : VkDeviceSize) (queue_families : QueueFamilyBits)
    (queue_sharing_mode : VkEnum) (usage_flags : VkFlags) : Buffer × DeviceState :=
  let new_buffer :=
    construct d.next_handle d.device size queue_families queue_sharing_mode usage_flags
  new_buffer.create_buffer d.fresh queue_families queue_sharing_mode size

/-- Destructor of `Buffer`: returns the device after the object is gone. The
assignment of `VK_NULL_HANDLE` to the member of the dying object has no one
left to see it. -/
def destructor (b : Buffer) (d : DeviceState) : DeviceState :=
  if b.m_buffer != 0 && b.m_parent_buffer_ptr.isNone then d.vkDestroyBuffer b.m_buffer else d

/-- Returns the result and the buffer and the device after the call. The
function opens with `std::shared_ptr<Device> device_locked_ptr(m_device_ptr)`,
which throws when `m_device_ptr` is empty. The member `m_memory_block_ptr` is
assigned before `vkBindBufferMemory` is called. -/
def set_memory (b : Buffer) (d : DeviceState) (memory_block_ptr : Option MemoryBlock) :
    Outcome (Bool × Buffer × DeviceState) :=
  match b.m_device_ptr with
  | none => .faulted .bad_weak_ptr
  | some _ =>
    match memory_block_ptr with
    | none => .returned (false, b, d.anvil_assert false)
    | some block =>
      if b.m_memory_block_ptr.isSome then .returned (false, b, d.anvil_assert false)
      else
        let b := { b with m_memory_block_ptr := some block }
        let bound := d.vkBindBufferMemory b.m_buffer block.get_memory block.get_start_offset
        let d := bound.2.anvil_assert bound.1
        .returned (bound.1, b, d)

/-- Third overload of `Buffer::create`: a view of the parent buffer. -/
def create_view (d : DeviceState) (parent_buffer_ptr : Buffer)
    (start_offset size : VkDeviceSize) : Buffer × DeviceState :=
  let constructed := construct_view d.fresh d.next_handle parent_buffer_ptr start_offset size
  let new_buffer := constructed.1
  let derived :=
    MemoryBlock.create_derived parent_buffer_ptr.m_memory_block_ptr start_offset size
  let new_buffer := { new_buffer with m_memory_block_ptr := derived }
  ({ new_buffer with m_buffer := parent_buffer_ptr.m_buffer }, constructed.2)

mutual

/-- Second overload of `Buffer::create`: a root buffer with memory of its own,
filled with the client data when there is any. `device_ptr` points to the
device whose state is `d`. The results of `set_memory` and `write` are not
looked at. `create`, `read` and `write` call one another; `fuel` bounds the
depth of these calls and `none` is returned when it runs out. -/
def create_with_memory : Nat → DeviceState → VkDeviceSize → QueueFamilyBits → VkEnum →
    VkFlags → Bool → Bool → Option (List Nat) → Option (Outcome (Buffer × DeviceState))
  | 0, _, _, _, _, _, _, _, _ => none
  | fuel + 1, d, size, queue_families, queue_sharing_mode, usage_flags, should_be_mappable,
      should_be_coherent, opt_client_data =>
    let constructed := construct_with_memory d.fresh d.next_handle d.device size queue_families
      queue_sharing_mode usage_flags should_be_mappable should_be_coherent opt_client_data
    let initialized := constructed.1.create_buffer constructed.2 queue_families
      queue_sharing_mode size
    let allocated := initialized.2.memory_block_create
      initialized.1.m_buffer_memory_reqs.memoryTypeBits initialized.1.m_buffer_memory_reqs.size
      should_be_mappable should_be_coherent
    match initialized.1.set_memory allocated.2 (some allocated.1) with
    | .faulted fault => some (.faulted fault)
    | .returned bound =>
      match opt_client_data with
      | none => some (.returned (bound.2.1, bound.2.2))
      | some data =>
        match write fuel bound.2.1 bound.2.2 0 size data with
        | none => none
        | some (.faulted fault) => some (.faulted fault)
        | some (.returned written) => some (.returned (bound.2.1, written.2))
termination_by structural fuel => fuel

/-- Returns the result, the bytes stored through `out_result_ptr` and the
device after the call.

* The function opens with `std::shared_ptr<Device> device_locked_ptr(m_device_ptr)`,
  which throws when `m_device_ptr` is empty.
* With a null `m_memory_block_ptr` the assertion fails and the next statement
  calls `is_mappable()` through the null pointer.
* `Buffer::create` never returns a null pointer, so the test of
  `staging_buffer_ptr` against `nullptr` has no case here.
* `copy_cmdbuf_ptr` and `staging_buffer_ptr` are local to the block of the
  staging path and are the only owners of their objects: when control leaves
  the block the command buffer is destroyed and then the staging buffer, in
  the reverse of the order of declaration. The memory block of the staging
  buffer goes with it; what `MemoryBlock` does then is outside the sources and
  leaves no entry in the trace. -/
def read : Nat → Buffer → DeviceState → VkDeviceSize → VkDeviceSize →
    Option (Outcome ((Bool × List Nat) × DeviceState))
  | 0, _, _, _, _ => none
  | fuel + 1, b, d, start_offset, size =>
    match b.m_device_ptr with
    | none => some (.faulted .bad_weak_ptr)
    | some _ =>
      let d := d.anvil_assert b.m_memory_block_ptr.isSome
      match b.m_memory_block_ptr with
      | none => some (.faulted .null_pointer_dereference)
      | some block =>
        if block.is_mappable then some (.returned (block.read d.memory start_offset size, d))
        else
          let n_transfer_queues := d.driver.n_transfer_queues
          let queue_ptr :=
            if n_transfer_queues > 0 then d.get_transfer_queue 0 else d.get_universal_queue 0
          let staging_buffer_queue_fam_bits :=
            if n_transfer_queues > 0 then QUEUE_FAMILY_DMA_BIT else QUEUE_FAMILY_GRAPHICS_BIT
          let staging_buffer_queue_fam_type :=
            if n_transfer_queues > 0 then QueueFamilyType.QUEUE_FAMILY_TYPE_TRANSFER
            else QueueFamilyType.QUEUE_FAMILY_TYPE_UNIVERSAL
          let allocated := d.alloc_primary_level_command_buffer staging_buffer_queue_fam_type
          match allocated.1 with
          | none => some (.returned ((false, []), allocated.2.anvil_assert false))
          | some copy_cmdbuf =>
            match create_with_memory fuel allocated.2 size staging_buffer_queue_fam_bits
                VK_SHARING_MODE_EXCLUSIVE VK_BUFFER_USAGE_TRANSFER_DST_BIT true false none with
            | none => none
            | some (.faulted fault) => some (.faulted fault)
            | some (.returned staging) =>
              let d := staging.2
              let copy_cmdbuf := (PrimaryCommandBuffer.start_recording copy_cmdbuf true false
                d.driver.vkBeginCommandBuffer_succeeds).2
              let copy_region : VkBufferCopy :=
                { dstOffset := 0, size := size, srcOffset := start_offset }
              let copy_cmdbuf := (copy_cmdbuf.record_copy_buffer b.shared_from_this
                staging.1.shared_from_this 1 [copy_region]).2
              let copy_cmdbuf :=
                (copy_cmdbuf.stop_recording d.driver.vkEndCommandBuffer_succeeds).2
              let d := d.submit_command_buffer queue_ptr copy_cmdbuf true
              match read fuel staging.1 d start_offset size with
              | none => none
              | some (.faulted fault) => some (.faulted fault)
              | some (.returned result) =>
                let d := copy_cmdbuf.destructor result.2
                let d := staging.1.destructor d
                some (.returned (result.1, d))
termination_by structural fuel => fuel

/-- Returns the result and the device after the call. The notes on `read`
about the lock of `m_device_ptr`, a null `m_memory_block_ptr`, the staging
buffer pointer and the two local objects hold here too. -/
def write : Nat → Buffer → DeviceState → VkDeviceSize → VkDeviceSize → List Nat →
    Option (Outcome (Bool × DeviceState))
  | 0, _, _, _, _, _ => none
  | fuel + 1, b, d, start_offset, size, data =>
    match b.m_device_ptr with
    | none => some (.faulted .bad_weak_ptr)
    | some _ =>
      let d := d.anvil_assert b.m_memory_block_ptr.isSome
      match b.m_memory_block_ptr with
      | none => some (.faulted .null_pointer_dereference)
      | some block =>
        if block.is_mappable then
          let written := block.write d.memory start_offset size data
          some (.returned (written.1, { d with memory := written.2 }))
        else
          let n_transfer_queues := d.driver.n_transfer_queues
          let queue_ptr :=
            if n_transfer_queues > 0 then d.get_transfer_queue 0 else d.get_universal_queue 0
          let staging_buffer_queue_fam_bits :=
            if n_transfer_queues > 0 then QUEUE_FAMILY_DMA_BIT else QUEUE_FAMILY_GRAPHICS_BIT
          let staging_buffer_queue_fam_type :=
            if n_transfer_queues > 0 then QueueFamilyType.QUEUE_FAMILY_TYPE_TRANSFER
            else QueueFamilyType.QUEUE_FAMILY_TYPE_UNIVERSAL
          let allocated := d.alloc_primary_level_command_buffer staging_buffer_queue_fam_type
          match allocated.1 with
          | none => some (.returned (false, allocated.2.anvil_assert false))
          | some copy_cmdbuf =>
            match create_with_memory fuel allocated.2 size staging_buffer_queue_fam_bits
                VK_SHARING_MODE_EXCLUSIVE VK_BUFFER_USAGE_TRANSFER_SRC_BIT true false
                (some data) with
            | none => none
            | some (.faulted fault) => some (.faulted fault)
            | some (.returned staging) =>
              let d := staging.2
              let copy_cmdbuf := (PrimaryCommandBuffer.start_recording copy_cmdbuf true false
                d.driver.vkBeginCommandBuffer_succeeds).2
              let copy_region : VkBufferCopy :=
                { dstOffset := start_offset, size := size, srcOffset := 0 }
              let copy_cmdbuf := (copy_cmdbuf.record_copy_buffer staging.1.shared_from_this
                b.shared_from_this 1 [copy_region]).2
              let copy_cmdbuf :=
                (copy_cmdbuf.stop_recording d.driver.vkEndCommandBuffer_succeeds).2
              let d := d.submit_command_buffer queue_ptr copy_cmdbuf true
              let d := copy_cmdbuf.destructor d
              let d := staging.1.destructor d
              some (.returned (true, d))
termination_by structural fuel => fuel

end

end Buffer

/-- Every bit of `bits` is set in `flags`. -/
def has_flags (flags bits : VkFlags) : Prop := flags &&& bits = bits

instance (flags bits : VkFlags) : Decidable (has_flags flags bits) := by
  unfold has_flags; infer_instance

/-- The queue the staging path submits to. -/
def DeviceState.staging_queue (d : DeviceState) : QueuePtr :=
  if d.driver.n_transfer_queues > 0 then d.get_transfer_queue 0 else d.get_universal_queue 0

/-- The queue family bit the staging path asks for its staging buffer. -/
def DeviceState.staging_buffer_queue_fam_bits (d : DeviceState) : QueueFamilyBits :=
  if d.driver.n_transfer_queues > 0 then QUEUE_FAMILY_DMA_BIT else QUEUE_FAMILY_GRAPHICS_BIT

/-- The queue family whose command pool the staging path allocates from. -/
def DeviceState.staging_buffer_queue_fam_type (d : DeviceState) : QueueFamilyType :=
  if d.driver.n_transfer_queues > 0 then QueueFamilyType.QUEUE_FAMILY_TYPE_TRANSFER
  else QueueFamilyType.QUEUE_FAMILY_TYPE_UNIVERSAL

namespace Buffer

/-- Modelled from the spec: `Buffer::get_parent_buffer_ptr` is defined in
`wrappers/buffer.h`, which is not among the sources; it returns the member. -/
def get_parent_buffer_ptr (b : Buffer) : Option Buffer := b.m_parent_buffer_ptr

def get_base_buffer (b : Buffer) : Buffer :=
  let result_ptr := b
  match result_ptr.get_parent_buffer_ptr with
  | some parent_ptr => parent_ptr
  | none => result_ptr

end Buffer

/-- The native buffers released by the `vkDestroyBuffer` calls of a trace, in
call order. -/
def destroy_calls (events : List DeviceEvent) : List VkHandle :=
  events.filterMap (fun event =>
    match event with
    | .vkDestroyBuffer buffer => some buffer
    | _ => none)

/-- What kind of call an entry of the trace is. -/
inductive DeviceEventKind where
  | create_buffer
  | bind_buffer_memory
  | destroy_buffer
  | free_command_buffer
  | create_memory_block
  | alloc_command_buffer
  | submit
deriving DecidableEq, Repr

def DeviceEvent.kind : DeviceEvent → DeviceEventKind
  | .vkCreateBuffer .. => .create_buffer
  | .vkBindBufferMemory .. => .bind_buffer_memory
  | .vkDestroyBuffer .. => .destroy_buffer
  | .vkFreeCommandBuffers .. => .free_command_buffer
  | .memory_block_create .. => .create_memory_block
  | .alloc_primary_level_command_buffer .. => .alloc_command_buffer
  | .submit_command_buffer .. => .submit

/-- The `VkBufferCreateInfo` the staging path hands to `vkCreateBuffer` for its
staging buffer: exclusive sharing, the one queue family the path uses, the size
of the transfer and the usage asked for. -/
def DeviceState.staging_buffer_create_info (d : DeviceState) (size : VkDeviceSize)
    (usage : VkFlags) : VkBufferCreateInfo :=
  { flags := 0,
    pQueueFamilyIndices := [d.driver.queue_family_index d.staging_buffer_queue_fam_type],
    queueFamilyIndexCount := 1, sharingMode := VK_SHARING_MODE_EXCLUSIVE, size := size,
    usage := usage }

/-! ## Physical devices (`wrappers/physical_device.cpp`)

Only the list of cached devices is modelled. -/

/-- Shared pointer to an `Anvil::Device`; two pointers are equal when they
point to the same object. -/
structure DevicePtr where
  (object : Nat)
deriving DecidableEq, Repr

/-- The members of `PhysicalDevice` that `register_device` and
`unregister_device` touch, and the count of failed `anvil_assert`s. -/
structure PhysicalDevice where
  (m_cached_devices : List DevicePtr) (assertion_failures : Nat)
deriving DecidableEq, Repr

namespace PhysicalDevice

/-- Modelled from the spec: `anvil_assert` comes from `misc/debug.h`, which is
not among the sources. A failed assertion is counted and control continues
with the next statement. -/
def anvil_assert (p : PhysicalDevice) (assertion : Bool) : PhysicalDevice :=
  if assertion then p else { p with assertion_failures := p.assertion_failures + 1 }

/-- The `std::find` of both functions: the position of the first element equal
to `device_ptr`, or `none` for `end()`. -/
def find (p : PhysicalDevice) (device_ptr : DevicePtr) : Option Nat :=
  let index := p.m_cached_devices.indexOf device_ptr
  if index < p.m_cached_devices.length then some index else none

def register_device (p : PhysicalDevice) (device_ptr : DevicePtr) : PhysicalDevice :=
  let device_iterator := p.find device_ptr
  let p := p.anvil_assert device_iterator.isNone
  if device_iterator.isNone then
    { p with m_cached_devices := p.m_cached_devices ++ [device_ptr] }
  else p

def unregister_device (p : PhysicalDevice) (device_ptr : DevicePtr) : PhysicalDevice :=
  let device_iterator := p.find device_ptr
  let p := p.anvil_assert device_iterator.isSome
  match device_iterator with
  | some index => { p with m_cached_devices := p.m_cached_devices.eraseIdx index }
  | none => p

end PhysicalDevice

/-! ## Concrete command buffers and calls -/

/-- A device with no pipelines. -/
def example_device : Device := { compute_pipelines := [], graphics_pipelines := [] }

/-- A freshly constructed primary command buffer, journaling enabled. -/
def fresh_primary : CommandBufferBase :=
  PrimaryCommandBuffer.PrimaryCommandBuffer example_device 7 false

/-- A freshly constructed secondary command buffer, journaling enabled. -/
def fresh_secondary : CommandBufferBase :=
  SecondaryCommandBuffer.SecondaryCommandBuffer example_device 8 false

/-- A primary command buffer right after a successful `start_recording`. -/
def recording_primary : CommandBufferBase :=
  (PrimaryCommandBuffer.start_recording fresh_primary false false true).2

def example_render_pass : RenderPassPtr := { object := 1, get_render_pass := 11 }

def example_framebuffer : FramebufferPtr := { object := 2, baked := [(1, 21)] }

def example_layout : PipelineLayoutPtr := { object := 3, get_pipeline_layout := 31 }

def example_buffer : BufferPtr := { object := 4, get_buffer := 41 }

/-- Sixteen descriptor sets: a full translation array. -/
def example_descriptor_sets : List DescriptorSetPtr :=
  (List.range 16).map (fun n => { object := n, get_descriptor_set_vk := 100 + n })

def example_draw : RecordCall := .draw 3 1 0 0

def example_dispatch : RecordCall := .dispatch 1 1 1

def example_copy_buffer : RecordCall :=
  .copy_buffer example_buffer example_buffer 1 [{ srcOffset := 0, dstOffset := 64, size := 32 }]

def example_bind_descriptor_sets : RecordCall :=
  .bind_descriptor_sets VK_PIPELINE_BIND_POINT_GRAPHICS example_layout 0 16
    example_descriptor_sets 0 []

def example_begin_render_pass : RecordCall :=
  .begin_render_pass 0 [] example_framebuffer { data := 0 } example_render_pass 0

/-- A primary command buffer recording inside a render pass. -/
def in_renderpass_primary : CommandBufferBase :=
  (record recording_primary example_begin_render_pass).2

/-- A primary command buffer that recorded one dispatch and was stopped: not
recording, one descriptor in the journal. -/
def stopped_primary : CommandBufferBase :=
  ((record recording_primary example_dispatch).2.stop_recording true).2

/-- A recording that is stopped while its render pass is still open, followed
by a new `start_recording`. Every native call succeeds. -/
def stale_renderpass_calls : List ApiCall :=
  [ .primary_start_recording false false true,
    .record example_begin_render_pass,
    .stop_recording true,
    .primary_start_recording false false true ]

/-- Calls made after `stop_recording`, none of them a successful
`start_recording`: the one `start_recording` among them is refused by the
driver. -/
def calls_after_stop : List ApiCall :=
  [ .record example_draw,
    .primary_start_recording false false false,
    .record example_dispatch,
    .reset false true,
    .record example_bind_descriptor_sets ]

/-- A recording primary command buffer with one subscriber registered for each
of the three "command recorded" callbacks. -/
def subscribed_recording_primary : CommandBufferBase :=
  { recording_primary with
    m_callbacks :=
      [ .COMMAND_BUFFER_CALLBACK_ID_PIPELINE_BARRIER_COMMAND_RECORDED,
        .COMMAND_BUFFER_CALLBACK_ID_BEGIN_RENDER_PASS_COMMAND_RECORDED,
        .COMMAND_BUFFER_CALLBACK_ID_END_RENDER_PASS_COMMAND_RECORDED ] }

/-- A `record_bind_descriptor_sets` call with `n` descriptor sets. -/
def bind_descriptor_sets_of (n : Nat) : RecordCall :=
  .bind_descriptor_sets VK_PIPELINE_BIND_POINT_GRAPHICS example_layout 0 n
    ((List.range n).map (fun i => { object := i, get_descriptor_set_vk := 100 + i })) 0 []

/-- A `record_bind_vertex_buffers` call with `n` bindings. -/
def bind_vertex_buffers_of (n : Nat) : RecordCall :=
  .bind_vertex_buffers 0 n ((List.range n).map (fun i => { object := i, get_buffer := 200 + i }))
    (List.replicate n 0)

/-- A `record_pipeline_barrier` call with `n` barriers of each of the three
kinds. -/
def pipeline_barrier_of (n : Nat) : RecordCall :=
  .pipeline_barrier 1 2 0
    n ((List.range n).map (fun i => { object := i, get_barrier_vk := { data := 300 + i } }))
    n ((List.range n).map (fun i => { object := i, get_barrier_vk := { data := 400 + i } }))
    n ((List.range n).map (fun i => { object := i, get_barrier_vk := { data := 500 + i } }))

/-- A `record_wait_events` call with `n` events and `n` barriers of each of the
three kinds. -/
def wait_events_of (n : Nat) : RecordCall :=
  .wait_events n ((List.range n).map (fun i => { object := i, get_event := 600 + i })) 1 2
    n ((List.range n).map (fun i => { object := i, get_barrier_vk := { data := 300 + i } }))
    n ((List.range n).map (fun i => { object := i, get_barrier_vk := { data := 400 + i } }))
    n ((List.range n).map (fun i => { object := i, get_barrier_vk := { data := 500 + i } }))

/-- A `record_execute_commands` call with `n` secondary command buffers. -/
def execute_commands_of (n : Nat) : RecordCall :=
  .execute_commands n
    ((List.range n).map (fun i => { object := i, get_command_buffer := 700 + i }))

/-- A `record_set_viewport` call with `n` viewports. -/
def set_viewport_of (n : Nat) : RecordCall :=
  .set_viewport 0 n ((List.range n).map (fun i => { data := i }))

/-- A `record_set_scissor` call with `n` scissors. -/
def set_scissor_of (n : Nat) : RecordCall :=
  .set_scissor 0 n ((List.range n).map (fun i => { data := i }))

/-- A recording that is reset without being stopped first: one dispatch is
recorded, every native call succeeds. -/
def reset_while_recording_calls : List ApiCall :=
  [ .primary_start_recording false false true,
    .record example_dispatch,
    .reset true true ]

/-- A second buffer, used as the other end of a copy. -/
def example_staging_buffer : BufferPtr := { object := 5, get_buffer := 51 }

/-- An indirect draw with count buffer whose draw arguments start at byte
`in_offset` of `example_buffer`. -/
def example_draw_indirect_count (in_offset : VkDeviceSize) : RecordCall :=
  .draw_indirect_count_AMD example_buffer in_offset example_staging_buffer 0 1 16

/-- The indexed form of `example_draw_indirect_count`. -/
def example_draw_indexed_indirect_count (in_offset : VkDeviceSize) : RecordCall :=
  .draw_indexed_indirect_count_AMD example_buffer in_offset example_staging_buffer 0 1 16

/-- A driver with one queue of each family; a buffer needs exactly as much
memory as it has bytes, and every call succeeds. -/
def example_driver : Driver :=
  { n_compute_queues := 1, n_transfer_queues := 1, n_universal_queues := 1,
    queue_family_index := fun family =>
      match family with
      | .QUEUE_FAMILY_TYPE_UNIVERSAL => 0
      | .QUEUE_FAMILY_TYPE_COMPUTE => 1
      | .QUEUE_FAMILY_TYPE_TRANSFER => 2,
    memory_requirements := fun size => { size := size, memoryTypeBits := 1 },
    vkCreateBuffer_succeeds := true, vkBindBufferMemory_succeeds := true,
    vkBeginCommandBuffer_succeeds := true, vkEndCommandBuffer_succeeds := true,
    alloc_primary_level_command_buffer_succeeds := true,
    submit_command_buffer_succeeds := true }

/-- A device on which nothing has been created yet, journaling enabled. -/
def example_device_state : DeviceState :=
  { driver := example_driver, device := example_device, m_command_stashing_disabled := false,
    memory := fun _ => [], bound_memory := fun _ => none, next_handle := 1, events := [],
    assertion_failures := 0 }

/-- The bytes `1, 2, .., 32`. -/
def bytes_A : List Nat := (List.range 32).map (fun n => n + 1)

/-- A root buffer of 256 bytes with memory that is not host-mappable, and the
device after its creation. -/
def device_only_buffer : Buffer × DeviceState :=
  ((Buffer.create_with_memory 1 example_device_state 256 QUEUE_FAMILY_GRAPHICS_BIT
    VK_SHARING_MODE_EXCLUSIVE 0 false false none).bind Outcome.value).getD
    (Buffer.construct 0 example_device 0 0 0 0, example_device_state)

/-- A root buffer of 256 bytes created without memory, and the device after
its creation. -/
def unbound_buffer : Buffer × DeviceState :=
  Buffer.create example_device_state 256 QUEUE_FAMILY_GRAPHICS_BIT VK_SHARING_MODE_EXCLUSIVE 0

/-- A host-mappable region of 256 bytes at the start of memory object 9. -/
def example_region : MemoryBlock :=
  { m_memory := 9, m_start_offset := 0, m_size := 256, m_is_mappable := true,
    m_is_coherent := false }

/-- The device of `unbound_buffer` with a driver that refuses
`vkBindBufferMemory`. -/
def device_refusing_bind : DeviceState :=
  { unbound_buffer.2 with
    driver := { example_driver with vkBindBufferMemory_succeeds := false } }

/-- The memory block `device_only_buffer` was created with. -/
def device_only_region : MemoryBlock :=
  { m_memory := 3, m_start_offset := 0, m_size := 256, m_is_mappable := false,
    m_is_coherent := false }

/-- The device after `write(64, 32, bytes_A)` on `device_only_buffer`. -/
def device_after_write : DeviceState :=
  (((Buffer.write 3 device_only_buffer.1 device_only_buffer.2 64 32 bytes_A).bind
    Outcome.value).map Prod.snd).getD
    example_device_state

/-- A driver like `example_driver` that rounds the memory a buffer requires up
to a multiple of 256 bytes. -/
def aligning_driver : Driver :=
  { example_driver with
    memory_requirements := fun size =>
      { size := (size + 255) / 256 * 256, memoryTypeBits := 1 } }

/-- The device of `device_after_write` with the driver that rounds memory
sizes up. -/
def device_after_write_aligning : DeviceState :=
  { device_after_write with driver := aligning_driver }

/-- A view of 128 bytes at offset 64 of `device_only_buffer`, and the device
after its creation. -/
def view_of_root : Buffer × DeviceState :=
  Buffer.create_view device_only_buffer.2 device_only_buffer.1 64 128

/-- A view of 32 bytes at offset 16 of `view_of_root`, a view of a view, and
the device after its creation. -/
def view_of_view : Buffer × DeviceState :=
  Buffer.create_view view_of_root.2 view_of_root.1 16 32

/-- A second view of `device_only_buffer`: 16 bytes at offset 0. -/
def second_view_of_root : Buffer × DeviceState :=
  Buffer.create_view view_of_root.2 device_only_buffer.1 0 16

/-- A physical device that caches the devices 1, 2 and 3. -/
def example_physical_device : PhysicalDevice :=
  { m_cached_devices := [{ object := 1 }, { object := 2 }, { object := 3 }],
    assertion_failures := 0 }

/-- The device of `device_only_buffer` with a driver that exposes no transfer
queue. -/
def device_without_transfer_queues : DeviceState :=
  { device_only_buffer.2 with driver := { example_driver with n_transfer_queues := 0 } }

/-- The device of `device_only_buffer` with a driver that refuses
`vkBeginCommandBuffer`. -/
def device_refusing_begin : DeviceState :=
  { device_only_buffer.2 with
    driver := { example_driver with vkBeginCommandBuffer_succeeds := false } }

/-- The device of `device_only_buffer` with a driver that refuses
`vkEndCommandBuffer`. -/
def device_refusing_end : DeviceState :=
  { device_only_buffer.2 with
    driver := { example_driver with vkEndCommandBuffer_succeeds := false } }

/-- The device of `device_only_buffer` with a driver that refuses every queue
submission. -/
def device_refusing_submit : DeviceState :=
  { device_only_buffer.2 with
    driver := { example_driver with submit_command_buffer_succeeds := false } }

/-- The device of `device_only_buffer` with a driver whose command pools
return no command buffer. -/
def device_refusing_alloc : DeviceState :=
  { device_only_buffer.2 with
    driver := { example_driver with alloc_primary_level_command_buffer_succeeds := false } }

/-- The device after `write(0, 32, bytes_A)` on `device_only_buffer`, with a
driver that refuses every queue submission from then on. -/
def device_after_write_refusing_submit : DeviceState :=
  { (((Buffer.write 3 device_only_buffer.1 device_only_buffer.2 0 32 bytes_A).bind
      Outcome.value).map Prod.snd).getD example_device_state with
    driver := { example_driver with submit_command_buffer_succeeds := false } }

/-! ## Frame lemmas

What each primitive step does to each member of the state. -/

namespace CommandBufferBase

@[simp] theorem anvil_assert_m_command_buffer (cb : CommandBufferBase) (assertion : Bool) :
    (cb.anvil_assert assertion).m_command_buffer = cb.m_command_buffer := by
  unfold anvil_assert; split <;> simp_all

@[simp] theorem anvil_assert_m_device_ptr (cb : CommandBufferBase) (assertion : Bool) :
    (cb.anvil_assert assertion).m_device_ptr = cb.m_device_ptr := by
  unfold anvil_assert; split <;> simp_all

@[simp] theorem anvil_assert_m_is_renderpass_active (cb : CommandBufferBase) (assertion : Bool) :
    (cb.anvil_assert assertion).m_is_renderpass_active = cb.m_is_renderpass_active := by
  unfold anvil_assert; split <;> simp_all

@[simp] theorem anvil_assert_m_recording_in_progress (cb : CommandBufferBase) (assertion : Bool) :
    (cb.anvil_assert assertion).m_recording_in_progress = cb.m_recording_in_progress := by
  unfold anvil_assert; split <;> simp_all

@[simp] theorem anvil_assert_m_type (cb : CommandBufferBase) (assertion : Bool) :
    (cb.anvil_assert assertion).m_type = cb.m_type := by
  unfold anvil_assert; split <;> simp_all

@[simp] theorem anvil_assert_m_commands (cb : CommandBufferBase) (assertion : Bool) :
    (cb.anvil_assert assertion).m_commands = cb.m_commands := by
  unfold anvil_assert; split <;> simp_all

@[simp] theorem anvil_assert_m_command_stashing_disabled (cb : CommandBufferBase) (assertion : Bool) :
    (cb.anvil_assert assertion).m_command_stashing_disabled = cb.m_command_stashing_disabled := by
  unfold anvil_assert; split <;> simp_all

@[simp] theorem anvil_assert_m_callbacks (cb : CommandBufferBase) (assertion : Bool) :
    (cb.anvil_assert assertion).m_callbacks = cb.m_callbacks := by
  unfold anvil_assert; split <;> simp_all

@[simp] theorem anvil_assert_vk_calls (cb : CommandBufferBase) (assertion : Bool) :
    (cb.anvil_assert assertion).vk_calls = cb.vk_calls := by
  unfold anvil_assert; split <;> simp_all

@[simp] theorem anvil_assert_notifications (cb : CommandBufferBase) (assertion : Bool) :
    (cb.anvil_assert assertion).notifications = cb.notifications := by
  unfold anvil_assert; split <;> simp_all

@[simp] theorem anvil_assert_assertion_failures (cb : CommandBufferBase) (assertion : Bool) :
    (cb.anvil_assert assertion).assertion_failures = if assertion then cb.assertion_failures else cb.assertion_failures + 1 := by
  unfold anvil_assert; split <;> simp_all

@[simp] theorem anvil_assert_out_of_bounds_writes (cb : CommandBufferBase) (assertion : Bool) :
    (cb.anvil_assert assertion).out_of_bounds_writes = cb.out_of_bounds_writes := by
  unfold anvil_assert; split <;> simp_all

@[simp] theorem push_back_command_m_command_buffer (cb : CommandBufferBase) (command : Command) :
    (cb.push_back_command command).m_command_buffer = cb.m_command_buffer := by
  unfold push_back_command; split <;> simp_all

@[simp] theorem push_back_command_m_device_ptr (cb : CommandBufferBase) (command : Command) :
    (cb.push_back_command command).m_device_ptr = cb.m_device_ptr := by
  unfold push_back_command; split <;> simp_all

@[simp] theorem push_back_command_m_is_renderpass_active (cb : CommandBufferBase) (command : Command) :
    (cb.push_back_command command).m_is_renderpass_active = cb.m_is_renderpass_active := by
  unfold push_back_command; split <;> simp_all

@[simp] theorem push_back_command_m_recording_in_progress (cb : CommandBufferBase) (command : Command) :
    (cb.push_back_command command).m_recording_in_progress = cb.m_recording_in_progress := by
  unfold push_back_command; split <;> simp_all

@[simp] theorem push_back_command_m_type (cb : CommandBufferBase) (command : Command) :
    (cb.push_back_command command).m_type = cb.m_type := by
  unfold push_back_command; split <;> simp_all

@[simp] theorem push_back_command_m_commands (cb : CommandBufferBase) (command : Command) :
    (cb.push_back_command command).m_commands = if cb.m_command_stashing_disabled then cb.m_commands else cb.m_commands ++ [command] := by
  unfold push_back_command; split <;> simp_all

@[simp] theorem push_back_command_m_command_stashing_disabled (cb : CommandBufferBase) (command : Command) :
    (cb.push_back_command command).m_command_stashing_disabled = cb.m_command_stashing_disabled := by
  unfold push_back_command; split <;> simp_all

@[simp] theorem push_back_command_m_callbacks (cb : CommandBufferBase) (command : Command) :
    (cb.push_back_command command).m_callbacks = cb.m_callbacks := by
  unfold push_back_command; split <;> simp_all

@[simp] theorem push_back_command_vk_calls (cb : CommandBufferBase) (command : Command) :
    (cb.push_back_command command).vk_calls = cb.vk_calls := by
  unfold push_back_command; split <;> simp_all

@[simp] theorem push_back_command_notifications (cb : CommandBufferBase) (command : Command) :
    (cb.push_back_command command).notifications = cb.notifications := by
  unfold push_back_command; split <;> simp_all

@[simp] theorem push_back_command_assertion_failures (cb : CommandBufferBase) (command : Command) :
    (cb.push_back_command command).assertion_failures = cb.assertion_failures := by
  unfold push_back_command; split <;> simp_all

@[simp] theorem push_back_command_out_of_bounds_writes (cb : CommandBufferBase) (command : Command) :
    (cb.push_back_command command).out_of_bounds_writes = cb.out_of_bounds_writes := by
  unfold push_back_command; split <;> simp_all

@[simp] theorem vk_m_command_buffer (cb : CommandBufferBase) (call : VkCall) :
    (cb.vk call).m_command_buffer = cb.m_command_buffer := rfl

@[simp] theorem vk_m_device_ptr (cb : CommandBufferBase) (call : VkCall) :
    (cb.vk call).m_device_ptr = cb.m_device_ptr := rfl

@[simp] theorem vk_m_is_renderpass_active (cb : CommandBufferBase) (call : VkCall) :
    (cb.vk call).m_is_renderpass_active = cb.m_is_renderpass_active := rfl

@[simp] theorem vk_m_recording_in_progress (cb : CommandBufferBase) (call : VkCall) :
    (cb.vk call).m_recording_in_progress = cb.m_recording_in_progress := rfl

@[simp] theorem vk_m_type (cb : CommandBufferBase) (call : VkCall) :
    (cb.vk call).m_type = cb.m_type := rfl

@[simp] theorem vk_m_commands (cb : CommandBufferBase) (call : VkCall) :
    (cb.vk call).m_commands = cb.m_commands := rfl

@[simp] theorem vk_m_command_stashing_disabled (cb : CommandBufferBase) (call : VkCall) :
    (cb.vk call).m_command_stashing_disabled = cb.m_command_stashing_disabled := rfl

@[simp] theorem vk_m_callbacks (cb : CommandBufferBase) (call : VkCall) :
    (cb.vk call).m_callbacks = cb.m_callbacks := rfl

@[simp] theorem vk_vk_calls (cb : CommandBufferBase) (call : VkCall) :
    (cb.vk call).vk_calls = cb.vk_calls ++ [call] := rfl

@[simp] theorem vk_notifications (cb : CommandBufferBase) (call : VkCall) :
    (cb.vk call).notifications = cb.notifications := rfl

@[simp] theorem vk_assertion_failures (cb : CommandBufferBase) (call : VkCall) :
    (cb.vk call).assertion_failures = cb.assertion_failures := rfl

@[simp] theorem vk_out_of_bounds_writes (cb : CommandBufferBase) (call : VkCall) :
    (cb.vk call).out_of_bounds_writes = cb.out_of_bounds_writes := rfl

@[simp] theorem fill_local_array_m_command_buffer (cb : CommandBufferBase) (capacity count : Nat) :
    (cb.fill_local_array capacity count).m_command_buffer = cb.m_command_buffer := rfl

@[simp] theorem fill_local_array_m_device_ptr (cb : CommandBufferBase) (capacity count : Nat) :
    (cb.fill_local_array capacity count).m_device_ptr = cb.m_device_ptr := rfl

@[simp] theorem fill_local_array_m_is_renderpass_active (cb : CommandBufferBase) (capacity count : Nat) :
    (cb.fill_local_array capacity count).m_is_renderpass_active = cb.m_is_renderpass_active := rfl

@[simp] theorem fill_local_array_m_recording_in_progress (cb : CommandBufferBase) (capacity count : Nat) :
    (cb.fill_local_array capacity count).m_recording_in_progress = cb.m_recording_in_progress := rfl

@[simp] theorem fill_local_array_m_type (cb : CommandBufferBase) (capacity count : Nat) :
    (cb.fill_local_array capacity count).m_type = cb.m_type := rfl

@[simp] theorem fill_local_array_m_commands (cb : CommandBufferBase) (capacity count : Nat) :
    (cb.fill_local_array capacity count).m_commands = cb.m_commands := rfl

@[simp] theorem fill_local_array_m_command_stashing_disabled (cb : CommandBufferBase) (capacity count : Nat) :
    (cb.fill_local_array capacity count).m_command_stashing_disabled = cb.m_command_stashing_disabled := rfl

@[simp] theorem fill_local_array_m_callbacks (cb : CommandBufferBase) (capacity count : Nat) :
    (cb.fill_local_array capacity count).m_callbacks = cb.m_callbacks := rfl

@[simp] theorem fill_local_array_vk_calls (cb : CommandBufferBase) (capacity count : Nat) :
    (cb.fill_local_array capacity count).vk_calls = cb.vk_calls := rfl

@[simp] theorem fill_local_array_notifications (cb : CommandBufferBase) (capacity count : Nat) :
    (cb.fill_local_array capacity count).notifications = cb.notifications := rfl

@[simp] theorem fill_local_array_assertion_failures (cb : CommandBufferBase) (capacity count : Nat) :
    (cb.fill_local_array capacity count).assertion_failures = cb.assertion_failures := rfl

@[simp] theorem fill_local_array_out_of_bounds_writes (cb : CommandBufferBase) (capacity count : Nat) :
    (cb.fill_local_array capacity count).out_of_bounds_writes = cb.out_of_bounds_writes + (count - capacity) := rfl

@[simp] theorem clear_commands_m_command_buffer (cb : CommandBufferBase) :
    (cb.clear_commands).m_command_buffer = cb.m_command_buffer := rfl

@[simp] theorem clear_commands_m_device_ptr (cb : CommandBufferBase) :
    (cb.clear_commands).m_device_ptr = cb.m_device_ptr := rfl

@[simp] theorem clear_commands_m_is_renderpass_active (cb : CommandBufferBase) :
    (cb.clear_commands).m_is_renderpass_active = cb.m_is_renderpass_active := rfl

@[simp] theorem clear_commands_m_recording_in_progress (cb : CommandBufferBase) :
    (cb.clear_commands).m_recording_in_progress = cb.m_recording_in_progress := rfl

@[simp] theorem clear_commands_m_type (cb : CommandBufferBase) :
    (cb.clear_commands).m_type = cb.m_type := rfl

@[simp] theorem clear_commands_m_commands (cb : CommandBufferBase) :
    (cb.clear_commands).m_commands = [] := rfl

@[simp] theorem clear_commands_m_command_stashing_disabled (cb : CommandBufferBase) :
    (cb.clear_commands).m_command_stashing_disabled = cb.m_command_stashing_disabled := rfl

@[simp] theorem clear_commands_m_callbacks (cb : CommandBufferBase) :
    (cb.clear_commands).m_callbacks = cb.m_callbacks := rfl

@[simp] theorem clear_commands_vk_calls (cb : CommandBufferBase) :
    (cb.clear_commands).vk_calls = cb.vk_calls := rfl

@[simp] theorem clear_commands_notifications (cb : CommandBufferBase) :
    (cb.clear_commands).notifications = cb.notifications := rfl

@[simp] theorem clear_commands_assertion_failures (cb : CommandBufferBase) :
    (cb.clear_commands).assertion_failures = cb.assertion_failures := rfl

@[simp] theorem clear_commands_out_of_bounds_writes (cb : CommandBufferBase) :
    (cb.clear_commands).out_of_bounds_writes = cb.out_of_bounds_writes := rfl

@[simp] theorem callback_m_command_buffer (cb : CommandBufferBase) (id : CommandBufferCallbackID) (command_data : Command) :
    (cb.callback id command_data).m_command_buffer = cb.m_command_buffer := rfl

@[simp] theorem callback_m_device_ptr (cb : CommandBufferBase) (id : CommandBufferCallbackID) (command_data : Command) :
    (cb.callback id command_data).m_device_ptr = cb.m_device_ptr := rfl

@[simp] theorem callback_m_is_renderpass_active (cb : CommandBufferBase) (id : CommandBufferCallbackID) (command_data : Command) :
    (cb.callback id command_data).m_is_renderpass_active = cb.m_is_renderpass_active := rfl

@[simp] theorem callback_m_recording_in_progress (cb : CommandBufferBase) (id : CommandBufferCallbackID) (command_data : Command) :
    (cb.callback id command_data).m_recording_in_progress = cb.m_recording_in_progress := rfl

@[simp] theorem callback_m_type (cb : CommandBufferBase) (id : CommandBufferCallbackID) (command_data : Command) :
    (cb.callback id command_data).m_type = cb.m_type := rfl

@[simp] theorem callback_m_commands (cb : CommandBufferBase) (id : CommandBufferCallbackID) (command_data : Command) :
    (cb.callback id command_data).m_commands = cb.m_commands := rfl

@[simp] theorem callback_m_command_stashing_disabled (cb : CommandBufferBase) (id : CommandBufferCallbackID) (command_data : Command) :
    (cb.callback id command_data).m_command_stashing_disabled = cb.m_command_stashing_disabled := rfl

@[simp] theorem callback_m_callbacks (cb : CommandBufferBase) (id : CommandBufferCallbackID) (command_data : Command) :
    (cb.callback id command_data).m_callbacks = cb.m_callbacks := rfl

@[simp] theorem callback_vk_calls (cb : CommandBufferBase) (id : CommandBufferCallbackID) (command_data : Command) :
    (cb.callback id command_data).vk_calls = cb.vk_calls := rfl

@[simp] theorem callback_notifications (cb : CommandBufferBase) (id : CommandBufferCallbackID) (command_data : Command) :
    (cb.callback id command_data).notifications = cb.notifications ++ List.replicate (cb.get_n_of_callback_subscribers id)
        { id := id, command_data := command_data, m_commands := cb.m_commands,
          n_vk_calls := cb.vk_calls.length } := rfl

@[simp] theorem callback_assertion_failures (cb : CommandBufferBase) (id : CommandBufferCallbackID) (command_data : Command) :
    (cb.callback id command_data).assertion_failures = cb.assertion_failures := rfl

@[simp] theorem callback_out_of_bounds_writes (cb : CommandBufferBase) (id : CommandBufferCallbackID) (command_data : Command) :
    (cb.callback id command_data).out_of_bounds_writes = cb.out_of_bounds_writes := rfl

end CommandBufferBase

/-! ## General facts about the recording functions -/

section General

open CommandBufferBase PrimaryCommandBuffer

/-- Two states are equal when all their members and traces are. -/
theorem CommandBufferBase.eq_iff_fields (a b : CommandBufferBase) : a = b ↔
    a.m_command_buffer = b.m_command_buffer ∧ a.m_device_ptr = b.m_device_ptr ∧
    a.m_is_renderpass_active = b.m_is_renderpass_active ∧
    a.m_recording_in_progress = b.m_recording_in_progress ∧ a.m_type = b.m_type ∧
    a.m_commands = b.m_commands ∧
    a.m_command_stashing_disabled = b.m_command_stashing_disabled ∧
    a.m_callbacks = b.m_callbacks ∧ a.vk_calls = b.vk_calls ∧
    a.notifications = b.notifications ∧ a.assertion_failures = b.assertion_failures ∧
    a.out_of_bounds_writes = b.out_of_bounds_writes := by
  constructor
  · rintro rfl; simp
  · cases a; cases b; simp

/-- What `untouched` says member by member. -/
theorem CommandBufferBase.untouched_iff (before after : CommandBufferBase) :
    before.untouched after ↔
    after.m_command_buffer = before.m_command_buffer ∧
    after.m_device_ptr = before.m_device_ptr ∧
    after.m_is_renderpass_active = before.m_is_renderpass_active ∧
    after.m_recording_in_progress = before.m_recording_in_progress ∧
    after.m_type = before.m_type ∧ after.m_commands = before.m_commands ∧
    after.m_command_stashing_disabled = before.m_command_stashing_disabled ∧
    after.m_callbacks = before.m_callbacks ∧ after.vk_calls = before.vk_calls ∧
    after.notifications = before.notifications ∧
    after.out_of_bounds_writes = before.out_of_bounds_writes := by
  simp [untouched, CommandBufferBase.eq_iff_fields]

/-- A recording function returns `true` exactly when recording is in progress
and its render-pass guard lets the call through. -/
theorem record_result (cb : CommandBufferBase) (call : RecordCall) :
    (record cb call).1 =
      (cb.m_recording_in_progress && call.renderpass_guard cb.m_is_renderpass_active) := by
  cases hrp : cb.m_is_renderpass_active <;> cases hrec : cb.m_recording_in_progress <;>
  cases call <;>
  simp [record, record_begin_query, record_bind_descriptor_sets, record_bind_index_buffer,
    record_bind_pipeline, record_bind_vertex_buffers, record_blit_image, record_clear_attachments,
    record_clear_color_image, record_clear_depth_stencil_image, record_copy_buffer,
    record_copy_buffer_to_image, record_copy_image, record_copy_image_to_buffer,
    record_copy_query_pool_results, record_dispatch, record_dispatch_indirect, record_draw,
    record_draw_indexed, record_draw_indexed_indirect, record_draw_indexed_indirect_count_AMD,
    record_draw_indirect, record_draw_indirect_count_AMD, record_end_query, record_fill_buffer,
    record_pipeline_barrier, record_push_constants, record_reset_event, record_reset_query_pool,
    record_resolve_image, record_set_blend_constants, record_set_depth_bias,
    record_set_depth_bounds, record_set_event, record_set_line_width, record_set_scissor,
    record_set_stencil_compare_mask, record_set_stencil_reference, record_set_stencil_write_mask,
    record_set_viewport, record_update_buffer, record_wait_events, record_write_timestamp,
    record_begin_render_pass, record_end_render_pass, record_execute_commands,
    record_next_subpass, hrec, hrp, RecordCall.renderpass_guard, RecordCall.requirement]

/-- A recording function that returns `false` on arguments within capacity has
changed nothing but the count of failed assertions. -/
theorem record_failed_untouched (cb : CommandBufferBase) (call : RecordCall)
    (h : (record cb call).1 = false) (hc : call.within_capacity) :
    cb.untouched (record cb call).2 := by
  rw [record_result] at h
  revert h
  cases hrp : cb.m_is_renderpass_active <;> cases hrec : cb.m_recording_in_progress <;>
  cases call <;>
  simp [record, record_begin_query, record_bind_descriptor_sets, record_bind_index_buffer,
    record_bind_pipeline, record_bind_vertex_buffers, record_blit_image, record_clear_attachments,
    record_clear_color_image, record_clear_depth_stencil_image, record_copy_buffer,
    record_copy_buffer_to_image, record_copy_image, record_copy_image_to_buffer,
    record_copy_query_pool_results, record_dispatch, record_dispatch_indirect, record_draw,
    record_draw_indexed, record_draw_indexed_indirect, record_draw_indexed_indirect_count_AMD,
    record_draw_indirect, record_draw_indirect_count_AMD, record_end_query, record_fill_buffer,
    record_pipeline_barrier, record_push_constants, record_reset_event, record_reset_query_pool,
    record_resolve_image, record_set_blend_constants, record_set_depth_bias,
    record_set_depth_bounds, record_set_event, record_set_line_width, record_set_scissor,
    record_set_stencil_compare_mask, record_set_stencil_reference, record_set_stencil_write_mask,
    record_set_viewport, record_update_buffer, record_wait_events, record_write_timestamp,
    record_begin_render_pass, record_end_render_pass, record_execute_commands,
    record_next_subpass, hrec, hrp, RecordCall.renderpass_guard, RecordCall.requirement,
    RecordCall.within_capacity, untouched, CommandBufferBase.eq_iff_fields] at hc ⊢ <;> omega

/-- No recording function changes `m_recording_in_progress`. -/
theorem record_recording_in_progress (cb : CommandBufferBase) (call : RecordCall) :
    (record cb call).2.m_recording_in_progress = cb.m_recording_in_progress := by
  cases hrp : cb.m_is_renderpass_active <;> cases hrec : cb.m_recording_in_progress <;>
  cases call <;>
  simp [record, record_begin_query, record_bind_descriptor_sets, record_bind_index_buffer,
    record_bind_pipeline, record_bind_vertex_buffers, record_blit_image, record_clear_attachments,
    record_clear_color_image, record_clear_depth_stencil_image, record_copy_buffer,
    record_copy_buffer_to_image, record_copy_image, record_copy_image_to_buffer,
    record_copy_query_pool_results, record_dispatch, record_dispatch_indirect, record_draw,
    record_draw_indexed, record_draw_indexed_indirect, record_draw_indexed_indirect_count_AMD,
    record_draw_indirect, record_draw_indirect_count_AMD, record_end_query, record_fill_buffer,
    record_pipeline_barrier, record_push_constants, record_reset_event, record_reset_query_pool,
    record_resolve_image, record_set_blend_constants, record_set_depth_bias,
    record_set_depth_bounds, record_set_event, record_set_line_width, record_set_scissor,
    record_set_stencil_compare_mask, record_set_stencil_reference, record_set_stencil_write_mask,
    record_set_viewport, record_update_buffer, record_wait_events, record_write_timestamp,
    record_begin_render_pass, record_end_render_pass, record_execute_commands,
    record_next_subpass, hrec, hrp, get_n_of_callback_subscribers] <;> split <;> simp [hrec]

/-- On arguments within capacity no recording function stores past the end of
a local array. -/
theorem record_out_of_bounds_writes (cb : CommandBufferBase) (call : RecordCall)
    (hc : call.within_capacity) :
    (record cb call).2.out_of_bounds_writes = cb.out_of_bounds_writes := by
  cases hrp : cb.m_is_renderpass_active <;> cases hrec : cb.m_recording_in_progress <;>
  cases call <;>
  simp [record, record_begin_query, record_bind_descriptor_sets, record_bind_index_buffer,
    record_bind_pipeline, record_bind_vertex_buffers, record_blit_image, record_clear_attachments,
    record_clear_color_image, record_clear_depth_stencil_image, record_copy_buffer,
    record_copy_buffer_to_image, record_copy_image, record_copy_image_to_buffer,
    record_copy_query_pool_results, record_dispatch, record_dispatch_indirect, record_draw,
    record_draw_indexed, record_draw_indexed_indirect, record_draw_indexed_indirect_count_AMD,
    record_draw_indirect, record_draw_indirect_count_AMD, record_end_query, record_fill_buffer,
    record_pipeline_barrier, record_push_constants, record_reset_event, record_reset_query_pool,
    record_resolve_image, record_set_blend_constants, record_set_depth_bias,
    record_set_depth_bounds, record_set_event, record_set_line_width, record_set_scissor,
    record_set_stencil_compare_mask, record_set_stencil_reference, record_set_stencil_write_mask,
    record_set_viewport, record_update_buffer, record_wait_events, record_write_timestamp,
    record_begin_render_pass, record_end_render_pass, record_execute_commands,
    record_next_subpass, hrec, hrp, RecordCall.within_capacity] at hc ⊢ <;>
  first
  | omega
  | (split_ifs <;> simp_all)

/-- A call made while not recording, that is not a successful
`start_recording`, leaves the buffer not recording; if it is a `record_*` call
it returns `false`. -/
theorem apply_not_recording (cb : CommandBufferBase) (call : ApiCall)
    (h : cb.m_recording_in_progress = false)
    (hstart : call.is_start_recording = true → (call.apply cb).1 = false) :
    (call.apply cb).2.m_recording_in_progress = false ∧
    (call.is_record = true → (call.apply cb).1 = false) := by
  cases call with
  | record c =>
    simp [ApiCall.apply, record_recording_in_progress, record_result, h]
  | primary_start_recording a b ok =>
    cases ok <;>
    simp_all [ApiCall.apply, ApiCall.is_start_recording, ApiCall.is_record,
      PrimaryCommandBuffer.start_recording]
  | secondary_start_recording a b c d e f g i ok =>
    cases ok <;>
    simp_all [ApiCall.apply, ApiCall.is_start_recording, ApiCall.is_record,
      SecondaryCommandBuffer.start_recording]
  | stop_recording ok =>
    simp [ApiCall.apply, ApiCall.is_record, stop_recording, h]
  | reset a ok =>
    cases ok <;> simp [ApiCall.apply, ApiCall.is_record, reset, h]

/-- In a sequence of calls that starts while not recording and in which no
`start_recording` succeeds, every `record_*` call returns `false`. -/
theorem run_not_recording (calls : List ApiCall) :
    ∀ cb : CommandBufferBase, cb.m_recording_in_progress = false →
    (∀ p ∈ calls.zip (run cb calls).1, p.1.is_start_recording = true → p.2 = false) →
    ∀ p ∈ calls.zip (run cb calls).1, p.1.is_record = true → p.2 = false := by
  induction calls with
  | nil => intro cb _ _ p hp; simp [run] at hp
  | cons call calls ih =>
    intro cb h hs p hp hrec
    simp only [run, List.zip_cons_cons, List.mem_cons] at hp hs
    have hhead := apply_not_recording cb call h
      (fun hst => hs (call, (call.apply cb).1) (Or.inl rfl) hst)
    rcases hp with rfl | hp
    · exact hhead.2 hrec
    · exact ih (call.apply cb).2 hhead.1 (fun q hq => hs q (Or.inr hq)) p hp hrec

/-- A recording function that returns `true` appends its descriptor to the
journal when stashing is enabled; otherwise the journal is as it was. -/
theorem record_m_commands (cb : CommandBufferBase) (call : RecordCall) :
    (record cb call).2.m_commands =
      if (record cb call).1 = true ∧ cb.m_command_stashing_disabled = false then
        cb.m_commands ++ [call.command]
      else cb.m_commands := by
  rw [record_result]
  cases hrp : cb.m_is_renderpass_active <;> cases hrec : cb.m_recording_in_progress <;>
  cases hst : cb.m_command_stashing_disabled <;> cases call <;>
  simp [record, record_begin_query, record_bind_descriptor_sets, record_bind_index_buffer,
    record_bind_pipeline, record_bind_vertex_buffers, record_blit_image, record_clear_attachments,
    record_clear_color_image, record_clear_depth_stencil_image, record_copy_buffer,
    record_copy_buffer_to_image, record_copy_image, record_copy_image_to_buffer,
    record_copy_query_pool_results, record_dispatch, record_dispatch_indirect, record_draw,
    record_draw_indexed, record_draw_indexed_indirect, record_draw_indexed_indirect_count_AMD,
    record_draw_indirect, record_draw_indirect_count_AMD, record_end_query, record_fill_buffer,
    record_pipeline_barrier, record_push_constants, record_reset_event, record_reset_query_pool,
    record_resolve_image, record_set_blend_constants, record_set_depth_bias,
    record_set_depth_bounds, record_set_event, record_set_line_width, record_set_scissor,
    record_set_stencil_compare_mask, record_set_stencil_reference, record_set_stencil_write_mask,
    record_set_viewport, record_update_buffer, record_wait_events, record_write_timestamp,
    record_begin_render_pass, record_end_render_pass, record_execute_commands,
    record_next_subpass, hrec, hrp, hst, RecordCall.renderpass_guard, RecordCall.requirement,
    RecordCall.command, get_n_of_callback_subscribers] <;>
  split_ifs <;> simp_all

/-- A recording function that returns `true` issues exactly its native call;
one that returns `false` issues none. -/
theorem record_vk_calls (cb : CommandBufferBase) (call : RecordCall) :
    (record cb call).2.vk_calls =
      if (record cb call).1 = true then cb.vk_calls ++ [call.vk_call cb.m_device_ptr]
      else cb.vk_calls := by
  rw [record_result]
  cases hrp : cb.m_is_renderpass_active <;> cases hrec : cb.m_recording_in_progress <;>
  cases call <;>
  simp [record, record_begin_query, record_bind_descriptor_sets, record_bind_index_buffer,
    record_bind_pipeline, record_bind_vertex_buffers, record_blit_image, record_clear_attachments,
    record_clear_color_image, record_clear_depth_stencil_image, record_copy_buffer,
    record_copy_buffer_to_image, record_copy_image, record_copy_image_to_buffer,
    record_copy_query_pool_results, record_dispatch, record_dispatch_indirect, record_draw,
    record_draw_indexed, record_draw_indexed_indirect, record_draw_indexed_indirect_count_AMD,
    record_draw_indirect, record_draw_indirect_count_AMD, record_end_query, record_fill_buffer,
    record_pipeline_barrier, record_push_constants, record_reset_event, record_reset_query_pool,
    record_resolve_image, record_set_blend_constants, record_set_depth_bias,
    record_set_depth_bounds, record_set_event, record_set_line_width, record_set_scissor,
    record_set_stencil_compare_mask, record_set_stencil_reference, record_set_stencil_write_mask,
    record_set_viewport, record_update_buffer, record_wait_events, record_write_timestamp,
    record_begin_render_pass, record_end_render_pass, record_execute_commands,
    record_next_subpass, hrec, hrp, RecordCall.renderpass_guard, RecordCall.requirement,
    RecordCall.vk_call, get_n_of_callback_subscribers] <;>
  split_ifs <;> simp_all

/-- Only a render-pass bracket that returns `true` changes
`m_is_renderpass_active`. -/
theorem record_m_is_renderpass_active (cb : CommandBufferBase) (call : RecordCall) :
    (record cb call).2.m_is_renderpass_active =
      if (record cb call).1 = true then call.renderpass_after cb.m_is_renderpass_active
      else cb.m_is_renderpass_active := by
  rw [record_result]
  cases hrp : cb.m_is_renderpass_active <;> cases hrec : cb.m_recording_in_progress <;>
  cases call <;>
  simp [record, record_begin_query, record_bind_descriptor_sets, record_bind_index_buffer,
    record_bind_pipeline, record_bind_vertex_buffers, record_blit_image, record_clear_attachments,
    record_clear_color_image, record_clear_depth_stencil_image, record_copy_buffer,
    record_copy_buffer_to_image, record_copy_image, record_copy_image_to_buffer,
    record_copy_query_pool_results, record_dispatch, record_dispatch_indirect, record_draw,
    record_draw_indexed, record_draw_indexed_indirect, record_draw_indexed_indirect_count_AMD,
    record_draw_indirect, record_draw_indirect_count_AMD, record_end_query, record_fill_buffer,
    record_pipeline_barrier, record_push_constants, record_reset_event, record_reset_query_pool,
    record_resolve_image, record_set_blend_constants, record_set_depth_bias,
    record_set_depth_bounds, record_set_event, record_set_line_width, record_set_scissor,
    record_set_stencil_compare_mask, record_set_stencil_reference, record_set_stencil_write_mask,
    record_set_viewport, record_update_buffer, record_wait_events, record_write_timestamp,
    record_begin_render_pass, record_end_render_pass, record_execute_commands,
    record_next_subpass, hrec, hrp, RecordCall.renderpass_guard, RecordCall.requirement,
    RecordCall.renderpass_after, get_n_of_callback_subscribers] <;>
  split_ifs <;> simp_all

/-- No recording function changes the device, the stashing flag or the list of
subscribers. -/
theorem record_configuration (cb : CommandBufferBase) (call : RecordCall) :
    (record cb call).2.m_device_ptr = cb.m_device_ptr ∧
    (record cb call).2.m_command_stashing_disabled = cb.m_command_stashing_disabled ∧
    (record cb call).2.m_callbacks = cb.m_callbacks := by
  cases hrp : cb.m_is_renderpass_active <;> cases hrec : cb.m_recording_in_progress <;>
  cases call <;>
  simp [record, record_begin_query, record_bind_descriptor_sets, record_bind_index_buffer,
    record_bind_pipeline, record_bind_vertex_buffers, record_blit_image, record_clear_attachments,
    record_clear_color_image, record_clear_depth_stencil_image, record_copy_buffer,
    record_copy_buffer_to_image, record_copy_image, record_copy_image_to_buffer,
    record_copy_query_pool_results, record_dispatch, record_dispatch_indirect, record_draw,
    record_draw_indexed, record_draw_indexed_indirect, record_draw_indexed_indirect_count_AMD,
    record_draw_indirect, record_draw_indirect_count_AMD, record_end_query, record_fill_buffer,
    record_pipeline_barrier, record_push_constants, record_reset_event, record_reset_query_pool,
    record_resolve_image, record_set_blend_constants, record_set_depth_bias,
    record_set_depth_bounds, record_set_event, record_set_line_width, record_set_scissor,
    record_set_stencil_compare_mask, record_set_stencil_reference, record_set_stencil_write_mask,
    record_set_viewport, record_update_buffer, record_wait_events, record_write_timestamp,
    record_begin_render_pass, record_end_render_pass, record_execute_commands,
    record_next_subpass, hrec, hrp, get_n_of_callback_subscribers] <;>
  split_ifs <;> simp_all

/-- The descriptor of a recording function carries the tag of its operation. -/
theorem RecordCall.command_type_eq (call : RecordCall) :
    call.command.type = call.command_type := by
  cases call <;> rfl

/-- The native call of a recording function is the entry point of its
operation. -/
theorem RecordCall.vk_call_command_type (device : Device) (call : RecordCall) :
    (call.vk_call device).command_type = some call.command_type := by
  cases call <;> rfl

theorem record_all_nil (cb : CommandBufferBase) : record_all cb [] = ([], cb) := rfl

theorem record_all_cons (cb : CommandBufferBase) (call : RecordCall) (calls : List RecordCall) :
    record_all cb (call :: calls) =
      ((record cb call).1 :: (record_all (record cb call).2 calls).1,
        (record_all (record cb call).2 calls).2) := rfl

/-- The journal after a sequence of recording calls, stashing enabled: the
journal before, followed by the descriptors of the calls that returned `true`,
in call order. -/
theorem record_all_m_commands (calls : List RecordCall) :
    ∀ cb : CommandBufferBase, cb.m_command_stashing_disabled = false →
    (record_all cb calls).2.m_commands =
      cb.m_commands ++
        (successful_calls calls (record_all cb calls).1).map RecordCall.command := by
  induction calls with
  | nil => intro cb _; simp [record_all_nil, successful_calls]
  | cons call calls ih =>
    intro cb h
    have hst : (record cb call).2.m_command_stashing_disabled = false := by
      rw [(record_configuration cb call).2.1, h]
    rw [record_all_cons]
    simp only [ih _ hst, record_m_commands, h]
    cases hres : (record cb call).1 <;> simp [successful_calls, hres]

/-- The native-call trace after a sequence of recording calls: the trace
before, followed by the native calls of the calls that returned `true`, in
call order. -/
theorem record_all_vk_calls (calls : List RecordCall) :
    ∀ cb : CommandBufferBase,
    (record_all cb calls).2.vk_calls =
      cb.vk_calls ++
        (successful_calls calls (record_all cb calls).1).map
          (RecordCall.vk_call cb.m_device_ptr) := by
  induction calls with
  | nil => intro cb; simp [record_all_nil, successful_calls]
  | cons call calls ih =>
    intro cb
    rw [record_all_cons]
    simp only [ih, record_vk_calls, (record_configuration cb call).1]
    cases hres : (record cb call).1 <;> simp [successful_calls, hres]

/-- A sequence of recording calls returns one result per call. -/
theorem record_all_length (calls : List RecordCall) :
    ∀ cb : CommandBufferBase, (record_all cb calls).1.length = calls.length := by
  induction calls with
  | nil => intro cb; rfl
  | cons call calls ih => intro cb; simp [record_all_cons, ih]

/-- A sequence of recording calls leaves `m_recording_in_progress` as it was. -/
theorem record_all_recording_in_progress (calls : List RecordCall) :
    ∀ cb : CommandBufferBase,
    (record_all cb calls).2.m_recording_in_progress = cb.m_recording_in_progress := by
  induction calls with
  | nil => intro cb; rfl
  | cons call calls ih => intro cb; simp [record_all_cons, ih, record_recording_in_progress]

/-- When every call of a sequence returned `true`, the successful calls are all
the calls. -/
theorem successful_calls_of_all_true (calls : List RecordCall) :
    ∀ results : List Bool, results.length = calls.length → (∀ r ∈ results, r = true) →
    successful_calls calls results = calls := by
  induction calls with
  | nil => intro results _ _; simp [successful_calls]
  | cons call calls ih =>
    intro results hlen hall
    cases results with
    | nil => simp at hlen
    | cons r results =>
      have hr : r = true := hall r (List.mem_cons_self _ _)
      have htail := ih results (by simpa using hlen)
        (fun x hx => hall x (List.mem_cons_of_mem _ hx))
      simp only [successful_calls] at htail ⊢
      simp [hr, htail]

/-- A successful `start_recording` leaves the buffer recording with an empty
journal, and the stashing flag as it was. -/
theorem start_recording_successful (cb : CommandBufferBase) (start : ApiCall)
    (hstart : start.is_start_recording = true) (hok : (start.apply cb).1 = true) :
    (start.apply cb).2.m_recording_in_progress = true ∧
    (start.apply cb).2.m_commands = [] ∧
    (start.apply cb).2.m_command_stashing_disabled = cb.m_command_stashing_disabled := by
  cases start with
  | record c => simp [ApiCall.is_start_recording] at hstart
  | stop_recording ok => simp [ApiCall.is_start_recording] at hstart
  | reset a ok => simp [ApiCall.is_start_recording] at hstart
  | primary_start_recording a b ok =>
    revert hok
    cases hrec : cb.m_recording_in_progress <;> cases ok <;>
    simp [ApiCall.apply, PrimaryCommandBuffer.start_recording, hrec]
  | secondary_start_recording a b c d e f g i ok =>
    revert hok
    cases hrec : cb.m_recording_in_progress <;> cases ok <;>
    simp [ApiCall.apply, SecondaryCommandBuffer.start_recording, hrec]

/-- One call made on two states that agree on the native recording path returns
the same result on both and leaves them in agreement. -/
theorem apply_same_native_path (a b : CommandBufferBase) (h : a.same_native_path b)
    (call : ApiCall) :
    (call.apply a).1 = (call.apply b).1 ∧
    (call.apply a).2.same_native_path (call.apply b).2 := by
  obtain ⟨hrec, hrp, hvk, hdev⟩ := h
  cases call with
  | record c =>
    have hres : (record a c).1 = (record b c).1 := by
      rw [record_result, record_result, hrec, hrp]
    refine ⟨hres, ?_, ?_, ?_, ?_⟩
    · simp [ApiCall.apply, record_recording_in_progress, hrec]
    · simp [ApiCall.apply, record_m_is_renderpass_active, hres, hrp]
    · simp [ApiCall.apply, record_vk_calls, hres, hvk, hdev]
    · simp [ApiCall.apply, (record_configuration a c).1, (record_configuration b c).1, hdev]
  | primary_start_recording x y ok =>
    cases hb : b.m_recording_in_progress <;> cases ok <;>
    simp [ApiCall.apply, PrimaryCommandBuffer.start_recording, same_native_path, hrec, hrp,
      hvk, hdev, hb]
  | secondary_start_recording x y z d e f g i ok =>
    cases hb : b.m_recording_in_progress <;> cases ok <;>
    simp [ApiCall.apply, SecondaryCommandBuffer.start_recording, same_native_path, hrec, hrp,
      hvk, hdev, hb]
  | stop_recording ok =>
    cases hb : b.m_recording_in_progress <;> cases ok <;>
    simp [ApiCall.apply, CommandBufferBase.stop_recording, same_native_path, hrec, hrp, hvk,
      hdev, hb]
  | reset x ok =>
    cases hb : b.m_recording_in_progress <;> cases ok <;>
    simp [ApiCall.apply, CommandBufferBase.reset, same_native_path, hrec, hrp, hvk, hdev, hb]

/-- A sequence of calls made on two states that agree on the native recording
path returns the same results on both and leaves them in agreement. -/
theorem run_same_native_path (calls : List ApiCall) :
    ∀ a b : CommandBufferBase, a.same_native_path b →
    (run a calls).1 = (run b calls).1 ∧ (run a calls).2.same_native_path (run b calls).2 := by
  induction calls with
  | nil => intro a b h; exact ⟨rfl, h⟩
  | cons call calls ih =>
    intro a b h
    have hstep := apply_same_native_path a b h call
    have htail := ih _ _ hstep.2
    simp only [run]
    exact ⟨by rw [hstep.1, htail.1], htail.2⟩

/-- With stashing disabled one call leaves stashing disabled and the journal
either as it was or empty. -/
theorem apply_stashing_disabled (cb : CommandBufferBase) (call : ApiCall)
    (h : cb.m_command_stashing_disabled = true) :
    (call.apply cb).2.m_command_stashing_disabled = true ∧
    ((call.apply cb).2.m_commands = cb.m_commands ∨ (call.apply cb).2.m_commands = []) := by
  cases call with
  | record c =>
    simp [ApiCall.apply, record_m_commands, (record_configuration cb c).2.1, h]
  | primary_start_recording x y ok =>
    cases hb : cb.m_recording_in_progress <;> cases ok <;>
    simp [ApiCall.apply, PrimaryCommandBuffer.start_recording, h, hb]
  | secondary_start_recording x y z d e f g i ok =>
    cases hb : cb.m_recording_in_progress <;> cases ok <;>
    simp [ApiCall.apply, SecondaryCommandBuffer.start_recording, h, hb]
  | stop_recording ok =>
    cases hb : cb.m_recording_in_progress <;> cases ok <;>
    simp [ApiCall.apply, CommandBufferBase.stop_recording, h, hb]
  | reset x ok =>
    cases hb : cb.m_recording_in_progress <;> cases ok <;>
    simp [ApiCall.apply, CommandBufferBase.reset, h, hb]

/-- With stashing disabled a sequence of calls leaves the journal either as it
was or empty. -/
theorem run_stashing_disabled (calls : List ApiCall) :
    ∀ cb : CommandBufferBase, cb.m_command_stashing_disabled = true →
    (run cb calls).2.m_commands = cb.m_commands ∨ (run cb calls).2.m_commands = [] := by
  induction calls with
  | nil => intro cb _; exact Or.inl rfl
  | cons call calls ih =>
    intro cb h
    have hstep := apply_stashing_disabled cb call h
    simp only [run]
    rcases ih _ hstep.1 with h1 | h1
    · rcases hstep.2 with h2 | h2
      · exact Or.inl (h1.trans h2)
      · exact Or.inr (h1.trans h2)
    · exact Or.inr h1

end General

/-! ## General facts about buffers -/

section BufferFacts

open CommandBufferBase PrimaryCommandBuffer

namespace DeviceState

@[simp] theorem device_anvil_assert_driver (d : DeviceState) (assertion : Bool) :
    (d.anvil_assert assertion).driver = d.driver := by
  unfold anvil_assert; split <;> rfl

@[simp] theorem device_log_driver (d : DeviceState) (event : DeviceEvent) :
    (d.log event).driver = d.driver := rfl

@[simp] theorem device_fresh_driver (d : DeviceState) : d.fresh.driver = d.driver := rfl

@[simp] theorem device_anvil_assert_device (d : DeviceState) (assertion : Bool) :
    (d.anvil_assert assertion).device = d.device := by
  unfold anvil_assert; split <;> rfl

@[simp] theorem device_log_device (d : DeviceState) (event : DeviceEvent) :
    (d.log event).device = d.device := rfl

@[simp] theorem device_fresh_device (d : DeviceState) : d.fresh.device = d.device := rfl

@[simp] theorem device_anvil_assert_m_command_stashing_disabled (d : DeviceState) (assertion : Bool) :
    (d.anvil_assert assertion).m_command_stashing_disabled = d.m_command_stashing_disabled := by
  unfold anvil_assert; split <;> rfl

@[simp] theorem device_log_m_command_stashing_disabled (d : DeviceState) (event : DeviceEvent) :
    (d.log event).m_command_stashing_disabled = d.m_command_stashing_disabled := rfl

@[simp] theorem device_fresh_m_command_stashing_disabled (d : DeviceState) :
    d.fresh.m_command_stashing_disabled =
      d.m_command_stashing_disabled := rfl

@[simp] theorem device_anvil_assert_memory (d : DeviceState) (assertion : Bool) :
    (d.anvil_assert assertion).memory = d.memory := by
  unfold anvil_assert; split <;> rfl

@[simp] theorem device_log_memory (d : DeviceState) (event : DeviceEvent) :
    (d.log event).memory = d.memory := rfl

@[simp] theorem device_fresh_memory (d : DeviceState) : d.fresh.memory = d.memory := rfl

@[simp] theorem device_anvil_assert_bound_memory (d : DeviceState) (assertion : Bool) :
    (d.anvil_assert assertion).bound_memory = d.bound_memory := by
  unfold anvil_assert; split <;> rfl

@[simp] theorem device_log_bound_memory (d : DeviceState) (event : DeviceEvent) :
    (d.log event).bound_memory = d.bound_memory := rfl

@[simp] theorem device_fresh_bound_memory (d : DeviceState) :
    d.fresh.bound_memory =
      d.bound_memory := rfl

@[simp] theorem device_anvil_assert_next_handle (d : DeviceState) (assertion : Bool) :
    (d.anvil_assert assertion).next_handle = d.next_handle := by
  unfold anvil_assert; split <;> rfl

@[simp] theorem device_log_next_handle (d : DeviceState) (event : DeviceEvent) :
    (d.log event).next_handle = d.next_handle := rfl

@[simp] theorem device_anvil_assert_events (d : DeviceState) (assertion : Bool) :
    (d.anvil_assert assertion).events = d.events := by
  unfold anvil_assert; split <;> rfl

@[simp] theorem device_fresh_events (d : DeviceState) : d.fresh.events = d.events := rfl

@[simp] theorem device_log_assertion_failures (d : DeviceState) (event : DeviceEvent) :
    (d.log event).assertion_failures = d.assertion_failures := rfl

@[simp] theorem device_fresh_assertion_failures (d : DeviceState) :
    d.fresh.assertion_failures =
      d.assertion_failures := rfl

@[simp] theorem device_anvil_assert_true (d : DeviceState) : d.anvil_assert true = d := rfl

@[simp] theorem device_log_events (d : DeviceState) (event : DeviceEvent) :
    (d.log event).events = d.events ++ [event] := rfl

@[simp] theorem device_fresh_next_handle (d : DeviceState) :
    d.fresh.next_handle = d.next_handle + 1 := rfl

end DeviceState

namespace Buffer

/-- On a buffer whose device pointer is empty `set_memory`, `read` and `write`
throw at their first statement. -/
theorem empty_device_pointer_faults (b : Buffer) (h : b.m_device_ptr = none) :
    (∀ (d : DeviceState) (memory_block_ptr : Option MemoryBlock),
      b.set_memory d memory_block_ptr = .faulted .bad_weak_ptr) ∧
    (∀ (fuel : Nat) (d : DeviceState) (start_offset size : VkDeviceSize),
      read (fuel + 1) b d start_offset size = some (.faulted .bad_weak_ptr)) ∧
    (∀ (fuel : Nat) (d : DeviceState) (start_offset size : VkDeviceSize) (data : List Nat),
      write (fuel + 1) b d start_offset size data = some (.faulted .bad_weak_ptr)) := by
  refine ⟨fun d region => ?_, fun fuel d start_offset size => ?_,
    fun fuel d start_offset size data => ?_⟩
  · simp [set_memory, h]
  · simp [read, h]
  · simp [write, h]

theorem set_memory_refused (b : Buffer) (d : DeviceState) (memory_block_ptr : Option MemoryBlock)
    (device_ptr : Device) (hdevice : b.m_device_ptr = some device_ptr)
    (h : memory_block_ptr = none ∨ b.m_memory_block_ptr.isSome = true) :
    b.set_memory d memory_block_ptr = .returned (false, b, d.anvil_assert false) := by
  cases memory_block_ptr with
  | none => simp [set_memory, hdevice]
  | some block =>
    rcases h with h | h
    · cases h
    · simp [set_memory, h, hdevice]

theorem set_memory_bound (b : Buffer) (d : DeviceState) (block : MemoryBlock)
    (device_ptr : Device) (hdevice : b.m_device_ptr = some device_ptr)
    (h : b.m_memory_block_ptr = none) :
    ∃ bound : Bool × Buffer × DeviceState,
      b.set_memory d (some block) = .returned bound ∧
      bound.1 = d.driver.vkBindBufferMemory_succeeds ∧
      bound.2.1 = { b with m_memory_block_ptr := some block } ∧
      bound.2.2.events =
        d.events ++ [.vkBindBufferMemory b.m_buffer block.m_memory block.m_start_offset] ∧
      bound.2.2.memory = d.memory ∧
      bound.2.2.driver = d.driver ∧
      bound.2.2.device = d.device ∧
      bound.2.2.m_command_stashing_disabled = d.m_command_stashing_disabled ∧
      bound.2.2.next_handle = d.next_handle ∧
      bound.2.2.bound_memory =
        if d.driver.vkBindBufferMemory_succeeds then
          Function.update d.bound_memory b.m_buffer (some (block.m_memory, block.m_start_offset))
        else d.bound_memory := by
  have heq : b.set_memory d (some block) = .returned
      ((d.vkBindBufferMemory b.m_buffer block.get_memory block.get_start_offset).1,
        { b with m_memory_block_ptr := some block },
        (d.vkBindBufferMemory b.m_buffer block.get_memory block.get_start_offset).2.anvil_assert
          (d.vkBindBufferMemory b.m_buffer block.get_memory block.get_start_offset).1) := by
    unfold set_memory
    split
    · rename_i hempty
      rw [hdevice] at hempty
      cases hempty
    · simp only [h, Option.isSome_none, Bool.false_eq_true, if_false]
  refine ⟨_, heq, ?_⟩
  cases hok : d.driver.vkBindBufferMemory_succeeds <;>
  simp [DeviceState.vkBindBufferMemory, hok, MemoryBlock.get_memory,
    MemoryBlock.get_start_offset]

theorem read_mappable (fuel : Nat) (b : Buffer) (d : DeviceState) (block : MemoryBlock)
    (start_offset size : VkDeviceSize) (device_ptr : Device)
    (hdevice : b.m_device_ptr = some device_ptr) (h : b.m_memory_block_ptr = some block)
    (hmap : block.m_is_mappable = true) :
    read (fuel + 1) b d start_offset size =
      some (.returned (block.read d.memory start_offset size, d)) := by
  simp [read, h, hmap, hdevice, MemoryBlock.is_mappable]

theorem write_mappable (fuel : Nat) (b : Buffer) (d : DeviceState) (block : MemoryBlock)
    (start_offset size : VkDeviceSize) (data : List Nat) (device_ptr : Device)
    (hdevice : b.m_device_ptr = some device_ptr) (h : b.m_memory_block_ptr = some block)
    (hmap : block.m_is_mappable = true) :
    write (fuel + 1) b d start_offset size data =
      some (.returned ((block.write d.memory start_offset size data).1,
        { d with memory := (block.write d.memory start_offset size data).2 })) := by
  simp [write, h, hmap, hdevice, MemoryBlock.is_mappable]

end Buffer

theorem has_flags_or_left (flags bits : VkFlags) : has_flags (flags ||| bits) flags := by
  unfold has_flags
  apply Nat.eq_of_testBit_eq
  intro i
  simp only [Nat.testBit_and, Nat.testBit_or]
  cases flags.testBit i <;> cases bits.testBit i <;> rfl

theorem has_flags_or_right (flags bits : VkFlags) : has_flags (flags ||| bits) bits := by
  unfold has_flags
  apply Nat.eq_of_testBit_eq
  intro i
  simp only [Nat.testBit_and, Nat.testBit_or]
  cases flags.testBit i <;> cases bits.testBit i <;> rfl

theorem has_flags_or_of_left (flags bits more : VkFlags) (h : has_flags flags bits) :
    has_flags (flags ||| more) bits := by
  unfold has_flags at *
  apply Nat.eq_of_testBit_eq
  intro i
  have hi := congrArg (fun n => n.testBit i) h
  simp only [Nat.testBit_and, Nat.testBit_or] at hi ⊢
  revert hi
  cases flags.testBit i <;> cases bits.testBit i <;> cases more.testBit i <;> simp



namespace DeviceState

theorem submit_command_buffer_frame (d : DeviceState) (queue : QueuePtr)
    (command_buffer : CommandBufferBase) (should_block : Bool) :
    (d.submit_command_buffer queue command_buffer should_block).driver = d.driver ∧
    (d.submit_command_buffer queue command_buffer should_block).device = d.device ∧
    (d.submit_command_buffer queue command_buffer should_block).m_command_stashing_disabled =
      d.m_command_stashing_disabled ∧
    (d.submit_command_buffer queue command_buffer should_block).bound_memory = d.bound_memory ∧
    (d.submit_command_buffer queue command_buffer should_block).next_handle = d.next_handle ∧
    (d.submit_command_buffer queue command_buffer should_block).events =
      d.events ++ [.submit_command_buffer queue command_buffer should_block] := by
  unfold submit_command_buffer
  simp only
  split <;> simp

end DeviceState

theorem destroy_calls_append (a b : List DeviceEvent) :
    destroy_calls (a ++ b) = destroy_calls a ++ destroy_calls b := by
  simp [destroy_calls, List.filterMap_append]

/-- The destructor calls `vkDestroyBuffer` on the buffer's handle when the
handle is not null and the buffer has no parent, and does nothing otherwise. -/
theorem Buffer.destructor_eq (b : Buffer) (d : DeviceState) :
    b.destructor d =
      if b.m_buffer ≠ 0 ∧ b.m_parent_buffer_ptr.isNone = true then
        d.log (.vkDestroyBuffer b.m_buffer)
      else d := by
  unfold Buffer.destructor DeviceState.vkDestroyBuffer
  by_cases h0 : b.m_buffer = 0 <;> cases hp : b.m_parent_buffer_ptr <;> simp [h0]

/-- Destroying buffers that have a parent leaves the device as it was. -/
theorem Buffer.destructor_views (views : List Buffer) (d : DeviceState)
    (hviews : ∀ v ∈ views, v.m_parent_buffer_ptr.isSome = true) :
    views.foldl (fun s v => v.destructor s) d = d := by
  induction views generalizing d with
  | nil => rfl
  | cons v rest ih =>
      have hv : v.m_parent_buffer_ptr.isSome = true := hviews v (List.mem_cons_self _ _)
      have hstep : v.destructor d = d := by
        rw [Buffer.destructor_eq]
        cases hp : v.m_parent_buffer_ptr with
        | none => rw [hp] at hv; exact absurd hv (by decide)
        | some parent => simp
      rw [List.foldl_cons, hstep]
      exact ih d (fun w hw => hviews w (List.mem_cons_of_mem _ hw))

/-- What `std::find` returns in `register_device` and `unregister_device`. -/
theorem PhysicalDevice.find_eq (p : PhysicalDevice) (device_ptr : DevicePtr) :
    p.find device_ptr =
      if device_ptr ∈ p.m_cached_devices then some (p.m_cached_devices.indexOf device_ptr)
      else none := by
  unfold PhysicalDevice.find
  simp only [List.indexOf_lt_length]

theorem PhysicalDevice.register_device_eq (p : PhysicalDevice) (device_ptr : DevicePtr) :
    p.register_device device_ptr =
      if device_ptr ∈ p.m_cached_devices then
        { p with assertion_failures := p.assertion_failures + 1 }
      else { p with m_cached_devices := p.m_cached_devices ++ [device_ptr] } := by
  unfold PhysicalDevice.register_device
  rw [PhysicalDevice.find_eq]
  by_cases h : device_ptr ∈ p.m_cached_devices <;> simp [h, PhysicalDevice.anvil_assert]

theorem PhysicalDevice.unregister_device_eq (p : PhysicalDevice) (device_ptr : DevicePtr) :
    p.unregister_device device_ptr =
      if device_ptr ∈ p.m_cached_devices then
        { p with m_cached_devices := p.m_cached_devices.erase device_ptr }
      else { p with assertion_failures := p.assertion_failures + 1 } := by
  unfold PhysicalDevice.unregister_device
  rw [PhysicalDevice.find_eq]
  by_cases h : device_ptr ∈ p.m_cached_devices <;>
  simp [h, PhysicalDevice.anvil_assert, List.eraseIdx_indexOf_eq_erase]

namespace Buffer

theorem convert_queue_family_bits_to_family_indices_frame (d : DeviceState)
    (queue_families : QueueFamilyBits) :
    (convert_queue_family_bits_to_family_indices d queue_families).2.driver = d.driver ∧
    (convert_queue_family_bits_to_family_indices d queue_families).2.device = d.device ∧
    (convert_queue_family_bits_to_family_indices d queue_families).2.m_command_stashing_disabled =
      d.m_command_stashing_disabled ∧
    (convert_queue_family_bits_to_family_indices d queue_families).2.memory = d.memory ∧
    (convert_queue_family_bits_to_family_indices d queue_families).2.bound_memory =
      d.bound_memory ∧
    (convert_queue_family_bits_to_family_indices d queue_families).2.next_handle =
      d.next_handle ∧
    (convert_queue_family_bits_to_family_indices d queue_families).2.events = d.events := by
  unfold convert_queue_family_bits_to_family_indices
  simp only
  split_ifs <;> simp

theorem create_buffer_frame (b : Buffer) (d : DeviceState) (queue_families : QueueFamilyBits)
    (sharing_mode : VkEnum) (size : VkDeviceSize) :
    (b.create_buffer d queue_families sharing_mode size).2.driver = d.driver ∧
    (b.create_buffer d queue_families sharing_mode size).2.device = d.device ∧
    (b.create_buffer d queue_families sharing_mode size).2.m_command_stashing_disabled =
      d.m_command_stashing_disabled ∧
    (b.create_buffer d queue_families sharing_mode size).2.memory = d.memory ∧
    (b.create_buffer d queue_families sharing_mode size).2.bound_memory = d.bound_memory ∧
    (b.create_buffer d queue_families sharing_mode size).1.m_memory_block_ptr =
      b.m_memory_block_ptr ∧
    (b.create_buffer d queue_families sharing_mode size).1.m_buffer_memory_reqs =
      d.driver.memory_requirements size ∧
    (b.create_buffer d queue_families sharing_mode size).1.m_usage_flags = b.m_usage_flags ∧
    (b.create_buffer d queue_families sharing_mode size).1.m_buffer_size = b.m_buffer_size ∧
    (b.create_buffer d queue_families sharing_mode size).1.object = b.object ∧
    (b.create_buffer d queue_families sharing_mode size).1.m_parent_buffer_ptr =
      b.m_parent_buffer_ptr ∧
    (b.create_buffer d queue_families sharing_mode size).1.m_start_offset = b.m_start_offset ∧
    (b.create_buffer d queue_families sharing_mode size).1.m_device_ptr = b.m_device_ptr := by
  obtain ⟨h1, h2, h3, h4, h5, h6, h7⟩ :=
    convert_queue_family_bits_to_family_indices_frame d queue_families
  cases hok : d.driver.vkCreateBuffer_succeeds <;>
  simp [create_buffer, DeviceState.vkCreateBuffer, h1, h2, h3, h4, h5, h6, h7, hok]

theorem create_buffer_created (b : Buffer) (d : DeviceState) (queue_families : QueueFamilyBits)
    (sharing_mode : VkEnum) (size : VkDeviceSize)
    (hok : d.driver.vkCreateBuffer_succeeds = true) :
    (b.create_buffer d queue_families sharing_mode size).1.m_buffer = d.next_handle ∧
    (b.create_buffer d queue_families sharing_mode size).2.next_handle = d.next_handle + 1 := by
  obtain ⟨h1, h2, h3, h4, h5, h6, h7⟩ :=
    convert_queue_family_bits_to_family_indices_frame d queue_families
  simp [create_buffer, DeviceState.vkCreateBuffer, h1, h6, hok]

/-- The queue family indices of the staging buffer: the one index of the
family whose pool and queue the staging path uses. -/
theorem convert_staging_buffer_queue_fam_bits (d other : DeviceState) :
    (convert_queue_family_bits_to_family_indices other d.staging_buffer_queue_fam_bits).1 =
      [other.driver.queue_family_index d.staging_buffer_queue_fam_type] := by
  unfold convert_queue_family_bits_to_family_indices DeviceState.staging_buffer_queue_fam_bits
    DeviceState.staging_buffer_queue_fam_type
  have e1 : QUEUE_FAMILY_DMA_BIT &&& QUEUE_FAMILY_COMPUTE_BIT = 0 := by decide
  have e2 : QUEUE_FAMILY_DMA_BIT &&& QUEUE_FAMILY_DMA_BIT ≠ 0 := by decide
  have e3 : QUEUE_FAMILY_DMA_BIT &&& QUEUE_FAMILY_GRAPHICS_BIT = 0 := by decide
  have e4 : QUEUE_FAMILY_GRAPHICS_BIT &&& QUEUE_FAMILY_COMPUTE_BIT = 0 := by decide
  have e5 : QUEUE_FAMILY_GRAPHICS_BIT &&& QUEUE_FAMILY_DMA_BIT = 0 := by decide
  have e6 : QUEUE_FAMILY_GRAPHICS_BIT &&& QUEUE_FAMILY_GRAPHICS_BIT ≠ 0 := by decide
  have e7 : QUEUE_FAMILY_DMA_BIT ≠ 0 := by decide
  have e8 : QUEUE_FAMILY_GRAPHICS_BIT ≠ 0 := by decide
  by_cases h : d.driver.n_transfer_queues > 0 <;>
  simp [h, e1, e2, e3, e4, e5, e6, e7, e8]

/-- The one call `create_buffer` adds to the trace. -/
theorem create_buffer_events (b : Buffer) (d : DeviceState) (queue_families : QueueFamilyBits)
    (sharing_mode : VkEnum) (size : VkDeviceSize) :
    (b.create_buffer d queue_families sharing_mode size).2.events = d.events ++
      [.vkCreateBuffer
        { flags := 0,
          pQueueFamilyIndices := (convert_queue_family_bits_to_family_indices d queue_families).1,
          queueFamilyIndexCount :=
            (convert_queue_family_bits_to_family_indices d queue_families).1.length,
          sharingMode := sharing_mode, size := size, usage := b.m_usage_flags }
        (b.create_buffer d queue_families sharing_mode size).1.m_buffer] ∧
    (b.create_buffer d queue_families sharing_mode size).2.next_handle ≤ d.next_handle + 1 := by
  obtain ⟨h1, h2, h3, h4, h5, h6, h7⟩ :=
    convert_queue_family_bits_to_family_indices_frame d queue_families
  cases hok : d.driver.vkCreateBuffer_succeeds <;>
  simp [create_buffer, DeviceState.vkCreateBuffer, h1, h6, h7, hok]

/-- The steps of the second overload of `create` up to `set_memory`, for
mappable memory: `set_memory` returns, and the buffer ends up holding the
mappable block that was allocated for it. -/
theorem create_with_memory_steps (d : DeviceState) (size : VkDeviceSize)
    (queue_families : QueueFamilyBits) (sharing : VkEnum) (usage : VkFlags) (coherent : Bool)
    (opt_client_data : Option (List Nat)) (constructed initialized : Buffer × DeviceState)
    (allocated : MemoryBlock × DeviceState)
    (hconstructed : constructed = construct_with_memory d.fresh d.next_handle d.device size
      queue_families sharing usage true coherent opt_client_data)
    (hinitialized : initialized =
      constructed.1.create_buffer constructed.2 queue_families sharing size)
    (hallocated : allocated = initialized.2.memory_block_create
      initialized.1.m_buffer_memory_reqs.memoryTypeBits initialized.1.m_buffer_memory_reqs.size
      true coherent) :
    ∃ bound : Bool × Buffer × DeviceState,
    initialized.1.set_memory allocated.2 (some allocated.1) = .returned bound ∧
    bound.2.1.m_memory_block_ptr = some allocated.1 ∧ allocated.1.m_is_mappable = true ∧
    allocated.1.m_start_offset = 0 ∧
    allocated.1.m_size = (d.driver.memory_requirements size).size ∧
    bound.2.1.object = d.next_handle ∧
    bound.2.2.driver = d.driver ∧ bound.2.2.device = d.device ∧
    bound.2.2.m_command_stashing_disabled = d.m_command_stashing_disabled ∧
    (d.driver.vkCreateBuffer_succeeds = true →
      bound.2.1.m_buffer = d.next_handle + 1 ∧ allocated.1.m_memory = d.next_handle + 2 ∧
      bound.2.2.next_handle = d.next_handle + 3 ∧
      bound.2.2.memory =
        Function.update d.memory (d.next_handle + 2) (List.replicate allocated.1.m_size 0) ∧
      (d.driver.vkBindBufferMemory_succeeds = true →
        bound.2.2.bound_memory = Function.update d.bound_memory (d.next_handle + 1)
          (some (d.next_handle + 2, 0)))) ∧
    bound.2.1.m_device_ptr = some d.device ∧
    allocated.1.m_is_coherent = coherent ∧ bound.2.1.m_buffer_size = size ∧
    bound.2.1.m_parent_buffer_ptr = none ∧
    bound.2.2.events = d.events ++
      [.vkCreateBuffer
        { flags := 0,
          pQueueFamilyIndices :=
            (convert_queue_family_bits_to_family_indices d.fresh queue_families).1,
          queueFamilyIndexCount :=
            (convert_queue_family_bits_to_family_indices d.fresh queue_families).1.length,
          sharingMode := sharing, size := size, usage := usage }
        bound.2.1.m_buffer,
       .memory_block_create allocated.1,
       .vkBindBufferMemory bound.2.1.m_buffer allocated.1.m_memory 0] := by
  have hc1 : constructed.1.m_memory_block_ptr = none := by
    rw [hconstructed]; simp [construct_with_memory]
  have hc2 : constructed.2 = d.fresh := by rw [hconstructed]; simp [construct_with_memory]
  have hc3 : constructed.1.object = d.next_handle := by
    rw [hconstructed]; simp [construct_with_memory]
  have hc4 : constructed.1.m_usage_flags = usage := by
    rw [hconstructed]; simp [construct_with_memory]
  have hc5 : constructed.1.m_buffer_size = size := by
    rw [hconstructed]; simp [construct_with_memory]
  have hc6 : constructed.1.m_parent_buffer_ptr = none := by
    rw [hconstructed]; simp [construct_with_memory]
  have hc7 : constructed.1.m_device_ptr = some d.device := by
    rw [hconstructed]; simp [construct_with_memory]
  obtain ⟨hi1, hi2, hi3, hi4, hi5, hi6, hi7, hi8, hi9, hi10, hi11, hi12, hi13⟩ :=
    create_buffer_frame constructed.1 constructed.2 queue_families sharing size
  obtain ⟨he, _⟩ := create_buffer_events constructed.1 constructed.2 queue_families sharing size
  rw [← hinitialized] at hi1 hi2 hi3 hi4 hi5 hi6 hi7 hi8 hi9 hi10 hi11 hi12 hi13 he
  rw [hc2, hc4] at he
  have ha1 : allocated.1.m_memory = initialized.2.next_handle := by rw [hallocated]; rfl
  have ha8 : allocated.1.m_start_offset = 0 := by rw [hallocated]; rfl
  have ha9 : allocated.1.m_size = initialized.1.m_buffer_memory_reqs.size := by
    rw [hallocated]; rfl
  have ha10 : allocated.1.m_is_mappable = true := by rw [hallocated]; rfl
  have ha11 : allocated.1.m_is_coherent = coherent := by rw [hallocated]; rfl
  have ha12 : allocated.2.events =
      initialized.2.events ++ [.memory_block_create allocated.1] := by
    rw [hallocated]; rfl
  have ha2 : allocated.2.driver = initialized.2.driver := by rw [hallocated]; rfl
  have ha3 : allocated.2.device = initialized.2.device := by rw [hallocated]; rfl
  have ha4 : allocated.2.m_command_stashing_disabled =
      initialized.2.m_command_stashing_disabled := by rw [hallocated]; rfl
  have ha5 : allocated.2.bound_memory = initialized.2.bound_memory := by rw [hallocated]; rfl
  have ha6 : allocated.2.next_handle = initialized.2.next_handle + 1 := by
    rw [hallocated]; rfl
  have ha7 : allocated.2.memory = Function.update initialized.2.memory initialized.2.next_handle
      (List.replicate initialized.1.m_buffer_memory_reqs.size 0) := by rw [hallocated]; rfl
  have hnone : initialized.1.m_memory_block_ptr = none := by rw [hi6, hc1]
  have hdevice : initialized.1.m_device_ptr = some d.device := by rw [hi13, hc7]
  obtain ⟨bound, hbound, hb1, hb2, hb3, hb4, hb5, hb6, hb7, hb8, hb9⟩ :=
    set_memory_bound initialized.1 allocated.2 allocated.1 d.device hdevice hnone
  have hsize : allocated.1.m_size = (d.driver.memory_requirements size).size := by
    rw [ha9, hi7, hc2]; rfl
  refine ⟨bound, hbound, by rw [hb2], ha10, ha8, hsize, by rw [hb2]; exact hi10.trans hc3,
    by rw [hb5, ha2, hi1, hc2]; rfl, by rw [hb6, ha3, hi2, hc2]; rfl,
    by rw [hb7, ha4, hi3, hc2]; rfl, fun hok => ?_, by rw [hb2]; exact hdevice, ha11,
    by rw [hb2]; exact hi9.trans hc5, by rw [hb2]; exact hi11.trans hc6, ?_⟩
  · have hok2 : constructed.2.driver.vkCreateBuffer_succeeds = true := by rw [hc2]; exact hok
    obtain ⟨hh1, hh2⟩ := create_buffer_created constructed.1 constructed.2 queue_families
      sharing size hok2
    rw [← hinitialized, hc2] at hh1 hh2
    simp only [DeviceState.device_fresh_next_handle] at hh1 hh2
    have hmem : allocated.1.m_memory = d.next_handle + 2 := by rw [ha1]; exact hh2
    have hbuf : bound.2.1.m_buffer = d.next_handle + 1 := by rw [hb2]; exact hh1
    refine ⟨hbuf, hmem, by rw [hb8, ha6, hh2], ?_, fun hbind => ?_⟩
    · rw [hb4, ha7, hi4, hc2, hh2, ha9]; rfl
    · have hbind2 : allocated.2.driver.vkBindBufferMemory_succeeds = true := by
        rw [ha2, hi1, hc2]; exact hbind
      rw [hb9, if_pos hbind2, ha5, hi5, hc2, hh1, hmem, ha8]; rfl
  · rw [hb3, ha12, he, ha8, hb2]
    simp

theorem create_with_memory_eq (fuel : Nat) (d : DeviceState) (size : VkDeviceSize)
    (queue_families : QueueFamilyBits) (sharing : VkEnum) (usage : VkFlags)
    (mappable coherent : Bool) (opt_client_data : Option (List Nat))
    (constructed initialized : Buffer × DeviceState)
    (allocated : MemoryBlock × DeviceState) (bound : Bool × Buffer × DeviceState)
    (hconstructed : constructed = construct_with_memory d.fresh d.next_handle d.device size
      queue_families sharing usage mappable coherent opt_client_data)
    (hinitialized : initialized =
      constructed.1.create_buffer constructed.2 queue_families sharing size)
    (hallocated : allocated = initialized.2.memory_block_create
      initialized.1.m_buffer_memory_reqs.memoryTypeBits initialized.1.m_buffer_memory_reqs.size
      mappable coherent)
    (hbound : initialized.1.set_memory allocated.2 (some allocated.1) = .returned bound) :
    create_with_memory (fuel + 1) d size queue_families sharing usage mappable coherent
        opt_client_data =
      match opt_client_data with
      | none => some (.returned (bound.2.1, bound.2.2))
      | some data =>
        match write fuel bound.2.1 bound.2.2 0 size data with
        | none => none
        | some (.faulted fault) => some (.faulted fault)
        | some (.returned written) => some (.returned (bound.2.1, written.2)) := by
  subst hconstructed hinitialized hallocated
  cases opt_client_data <;> simp only [create_with_memory, hbound]

/-- What the second overload of `create` does when it is asked for mappable
memory and has fuel for the `write` of the client data: it returns a root
buffer with the device pointer set, whose memory block is the mappable block
it allocated; the device has that block's memory object, filled with the
client data when there is any, and has seen one `vkCreateBuffer`, one memory
block and one `vkBindBufferMemory`. -/
theorem create_with_memory_mappable (fuel : Nat) (d : DeviceState) (size : VkDeviceSize)
    (queue_families : QueueFamilyBits) (sharing : VkEnum) (usage : VkFlags) (coherent : Bool)
    (opt_client_data : Option (List Nat)) (hfuel : opt_client_data ≠ none → 0 < fuel) :
    ∃ staging ds block,
      create_with_memory (fuel + 1) d size queue_families sharing usage true coherent
        opt_client_data = some (.returned (staging, ds)) ∧
      staging.m_memory_block_ptr = some block ∧ block.m_is_mappable = true ∧
      block.m_start_offset = 0 ∧ block.m_size = (d.driver.memory_requirements size).size ∧
      staging.object = d.next_handle ∧
      ds.driver = d.driver ∧ ds.device = d.device ∧
      ds.m_command_stashing_disabled = d.m_command_stashing_disabled ∧
      (d.driver.vkCreateBuffer_succeeds = true →
        staging.m_buffer = d.next_handle + 1 ∧ block.m_memory = d.next_handle + 2 ∧
        ds.next_handle = d.next_handle + 3 ∧
        ds.memory = Function.update d.memory (d.next_handle + 2)
          (match opt_client_data with
           | none => List.replicate block.m_size 0
           | some data =>
             if size ≤ block.m_size then
               write_bytes (List.replicate block.m_size 0) 0 (data.take size)
             else List.replicate block.m_size 0) ∧
        (d.driver.vkBindBufferMemory_succeeds = true →
          ds.bound_memory = Function.update d.bound_memory (d.next_handle + 1)
            (some (d.next_handle + 2, 0)))) ∧
      staging.m_device_ptr = some d.device ∧
      block.m_is_coherent = coherent ∧ staging.m_buffer_size = size ∧
      staging.m_parent_buffer_ptr = none ∧
      ds.events = d.events ++
        [.vkCreateBuffer
          { flags := 0,
            pQueueFamilyIndices :=
              (convert_queue_family_bits_to_family_indices d.fresh queue_families).1,
            queueFamilyIndexCount :=
              (convert_queue_family_bits_to_family_indices d.fresh queue_families).1.length,
            sharingMode := sharing, size := size, usage := usage }
          staging.m_buffer,
         .memory_block_create block,
         .vkBindBufferMemory staging.m_buffer block.m_memory 0] := by
  obtain ⟨constructed, hconstructed⟩ : ∃ x, x = construct_with_memory d.fresh d.next_handle
    d.device size queue_families sharing usage true coherent opt_client_data := ⟨_, rfl⟩
  obtain ⟨initialized, hinitialized⟩ : ∃ x, x =
    constructed.1.create_buffer constructed.2 queue_families sharing size := ⟨_, rfl⟩
  obtain ⟨allocated, hallocated⟩ : ∃ x, x = initialized.2.memory_block_create
    initialized.1.m_buffer_memory_reqs.memoryTypeBits initialized.1.m_buffer_memory_reqs.size
    true coherent := ⟨_, rfl⟩
  obtain ⟨bound, hbound, h1, h2, h3, h4, h5, h6, h7, h8, h9, h10, h11, h12, h13, h14⟩ :=
    create_with_memory_steps d size queue_families
      sharing usage coherent opt_client_data constructed initialized allocated hconstructed
      hinitialized hallocated
  have heq := create_with_memory_eq fuel d size queue_families sharing usage true coherent
    opt_client_data constructed initialized allocated bound hconstructed hinitialized hallocated
    hbound
  cases opt_client_data with
  | none => exact ⟨_, _, _, heq, h1, h2, h3, h4, h5, h6, h7, h8, h9, h10, h11, h12, h13, h14⟩
  | some data =>
    obtain ⟨fuel, rfl⟩ : ∃ n, fuel = n + 1 := ⟨fuel - 1, by have := hfuel (by simp); omega⟩
    simp only [write_mappable fuel _ _ _ 0 size data d.device h10 h1 h2] at heq
    refine ⟨_, _, _, heq, h1, h2, h3, h4, h5, h6, h7, h8, fun hok => ?_, h10, h11, h12, h13,
      h14⟩
    obtain ⟨k1, k2, k3, k4, k5⟩ := h9 hok
    refine ⟨k1, k2, k3, ?_, k5⟩
    simp only [MemoryBlock.write, h2, h3, k2, k4, Bool.true_and, Nat.zero_add,
      decide_eq_true_eq]
    split <;> simp

theorem alloc_primary_level_command_buffer_eq (d : DeviceState) (family : QueueFamilyType)
    (halloc : d.driver.alloc_primary_level_command_buffer_succeeds = true) :
    d.alloc_primary_level_command_buffer family =
      (some (PrimaryCommandBuffer.PrimaryCommandBuffer d.device d.next_handle
          d.m_command_stashing_disabled),
        (d.log (.alloc_primary_level_command_buffer family (some d.next_handle))).fresh) := by
  simp [DeviceState.alloc_primary_level_command_buffer, halloc]

/-- The private command buffer of the staging path, from allocation to
submission, when the driver accepts the begin and the end of the recording:
one `vkCmdCopyBuffer` of one region between `vkBeginCommandBuffer` with the
one-time-submit flag alone and `vkEndCommandBuffer`, one descriptor in the
journal when the journal is enabled, and the recording stopped. -/
theorem staging_copy_recorded (device : Device) (handle : VkHandle) (stashing_disabled : Bool)
    (src dst : BufferPtr) (copy_region : VkBufferCopy) :
    ((((PrimaryCommandBuffer.start_recording
      (PrimaryCommandBuffer.PrimaryCommandBuffer device handle stashing_disabled) true false
      true).2.record_copy_buffer src dst 1 [copy_region]).2.stop_recording true).2.vk_calls =
      [.vkBeginCommandBuffer
          { flags := VK_COMMAND_BUFFER_USAGE_ONE_TIME_SUBMIT_BIT, pInheritanceInfo := none },
        .vkCmdCopyBuffer src.get_buffer dst.get_buffer 1 [copy_region],
        .vkEndCommandBuffer]) ∧
    ((((PrimaryCommandBuffer.start_recording
      (PrimaryCommandBuffer.PrimaryCommandBuffer device handle stashing_disabled) true false
      true).2.record_copy_buffer src dst 1 [copy_region]).2.stop_recording true).2.m_commands =
      if stashing_disabled then []
      else [.copy_buffer (CopyBufferCommand.CopyBufferCommand src dst 1 [copy_region])]) ∧
    (((PrimaryCommandBuffer.start_recording
      (PrimaryCommandBuffer.PrimaryCommandBuffer device handle stashing_disabled) true false
      true).2.record_copy_buffer src dst 1 [copy_region]).2.stop_recording
        true).2.m_recording_in_progress = false ∧
    (((PrimaryCommandBuffer.start_recording
      (PrimaryCommandBuffer.PrimaryCommandBuffer device handle stashing_disabled) true false
      true).2.record_copy_buffer src dst 1 [copy_region]).2.stop_recording
        true).2.m_command_buffer = handle := by
  cases stashing_disabled <;>
  simp [PrimaryCommandBuffer.start_recording, PrimaryCommandBuffer.PrimaryCommandBuffer,
    CommandBufferBase.construct, CommandBufferBase.record_copy_buffer,
    CommandBufferBase.stop_recording, CommandBufferBase.vk, CommandBufferBase.clear_commands,
    CommandBufferBase.push_back_command]

/-- The private command buffer of the staging path keeps the handle it was
allocated with, whatever the driver answers to the begin and the end of the
recording. -/
theorem staging_copy_handle (device : Device) (handle : VkHandle)
    (stashing_disabled begin_ok end_ok : Bool) (src dst : BufferPtr)
    (copy_region : VkBufferCopy) :
    (((PrimaryCommandBuffer.start_recording
      (PrimaryCommandBuffer.PrimaryCommandBuffer device handle stashing_disabled) true false
      begin_ok).2.record_copy_buffer src dst 1 [copy_region]).2.stop_recording
        end_ok).2.m_command_buffer = handle := by
  cases stashing_disabled <;> cases begin_ok <;> cases end_ok <;>
  simp [PrimaryCommandBuffer.start_recording, PrimaryCommandBuffer.PrimaryCommandBuffer,
    CommandBufferBase.construct, CommandBufferBase.record_copy_buffer,
    CommandBufferBase.stop_recording, CommandBufferBase.vk, CommandBufferBase.clear_commands,
    CommandBufferBase.push_back_command, CommandBufferBase.anvil_assert]

/-- The staging path of `write` on a buffer whose device pointer is set, when
the command buffer is allocated, whatever the driver answers to the other
calls: the result is `true`; the device has seen the allocation, the creation
of one staging buffer with one block of mappable memory that is not coherent,
and one blocking submission, after which the command buffer and the staging
buffer are destroyed. -/
theorem write_staging (fuel : Nat) (b : Buffer) (d : DeviceState) (block : MemoryBlock)
    (start_offset size : VkDeviceSize) (data : List Nat) (device_ptr : Device)
    (hdevice : b.m_device_ptr = some device_ptr)
    (hblock : b.m_memory_block_ptr = some block) (hdevice_only : block.m_is_mappable = false)
    (halloc : d.driver.alloc_primary_level_command_buffer_succeeds = true) :
    ∃ (staging : Buffer) (ds : DeviceState) (sblock : MemoryBlock)
        (copy_cmdbuf : CommandBufferBase),
      create_with_memory (fuel + 2)
        (d.alloc_primary_level_command_buffer d.staging_buffer_queue_fam_type).2 size
        d.staging_buffer_queue_fam_bits VK_SHARING_MODE_EXCLUSIVE
        VK_BUFFER_USAGE_TRANSFER_SRC_BIT true false (some data) =
          some (.returned (staging, ds)) ∧
      write (fuel + 3) b d start_offset size data =
        some (.returned (true, staging.destructor (copy_cmdbuf.destructor
          (ds.submit_command_buffer d.staging_queue copy_cmdbuf true)))) ∧
      copy_cmdbuf.m_command_buffer = d.next_handle ∧
      staging.m_memory_block_ptr = some sblock ∧ sblock.m_is_mappable = true ∧
      sblock.m_is_coherent = false ∧ sblock.m_start_offset = 0 ∧
      sblock.m_size = (d.driver.memory_requirements size).size ∧
      staging.m_buffer_size = size ∧ staging.m_parent_buffer_ptr = none ∧
      staging.m_device_ptr = some d.device ∧
      ds.driver = d.driver ∧
      ds.events = d.events ++
        [.alloc_primary_level_command_buffer d.staging_buffer_queue_fam_type
          (some d.next_handle),
         .vkCreateBuffer (d.staging_buffer_create_info size VK_BUFFER_USAGE_TRANSFER_SRC_BIT)
           staging.m_buffer,
         .memory_block_create sblock,
         .vkBindBufferMemory staging.m_buffer sblock.m_memory 0] ∧
      (d.driver.vkCreateBuffer_succeeds = true →
        staging.m_buffer = d.next_handle + 2 ∧ sblock.m_memory = d.next_handle + 3 ∧
        ds.next_handle = d.next_handle + 4 ∧
        ds.memory = Function.update d.memory (d.next_handle + 3)
          (if size ≤ sblock.m_size then
            write_bytes (List.replicate sblock.m_size 0) 0 (data.take size)
           else List.replicate sblock.m_size 0) ∧
        (d.driver.vkBindBufferMemory_succeeds = true →
          ds.bound_memory = Function.update d.bound_memory (d.next_handle + 2)
            (some (d.next_handle + 3, 0)))) ∧
      (d.driver.vkBeginCommandBuffer_succeeds = true →
        d.driver.vkEndCommandBuffer_succeeds = true →
        copy_cmdbuf.vk_calls =
          [.vkBeginCommandBuffer
              { flags := VK_COMMAND_BUFFER_USAGE_ONE_TIME_SUBMIT_BIT, pInheritanceInfo := none },
            .vkCmdCopyBuffer staging.m_buffer b.m_buffer 1
              [{ srcOffset := 0, dstOffset := start_offset, size := size }],
            .vkEndCommandBuffer] ∧
        copy_cmdbuf.m_recording_in_progress = false ∧
        copy_cmdbuf.m_commands =
          (if d.m_command_stashing_disabled then []
           else [.copy_buffer (CopyBufferCommand.CopyBufferCommand staging.shared_from_this
             b.shared_from_this 1
             [{ srcOffset := 0, dstOffset := start_offset, size := size }])])) := by
  have ha := alloc_primary_level_command_buffer_eq d d.staging_buffer_queue_fam_type halloc
  obtain ⟨staging, ds, sblock, hcreate, hs1, hs2, hs3, hs4, hs5, hs6, hs7, hs8, hs9, hs10, hs11,
      hs12, hs13, hs14⟩ :=
    create_with_memory_mappable (fuel + 1)
      (d.alloc_primary_level_command_buffer d.staging_buffer_queue_fam_type).2 size
      d.staging_buffer_queue_fam_bits VK_SHARING_MODE_EXCLUSIVE VK_BUFFER_USAGE_TRANSFER_SRC_BIT
      false (some data) (fun _ => Nat.succ_pos _)
  have hdriver : ds.driver = d.driver := by rw [hs6, ha]; rfl
  obtain ⟨copy_cmdbuf, hcb⟩ : ∃ cb, cb = (((PrimaryCommandBuffer.start_recording
      (PrimaryCommandBuffer.PrimaryCommandBuffer d.device d.next_handle
        d.m_command_stashing_disabled) true false
      d.driver.vkBeginCommandBuffer_succeeds).2.record_copy_buffer staging.shared_from_this
        b.shared_from_this 1
        [{ dstOffset := start_offset, size := size, srcOffset := 0 }]).2.stop_recording
        d.driver.vkEndCommandBuffer_succeeds).2 := ⟨_, rfl⟩
  have hhandle : copy_cmdbuf.m_command_buffer = d.next_handle := by
    rw [hcb]; exact staging_copy_handle _ _ _ _ _ _ _ _
  have hcalls : d.driver.vkBeginCommandBuffer_succeeds = true →
      d.driver.vkEndCommandBuffer_succeeds = true →
      copy_cmdbuf.vk_calls =
        [.vkBeginCommandBuffer
            { flags := VK_COMMAND_BUFFER_USAGE_ONE_TIME_SUBMIT_BIT, pInheritanceInfo := none },
          .vkCmdCopyBuffer staging.m_buffer b.m_buffer 1
            [{ srcOffset := 0, dstOffset := start_offset, size := size }],
          .vkEndCommandBuffer] ∧
      copy_cmdbuf.m_recording_in_progress = false ∧
      copy_cmdbuf.m_commands =
        (if d.m_command_stashing_disabled then []
         else [.copy_buffer (CopyBufferCommand.CopyBufferCommand staging.shared_from_this
           b.shared_from_this 1
           [{ srcOffset := 0, dstOffset := start_offset, size := size }])]) := by
    intro hbegin hend
    obtain ⟨hr1, hr2, hr3, _⟩ := staging_copy_recorded d.device d.next_handle
      d.m_command_stashing_disabled staging.shared_from_this b.shared_from_this
      { srcOffset := 0, dstOffset := start_offset, size := size }
    rw [hcb, hbegin, hend]
    exact ⟨hr1, hr3, hr2⟩
  refine ⟨staging, ds, sblock, copy_cmdbuf, hcreate, ?_, hhandle, hs1, hs2, hs11, hs3, ?_,
    hs12, hs13, ?_, hdriver, ?_, fun hok => ?_, hcalls⟩
  · have hcreate2 : create_with_memory (fuel + 2)
        (d.alloc_primary_level_command_buffer d.staging_buffer_queue_fam_type).2 size
        d.staging_buffer_queue_fam_bits VK_SHARING_MODE_EXCLUSIVE
        VK_BUFFER_USAGE_TRANSFER_SRC_BIT true false (some data) =
          some (.returned (staging, ds)) := hcreate
    have ha2 := ha
    simp only [DeviceState.staging_buffer_queue_fam_bits,
      DeviceState.staging_buffer_queue_fam_type] at ha2 hcreate2
    subst hcb
    simp only [write, hdevice, hblock, Option.isSome_some, DeviceState.device_anvil_assert_true,
      MemoryBlock.is_mappable, hdevice_only, Bool.false_eq_true, if_false, hcreate2, hdriver,
      DeviceState.staging_queue]
    simp only [ha2]
  · rw [hs4, ha]; rfl
  · rw [hs10, ha]; rfl
  · rw [hs14, convert_staging_buffer_queue_fam_bits, ha]
    simp [DeviceState.staging_buffer_create_info]
  · have hok2 : (d.alloc_primary_level_command_buffer
        d.staging_buffer_queue_fam_type).2.driver.vkCreateBuffer_succeeds = true := by
      rw [ha]; exact hok
    obtain ⟨k1, k2, k3, k4, k5⟩ := hs9 hok2
    rw [ha] at k1 k2 k3 k4 k5
    exact ⟨k1, k2, k3, k4, fun hbind => k5 hbind⟩

/-- The staging path of `read` on a buffer whose device pointer is set, when
the command buffer is allocated, whatever the driver answers to the other
calls: after the blocking submission the result is that of `read` on the
staging buffer with the caller's `start_offset` and `size`, which is what the
staging buffer's memory block reads there; then the command buffer and the
staging buffer are destroyed. -/
theorem read_staging (fuel : Nat) (b : Buffer) (d : DeviceState) (block : MemoryBlock)
    (start_offset size : VkDeviceSize) (device_ptr : Device)
    (hdevice : b.m_device_ptr = some device_ptr)
    (hblock : b.m_memory_block_ptr = some block) (hdevice_only : block.m_is_mappable = false)
    (halloc : d.driver.alloc_primary_level_command_buffer_succeeds = true) :
    ∃ (staging : Buffer) (ds : DeviceState) (sblock : MemoryBlock)
        (copy_cmdbuf : CommandBufferBase),
      create_with_memory (fuel + 1)
        (d.alloc_primary_level_command_buffer d.staging_buffer_queue_fam_type).2 size
        d.staging_buffer_queue_fam_bits VK_SHARING_MODE_EXCLUSIVE
        VK_BUFFER_USAGE_TRANSFER_DST_BIT true false none = some (.returned (staging, ds)) ∧
      read (fuel + 2) b d start_offset size =
        (read (fuel + 1) staging (ds.submit_command_buffer d.staging_queue copy_cmdbuf true)
          start_offset size).map (Outcome.map (fun result =>
            (result.1, staging.destructor (copy_cmdbuf.destructor result.2)))) ∧
      read (fuel + 2) b d start_offset size =
        some (.returned
          (sblock.read (ds.submit_command_buffer d.staging_queue copy_cmdbuf true).memory
            start_offset size,
          staging.destructor (copy_cmdbuf.destructor
            (ds.submit_command_buffer d.staging_queue copy_cmdbuf true)))) ∧
      copy_cmdbuf.m_command_buffer = d.next_handle ∧
      staging.m_memory_block_ptr = some sblock ∧ sblock.m_is_mappable = true ∧
      sblock.m_is_coherent = false ∧ sblock.m_start_offset = 0 ∧
      sblock.m_size = (d.driver.memory_requirements size).size ∧
      staging.m_buffer_size = size ∧ staging.m_parent_buffer_ptr = none ∧
      staging.m_device_ptr = some d.device ∧
      ds.driver = d.driver ∧
      ds.events = d.events ++
        [.alloc_primary_level_command_buffer d.staging_buffer_queue_fam_type
          (some d.next_handle),
         .vkCreateBuffer (d.staging_buffer_create_info size VK_BUFFER_USAGE_TRANSFER_DST_BIT)
           staging.m_buffer,
         .memory_block_create sblock,
         .vkBindBufferMemory staging.m_buffer sblock.m_memory 0] ∧
      (d.driver.vkCreateBuffer_succeeds = true →
        staging.m_buffer = d.next_handle + 2 ∧ sblock.m_memory = d.next_handle + 3 ∧
        ds.next_handle = d.next_handle + 4 ∧
        ds.memory =
          Function.update d.memory (d.next_handle + 3) (List.replicate sblock.m_size 0) ∧
        (d.driver.vkBindBufferMemory_succeeds = true →
          ds.bound_memory = Function.update d.bound_memory (d.next_handle + 2)
            (some (d.next_handle + 3, 0)))) ∧
      (d.driver.vkBeginCommandBuffer_succeeds = true →
        d.driver.vkEndCommandBuffer_succeeds = true →
        copy_cmdbuf.vk_calls =
          [.vkBeginCommandBuffer
              { flags := VK_COMMAND_BUFFER_USAGE_ONE_TIME_SUBMIT_BIT, pInheritanceInfo := none },
            .vkCmdCopyBuffer b.m_buffer staging.m_buffer 1
              [{ srcOffset := start_offset, dstOffset := 0, size := size }],
            .vkEndCommandBuffer] ∧
        copy_cmdbuf.m_recording_in_progress = false ∧
        copy_cmdbuf.m_commands =
          (if d.m_command_stashing_disabled then []
           else [.copy_buffer (CopyBufferCommand.CopyBufferCommand b.shared_from_this
             staging.shared_from_this 1
             [{ srcOffset := start_offset, dstOffset := 0, size := size }])])) := by
  have ha := alloc_primary_level_command_buffer_eq d d.staging_buffer_queue_fam_type halloc
  obtain ⟨staging, ds, sblock, hcreate, hs1, hs2, hs3, hs4, hs5, hs6, hs7, hs8, hs9, hs10, hs11,
      hs12, hs13, hs14⟩ :=
    create_with_memory_mappable fuel
      (d.alloc_primary_level_command_buffer d.staging_buffer_queue_fam_type).2 size
      d.staging_buffer_queue_fam_bits VK_SHARING_MODE_EXCLUSIVE VK_BUFFER_USAGE_TRANSFER_DST_BIT
      false none (fun h => absurd rfl h)
  have hdriver : ds.driver = d.driver := by rw [hs6, ha]; rfl
  obtain ⟨copy_cmdbuf, hcb⟩ : ∃ cb, cb = (((PrimaryCommandBuffer.start_recording
      (PrimaryCommandBuffer.PrimaryCommandBuffer d.device d.next_handle
        d.m_command_stashing_disabled) true false
      d.driver.vkBeginCommandBuffer_succeeds).2.record_copy_buffer b.shared_from_this
        staging.shared_from_this 1
        [{ dstOffset := 0, size := size, srcOffset := start_offset }]).2.stop_recording
        d.driver.vkEndCommandBuffer_succeeds).2 := ⟨_, rfl⟩
  have hhandle : copy_cmdbuf.m_command_buffer = d.next_handle := by
    rw [hcb]; exact staging_copy_handle _ _ _ _ _ _ _ _
  have hcalls : d.driver.vkBeginCommandBuffer_succeeds = true →
      d.driver.vkEndCommandBuffer_succeeds = true →
      copy_cmdbuf.vk_calls =
        [.vkBeginCommandBuffer
            { flags := VK_COMMAND_BUFFER_USAGE_ONE_TIME_SUBMIT_BIT, pInheritanceInfo := none },
          .vkCmdCopyBuffer b.m_buffer staging.m_buffer 1
            [{ srcOffset := start_offset, dstOffset := 0, size := size }],
          .vkEndCommandBuffer] ∧
      copy_cmdbuf.m_recording_in_progress = false ∧
      copy_cmdbuf.m_commands =
        (if d.m_command_stashing_disabled then []
         else [.copy_buffer (CopyBufferCommand.CopyBufferCommand b.shared_from_this
           staging.shared_from_this 1
           [{ srcOffset := start_offset, dstOffset := 0, size := size }])]) := by
    intro hbegin hend
    obtain ⟨hr1, hr2, hr3, _⟩ := staging_copy_recorded d.device d.next_handle
      d.m_command_stashing_disabled b.shared_from_this staging.shared_from_this
      { srcOffset := start_offset, dstOffset := 0, size := size }
    rw [hcb, hbegin, hend]
    exact ⟨hr1, hr3, hr2⟩
  have hinner := read_mappable fuel staging
    (ds.submit_command_buffer d.staging_queue copy_cmdbuf true) sblock start_offset size
    _ hs10 hs1 hs2
  have hnested : read (fuel + 2) b d start_offset size =
      (read (fuel + 1) staging (ds.submit_command_buffer d.staging_queue copy_cmdbuf true)
        start_offset size).map (Outcome.map (fun result =>
          (result.1, staging.destructor (copy_cmdbuf.destructor result.2)))) := by
    have hcreate2 := hcreate
    have ha2 := ha
    simp only [DeviceState.staging_buffer_queue_fam_bits,
      DeviceState.staging_buffer_queue_fam_type] at ha2 hcreate2
    rw [hinner]
    simp only [DeviceState.staging_queue] at hinner
    subst hcb
    rw [read]
    simp only [hdevice, hblock, Option.isSome_some, DeviceState.device_anvil_assert_true,
      MemoryBlock.is_mappable, hdevice_only, Bool.false_eq_true, if_false, hcreate2, hdriver,
      DeviceState.staging_queue]
    simp only [ha2, hinner]
    rfl
  refine ⟨staging, ds, sblock, copy_cmdbuf, hcreate, hnested, ?_, hhandle, hs1, hs2, hs11, hs3,
    ?_, hs12, hs13, ?_, hdriver, ?_, fun hok => ?_, hcalls⟩
  · rw [hnested, hinner]
    rfl
  · rw [hs4, ha]; rfl
  · rw [hs10, ha]; rfl
  · rw [hs14, convert_staging_buffer_queue_fam_bits, ha]
    simp [DeviceState.staging_buffer_create_info]
  · have hok2 : (d.alloc_primary_level_command_buffer
        d.staging_buffer_queue_fam_type).2.driver.vkCreateBuffer_succeeds = true := by
      rw [ha]; exact hok
    obtain ⟨k1, k2, k3, k4, k5⟩ := hs9 hok2
    rw [ha] at k1 k2 k3 k4 k5
    exact ⟨k1, k2, k3, k4, fun hbind => k5 hbind⟩

/-- When the pool returns no command buffer the staging path of `write` ends
with `false` and has asked nothing else of the device. -/
theorem write_alloc_refused (fuel : Nat) (b : Buffer) (d : DeviceState) (block : MemoryBlock)
    (start_offset size : VkDeviceSize) (data : List Nat) (device_ptr : Device)
    (hdevice : b.m_device_ptr = some device_ptr)
    (hblock : b.m_memory_block_ptr = some block) (hdevice_only : block.m_is_mappable = false)
    (halloc : d.driver.alloc_primary_level_command_buffer_succeeds = false) :
    write (fuel + 1) b d start_offset size data =
      some (.returned (false, (d.log (.alloc_primary_level_command_buffer
        d.staging_buffer_queue_fam_type none)).anvil_assert false)) := by
  simp [write, hdevice, hblock, hdevice_only, MemoryBlock.is_mappable,
    DeviceState.alloc_primary_level_command_buffer, halloc,
    DeviceState.staging_buffer_queue_fam_type]

/-- When the pool returns no command buffer the staging path of `read` ends
with `false` and has asked nothing else of the device. -/
theorem read_alloc_refused (fuel : Nat) (b : Buffer) (d : DeviceState) (block : MemoryBlock)
    (start_offset size : VkDeviceSize) (device_ptr : Device)
    (hdevice : b.m_device_ptr = some device_ptr)
    (hblock : b.m_memory_block_ptr = some block) (hdevice_only : block.m_is_mappable = false)
    (halloc : d.driver.alloc_primary_level_command_buffer_succeeds = false) :
    read (fuel + 1) b d start_offset size =
      some (.returned ((false, []), (d.log (.alloc_primary_level_command_buffer
        d.staging_buffer_queue_fam_type none)).anvil_assert false)) := by
  simp [read, hdevice, hblock, hdevice_only, MemoryBlock.is_mappable,
    DeviceState.alloc_primary_level_command_buffer, halloc,
    DeviceState.staging_buffer_queue_fam_type]

end Buffer


/-- The queue the staging path submits to is queue 0 of the family whose pool
it allocates from. -/
theorem DeviceState.staging_queue_eq (d : DeviceState) :
    d.staging_queue = { family := d.staging_buffer_queue_fam_type, index := 0 } := by
  unfold DeviceState.staging_queue DeviceState.staging_buffer_queue_fam_type
  split <;> rfl

end BufferFacts

/-! ## Recording state machine: the claims -/

section Claims

open CommandBufferBase PrimaryCommandBuffer

/-- Claim C1: while `m_recording_in_progress` is false, every `record_*` function
called with argument lists within capacity returns `false` and leaves the
recording flag, the render-pass flag, the journal and the native-call trace as
they were (indeed the whole state, the assertion count apart). -/
theorem C1_record_rejected_when_not_recording (cb : CommandBufferBase) (call : RecordCall)
    (h : cb.m_recording_in_progress = false) (hc : call.within_capacity) :
    (record cb call).1 = false ∧
    (record cb call).2.m_recording_in_progress = cb.m_recording_in_progress ∧
    (record cb call).2.m_is_renderpass_active = cb.m_is_renderpass_active ∧
    (record cb call).2.m_commands = cb.m_commands ∧
    (record cb call).2.vk_calls = cb.vk_calls ∧
    cb.untouched (record cb call).2 := by
  have hres : (record cb call).1 = false := by rw [record_result, h]; rfl
  have hu := record_failed_untouched cb call hres hc
  have hf := (CommandBufferBase.untouched_iff _ _).1 hu
  exact ⟨hres, hf.2.2.2.1, hf.2.2.1, hf.2.2.2.2.2.1, hf.2.2.2.2.2.2.2.2.1, hu⟩

/-- A fresh primary buffer rejects a bind of sixteen descriptor sets and keeps
its empty journal and empty native-call trace. -/
theorem C1_record_rejected_when_not_recording_witness :
    fresh_primary.m_recording_in_progress = false ∧
    example_bind_descriptor_sets.within_capacity ∧
    (record fresh_primary example_bind_descriptor_sets).1 = false ∧
    (record fresh_primary example_bind_descriptor_sets).2.m_commands =
      fresh_primary.m_commands ∧
    (record fresh_primary example_bind_descriptor_sets).2.vk_calls = fresh_primary.vk_calls :=
  ⟨rfl, Nat.le_refl 16,
    (C1_record_rejected_when_not_recording fresh_primary example_bind_descriptor_sets rfl
      (Nat.le_refl 16)).1,
    (C1_record_rejected_when_not_recording fresh_primary example_bind_descriptor_sets rfl
      (Nat.le_refl 16)).2.2.2.1,
    (C1_record_rejected_when_not_recording fresh_primary example_bind_descriptor_sets rfl
      (Nat.le_refl 16)).2.2.2.2.1⟩

/-- Claim C2: while `m_is_renderpass_active` is false, every operation the
specification lists as "must be active" returns `false` and leaves the
recording flag, the render-pass flag, the journal (so also its length) and the
native-call trace as they were. -/
theorem C2_must_be_active_rejected_outside_renderpass (cb : CommandBufferBase)
    (call : RecordCall)
    (hreq : call.requirement = some RenderPassRequirement.must_be_active)
    (h : cb.m_is_renderpass_active = false) :
    (record cb call).1 = false ∧
    (record cb call).2.m_recording_in_progress = cb.m_recording_in_progress ∧
    (record cb call).2.m_is_renderpass_active = cb.m_is_renderpass_active ∧
    (record cb call).2.m_commands = cb.m_commands ∧
    (record cb call).2.m_commands.length = cb.m_commands.length ∧
    (record cb call).2.vk_calls = cb.vk_calls ∧
    cb.untouched (record cb call).2 := by
  have hres : (record cb call).1 = false := by
    rw [record_result, h]
    cases call <;> simp_all [RecordCall.renderpass_guard, RecordCall.requirement]
  have hc : call.within_capacity := by
    cases call <;> simp_all [RecordCall.within_capacity, RecordCall.requirement]
  have hu := record_failed_untouched cb call hres hc
  have hf := (CommandBufferBase.untouched_iff _ _).1 hu
  exact ⟨hres, hf.2.2.2.1, hf.2.2.1, hf.2.2.2.2.2.1, by rw [hf.2.2.2.2.2.1],
    hf.2.2.2.2.2.2.2.2.1, hu⟩

/-- A draw on a recording primary buffer with no render pass begun is rejected
and journals nothing. -/
theorem C2_must_be_active_rejected_outside_renderpass_witness :
    example_draw.requirement = some RenderPassRequirement.must_be_active ∧
    recording_primary.m_is_renderpass_active = false ∧
    (record recording_primary example_draw).1 = false ∧
    (record recording_primary example_draw).2.m_commands = recording_primary.m_commands :=
  ⟨rfl, rfl,
    (C2_must_be_active_rejected_outside_renderpass recording_primary example_draw rfl rfl).1,
    (C2_must_be_active_rejected_outside_renderpass recording_primary example_draw rfl
      rfl).2.2.2.1⟩

/-- Claim C3: while `m_is_renderpass_active` is true, every operation the
specification lists as "must be inactive" returns `false` and leaves the
recording flag, the render-pass flag, the journal and the native-call trace as
they were. -/
theorem C3_must_be_inactive_rejected_inside_renderpass (cb : CommandBufferBase)
    (call : RecordCall)
    (hreq : call.requirement = some RenderPassRequirement.must_be_inactive)
    (h : cb.m_is_renderpass_active = true) :
    (record cb call).1 = false ∧
    (record cb call).2.m_recording_in_progress = cb.m_recording_in_progress ∧
    (record cb call).2.m_is_renderpass_active = cb.m_is_renderpass_active ∧
    (record cb call).2.m_commands = cb.m_commands ∧
    (record cb call).2.vk_calls = cb.vk_calls ∧
    cb.untouched (record cb call).2 := by
  have hres : (record cb call).1 = false := by
    rw [record_result, h]
    cases call <;> simp_all [RecordCall.renderpass_guard, RecordCall.requirement]
  have hc : call.within_capacity := by
    cases call <;> simp_all [RecordCall.within_capacity, RecordCall.requirement]
  have hu := record_failed_untouched cb call hres hc
  have hf := (CommandBufferBase.untouched_iff _ _).1 hu
  exact ⟨hres, hf.2.2.2.1, hf.2.2.1, hf.2.2.2.2.2.1, hf.2.2.2.2.2.2.2.2.1, hu⟩

/-- A buffer copy inside a render pass is rejected and issues no native call. -/
theorem C3_must_be_inactive_rejected_inside_renderpass_witness :
    example_copy_buffer.requirement = some RenderPassRequirement.must_be_inactive ∧
    in_renderpass_primary.m_is_renderpass_active = true ∧
    (record in_renderpass_primary example_copy_buffer).1 = false ∧
    (record in_renderpass_primary example_copy_buffer).2.vk_calls =
      in_renderpass_primary.vk_calls :=
  ⟨rfl, rfl,
    (C3_must_be_inactive_rejected_inside_renderpass in_renderpass_primary example_copy_buffer
      rfl rfl).1,
    (C3_must_be_inactive_rejected_inside_renderpass in_renderpass_primary example_copy_buffer
      rfl rfl).2.2.2.2.1⟩

/-- Claim C4: while recording, every operation the specification lists as "no
requirement", called with argument lists within capacity, returns `true` with
`m_is_renderpass_active` true and with it false alike, and stores nothing past
the end of a local array. -/
theorem C4_no_requirement_accepted_in_and_out_of_renderpass (cb : CommandBufferBase)
    (call : RecordCall)
    (hreq : call.requirement = some RenderPassRequirement.no_requirement)
    (h : cb.m_recording_in_progress = true) (hc : call.within_capacity) :
    (record { cb with m_is_renderpass_active := true } call).1 = true ∧
    (record { cb with m_is_renderpass_active := false } call).1 = true ∧
    (record cb call).1 = true ∧
    (record cb call).2.out_of_bounds_writes = cb.out_of_bounds_writes := by
  refine ⟨?_, ?_, ?_, record_out_of_bounds_writes cb call hc⟩ <;>
  · rw [record_result]
    cases call <;> simp_all [RecordCall.renderpass_guard, RecordCall.requirement]

/-- A bind of sixteen descriptor sets is accepted inside and outside a render
pass. -/
theorem C4_no_requirement_accepted_in_and_out_of_renderpass_witness :
    example_bind_descriptor_sets.requirement = some RenderPassRequirement.no_requirement ∧
    recording_primary.m_recording_in_progress = true ∧
    example_bind_descriptor_sets.within_capacity ∧
    (record { recording_primary with m_is_renderpass_active := true }
      example_bind_descriptor_sets).1 = true ∧
    (record { recording_primary with m_is_renderpass_active := false }
      example_bind_descriptor_sets).1 = true :=
  ⟨rfl, rfl, Nat.le_refl 16,
    (C4_no_requirement_accepted_in_and_out_of_renderpass recording_primary
      example_bind_descriptor_sets rfl rfl (Nat.le_refl 16)).1,
    (C4_no_requirement_accepted_in_and_out_of_renderpass recording_primary
      example_bind_descriptor_sets rfl rfl (Nat.le_refl 16)).2.1⟩

/-- Claim C5: `record_begin_render_pass` returns `true` exactly when recording
is in progress and no render pass is active, and then sets
`m_is_renderpass_active`; `record_end_render_pass` returns `true` exactly when
recording is in progress and a render pass is active, and then clears the flag;
a call that returns `false` changes nothing. So a begin followed by an end
restores the flag, and a second begin right after a begin is rejected. -/
theorem C5_render_pass_bracket (cb : CommandBufferBase) (n : Nat) (cv : List VkClearValue)
    (fbo : FramebufferPtr) (area : VkRect2D) (rp : RenderPassPtr) (contents : VkEnum) :
    ((record_begin_render_pass cb n cv fbo area rp contents).1 = true ↔
      cb.m_recording_in_progress = true ∧ cb.m_is_renderpass_active = false) ∧
    ((record_begin_render_pass cb n cv fbo area rp contents).1 = true →
      (record_begin_render_pass cb n cv fbo area rp contents).2.m_is_renderpass_active = true) ∧
    ((record_begin_render_pass cb n cv fbo area rp contents).1 = false →
      cb.untouched (record_begin_render_pass cb n cv fbo area rp contents).2) ∧
    ((record_end_render_pass cb).1 = true ↔
      cb.m_recording_in_progress = true ∧ cb.m_is_renderpass_active = true) ∧
    ((record_end_render_pass cb).1 = true →
      (record_end_render_pass cb).2.m_is_renderpass_active = false) ∧
    ((record_end_render_pass cb).1 = false → cb.untouched (record_end_render_pass cb).2) ∧
    ((record_begin_render_pass cb n cv fbo area rp contents).1 = true →
      (record_end_render_pass (record_begin_render_pass cb n cv fbo area rp contents).2).1
        = true ∧
      (record_end_render_pass
        (record_begin_render_pass cb n cv fbo area rp contents).2).2.m_is_renderpass_active =
        cb.m_is_renderpass_active) ∧
    ((record_begin_render_pass cb n cv fbo area rp contents).1 = true →
      ∀ (n2 : Nat) (cv2 : List VkClearValue) (fbo2 : FramebufferPtr) (area2 : VkRect2D)
        (rp2 : RenderPassPtr) (contents2 : VkEnum),
        (record_begin_render_pass (record_begin_render_pass cb n cv fbo area rp contents).2
          n2 cv2 fbo2 area2 rp2 contents2).1 = false) := by
  cases hrp : cb.m_is_renderpass_active <;> cases hrec : cb.m_recording_in_progress <;>
  simp [record_begin_render_pass, record_end_render_pass, hrp, hrec, untouched_iff] <;>
  split_ifs <;> simp_all

/-- On a recording primary buffer a render pass can be begun; it can then be
ended, and not begun a second time. -/
theorem C5_render_pass_bracket_witness :
    (record_begin_render_pass recording_primary 0 [] example_framebuffer { data := 0 }
      example_render_pass 0).1 = true ∧
    (record_end_render_pass (record_begin_render_pass recording_primary 0 []
      example_framebuffer { data := 0 } example_render_pass 0).2).1 = true ∧
    (record_begin_render_pass (record_begin_render_pass recording_primary 0 []
      example_framebuffer { data := 0 } example_render_pass 0).2 0 [] example_framebuffer
      { data := 0 } example_render_pass 0).1 = false :=
  ⟨(C5_render_pass_bracket recording_primary 0 [] example_framebuffer { data := 0 }
      example_render_pass 0).1.2 ⟨rfl, rfl⟩,
    ((C5_render_pass_bracket recording_primary 0 [] example_framebuffer { data := 0 }
      example_render_pass 0).2.2.2.2.2.2.1 rfl).1,
    (C5_render_pass_bracket recording_primary 0 [] example_framebuffer { data := 0 }
      example_render_pass 0).2.2.2.2.2.2.2 rfl 0 [] example_framebuffer { data := 0 }
      example_render_pass 0⟩

/-- Claim C6: `start_recording` (primary and secondary) and `reset` called while
recording, and `stop_recording` called while not recording, return `false`,
issue no native call and leave both flags and the journal as they were (the
whole state, the assertion count apart). -/
theorem C6_state_change_rejected_in_wrong_state (cb : CommandBufferBase)
    (one_time_submit simultaneous_use_allowed renderpass_usage_only should_release_resources
      vk_call_successful : Bool)
    (framebuffer_ptr : FramebufferPtr) (render_pass_ptr : RenderPassPtr)
    (subpass_id : AnvilIndex) (scope : OcclusionQuerySupportScope) (statistics : VkFlags) :
    (cb.m_recording_in_progress = true →
      (PrimaryCommandBuffer.start_recording cb one_time_submit simultaneous_use_allowed
        vk_call_successful).1 = false ∧
      (PrimaryCommandBuffer.start_recording cb one_time_submit simultaneous_use_allowed
        vk_call_successful).2.vk_calls = cb.vk_calls ∧
      cb.untouched (PrimaryCommandBuffer.start_recording cb one_time_submit
        simultaneous_use_allowed vk_call_successful).2) ∧
    (cb.m_recording_in_progress = true →
      (SecondaryCommandBuffer.start_recording cb one_time_submit simultaneous_use_allowed
        renderpass_usage_only framebuffer_ptr render_pass_ptr subpass_id scope statistics
        vk_call_successful).1 = false ∧
      (SecondaryCommandBuffer.start_recording cb one_time_submit simultaneous_use_allowed
        renderpass_usage_only framebuffer_ptr render_pass_ptr subpass_id scope statistics
        vk_call_successful).2.vk_calls = cb.vk_calls ∧
      cb.untouched (SecondaryCommandBuffer.start_recording cb one_time_submit
        simultaneous_use_allowed renderpass_usage_only framebuffer_ptr render_pass_ptr
        subpass_id scope statistics vk_call_successful).2) ∧
    (cb.m_recording_in_progress = false →
      (cb.stop_recording vk_call_successful).1 = false ∧
      (cb.stop_recording vk_call_successful).2.vk_calls = cb.vk_calls ∧
      cb.untouched (cb.stop_recording vk_call_successful).2) ∧
    (cb.m_recording_in_progress = true →
      (cb.reset should_release_resources vk_call_successful).1 = false ∧
      (cb.reset should_release_resources vk_call_successful).2.vk_calls = cb.vk_calls ∧
      cb.untouched (cb.reset should_release_resources vk_call_successful).2) := by
  cases hrec : cb.m_recording_in_progress <;>
  simp [PrimaryCommandBuffer.start_recording, SecondaryCommandBuffer.start_recording,
    stop_recording, reset, hrec, untouched_iff]

/-- A recording buffer refuses `start_recording` and `reset`; a fresh buffer
refuses `stop_recording`. -/
theorem C6_state_change_rejected_in_wrong_state_witness :
    (PrimaryCommandBuffer.start_recording recording_primary false false true).1 = false ∧
    (fresh_primary.stop_recording true).1 = false ∧
    (recording_primary.reset true true).1 = false ∧
    (recording_primary.reset true true).2.vk_calls = recording_primary.vk_calls :=
  ⟨((C6_state_change_rejected_in_wrong_state recording_primary false false false true true
      example_framebuffer example_render_pass 0
      OcclusionQuerySupportScope.OCCLUSION_QUERY_SUPPORT_SCOPE_NOT_REQUIRED 0).1 rfl).1,
    ((C6_state_change_rejected_in_wrong_state fresh_primary false false false true true
      example_framebuffer example_render_pass 0
      OcclusionQuerySupportScope.OCCLUSION_QUERY_SUPPORT_SCOPE_NOT_REQUIRED 0).2.2.1 rfl).1,
    ((C6_state_change_rejected_in_wrong_state recording_primary false false false true true
      example_framebuffer example_render_pass 0
      OcclusionQuerySupportScope.OCCLUSION_QUERY_SUPPORT_SCOPE_NOT_REQUIRED 0).2.2.2 rfl).1,
    ((C6_state_change_rejected_in_wrong_state recording_primary false false false true true
      example_framebuffer example_render_pass 0
      OcclusionQuerySupportScope.OCCLUSION_QUERY_SUPPORT_SCOPE_NOT_REQUIRED 0).2.2.2 rfl).2.1⟩

/-- Claim C7: called while not recording, with the native begin call
succeeding, `start_recording` (primary and secondary) returns `true`, sets
`m_recording_in_progress` and leaves the journal empty, whatever it held. -/
theorem C7_start_recording_clears_journal (cb : CommandBufferBase)
    (one_time_submit simultaneous_use_allowed renderpass_usage_only : Bool)
    (framebuffer_ptr : FramebufferPtr) (render_pass_ptr : RenderPassPtr)
    (subpass_id : AnvilIndex) (scope : OcclusionQuerySupportScope) (statistics : VkFlags)
    (h : cb.m_recording_in_progress = false) :
    ((PrimaryCommandBuffer.start_recording cb one_time_submit simultaneous_use_allowed true).1
        = true ∧
      (PrimaryCommandBuffer.start_recording cb one_time_submit simultaneous_use_allowed
        true).2.m_recording_in_progress = true ∧
      (PrimaryCommandBuffer.start_recording cb one_time_submit simultaneous_use_allowed
        true).2.m_commands = []) ∧
    ((SecondaryCommandBuffer.start_recording cb one_time_submit simultaneous_use_allowed
        renderpass_usage_only framebuffer_ptr render_pass_ptr subpass_id scope statistics
        true).1 = true ∧
      (SecondaryCommandBuffer.start_recording cb one_time_submit simultaneous_use_allowed
        renderpass_usage_only framebuffer_ptr render_pass_ptr subpass_id scope statistics
        true).2.m_recording_in_progress = true ∧
      (SecondaryCommandBuffer.start_recording cb one_time_submit simultaneous_use_allowed
        renderpass_usage_only framebuffer_ptr render_pass_ptr subpass_id scope statistics
        true).2.m_commands = []) := by
  simp [PrimaryCommandBuffer.start_recording, SecondaryCommandBuffer.start_recording, h]

/-- A stopped buffer holding one descriptor starts recording again with an
empty journal. -/
theorem C7_start_recording_clears_journal_witness :
    stopped_primary.m_recording_in_progress = false ∧
    stopped_primary.m_commands.length = 1 ∧
    (PrimaryCommandBuffer.start_recording stopped_primary true false true).1 = true ∧
    (PrimaryCommandBuffer.start_recording stopped_primary true false true).2.m_commands = [] :=
  ⟨rfl, rfl,
    (C7_start_recording_clears_journal stopped_primary true false false example_framebuffer
      example_render_pass 0
      OcclusionQuerySupportScope.OCCLUSION_QUERY_SUPPORT_SCOPE_NOT_REQUIRED 0 rfl).1.1,
    (C7_start_recording_clears_journal stopped_primary true false false example_framebuffer
      example_render_pass 0
      OcclusionQuerySupportScope.OCCLUSION_QUERY_SUPPORT_SCOPE_NOT_REQUIRED 0 rfl).1.2.2⟩

/-- Claim C8, evaluated on the code: a primary buffer starts recording, begins
a render pass, is stopped with the render pass still open and starts recording
again, every native call succeeding. All four calls return `true`, and after
the second `start_recording` the flag `m_is_renderpass_active` is still true:
a draw is accepted although the new recording has begun no render pass, and a
dispatch is rejected. -/
theorem C8_primary_start_recording_keeps_renderpass_flag :
    (run fresh_primary stale_renderpass_calls).1 = [true, true, true, true] ∧
    (run fresh_primary stale_renderpass_calls).2.m_recording_in_progress = true ∧
    (run fresh_primary stale_renderpass_calls).2.m_is_renderpass_active = true ∧
    (record (run fresh_primary stale_renderpass_calls).2 example_draw).1 = true ∧
    (record (run fresh_primary stale_renderpass_calls).2 example_dispatch).1 = false := by
  decide

/-- Claim C9: a successful `start_recording` on a secondary command buffer sets
`m_is_renderpass_active` to its `renderpass_usage_only` argument, whatever the
flag was; right afterwards a "must be active" operation returns `true` exactly
when the argument was true and a "must be inactive" operation exactly when it
was false. -/
theorem C9_secondary_start_recording_sets_renderpass_flag (cb : CommandBufferBase)
    (one_time_submit simultaneous_use_allowed renderpass_usage_only : Bool)
    (framebuffer_ptr : FramebufferPtr) (render_pass_ptr : RenderPassPtr)
    (subpass_id : AnvilIndex) (scope : OcclusionQuerySupportScope) (statistics : VkFlags)
    (call : RecordCall) (h : cb.m_recording_in_progress = false) :
    (SecondaryCommandBuffer.start_recording cb one_time_submit simultaneous_use_allowed
        renderpass_usage_only framebuffer_ptr render_pass_ptr subpass_id scope statistics
        true).1 = true ∧
    (SecondaryCommandBuffer.start_recording cb one_time_submit simultaneous_use_allowed
        renderpass_usage_only framebuffer_ptr render_pass_ptr subpass_id scope statistics
        true).2.m_is_renderpass_active = renderpass_usage_only ∧
    (call.requirement = some RenderPassRequirement.must_be_active →
      ((record (SecondaryCommandBuffer.start_recording cb one_time_submit
        simultaneous_use_allowed renderpass_usage_only framebuffer_ptr render_pass_ptr
        subpass_id scope statistics true).2 call).1 = true ↔ renderpass_usage_only = true)) ∧
    (call.requirement = some RenderPassRequirement.must_be_inactive →
      ((record (SecondaryCommandBuffer.start_recording cb one_time_submit
        simultaneous_use_allowed renderpass_usage_only framebuffer_ptr render_pass_ptr
        subpass_id scope statistics true).2 call).1 = true ↔ renderpass_usage_only = false)) := by
  refine ⟨?_, ?_, ?_, ?_⟩
  · simp [SecondaryCommandBuffer.start_recording, h]
  · simp [SecondaryCommandBuffer.start_recording, h]
  · intro hreq
    rw [record_result]
    cases call <;>
    simp_all [SecondaryCommandBuffer.start_recording, RecordCall.renderpass_guard,
      RecordCall.requirement]
  · intro hreq
    rw [record_result]
    cases call <;>
    simp_all [SecondaryCommandBuffer.start_recording, RecordCall.renderpass_guard,
      RecordCall.requirement]

/-- A fresh secondary buffer started with `renderpass_usage_only` accepts a
draw at once. -/
theorem C9_secondary_start_recording_sets_renderpass_flag_witness :
    fresh_secondary.m_recording_in_progress = false ∧
    (SecondaryCommandBuffer.start_recording fresh_secondary false false true
      example_framebuffer example_render_pass 0
      OcclusionQuerySupportScope.OCCLUSION_QUERY_SUPPORT_SCOPE_NOT_REQUIRED 0
      true).2.m_is_renderpass_active = true ∧
    (record (SecondaryCommandBuffer.start_recording fresh_secondary false false true
      example_framebuffer example_render_pass 0
      OcclusionQuerySupportScope.OCCLUSION_QUERY_SUPPORT_SCOPE_NOT_REQUIRED 0 true).2
      example_draw).1 = true :=
  ⟨rfl,
    (C9_secondary_start_recording_sets_renderpass_flag fresh_secondary false false true
      example_framebuffer example_render_pass 0
      OcclusionQuerySupportScope.OCCLUSION_QUERY_SUPPORT_SCOPE_NOT_REQUIRED 0 example_draw
      rfl).2.1,
    ((C9_secondary_start_recording_sets_renderpass_flag fresh_secondary false false true
      example_framebuffer example_render_pass 0
      OcclusionQuerySupportScope.OCCLUSION_QUERY_SUPPORT_SCOPE_NOT_REQUIRED 0 example_draw
      rfl).2.2.1 rfl).2 rfl⟩

/-- Claim C10: called while recording, with the native end call succeeding,
`stop_recording` returns `true`, clears `m_recording_in_progress` and leaves
the journal and `m_is_renderpass_active` as they were; in every sequence of
calls made afterwards in which no `start_recording` succeeds, every `record_*`
call returns `false`. -/
theorem C10_stop_recording_ends_recording (cb : CommandBufferBase)
    (h : cb.m_recording_in_progress = true) :
    (cb.stop_recording true).1 = true ∧
    (cb.stop_recording true).2.m_recording_in_progress = false ∧
    (cb.stop_recording true).2.m_commands = cb.m_commands ∧
    (cb.stop_recording true).2.m_is_renderpass_active = cb.m_is_renderpass_active ∧
    ∀ calls : List ApiCall,
      (∀ p ∈ calls.zip (run (cb.stop_recording true).2 calls).1,
        p.1.is_start_recording = true → p.2 = false) →
      ∀ p ∈ calls.zip (run (cb.stop_recording true).2 calls).1,
        p.1.is_record = true → p.2 = false := by
  refine ⟨?_, ?_, ?_, ?_, ?_⟩
  · simp [stop_recording, h]
  · simp [stop_recording, h]
  · simp [stop_recording, h]
  · simp [stop_recording, h]
  · intro calls
    exact run_not_recording calls _ (by simp [stop_recording, h])

/-- After a recording primary buffer is stopped, a draw, a dispatch and a bind
are all rejected, a refused `start_recording` and a `reset` in between
notwithstanding. -/
theorem C10_stop_recording_ends_recording_witness :
    recording_primary.m_recording_in_progress = true ∧
    (recording_primary.stop_recording true).1 = true ∧
    (recording_primary.stop_recording true).2.m_recording_in_progress = false ∧
    (∀ p ∈ calls_after_stop.zip (run (recording_primary.stop_recording true).2
        calls_after_stop).1, p.1.is_record = true → p.2 = false) :=
  ⟨rfl, (C10_stop_recording_ends_recording recording_primary rfl).1,
    (C10_stop_recording_ends_recording recording_primary rfl).2.1,
    (C10_stop_recording_ends_recording recording_primary rfl).2.2.2.2 calls_after_stop
      (by decide)⟩

/-- Claim C11: called while not recording, with the native reset call
succeeding, `reset` returns `true`, empties the journal whatever it held,
leaves `m_recording_in_progress` false, and issues exactly one native call,
`vkResetCommandBuffer`, whose flags are the release-resources bit when
`should_release_resources` is true and zero when it is false. -/
theorem C11_reset_clears_journal (cb : CommandBufferBase) (should_release_resources : Bool)
    (h : cb.m_recording_in_progress = false) :
    (cb.reset should_release_resources true).1 = true ∧
    (cb.reset should_release_resources true).2.m_commands = [] ∧
    (cb.reset should_release_resources true).2.m_recording_in_progress = false ∧
    (cb.reset should_release_resources true).2.vk_calls =
      cb.vk_calls ++ [VkCall.vkResetCommandBuffer
        (if should_release_resources then VK_COMMAND_BUFFER_RESET_RELEASE_RESOURCES_BIT
         else 0)] ∧
    ((if should_release_resources then VK_COMMAND_BUFFER_RESET_RELEASE_RESOURCES_BIT else 0) &&&
        VK_COMMAND_BUFFER_RESET_RELEASE_RESOURCES_BIT =
      VK_COMMAND_BUFFER_RESET_RELEASE_RESOURCES_BIT ↔ should_release_resources = true) := by
  refine ⟨?_, ?_, ?_, ?_, ?_⟩
  · simp [reset, h]
  · simp [reset, h]
  · simp [reset, h]
  · simp [reset, h]
  · cases should_release_resources <;> decide

/-- A stopped buffer holding one descriptor is reset to an empty journal. -/
theorem C11_reset_clears_journal_witness :
    stopped_primary.m_recording_in_progress = false ∧
    stopped_primary.m_commands.length = 1 ∧
    (stopped_primary.reset true true).1 = true ∧
    (stopped_primary.reset true true).2.m_commands = [] ∧
    (stopped_primary.reset true true).2.m_recording_in_progress = false :=
  ⟨rfl, rfl, (C11_reset_clears_journal stopped_primary true rfl).1,
    (C11_reset_clears_journal stopped_primary true rfl).2.1,
    (C11_reset_clears_journal stopped_primary true rfl).2.2.1⟩

/-- Claim C12, as stated, fails: a primary buffer that starts recording,
records one dispatch and is reset at once (every native call succeeding) has
the reset refused; it ends with one descriptor in the journal and still
recording. -/
theorem C12_reset_while_recording_refused :
    (run fresh_primary reset_while_recording_calls).1 = [true, true, false] ∧
    ¬ ((run fresh_primary reset_while_recording_calls).2.m_commands.length = 0 ∧
       (run fresh_primary reset_while_recording_calls).2.m_recording_in_progress = false) := by
  decide

/-- Claim C12, amended: with journaling enabled, after a successful
`start_recording` and `N` recording calls that all return `true` the journal
has length `N`; a successful `stop_recording` followed by `reset` (either value
of the release flag, native calls succeeding) then ends with an empty journal
and the buffer not recording, whereas `reset` without the `stop_recording` is
refused and leaves the `N` descriptors and the recording flag as they were. -/
theorem C12_start_record_stop_reset (cb : CommandBufferBase) (start : ApiCall)
    (calls : List RecordCall) (release : Bool)
    (hstart : start.is_start_recording = true) (hok : (start.apply cb).1 = true)
    (hen : cb.m_command_stashing_disabled = false)
    (hall : ∀ r ∈ (record_all (start.apply cb).2 calls).1, r = true) :
    (record_all (start.apply cb).2 calls).2.m_commands.length = calls.length ∧
    ((record_all (start.apply cb).2 calls).2.stop_recording true).1 = true ∧
    (((record_all (start.apply cb).2 calls).2.stop_recording true).2.reset release true).1
      = true ∧
    (((record_all (start.apply cb).2 calls).2.stop_recording true).2.reset release
      true).2.m_commands.length = 0 ∧
    (((record_all (start.apply cb).2 calls).2.stop_recording true).2.reset release
      true).2.m_recording_in_progress = false ∧
    ((record_all (start.apply cb).2 calls).2.reset release true).1 = false ∧
    ((record_all (start.apply cb).2 calls).2.reset release true).2.m_commands.length
      = calls.length ∧
    ((record_all (start.apply cb).2 calls).2.reset release true).2.m_recording_in_progress
      = true := by
  obtain ⟨hrec, hempty, hst⟩ := start_recording_successful cb start hstart hok
  have hrec2 : (record_all (start.apply cb).2 calls).2.m_recording_in_progress = true := by
    rw [record_all_recording_in_progress, hrec]
  have hlen : (record_all (start.apply cb).2 calls).2.m_commands.length = calls.length := by
    rw [record_all_m_commands calls _ (hst.trans hen), hempty,
      successful_calls_of_all_true calls _ (record_all_length calls _) hall]
    simp
  refine ⟨hlen, ?_, ?_, ?_, ?_, ?_, ?_, ?_⟩ <;>
  simp [stop_recording, reset, hrec2, hlen]

/-- Two recording calls after a start: the journal has two entries, and is
empty after stop and reset. -/
theorem C12_start_record_stop_reset_witness :
    (ApiCall.primary_start_recording false false true).is_start_recording = true ∧
    ((ApiCall.primary_start_recording false false true).apply fresh_primary).1 = true ∧
    fresh_primary.m_command_stashing_disabled = false ∧
    (record_all ((ApiCall.primary_start_recording false false true).apply fresh_primary).2
      [example_dispatch, example_bind_descriptor_sets]).2.m_commands.length = 2 ∧
    (((record_all ((ApiCall.primary_start_recording false false true).apply fresh_primary).2
      [example_dispatch, example_bind_descriptor_sets]).2.stop_recording true).2.reset false
      true).2.m_commands.length = 0 :=
  ⟨rfl, rfl, rfl,
    (C12_start_record_stop_reset fresh_primary (ApiCall.primary_start_recording false false true)
      [example_dispatch, example_bind_descriptor_sets] false rfl rfl rfl (by decide)).1,
    (C12_start_record_stop_reset fresh_primary (ApiCall.primary_start_recording false false true)
      [example_dispatch, example_bind_descriptor_sets] false rfl rfl rfl
      (by decide)).2.2.2.1⟩

/-- Claim C13: when the native call is reported as failed, `start_recording`
(primary and secondary), `stop_recording` and `reset` return `false` and leave
`m_recording_in_progress`, `m_is_renderpass_active` and the journal exactly as
they were; in particular a failed `stop_recording` leaves a recording buffer
recording. The failed native call itself is in the trace. -/
theorem C13_native_failure_changes_nothing (cb : CommandBufferBase)
    (one_time_submit simultaneous_use_allowed renderpass_usage_only should_release_resources :
      Bool)
    (framebuffer_ptr : FramebufferPtr) (render_pass_ptr : RenderPassPtr)
    (subpass_id : AnvilIndex) (scope : OcclusionQuerySupportScope) (statistics : VkFlags) :
    ((PrimaryCommandBuffer.start_recording cb one_time_submit simultaneous_use_allowed
        false).1 = false ∧
      (PrimaryCommandBuffer.start_recording cb one_time_submit simultaneous_use_allowed
        false).2.m_recording_in_progress = cb.m_recording_in_progress ∧
      (PrimaryCommandBuffer.start_recording cb one_time_submit simultaneous_use_allowed
        false).2.m_is_renderpass_active = cb.m_is_renderpass_active ∧
      (PrimaryCommandBuffer.start_recording cb one_time_submit simultaneous_use_allowed
        false).2.m_commands = cb.m_commands) ∧
    ((SecondaryCommandBuffer.start_recording cb one_time_submit simultaneous_use_allowed
        renderpass_usage_only framebuffer_ptr render_pass_ptr subpass_id scope statistics
        false).1 = false ∧
      (SecondaryCommandBuffer.start_recording cb one_time_submit simultaneous_use_allowed
        renderpass_usage_only framebuffer_ptr render_pass_ptr subpass_id scope statistics
        false).2.m_recording_in_progress = cb.m_recording_in_progress ∧
      (SecondaryCommandBuffer.start_recording cb one_time_submit simultaneous_use_allowed
        renderpass_usage_only framebuffer_ptr render_pass_ptr subpass_id scope statistics
        false).2.m_is_renderpass_active = cb.m_is_renderpass_active ∧
      (SecondaryCommandBuffer.start_recording cb one_time_submit simultaneous_use_allowed
        renderpass_usage_only framebuffer_ptr render_pass_ptr subpass_id scope statistics
        false).2.m_commands = cb.m_commands) ∧
    ((cb.stop_recording false).1 = false ∧
      (cb.stop_recording false).2.m_recording_in_progress = cb.m_recording_in_progress ∧
      (cb.stop_recording false).2.m_is_renderpass_active = cb.m_is_renderpass_active ∧
      (cb.stop_recording false).2.m_commands = cb.m_commands) ∧
    ((cb.reset should_release_resources false).1 = false ∧
      (cb.reset should_release_resources false).2.m_recording_in_progress =
        cb.m_recording_in_progress ∧
      (cb.reset should_release_resources false).2.m_is_renderpass_active =
        cb.m_is_renderpass_active ∧
      (cb.reset should_release_resources false).2.m_commands = cb.m_commands) ∧
    (cb.m_recording_in_progress = true →
      (cb.stop_recording false).2.m_recording_in_progress = true ∧
      (cb.stop_recording false).2.vk_calls = cb.vk_calls ++ [VkCall.vkEndCommandBuffer]) ∧
    (cb.m_recording_in_progress = false →
      (PrimaryCommandBuffer.start_recording cb one_time_submit simultaneous_use_allowed
        false).2.vk_calls.length = cb.vk_calls.length + 1 ∧
      (SecondaryCommandBuffer.start_recording cb one_time_submit simultaneous_use_allowed
        renderpass_usage_only framebuffer_ptr render_pass_ptr subpass_id scope statistics
        false).2.vk_calls.length = cb.vk_calls.length + 1 ∧
      (cb.reset should_release_resources false).2.vk_calls.length = cb.vk_calls.length + 1) := by
  cases hrec : cb.m_recording_in_progress <;>
  simp [PrimaryCommandBuffer.start_recording, SecondaryCommandBuffer.start_recording,
    stop_recording, reset, hrec]

/-- A driver that refuses to end the recording leaves the buffer recording; one
that refuses the reset leaves the journal of a stopped buffer. -/
theorem C13_native_failure_changes_nothing_witness :
    (recording_primary.stop_recording false).1 = false ∧
    (recording_primary.stop_recording false).2.m_recording_in_progress = true ∧
    (stopped_primary.reset true false).1 = false ∧
    (stopped_primary.reset true false).2.m_commands = stopped_primary.m_commands :=
  ⟨(C13_native_failure_changes_nothing recording_primary false false false true
      example_framebuffer example_render_pass 0
      OcclusionQuerySupportScope.OCCLUSION_QUERY_SUPPORT_SCOPE_NOT_REQUIRED 0).2.2.1.1,
    ((C13_native_failure_changes_nothing recording_primary false false false true
      example_framebuffer example_render_pass 0
      OcclusionQuerySupportScope.OCCLUSION_QUERY_SUPPORT_SCOPE_NOT_REQUIRED 0).2.2.2.2.1
      rfl).1,
    (C13_native_failure_changes_nothing stopped_primary false false false true
      example_framebuffer example_render_pass 0
      OcclusionQuerySupportScope.OCCLUSION_QUERY_SUPPORT_SCOPE_NOT_REQUIRED 0).2.2.2.1.1,
    (C13_native_failure_changes_nothing stopped_primary false false false true
      example_framebuffer example_render_pass 0
      OcclusionQuerySupportScope.OCCLUSION_QUERY_SUPPORT_SCOPE_NOT_REQUIRED 0).2.2.2.1.2.2.2⟩

/-- Claim C14: with journaling enabled the journal after a sequence of
recording calls is the journal before followed by the descriptors of the calls
that returned `true`, one each, in call order; after a successful
`start_recording` it is exactly that list. Every descriptor carries the tag of
the operation that produced it; a call that returns `true` appends its
descriptor at the end and keeps every earlier entry, a call that returns
`false` appends nothing. -/
theorem C14_journal_is_the_log_of_successful_calls (cb : CommandBufferBase)
    (start : ApiCall) (calls : List RecordCall) (call : RecordCall)
    (h : cb.m_command_stashing_disabled = false) :
    (record_all cb calls).2.m_commands =
      cb.m_commands ++
        (successful_calls calls (record_all cb calls).1).map RecordCall.command ∧
    (start.is_start_recording = true → (start.apply cb).1 = true →
      (record_all (start.apply cb).2 calls).2.m_commands =
        (successful_calls calls (record_all (start.apply cb).2 calls).1).map
          RecordCall.command) ∧
    call.command.type = call.command_type ∧
    ((record cb call).1 = true →
      (record cb call).2.m_commands = cb.m_commands ++ [call.command]) ∧
    ((record cb call).1 = false → (record cb call).2.m_commands = cb.m_commands) := by
  refine ⟨record_all_m_commands calls cb h, ?_, RecordCall.command_type_eq call, ?_, ?_⟩
  · intro hstart hok
    obtain ⟨_, hempty, hst⟩ := start_recording_successful cb start hstart hok
    rw [record_all_m_commands calls _ (hst.trans h), hempty, List.nil_append]
  · intro hres
    rw [record_m_commands]
    simp [hres, h]
  · intro hres
    rw [record_m_commands]
    simp [hres]

/-- A dispatch, a draw (rejected: no render pass) and a bind recorded after a
start leave the descriptors of the dispatch and of the bind, in that order. -/
theorem C14_journal_is_the_log_of_successful_calls_witness :
    recording_primary.m_command_stashing_disabled = false ∧
    (record_all recording_primary
      [example_dispatch, example_draw, example_bind_descriptor_sets]).1 =
      [true, false, true] ∧
    (record_all recording_primary
      [example_dispatch, example_draw, example_bind_descriptor_sets]).2.m_commands =
      [example_dispatch.command, example_bind_descriptor_sets.command] :=
  ⟨rfl, rfl,
    (C14_journal_is_the_log_of_successful_calls recording_primary
      (ApiCall.primary_start_recording false false true)
      [example_dispatch, example_draw, example_bind_descriptor_sets] example_dispatch rfl).1⟩

/-- Claim C15: the native-call trace after a sequence of recording calls is the
trace before followed by the native calls of the calls that returned `true`,
one each, in call order. The native call of an operation is the entry point of
that operation and carries the numeric arguments of the caller; a call that
returns `true` adds its native call at the end of the trace, a call that
returns `false` adds none. -/
theorem C15_native_trace_is_the_log_of_successful_calls (cb : CommandBufferBase)
    (calls : List RecordCall) (call : RecordCall) :
    (record_all cb calls).2.vk_calls =
      cb.vk_calls ++
        (successful_calls calls (record_all cb calls).1).map
          (RecordCall.vk_call cb.m_device_ptr) ∧
    (call.vk_call cb.m_device_ptr).command_type = some call.command_type ∧
    (∀ vertex_count instance_count first_vertex first_instance : Nat,
      (RecordCall.draw vertex_count instance_count first_vertex first_instance).vk_call
          cb.m_device_ptr =
        VkCall.vkCmdDraw vertex_count instance_count first_vertex first_instance) ∧
    (∀ (index_count instance_count first_index : Nat) (vertex_offset : Int)
        (first_instance : Nat),
      (RecordCall.draw_indexed index_count instance_count first_index vertex_offset
          first_instance).vk_call cb.m_device_ptr =
        VkCall.vkCmdDrawIndexed index_count instance_count first_index vertex_offset
          first_instance) ∧
    (∀ x y z : Nat,
      (RecordCall.dispatch x y z).vk_call cb.m_device_ptr = VkCall.vkCmdDispatch x y z) ∧
    (∀ (dst_buffer_ptr : BufferPtr) (dst_offset size : VkDeviceSize) (data : Nat),
      (RecordCall.fill_buffer dst_buffer_ptr dst_offset size data).vk_call cb.m_device_ptr =
        VkCall.vkCmdFillBuffer dst_buffer_ptr.get_buffer dst_offset size data) ∧
    ((record cb call).1 = true →
      (record cb call).2.vk_calls = cb.vk_calls ++ [call.vk_call cb.m_device_ptr]) ∧
    ((record cb call).1 = false → (record cb call).2.vk_calls = cb.vk_calls) := by
  refine ⟨record_all_vk_calls calls cb, RecordCall.vk_call_command_type _ call,
    fun _ _ _ _ => rfl, fun _ _ _ _ _ => rfl, fun _ _ _ => rfl, fun _ _ _ _ => rfl, ?_, ?_⟩
  · intro hres
    rw [record_vk_calls]
    simp [hres]
  · intro hres
    rw [record_vk_calls]
    simp [hres]

/-- A dispatch, a draw (rejected: no render pass) and a fill recorded after a
start add `vkCmdDispatch` and `vkCmdFillBuffer`, in that order, to the trace. -/
theorem C15_native_trace_is_the_log_of_successful_calls_witness :
    (record_all recording_primary
      [example_dispatch, example_draw, RecordCall.fill_buffer example_buffer 64 32 255]).1 =
      [true, false, true] ∧
    (record_all recording_primary
      [example_dispatch, example_draw,
        RecordCall.fill_buffer example_buffer 64 32 255]).2.vk_calls =
      recording_primary.vk_calls ++
        [VkCall.vkCmdDispatch 1 1 1, VkCall.vkCmdFillBuffer 41 64 32 255] :=
  ⟨rfl,
    (C15_native_trace_is_the_log_of_successful_calls recording_primary
      [example_dispatch, example_draw, RecordCall.fill_buffer example_buffer 64 32 255]
      example_dispatch).1⟩

/-- Claim C16: from the same state, a sequence of `start_recording`,
`record_*`, `stop_recording` and `reset` calls run with the stashing toggle
disabled returns the same results, ends with the same two flags and issues the
same native calls as the run with the toggle enabled; with the toggle disabled
the journal only ever stays as it was or is cleared, no descriptor is
appended. -/
theorem C16_journal_toggle_does_not_change_native_path (cb : CommandBufferBase)
    (calls : List ApiCall) :
    (run { cb with m_command_stashing_disabled := true } calls).1 =
      (run { cb with m_command_stashing_disabled := false } calls).1 ∧
    (run { cb with m_command_stashing_disabled := true } calls).2.m_recording_in_progress =
      (run { cb with m_command_stashing_disabled := false } calls).2.m_recording_in_progress ∧
    (run { cb with m_command_stashing_disabled := true } calls).2.m_is_renderpass_active =
      (run { cb with m_command_stashing_disabled := false } calls).2.m_is_renderpass_active ∧
    (run { cb with m_command_stashing_disabled := true } calls).2.vk_calls =
      (run { cb with m_command_stashing_disabled := false } calls).2.vk_calls ∧
    ((run { cb with m_command_stashing_disabled := true } calls).2.m_commands = cb.m_commands ∨
      (run { cb with m_command_stashing_disabled := true } calls).2.m_commands = []) := by
  have hsim := run_same_native_path calls { cb with m_command_stashing_disabled := true }
    { cb with m_command_stashing_disabled := false } ⟨rfl, rfl, rfl, rfl⟩
  exact ⟨hsim.1, hsim.2.1, hsim.2.2.1, hsim.2.2.2.1,
    run_stashing_disabled calls { cb with m_command_stashing_disabled := true } rfl⟩

/-- Claim C17, evaluated on the code: on a recording buffer with an empty
journal and one subscriber per callback, a pipeline barrier is accepted and its
subscriber is invoked once, before the native call, but after the descriptor
was appended: the journal the subscriber sees already holds the new descriptor.
The two render-pass brackets notify before they append. -/
theorem C17_pipeline_barrier_notifies_after_journaling :
    subscribed_recording_primary.m_commands = [] ∧
    subscribed_recording_primary.vk_calls.length = 1 ∧
    (record subscribed_recording_primary (pipeline_barrier_of 1)).1 = true ∧
    (record subscribed_recording_primary (pipeline_barrier_of 1)).2.notifications.map
      (fun event => (event.id, event.m_commands, event.n_vk_calls)) =
      [(CommandBufferCallbackID.COMMAND_BUFFER_CALLBACK_ID_PIPELINE_BARRIER_COMMAND_RECORDED,
        [(pipeline_barrier_of 1).command], 1)] ∧
    (record subscribed_recording_primary example_begin_render_pass).1 = true ∧
    (record subscribed_recording_primary example_begin_render_pass).2.notifications.map
      (fun event => (event.id, event.m_commands, event.n_vk_calls)) =
      [(CommandBufferCallbackID.COMMAND_BUFFER_CALLBACK_ID_BEGIN_RENDER_PASS_COMMAND_RECORDED,
        [], 1)] := by
  decide

/-- Claim C18, evaluated on the code: on a recording buffer, sixteen elements
raise the capacity assertion of `record_bind_descriptor_sets`,
`record_bind_vertex_buffers`, `record_execute_commands` and (once per array)
`record_wait_events`, although none of the sixteen is stored past the end of
the array; fifteen elements raise none. Only `record_pipeline_barrier` lets
sixteen elements through and raises its assertion at seventeen. -/
theorem C18_sixteen_elements_raise_the_capacity_assertion :
    recording_primary.assertion_failures = 0 ∧
    ((record recording_primary (bind_descriptor_sets_of 16)).2.assertion_failures = 1 ∧
      (record recording_primary (bind_descriptor_sets_of 16)).2.out_of_bounds_writes = 0 ∧
      (record recording_primary (bind_descriptor_sets_of 15)).2.assertion_failures = 0) ∧
    ((record recording_primary (bind_vertex_buffers_of 16)).2.assertion_failures = 1 ∧
      (record recording_primary (bind_vertex_buffers_of 16)).2.out_of_bounds_writes = 0 ∧
      (record recording_primary (bind_vertex_buffers_of 15)).2.assertion_failures = 0) ∧
    ((record recording_primary (wait_events_of 16)).2.assertion_failures = 4 ∧
      (record recording_primary (wait_events_of 16)).2.out_of_bounds_writes = 0 ∧
      (record recording_primary (wait_events_of 15)).2.assertion_failures = 0) ∧
    ((record recording_primary (execute_commands_of 16)).2.assertion_failures = 1 ∧
      (record recording_primary (execute_commands_of 16)).2.out_of_bounds_writes = 0 ∧
      (record recording_primary (execute_commands_of 15)).2.assertion_failures = 0) ∧
    ((record recording_primary (pipeline_barrier_of 16)).2.assertion_failures = 0 ∧
      (record recording_primary (pipeline_barrier_of 17)).2.assertion_failures = 1) := by
  decide

/-- Claim C19, evaluated on the code: on a recording buffer, each of the five
functions called with seventeen elements returns `true`, appends its descriptor
to the journal, issues its native call and stores past the end of its
translation array (once per array); `record_pipeline_barrier` also notifies its
subscriber. -/
theorem C19_seventeen_elements_are_recorded :
    subscribed_recording_primary.m_commands.length = 0 ∧
    subscribed_recording_primary.vk_calls.length = 1 ∧
    subscribed_recording_primary.out_of_bounds_writes = 0 ∧
    ((record subscribed_recording_primary (bind_descriptor_sets_of 17)).1 = true ∧
      (record subscribed_recording_primary (bind_descriptor_sets_of 17)).2.m_commands.length
        = 1 ∧
      (record subscribed_recording_primary (bind_descriptor_sets_of 17)).2.vk_calls.length
        = 2 ∧
      (record subscribed_recording_primary
        (bind_descriptor_sets_of 17)).2.out_of_bounds_writes = 1) ∧
    ((record subscribed_recording_primary (bind_vertex_buffers_of 17)).1 = true ∧
      (record subscribed_recording_primary (bind_vertex_buffers_of 17)).2.m_commands.length
        = 1 ∧
      (record subscribed_recording_primary (bind_vertex_buffers_of 17)).2.vk_calls.length
        = 2 ∧
      (record subscribed_recording_primary
        (bind_vertex_buffers_of 17)).2.out_of_bounds_writes = 1) ∧
    ((record subscribed_recording_primary (pipeline_barrier_of 17)).1 = true ∧
      (record subscribed_recording_primary (pipeline_barrier_of 17)).2.m_commands.length = 1 ∧
      (record subscribed_recording_primary (pipeline_barrier_of 17)).2.vk_calls.length = 2 ∧
      (record subscribed_recording_primary (pipeline_barrier_of 17)).2.notifications.length
        = 1 ∧
      (record subscribed_recording_primary (pipeline_barrier_of 17)).2.out_of_bounds_writes
        = 3) ∧
    ((record subscribed_recording_primary (wait_events_of 17)).1 = true ∧
      (record subscribed_recording_primary (wait_events_of 17)).2.m_commands.length = 1 ∧
      (record subscribed_recording_primary (wait_events_of 17)).2.vk_calls.length = 2 ∧
      (record subscribed_recording_primary (wait_events_of 17)).2.out_of_bounds_writes = 4) ∧
    ((record subscribed_recording_primary (execute_commands_of 17)).1 = true ∧
      (record subscribed_recording_primary (execute_commands_of 17)).2.m_commands.length
        = 1 ∧
      (record subscribed_recording_primary (execute_commands_of 17)).2.vk_calls.length = 2 ∧
      (record subscribed_recording_primary (execute_commands_of 17)).2.out_of_bounds_writes
        = 1) := by
  decide

/-- Claim C20, as stated, fails: on a recording buffer a call with seventeen
viewports, and one with seventeen scissors, returns `true`, journals its
descriptor and issues its native call. -/
theorem C20_seventeen_viewports_accepted :
    recording_primary.m_commands.length = 0 ∧
    recording_primary.vk_calls.length = 1 ∧
    (record recording_primary (set_viewport_of 17)).1 = true ∧
    (record recording_primary (set_viewport_of 17)).2.m_commands.length = 1 ∧
    (record recording_primary (set_viewport_of 17)).2.vk_calls.length = 2 ∧
    (record recording_primary (set_scissor_of 17)).1 = true ∧
    (record recording_primary (set_scissor_of 17)).2.m_commands.length = 1 ∧
    (record recording_primary (set_scissor_of 17)).2.vk_calls.length = 2 := by
  decide

/-- Claim C20, amended: `record_set_viewport` and `record_set_scissor` make no
capacity check and fill no translation array. On a recording buffer a call with
any number of viewports (scissors), more than sixteen included, returns
`true`, raises no assertion, stores nothing out of bounds, appends its
descriptor when stashing is enabled and issues one native call with the count
and the array of the caller. -/
theorem C20_viewport_and_scissor_count_is_not_checked (cb : CommandBufferBase)
    (first count : Nat) (viewports : List VkViewport) (scissors : List VkRect2D)
    (h : cb.m_recording_in_progress = true) :
    ((cb.record_set_viewport first count viewports).1 = true ∧
      (cb.record_set_viewport first count viewports).2.assertion_failures =
        cb.assertion_failures ∧
      (cb.record_set_viewport first count viewports).2.out_of_bounds_writes =
        cb.out_of_bounds_writes ∧
      (cb.record_set_viewport first count viewports).2.m_commands =
        (if cb.m_command_stashing_disabled then cb.m_commands
         else cb.m_commands ++
          [Command.set_viewport (SetViewportCommand.SetViewportCommand first count viewports)]) ∧
      (cb.record_set_viewport first count viewports).2.vk_calls =
        cb.vk_calls ++ [VkCall.vkCmdSetViewport first count viewports]) ∧
    ((cb.record_set_scissor first count scissors).1 = true ∧
      (cb.record_set_scissor first count scissors).2.assertion_failures =
        cb.assertion_failures ∧
      (cb.record_set_scissor first count scissors).2.out_of_bounds_writes =
        cb.out_of_bounds_writes ∧
      (cb.record_set_scissor first count scissors).2.m_commands =
        (if cb.m_command_stashing_disabled then cb.m_commands
         else cb.m_commands ++
          [Command.set_scissor (SetScissorCommand.SetScissorCommand first count scissors)]) ∧
      (cb.record_set_scissor first count scissors).2.vk_calls =
        cb.vk_calls ++ [VkCall.vkCmdSetScissor first count scissors]) := by
  simp [record_set_viewport, record_set_scissor, h]

/-- Seventeen viewports on a recording buffer: accepted, no assertion raised,
the count handed to the native call is seventeen. -/
theorem C20_viewport_and_scissor_count_is_not_checked_witness :
    recording_primary.m_recording_in_progress = true ∧
    (recording_primary.record_set_viewport 0 17
      ((List.range 17).map (fun i => { data := i }))).1 = true ∧
    (recording_primary.record_set_viewport 0 17
      ((List.range 17).map (fun i => { data := i }))).2.assertion_failures =
      recording_primary.assertion_failures :=
  ⟨rfl,
    (C20_viewport_and_scissor_count_is_not_checked recording_primary 0 17
      ((List.range 17).map (fun i => { data := i })) [] rfl).1.1,
    (C20_viewport_and_scissor_count_is_not_checked recording_primary 0 17
      ((List.range 17).map (fun i => { data := i })) [] rfl).1.2.1⟩

/-- Claim C24, as the code has it: the constructor of a view does not
initialise `m_device_ptr`, while both constructors of a root buffer do. The
first statement of `Buffer::set_memory` makes an owning pointer from
`m_device_ptr`, which throws `std::bad_weak_ptr` on an empty pointer. So on
every view, whatever its parent, for every device state and every region
argument, null included, `set_memory` does not return `false`: it throws,
before it has looked at the region or at the memory the view already has.
`read` and `write` open with the same statement and throw on every view as
well. The view evaluated is a view of 128 bytes at offset 64 of a root buffer with
memory. -/
theorem C24_set_memory_on_a_view_throws :
    (∀ (d : DeviceState) (size : VkDeviceSize) (queue_families : QueueFamilyBits)
        (sharing : VkEnum) (usage : VkFlags),
      (Buffer.create d size queue_families sharing usage).1.m_device_ptr = some d.device) ∧
    (∀ (d : DeviceState) (parent : Buffer) (start_offset size : VkDeviceSize),
      (Buffer.create_view d parent start_offset size).1.m_device_ptr = none ∧
      (∀ (later : DeviceState) (region : Option MemoryBlock),
        (Buffer.create_view d parent start_offset size).1.set_memory later region =
          .faulted .bad_weak_ptr) ∧
      (∀ (fuel : Nat) (later : DeviceState) (offset length : VkDeviceSize),
        Buffer.read (fuel + 1) (Buffer.create_view d parent start_offset size).1 later offset
          length = some (.faulted .bad_weak_ptr)) ∧
      (∀ (fuel : Nat) (later : DeviceState) (offset length : VkDeviceSize) (data : List Nat),
        Buffer.write (fuel + 1) (Buffer.create_view d parent start_offset size).1 later offset
          length data = some (.faulted .bad_weak_ptr))) ∧
    view_of_root.1.m_memory_block_ptr.isSome = true ∧
    (view_of_root.1.set_memory view_of_root.2 (some example_region)).value = none ∧
    (view_of_root.1.set_memory view_of_root.2 none).value = none :=
  ⟨fun _ _ _ _ _ => rfl,
    fun d parent start_offset size =>
      ⟨rfl,
        (Buffer.empty_device_pointer_faults (Buffer.create_view d parent start_offset size).1
          rfl).1,
        (Buffer.empty_device_pointer_faults (Buffer.create_view d parent start_offset size).1
          rfl).2.1,
        (Buffer.empty_device_pointer_faults (Buffer.create_view d parent start_offset size).1
          rfl).2.2⟩,
    by decide,
    by rw [(Buffer.empty_device_pointer_faults view_of_root.1 rfl).1]; rfl,
    by rw [(Buffer.empty_device_pointer_faults view_of_root.1 rfl).1]; rfl⟩

/-- Claim C25, as the code has it: `Buffer::set_memory` stores the region in
`m_memory_block_ptr` before it calls `vkBindBufferMemory` and does not take it
back when the call fails. The call returns `false`, the buffer is left holding
the region, and every later `set_memory` on it is refused as a second bind. -/
theorem C25_failed_bind_leaves_the_region_set (b : Buffer) (d : DeviceState)
    (region : MemoryBlock) (device_ptr : Device) (hdevice : b.m_device_ptr = some device_ptr)
    (hnone : b.m_memory_block_ptr = none)
    (hfail : d.driver.vkBindBufferMemory_succeeds = false) :
    ∃ result : Bool × Buffer × DeviceState,
      b.set_memory d (some region) = .returned result ∧
      result.1 = false ∧
      result.2.1.m_memory_block_ptr = some region ∧
      result.2.2.bound_memory = d.bound_memory ∧
      ∀ (later : DeviceState) (retry : Option MemoryBlock),
        ∃ refused : Bool × Buffer × DeviceState,
          result.2.1.set_memory later retry = .returned refused ∧ refused.1 = false := by
  obtain ⟨bound, heq, h1, h2, _, _, _, _, _, _, h9⟩ :=
    Buffer.set_memory_bound b d region device_ptr hdevice hnone
  refine ⟨bound, heq, by rw [h1, hfail], by rw [h2], by rw [h9]; simp [hfail],
    fun later retry => ⟨_, Buffer.set_memory_refused bound.2.1 later retry device_ptr
      (by rw [h2]; exact hdevice) (Or.inr (by rw [h2]; rfl)), rfl⟩⟩

/-- Witness for C25: a root buffer created without memory, on a device whose
driver refuses `vkBindBufferMemory`. -/
theorem C25_failed_bind_leaves_the_region_set_witness :
    ∃ result : Bool × Buffer × DeviceState,
      unbound_buffer.1.set_memory device_refusing_bind (some example_region) =
        .returned result ∧
      result.1 = false ∧
      result.2.1.m_memory_block_ptr = some example_region ∧
      result.2.2.bound_memory = device_refusing_bind.bound_memory ∧
      ∀ (later : DeviceState) (retry : Option MemoryBlock),
        ∃ refused : Bool × Buffer × DeviceState,
          result.2.1.set_memory later retry = .returned refused ∧ refused.1 = false :=
  C25_failed_bind_leaves_the_region_set unbound_buffer.1 device_refusing_bind example_region
    example_device rfl rfl rfl

/-- Counterexample for C26: the second constructor, asked for mappable memory
and the transfer-destination bit alone (what `read` asks for its staging
buffer), leaves the usage flags without the transfer-source bit. -/
theorem C26_mappable_buffer_keeps_caller_flags :
    (Buffer.construct_with_memory example_device_state 1 example_device 32 QUEUE_FAMILY_DMA_BIT
      VK_SHARING_MODE_EXCLUSIVE VK_BUFFER_USAGE_TRANSFER_DST_BIT true false
      none).1.m_usage_flags = VK_BUFFER_USAGE_TRANSFER_DST_BIT ∧
    ¬ has_flags (Buffer.construct_with_memory example_device_state 1 example_device 32
      QUEUE_FAMILY_DMA_BIT VK_SHARING_MODE_EXCLUSIVE VK_BUFFER_USAGE_TRANSFER_DST_BIT true false
      none).1.m_usage_flags VK_BUFFER_USAGE_TRANSFER_SRC_BIT := by
  decide

/-- Claim C26, amended: the first constructor, and the second constructor when
`should_be_mappable` is false, give usage flags that contain the
transfer-source bit, the transfer-destination bit and every bit the caller
supplied; the second constructor with `should_be_mappable` true gives exactly
the caller's flags; the third constructor gives the view exactly the flags of
its parent. -/
theorem C26_usage_flags_of_the_three_constructors :
    (∀ object device_ptr size queue_families sharing usage_flags,
      has_flags (Buffer.construct object device_ptr size queue_families sharing
        usage_flags).m_usage_flags VK_BUFFER_USAGE_TRANSFER_SRC_BIT ∧
      has_flags (Buffer.construct object device_ptr size queue_families sharing
        usage_flags).m_usage_flags VK_BUFFER_USAGE_TRANSFER_DST_BIT ∧
      has_flags (Buffer.construct object device_ptr size queue_families sharing
        usage_flags).m_usage_flags usage_flags) ∧
    (∀ d object device_ptr size queue_families sharing usage_flags should_be_coherent
        opt_client_data,
      has_flags (Buffer.construct_with_memory d object device_ptr size queue_families sharing
        usage_flags false should_be_coherent opt_client_data).1.m_usage_flags
        VK_BUFFER_USAGE_TRANSFER_SRC_BIT ∧
      has_flags (Buffer.construct_with_memory d object device_ptr size queue_families sharing
        usage_flags false should_be_coherent opt_client_data).1.m_usage_flags
        VK_BUFFER_USAGE_TRANSFER_DST_BIT ∧
      has_flags (Buffer.construct_with_memory d object device_ptr size queue_families sharing
        usage_flags false should_be_coherent opt_client_data).1.m_usage_flags usage_flags) ∧
    (∀ d object device_ptr size queue_families sharing usage_flags should_be_coherent
        opt_client_data,
      (Buffer.construct_with_memory d object device_ptr size queue_families sharing usage_flags
        true should_be_coherent opt_client_data).1.m_usage_flags = usage_flags) ∧
    (∀ d object parent start_offset size,
      (Buffer.construct_view d object parent start_offset size).1.m_usage_flags =
        parent.m_usage_flags) := by
  refine ⟨fun object device_ptr size q s usage => ⟨?_, ?_, ?_⟩,
    fun d object device_ptr size q s usage c data => ⟨?_, ?_, ?_⟩,
    fun _ _ _ _ _ _ _ _ _ => rfl, fun _ _ _ _ _ => rfl⟩
  · exact has_flags_or_right _ _
  · exact has_flags_or_of_left _ _ _ (has_flags_or_right _ _)
  · exact has_flags_or_of_left _ _ _ (has_flags_or_left _ _)
  · exact has_flags_or_right _ _
  · exact has_flags_or_of_left _ _ _ (has_flags_or_right _ _)
  · exact has_flags_or_of_left _ _ _ (has_flags_or_left _ _)

/-- Claim C29, as the code has it: on a root buffer of 256 bytes whose memory
is not host-mappable, `write(64, 32, A)` returns `true` and stores `A` in bytes
64 to 95 of the buffer's memory, but the `read(64, 32, out)` that follows does
not give `A` back. The recorded copy puts the 32 bytes at the start of the
staging buffer, and `read` then reads the staging buffer at offset 64 instead
of 0: with a staging memory block of 32 bytes that read is outside the block
and `read` returns `false`; with a block rounded up to 256 bytes it returns
`true` with 32 zero bytes. In both cases the staging buffer of the `read` (its
memory object has handle 11) does hold `A` in its first 32 bytes. -/
theorem C29_read_back_misses_the_copied_bytes :
    (Buffer.write 3 device_only_buffer.1 device_only_buffer.2 64 32 bytes_A).map
      (Outcome.map Prod.fst) = some (.returned true) ∧
    read_bytes (device_after_write.memory 3) 64 32 = bytes_A ∧
    (Buffer.read 3 device_only_buffer.1 device_after_write 64 32).map (Outcome.map Prod.fst) =
      some (.returned (false, [])) ∧
    (Buffer.read 3 device_only_buffer.1 device_after_write 64 32).map
      (Outcome.map (fun r => read_bytes (r.2.memory 11) 0 32)) = some (.returned bytes_A) ∧
    (Buffer.read 3 device_only_buffer.1 device_after_write_aligning 64 32).map
      (Outcome.map Prod.fst) = some (.returned (true, List.replicate 32 0)) ∧
    (Buffer.read 3 device_only_buffer.1 device_after_write_aligning 64 32).map
      (Outcome.map (fun r => read_bytes (r.2.memory 11) 0 32)) = some (.returned bytes_A) := by
  decide

/-- Claim C30: on the staging path, which a buffer enters when its device
pointer is set, as it is on every root buffer, and its memory is not
host-mappable: when the command buffer is allocated and the driver accepts the
begin and the end of the recording, the private command buffer handed to the
queue holds exactly `vkBeginCommandBuffer` with the one-time-submit flag and no
other flag, one `vkCmdCopyBuffer` of one region and `vkEndCommandBuffer`; it is
no longer recording, and it is submitted with `should_block = true`. For
`read` the copy goes from this buffer to the staging buffer with
`srcOffset = start_offset`, `dstOffset = 0` and the size of the transfer; for
`write` it goes from the staging buffer to this buffer with `srcOffset = 0`,
`dstOffset = start_offset` and the size of the transfer. The call returns
after the command buffer and then the staging buffer have been destroyed. -/
theorem C30_staging_path_submits_one_blocking_copy (fuel : Nat) (b : Buffer) (d : DeviceState)
    (block : MemoryBlock) (start_offset size : VkDeviceSize) (data : List Nat)
    (device_ptr : Device) (hdevice : b.m_device_ptr = some device_ptr)
    (hblock : b.m_memory_block_ptr = some block) (hdevice_only : block.is_mappable = false)
    (halloc : d.driver.alloc_primary_level_command_buffer_succeeds = true)
    (hbegin : d.driver.vkBeginCommandBuffer_succeeds = true)
    (hend : d.driver.vkEndCommandBuffer_succeeds = true) :
    (∃ (staging : Buffer) (ds : DeviceState) (copy_cmdbuf : CommandBufferBase)
        (out : Bool × List Nat),
      Buffer.create_with_memory (fuel + 1)
        (d.alloc_primary_level_command_buffer d.staging_buffer_queue_fam_type).2 size
        d.staging_buffer_queue_fam_bits VK_SHARING_MODE_EXCLUSIVE
        VK_BUFFER_USAGE_TRANSFER_DST_BIT true false none = some (.returned (staging, ds)) ∧
      Buffer.read (fuel + 2) b d start_offset size =
        some (.returned (out, staging.destructor (copy_cmdbuf.destructor
          (ds.submit_command_buffer d.staging_queue copy_cmdbuf true)))) ∧
      (ds.submit_command_buffer d.staging_queue copy_cmdbuf true).events =
        ds.events ++ [.submit_command_buffer d.staging_queue copy_cmdbuf true] ∧
      copy_cmdbuf.vk_calls =
        [.vkBeginCommandBuffer
            { flags := VK_COMMAND_BUFFER_USAGE_ONE_TIME_SUBMIT_BIT, pInheritanceInfo := none },
          .vkCmdCopyBuffer b.m_buffer staging.m_buffer 1
            [{ srcOffset := start_offset, dstOffset := 0, size := size }],
          .vkEndCommandBuffer] ∧
      copy_cmdbuf.m_recording_in_progress = false) ∧
    (∃ (staging : Buffer) (ds : DeviceState) (copy_cmdbuf : CommandBufferBase),
      Buffer.create_with_memory (fuel + 2)
        (d.alloc_primary_level_command_buffer d.staging_buffer_queue_fam_type).2 size
        d.staging_buffer_queue_fam_bits VK_SHARING_MODE_EXCLUSIVE
        VK_BUFFER_USAGE_TRANSFER_SRC_BIT true false (some data) =
          some (.returned (staging, ds)) ∧
      Buffer.write (fuel + 3) b d start_offset size data =
        some (.returned (true, staging.destructor (copy_cmdbuf.destructor
          (ds.submit_command_buffer d.staging_queue copy_cmdbuf true)))) ∧
      (ds.submit_command_buffer d.staging_queue copy_cmdbuf true).events =
        ds.events ++ [.submit_command_buffer d.staging_queue copy_cmdbuf true] ∧
      copy_cmdbuf.vk_calls =
        [.vkBeginCommandBuffer
            { flags := VK_COMMAND_BUFFER_USAGE_ONE_TIME_SUBMIT_BIT, pInheritanceInfo := none },
          .vkCmdCopyBuffer staging.m_buffer b.m_buffer 1
            [{ srcOffset := 0, dstOffset := start_offset, size := size }],
          .vkEndCommandBuffer] ∧
      copy_cmdbuf.m_recording_in_progress = false) := by
  constructor
  · obtain ⟨staging, ds, sblock, cb, hcreate, _, hread, _, _, _, _, _, _, _, _, _, _, _, _,
        hcalls⟩ :=
      Buffer.read_staging fuel b d block start_offset size device_ptr hdevice hblock
        hdevice_only halloc
    obtain ⟨hvk, hrec, _⟩ := hcalls hbegin hend
    exact ⟨staging, ds, cb, _, hcreate, hread,
      (DeviceState.submit_command_buffer_frame ds d.staging_queue cb true).2.2.2.2.2, hvk, hrec⟩
  · obtain ⟨staging, ds, sblock, cb, hcreate, hwrite, _, _, _, _, _, _, _, _, _, _, _, _,
        hcalls⟩ :=
      Buffer.write_staging fuel b d block start_offset size data device_ptr hdevice hblock
        hdevice_only halloc
    obtain ⟨hvk, hrec, _⟩ := hcalls hbegin hend
    exact ⟨staging, ds, cb, hcreate, hwrite,
      (DeviceState.submit_command_buffer_frame ds d.staging_queue cb true).2.2.2.2.2, hvk, hrec⟩

/-- Witness for C30: `write` of 32 bytes at offset 64 of the root buffer of 256
bytes with memory that is not host-mappable. -/
theorem C30_staging_path_submits_one_blocking_copy_witness :
    ∃ (staging : Buffer) (ds : DeviceState) (copy_cmdbuf : CommandBufferBase),
      Buffer.create_with_memory 2
        (device_only_buffer.2.alloc_primary_level_command_buffer
          device_only_buffer.2.staging_buffer_queue_fam_type).2 32
        device_only_buffer.2.staging_buffer_queue_fam_bits VK_SHARING_MODE_EXCLUSIVE
        VK_BUFFER_USAGE_TRANSFER_SRC_BIT true false (some bytes_A) =
          some (.returned (staging, ds)) ∧
      Buffer.write 3 device_only_buffer.1 device_only_buffer.2 64 32 bytes_A =
        some (.returned (true, staging.destructor (copy_cmdbuf.destructor
          (ds.submit_command_buffer device_only_buffer.2.staging_queue copy_cmdbuf true)))) ∧
      (ds.submit_command_buffer device_only_buffer.2.staging_queue copy_cmdbuf true).events =
        ds.events ++
          [.submit_command_buffer device_only_buffer.2.staging_queue copy_cmdbuf true] ∧
      copy_cmdbuf.vk_calls =
        [.vkBeginCommandBuffer
            { flags := VK_COMMAND_BUFFER_USAGE_ONE_TIME_SUBMIT_BIT, pInheritanceInfo := none },
          .vkCmdCopyBuffer staging.m_buffer device_only_buffer.1.m_buffer 1
            [{ srcOffset := 0, dstOffset := 64, size := 32 }],
          .vkEndCommandBuffer] ∧
      copy_cmdbuf.m_recording_in_progress = false :=
  (C30_staging_path_submits_one_blocking_copy 0 device_only_buffer.1 device_only_buffer.2
    device_only_region 64 32 bytes_A example_device (by decide) (by decide) rfl rfl rfl rfl).2

/-- Claim C31: on the staging path of `read` and of `write`, which a buffer
enters when its device pointer is set, as it is on every root buffer, and its
memory is not host-mappable: once the command buffer is allocated, one queue
family serves the whole call, the transfer family when the device has at least
one transfer queue, the universal family otherwise. The command buffer is
allocated from the pool of that family, the staging buffer is created with the
queue family bit of that family (the DMA bit with the transfer family, the
graphics bit with the universal family) and so with the index of that family
alone in its `VkBufferCreateInfo`, and the command buffer is submitted to
queue 0 of that family. The trace given is that of the device when the
submission returns. -/
theorem C31_staging_path_stays_in_one_queue_family (fuel : Nat) (b : Buffer) (d : DeviceState)
    (block : MemoryBlock) (start_offset size : VkDeviceSize) (data : List Nat)
    (device_ptr : Device) (hdevice : b.m_device_ptr = some device_ptr)
    (hblock : b.m_memory_block_ptr = some block) (hdevice_only : block.is_mappable = false)
    (halloc : d.driver.alloc_primary_level_command_buffer_succeeds = true) :
    ∃ (family : QueueFamilyType) (bits : QueueFamilyBits),
      (0 < d.driver.n_transfer_queues →
        family = .QUEUE_FAMILY_TYPE_TRANSFER ∧ bits = QUEUE_FAMILY_DMA_BIT) ∧
      (d.driver.n_transfer_queues = 0 →
        family = .QUEUE_FAMILY_TYPE_UNIVERSAL ∧ bits = QUEUE_FAMILY_GRAPHICS_BIT) ∧
      (∃ (staging : Buffer) (ds : DeviceState) (sblock : MemoryBlock)
          (copy_cmdbuf : CommandBufferBase) (out : Bool × List Nat),
        Buffer.create_with_memory (fuel + 1) (d.alloc_primary_level_command_buffer family).2
          size bits VK_SHARING_MODE_EXCLUSIVE VK_BUFFER_USAGE_TRANSFER_DST_BIT true false none =
          some (.returned (staging, ds)) ∧
        Buffer.read (fuel + 2) b d start_offset size =
          some (.returned (out, staging.destructor (copy_cmdbuf.destructor
            (ds.submit_command_buffer { family := family, index := 0 } copy_cmdbuf true)))) ∧
        (ds.submit_command_buffer { family := family, index := 0 } copy_cmdbuf true).events =
          d.events ++
            [.alloc_primary_level_command_buffer family (some d.next_handle),
             .vkCreateBuffer
               { flags := 0, pQueueFamilyIndices := [d.driver.queue_family_index family],
                 queueFamilyIndexCount := 1, sharingMode := VK_SHARING_MODE_EXCLUSIVE,
                 size := size, usage := VK_BUFFER_USAGE_TRANSFER_DST_BIT }
               staging.m_buffer,
             .memory_block_create sblock,
             .vkBindBufferMemory staging.m_buffer sblock.m_memory 0,
             .submit_command_buffer { family := family, index := 0 } copy_cmdbuf true]) ∧
      (∃ (staging : Buffer) (ds : DeviceState) (sblock : MemoryBlock)
          (copy_cmdbuf : CommandBufferBase),
        Buffer.create_with_memory (fuel + 2) (d.alloc_primary_level_command_buffer family).2
          size bits VK_SHARING_MODE_EXCLUSIVE VK_BUFFER_USAGE_TRANSFER_SRC_BIT true false
          (some data) = some (.returned (staging, ds)) ∧
        Buffer.write (fuel + 3) b d start_offset size data =
          some (.returned (true, staging.destructor (copy_cmdbuf.destructor
            (ds.submit_command_buffer { family := family, index := 0 } copy_cmdbuf true)))) ∧
        (ds.submit_command_buffer { family := family, index := 0 } copy_cmdbuf true).events =
          d.events ++
            [.alloc_primary_level_command_buffer family (some d.next_handle),
             .vkCreateBuffer
               { flags := 0, pQueueFamilyIndices := [d.driver.queue_family_index family],
                 queueFamilyIndexCount := 1, sharingMode := VK_SHARING_MODE_EXCLUSIVE,
                 size := size, usage := VK_BUFFER_USAGE_TRANSFER_SRC_BIT }
               staging.m_buffer,
             .memory_block_create sblock,
             .vkBindBufferMemory staging.m_buffer sblock.m_memory 0,
             .submit_command_buffer { family := family, index := 0 } copy_cmdbuf true]) := by
  obtain ⟨rs, rds, rblock, rcb, hr1, _, hr3, _, _, _, _, _, _, _, _, _, _, hr12, _⟩ :=
    Buffer.read_staging fuel b d block start_offset size device_ptr hdevice hblock hdevice_only
      halloc
  obtain ⟨ws, wds, wblock, wcb, hw1, hw2, _, _, _, _, _, _, _, _, _, _, hw9, _⟩ :=
    Buffer.write_staging fuel b d block start_offset size data device_ptr hdevice hblock
      hdevice_only halloc
  have hq := d.staging_queue_eq
  rw [hq] at hr3 hw2
  refine ⟨d.staging_buffer_queue_fam_type, d.staging_buffer_queue_fam_bits, ?_, ?_,
    ⟨rs, rds, rblock, rcb, _, hr1, hr3, ?_⟩, ⟨ws, wds, wblock, wcb, hw1, hw2, ?_⟩⟩
  · intro h
    simp [DeviceState.staging_buffer_queue_fam_type, DeviceState.staging_buffer_queue_fam_bits, h]
  · intro h
    simp [DeviceState.staging_buffer_queue_fam_type, DeviceState.staging_buffer_queue_fam_bits, h]
  · rw [(DeviceState.submit_command_buffer_frame rds _ rcb true).2.2.2.2.2, hr12]
    simp [DeviceState.staging_buffer_create_info]
  · rw [(DeviceState.submit_command_buffer_frame wds _ wcb true).2.2.2.2.2, hw9]
    simp [DeviceState.staging_buffer_create_info]

/-- On a device without transfer queues, `write(64, 32, bytes_A)` on the root
buffer with memory that is not host-mappable stays in the universal family. -/
theorem C31_staging_path_stays_in_one_queue_family_witness :
    device_without_transfer_queues.driver.n_transfer_queues = 0 ∧
    ∃ (family : QueueFamilyType) (bits : QueueFamilyBits),
      family = .QUEUE_FAMILY_TYPE_UNIVERSAL ∧ bits = QUEUE_FAMILY_GRAPHICS_BIT ∧
      ∃ (staging : Buffer) (ds : DeviceState) (sblock : MemoryBlock)
          (copy_cmdbuf : CommandBufferBase),
        Buffer.write 3 device_only_buffer.1 device_without_transfer_queues 64 32 bytes_A =
          some (.returned (true, staging.destructor (copy_cmdbuf.destructor
            (ds.submit_command_buffer { family := family, index := 0 } copy_cmdbuf true)))) ∧
        (ds.submit_command_buffer { family := family, index := 0 } copy_cmdbuf true).events =
          device_without_transfer_queues.events ++
            [.alloc_primary_level_command_buffer family
               (some device_without_transfer_queues.next_handle),
             .vkCreateBuffer
               { flags := 0,
                 pQueueFamilyIndices :=
                   [device_without_transfer_queues.driver.queue_family_index family],
                 queueFamilyIndexCount := 1, sharingMode := VK_SHARING_MODE_EXCLUSIVE,
                 size := 32, usage := VK_BUFFER_USAGE_TRANSFER_SRC_BIT }
               staging.m_buffer,
             .memory_block_create sblock,
             .vkBindBufferMemory staging.m_buffer sblock.m_memory 0,
             .submit_command_buffer { family := family, index := 0 } copy_cmdbuf true] :=
  ⟨rfl,
    match C31_staging_path_stays_in_one_queue_family 0 device_only_buffer.1
      device_without_transfer_queues device_only_region 64 32 bytes_A example_device
      (by decide) (by decide) rfl rfl with
    | ⟨family, bits, _, huniversal, _, ⟨staging, ds, sblock, copy_cmdbuf, _, hwrite, hevents⟩⟩ =>
      ⟨family, bits, (huniversal rfl).1, (huniversal rfl).2, staging, ds, sblock, copy_cmdbuf,
        hwrite, hevents⟩⟩
/-- Claim C33, as the code has it: `write(64, 0, data)` on a root buffer whose
memory is not host-mappable returns `true` without a failed assertion, after
it has allocated a command buffer, created a staging buffer, bound memory to
it and submitted the recorded copy, and released the command buffer and the
staging buffer again; `read(0, 0, out)` on the same buffer returns `true`
after the same calls. -/
theorem C33_zero_length_transfer_runs_the_staging_path :
    (Buffer.write 3 device_only_buffer.1 device_only_buffer.2 64 0 []).map
      (Outcome.map (fun written => (written.1, written.2.assertion_failures,
        (written.2.events.drop device_only_buffer.2.events.length).map DeviceEvent.kind))) =
      some (.returned (true, 0, [.alloc_command_buffer, .create_buffer, .create_memory_block,
        .bind_buffer_memory, .submit, .free_command_buffer, .destroy_buffer])) ∧
    (Buffer.read 3 device_only_buffer.1 device_only_buffer.2 0 0).map
      (Outcome.map (fun result => (result.1, result.2.assertion_failures,
        (result.2.events.drop device_only_buffer.2.events.length).map DeviceEvent.kind))) =
      some (.returned ((true, []), 0, [.alloc_command_buffer, .create_buffer,
        .create_memory_block, .bind_buffer_memory, .submit, .free_command_buffer,
        .destroy_buffer])) := by
  decide

/-- Claim C33, amended: `read` and `write` do not look at the length of the
transfer. On a buffer whose device pointer is set, as it is on every root
buffer: with host-mappable memory a transfer of length 0 returns what the
memory block returns for it. With memory that is not host-mappable, once the
command buffer is allocated, a transfer of length 0 creates a staging buffer
of size 0, records one copy of 0 bytes and submits it; `write` then returns
`true`, and `read` returns what `read` on the staging buffer returns for the
same offset and length 0. The trace given is that of the device when the
submission returns; the call returns after the command buffer and then the
staging buffer have been destroyed. -/
theorem C33_zero_length_transfers_are_not_rejected (fuel : Nat) (b : Buffer) (d : DeviceState)
    (block : MemoryBlock) (start_offset : VkDeviceSize) (data : List Nat)
    (device_ptr : Device) (hdevice : b.m_device_ptr = some device_ptr)
    (hblock : b.m_memory_block_ptr = some block) :
    (block.is_mappable = true →
      Buffer.read (fuel + 1) b d start_offset 0 =
        some (.returned (block.read d.memory start_offset 0, d)) ∧
      Buffer.write (fuel + 1) b d start_offset 0 data =
        some (.returned ((block.write d.memory start_offset 0 data).1,
          { d with memory := (block.write d.memory start_offset 0 data).2 }))) ∧
    (block.is_mappable = false →
      d.driver.alloc_primary_level_command_buffer_succeeds = true →
      (∃ (staging : Buffer) (ds : DeviceState) (sblock : MemoryBlock)
          (copy_cmdbuf : CommandBufferBase),
        Buffer.write (fuel + 3) b d start_offset 0 data =
          some (.returned (true, staging.destructor (copy_cmdbuf.destructor
            (ds.submit_command_buffer d.staging_queue copy_cmdbuf true)))) ∧
        staging.m_buffer_size = 0 ∧
        (ds.submit_command_buffer d.staging_queue copy_cmdbuf true).events = d.events ++
          [.alloc_primary_level_command_buffer d.staging_buffer_queue_fam_type
             (some d.next_handle),
           .vkCreateBuffer (d.staging_buffer_create_info 0 VK_BUFFER_USAGE_TRANSFER_SRC_BIT)
             staging.m_buffer,
           .memory_block_create sblock,
           .vkBindBufferMemory staging.m_buffer sblock.m_memory 0,
           .submit_command_buffer d.staging_queue copy_cmdbuf true] ∧
        (d.driver.vkBeginCommandBuffer_succeeds = true →
          d.driver.vkEndCommandBuffer_succeeds = true →
          copy_cmdbuf.vk_calls =
            [.vkBeginCommandBuffer
                { flags := VK_COMMAND_BUFFER_USAGE_ONE_TIME_SUBMIT_BIT,
                  pInheritanceInfo := none },
              .vkCmdCopyBuffer staging.m_buffer b.m_buffer 1
                [{ srcOffset := 0, dstOffset := start_offset, size := 0 }],
              .vkEndCommandBuffer])) ∧
      (∃ (staging : Buffer) (ds : DeviceState) (sblock : MemoryBlock)
          (copy_cmdbuf : CommandBufferBase),
        Buffer.read (fuel + 2) b d start_offset 0 =
          (Buffer.read (fuel + 1) staging
            (ds.submit_command_buffer d.staging_queue copy_cmdbuf true) start_offset 0).map
            (Outcome.map (fun result =>
              (result.1, staging.destructor (copy_cmdbuf.destructor result.2)))) ∧
        staging.m_buffer_size = 0 ∧
        (ds.submit_command_buffer d.staging_queue copy_cmdbuf true).events = d.events ++
          [.alloc_primary_level_command_buffer d.staging_buffer_queue_fam_type
             (some d.next_handle),
           .vkCreateBuffer (d.staging_buffer_create_info 0 VK_BUFFER_USAGE_TRANSFER_DST_BIT)
             staging.m_buffer,
           .memory_block_create sblock,
           .vkBindBufferMemory staging.m_buffer sblock.m_memory 0,
           .submit_command_buffer d.staging_queue copy_cmdbuf true] ∧
        (d.driver.vkBeginCommandBuffer_succeeds = true →
          d.driver.vkEndCommandBuffer_succeeds = true →
          copy_cmdbuf.vk_calls =
            [.vkBeginCommandBuffer
                { flags := VK_COMMAND_BUFFER_USAGE_ONE_TIME_SUBMIT_BIT,
                  pInheritanceInfo := none },
              .vkCmdCopyBuffer b.m_buffer staging.m_buffer 1
                [{ srcOffset := start_offset, dstOffset := 0, size := 0 }],
              .vkEndCommandBuffer]))) := by
  refine ⟨fun hmap => ⟨Buffer.read_mappable fuel b d block start_offset 0 device_ptr hdevice
      hblock hmap,
    Buffer.write_mappable fuel b d block start_offset 0 data device_ptr hdevice hblock hmap⟩,
    fun hdevice_only halloc => ⟨?_, ?_⟩⟩
  · obtain ⟨ws, wds, wblock, wcb, _, hw2, _, _, _, _, _, _, hw9, _, _, _, hw13, _, hw15⟩ :=
      Buffer.write_staging fuel b d block start_offset 0 data device_ptr hdevice hblock
        hdevice_only halloc
    refine ⟨ws, wds, wblock, wcb, hw2, hw9, ?_, fun hbegin hend => (hw15 hbegin hend).1⟩
    rw [(DeviceState.submit_command_buffer_frame wds _ wcb true).2.2.2.2.2, hw13]
    simp
  · obtain ⟨rs, rds, rblock, rcb, _, hr2, _, _, _, _, _, _, _, hr10, _, _, _, hr14, _, hr16⟩ :=
      Buffer.read_staging fuel b d block start_offset 0 device_ptr hdevice hblock hdevice_only
        halloc
    refine ⟨rs, rds, rblock, rcb, hr2, hr10, ?_, fun hbegin hend => (hr16 hbegin hend).1⟩
    rw [(DeviceState.submit_command_buffer_frame rds _ rcb true).2.2.2.2.2, hr14]
    simp

/-- A `write` of length 0 at offset 64 of the root buffer with memory that is
not host-mappable returns `true` through the staging path. -/
theorem C33_zero_length_transfers_are_not_rejected_witness :
    device_only_buffer.1.m_memory_block_ptr = some device_only_region ∧
    device_only_region.is_mappable = false ∧
    device_only_buffer.2.driver.alloc_primary_level_command_buffer_succeeds = true ∧
    ∃ (staging : Buffer) (after : DeviceState),
      Buffer.write 3 device_only_buffer.1 device_only_buffer.2 64 0 [] =
        some (.returned (true, after)) ∧
      staging.m_buffer_size = 0 :=
  ⟨by decide, rfl, rfl,
    match ((C33_zero_length_transfers_are_not_rejected 0 device_only_buffer.1
      device_only_buffer.2 device_only_region 64 [] example_device (by decide)
      (by decide)).2 rfl rfl).1 with
    | ⟨staging, _, _, _, hwrite, hsize, _⟩ => ⟨staging, _, hwrite, hsize⟩⟩

/-- Claim C34, as the code has it: on the staging path of `write`, once the
command buffer is allocated, the result is `true` whatever the driver answers
to `vkCreateBuffer`, `vkBindBufferMemory`, `vkBeginCommandBuffer`,
`vkEndCommandBuffer` and the submission, so whatever `start_recording`,
`record_copy_buffer`, `stop_recording` and `submit_command_buffer` return; and
the result of `read` is what the staging buffer's memory block returns for the
range, `true` whenever the range lies inside the block, whatever those calls
return. Only a command pool that returns no command buffer makes `read` and
`write` return `false`. The buffer is one whose device pointer is set, as it is
on every root buffer. -/
theorem C34_staging_path_ignores_failed_steps (fuel : Nat) (b : Buffer) (d : DeviceState)
    (block : MemoryBlock) (start_offset size : VkDeviceSize) (data : List Nat)
    (device_ptr : Device) (hdevice : b.m_device_ptr = some device_ptr)
    (hblock : b.m_memory_block_ptr = some block) (hdevice_only : block.is_mappable = false)
    (halloc : d.driver.alloc_primary_level_command_buffer_succeeds = true) :
    (∃ after : DeviceState,
      Buffer.write (fuel + 3) b d start_offset size data = some (.returned (true, after))) ∧
    (∃ (bytes : List Nat) (after : DeviceState),
      Buffer.read (fuel + 2) b d start_offset size =
        some (.returned
          ((decide (start_offset + size ≤ (d.driver.memory_requirements size).size), bytes),
            after))) ∧
    (∀ other : DeviceState, other.driver.alloc_primary_level_command_buffer_succeeds = false →
      (Buffer.write (fuel + 1) b other start_offset size data).map (Outcome.map Prod.fst) =
        some (.returned false) ∧
      (Buffer.read (fuel + 1) b other start_offset size).map (Outcome.map Prod.fst) =
        some (.returned (false, []))) := by
  obtain ⟨rs, rds, rblock, rcb, _, _, hr3, _, _, hr6, _, _, hr9, _⟩ :=
    Buffer.read_staging fuel b d block start_offset size device_ptr hdevice hblock hdevice_only
      halloc
  obtain ⟨ws, wds, wblock, wcb, _, hw2, _⟩ :=
    Buffer.write_staging fuel b d block start_offset size data device_ptr hdevice hblock
      hdevice_only halloc
  refine ⟨⟨_, hw2⟩, ?_, fun other hrefused => ?_⟩
  · refine ⟨(rblock.read (rds.submit_command_buffer d.staging_queue rcb true).memory
      start_offset size).2, rs.destructor (rcb.destructor
        (rds.submit_command_buffer d.staging_queue rcb true)), ?_⟩
    rw [hr3]
    congr 3
    unfold MemoryBlock.read
    rw [hr6, hr9]
    by_cases h : start_offset + size ≤ (d.driver.memory_requirements size).size <;> simp [h]
  · rw [Buffer.write_alloc_refused fuel b other block start_offset size data device_ptr hdevice
      hblock hdevice_only hrefused, Buffer.read_alloc_refused fuel b other block start_offset
      size device_ptr hdevice hblock hdevice_only hrefused]
    exact ⟨rfl, rfl⟩

/-- With a driver that refuses `vkBeginCommandBuffer`, so that nothing is
recorded, `write(64, 32, bytes_A)` returns `true` and bytes 64 to 95 of the
buffer's memory are still zero. -/
theorem C34_staging_path_ignores_failed_steps_witness :
    device_refusing_begin.driver.vkBeginCommandBuffer_succeeds = false ∧
    (∃ after : DeviceState,
      Buffer.write 3 device_only_buffer.1 device_refusing_begin 64 32 bytes_A =
        some (.returned (true, after))) ∧
    (Buffer.write 3 device_only_buffer.1 device_refusing_begin 64 32 bytes_A).map
      (Outcome.map (fun written => read_bytes (written.2.memory 3) 64 32)) =
      some (.returned (List.replicate 32 0)) :=
  ⟨rfl,
    (C34_staging_path_ignores_failed_steps 0 device_only_buffer.1 device_refusing_begin
      device_only_region 64 32 bytes_A example_device (by decide) (by decide) rfl rfl).1,
    by decide⟩
/-- Claim C35: a view has its parent's native handle and usage flags and the
start offset and size given at creation. The destructor calls `vkDestroyBuffer`
exactly when the handle is not null and the buffer has no parent. So for a
root with a native handle, destroying any list of its views releases nothing,
and destroying the root afterwards releases the root's handle, once. -/
theorem C35_views_share_the_handle_and_only_the_root_releases_it (d : DeviceState)
    (root : Buffer) (views : List Buffer)
    (hroot : root.m_parent_buffer_ptr = none) (hhandle : root.m_buffer ≠ 0)
    (hviews : ∀ v ∈ views, ∃ (dv : DeviceState) (start_offset size : VkDeviceSize),
      v = (Buffer.create_view dv root start_offset size).1) :
    (∀ (dv : DeviceState) (parent : Buffer) (start_offset size : VkDeviceSize),
      (Buffer.create_view dv parent start_offset size).1.m_buffer = parent.m_buffer ∧
      (Buffer.create_view dv parent start_offset size).1.m_usage_flags =
        parent.m_usage_flags ∧
      (Buffer.create_view dv parent start_offset size).1.m_start_offset = start_offset ∧
      (Buffer.create_view dv parent start_offset size).1.m_buffer_size = size) ∧
    (∀ v ∈ views, v.m_buffer = root.m_buffer) ∧
    (∀ (b : Buffer) (db : DeviceState),
      b.destructor db =
        if b.m_buffer ≠ 0 ∧ b.m_parent_buffer_ptr.isNone = true then
          db.log (.vkDestroyBuffer b.m_buffer)
        else db) ∧
    views.foldl (fun s v => v.destructor s) d = d ∧
    destroy_calls (root.destructor (views.foldl (fun s v => v.destructor s) d)).events =
      destroy_calls d.events ++ [root.m_buffer] := by
  have hparent : ∀ v ∈ views, v.m_parent_buffer_ptr.isSome = true := by
    intro v hv
    obtain ⟨dv, start_offset, size, rfl⟩ := hviews v hv
    rfl
  have hshared : ∀ v ∈ views, v.m_buffer = root.m_buffer := by
    intro v hv
    obtain ⟨dv, start_offset, size, rfl⟩ := hviews v hv
    rfl
  refine ⟨fun dv parent start_offset size => ⟨rfl, rfl, rfl, rfl⟩, hshared,
    Buffer.destructor_eq, Buffer.destructor_views views d hparent, ?_⟩
  rw [Buffer.destructor_views views d hparent, Buffer.destructor_eq, hroot,
    if_pos ⟨hhandle, rfl⟩, DeviceState.device_log_events, destroy_calls_append]
  rfl

/-- Two views of `device_only_buffer` are destroyed, then the buffer itself:
handle 2 is released once, by the last of the three. -/
theorem C35_views_share_the_handle_and_only_the_root_releases_it_witness :
    device_only_buffer.1.m_parent_buffer_ptr = none ∧ device_only_buffer.1.m_buffer ≠ 0 ∧
    view_of_root.1.m_buffer = 2 ∧ second_view_of_root.1.m_buffer = 2 ∧
    [view_of_root.1, second_view_of_root.1].foldl (fun s v => v.destructor s)
      second_view_of_root.2 = second_view_of_root.2 ∧
    destroy_calls (device_only_buffer.1.destructor ([view_of_root.1,
      second_view_of_root.1].foldl (fun s v => v.destructor s)
      second_view_of_root.2)).events = [2] :=
  ⟨rfl, by decide, by decide, by decide,
    (C35_views_share_the_handle_and_only_the_root_releases_it second_view_of_root.2
      device_only_buffer.1 [view_of_root.1, second_view_of_root.1] rfl (by decide)
      (fun v hv => by
        rcases List.mem_cons.1 hv with h | h
        · exact ⟨device_only_buffer.2, 64, 128, h⟩
        · exact ⟨view_of_root.2, 0, 16, List.mem_singleton.1 h⟩)).2.2.2.1,
    (C35_views_share_the_handle_and_only_the_root_releases_it second_view_of_root.2
      device_only_buffer.1 [view_of_root.1, second_view_of_root.1] rfl (by decide)
      (fun v hv => by
        rcases List.mem_cons.1 hv with h | h
        · exact ⟨device_only_buffer.2, 64, 128, h⟩
        · exact ⟨view_of_root.2, 0, 16, List.mem_singleton.1 h⟩)).2.2.2.2⟩

/-- Claim C36, as the code has it: on the staging path of `read`, the recorded
copy stores the bytes at offset 0 of the staging buffer (`dstOffset = 0`), and
after the blocking submission the result is that of `read` on the staging
buffer at the caller's `start_offset`, not at 0: the bytes returned are bytes
`start_offset` to `start_offset + size` of the staging memory when that range
lies inside the staging memory block, and the call returns `false` when it
does not. The buffer is one whose device pointer is set, as it is on every
root buffer; the call returns after the command buffer and then the staging
buffer have been destroyed. -/
theorem C36_read_back_starts_at_the_caller_offset (fuel : Nat) (b : Buffer) (d : DeviceState)
    (block : MemoryBlock) (start_offset size : VkDeviceSize)
    (device_ptr : Device) (hdevice : b.m_device_ptr = some device_ptr)
    (hblock : b.m_memory_block_ptr = some block) (hdevice_only : block.is_mappable = false)
    (halloc : d.driver.alloc_primary_level_command_buffer_succeeds = true)
    (hbegin : d.driver.vkBeginCommandBuffer_succeeds = true)
    (hend : d.driver.vkEndCommandBuffer_succeeds = true) :
    ∃ (staging : Buffer) (sblock : MemoryBlock) (copy_cmdbuf : CommandBufferBase)
        (before after : DeviceState),
      after = before.submit_command_buffer d.staging_queue copy_cmdbuf true ∧
      copy_cmdbuf.vk_calls =
        [.vkBeginCommandBuffer
            { flags := VK_COMMAND_BUFFER_USAGE_ONE_TIME_SUBMIT_BIT, pInheritanceInfo := none },
          .vkCmdCopyBuffer b.m_buffer staging.m_buffer 1
            [{ srcOffset := start_offset, dstOffset := 0, size := size }],
          .vkEndCommandBuffer] ∧
      Buffer.read (fuel + 2) b d start_offset size =
        (Buffer.read (fuel + 1) staging after start_offset size).map
          (Outcome.map (fun result =>
            (result.1, staging.destructor (copy_cmdbuf.destructor result.2)))) ∧
      staging.m_memory_block_ptr = some sblock ∧
      Buffer.read (fuel + 2) b d start_offset size =
        some (.returned ((if start_offset + size ≤ sblock.m_size then
            (true, read_bytes (after.memory sblock.m_memory) start_offset size)
          else (false, [])), staging.destructor (copy_cmdbuf.destructor after))) := by
  obtain ⟨rs, rds, rblock, rcb, _, hr2, hr3, _, hr5, hr6, _, hr8, _, _, _, _, _, _, _, hr16⟩ :=
    Buffer.read_staging fuel b d block start_offset size device_ptr hdevice hblock hdevice_only
      halloc
  refine ⟨rs, rblock, rcb, rds, rds.submit_command_buffer d.staging_queue rcb true, rfl,
    (hr16 hbegin hend).1, hr2, hr5, ?_⟩
  rw [hr3]
  congr 3
  unfold MemoryBlock.read
  rw [hr6, hr8]
  by_cases h : start_offset + size ≤ rblock.m_size <;> simp [h]

/-- The `read(64, 32, out)` that follows `write(64, 32, bytes_A)` reads the
staging buffer at offset 64. -/
theorem C36_read_back_starts_at_the_caller_offset_witness :
    ∃ (staging : Buffer) (copy_cmdbuf : CommandBufferBase) (after : DeviceState),
      Buffer.read 2 device_only_buffer.1 device_after_write 64 32 =
        (Buffer.read 1 staging after 64 32).map
          (Outcome.map (fun result =>
            (result.1, staging.destructor (copy_cmdbuf.destructor result.2)))) :=
  match C36_read_back_starts_at_the_caller_offset 0 device_only_buffer.1 device_after_write
    device_only_region 64 32 example_device (by decide) (by decide) rfl rfl rfl rfl with
  | ⟨staging, _, copy_cmdbuf, _, after, _, _, hread, _⟩ => ⟨staging, copy_cmdbuf, after, hread⟩
/-- Claim C37, as the code has it: the descriptor journaled by `record_draw`,
`record_draw_indexed`, `record_dispatch` and `record_fill_buffer` holds every
argument under the field of the same name, and that of `record_draw_indirect`
holds `in_offset`; the descriptor of `record_draw_indirect_count_AMD` holds
`in_count_offset`, `in_max_draw_count` and `in_stride` but nothing of
`in_offset`, and neither does that of `record_draw_indexed_indirect_count_AMD`:
two calls that differ in `in_offset` only leave the same journal, while the
native call they issue carries `in_offset`. Inside a render pass, the calls
with `in_offset` 64 and 0 journal the same descriptor, and byte offset 64
reaches the driver. -/
theorem C37_count_AMD_descriptors_drop_in_offset :
    (∀ (cb : CommandBufferBase) (in_vertex_count in_instance_count in_first_vertex
      in_first_instance : Nat),
      (record cb (.draw in_vertex_count in_instance_count in_first_vertex
        in_first_instance)).2.m_commands =
      if (record cb (.draw in_vertex_count in_instance_count in_first_vertex
          in_first_instance)).1 = true ∧ cb.m_command_stashing_disabled = false then
        cb.m_commands ++
          [.draw { first_instance := in_first_instance, first_vertex := in_first_vertex,
                   instance_count := in_instance_count, vertex_count := in_vertex_count }]
      else cb.m_commands) ∧
    (∀ (cb : CommandBufferBase) (in_index_count in_instance_count in_first_index : Nat)
      (in_vertex_offset : Int) (in_first_instance : Nat),
      (record cb (.draw_indexed in_index_count in_instance_count in_first_index
        in_vertex_offset in_first_instance)).2.m_commands =
      if (record cb (.draw_indexed in_index_count in_instance_count in_first_index
          in_vertex_offset in_first_instance)).1 = true ∧
          cb.m_command_stashing_disabled = false then
        cb.m_commands ++
          [.draw_indexed { first_index := in_first_index, first_instance := in_first_instance,
                           index_count := in_index_count, instance_count := in_instance_count,
                           vertex_offset := in_vertex_offset }]
      else cb.m_commands) ∧
    (∀ (cb : CommandBufferBase) (in_x in_y in_z : Nat),
      (record cb (.dispatch in_x in_y in_z)).2.m_commands =
      if (record cb (.dispatch in_x in_y in_z)).1 = true ∧
          cb.m_command_stashing_disabled = false then
        cb.m_commands ++ [.dispatch { x := in_x, y := in_y, z := in_z }]
      else cb.m_commands) ∧
    (∀ (cb : CommandBufferBase) (in_dst_buffer_ptr : BufferPtr)
      (in_dst_offset in_size : VkDeviceSize) (in_data : Nat),
      (record cb (.fill_buffer in_dst_buffer_ptr in_dst_offset in_size in_data)).2.m_commands =
      if (record cb (.fill_buffer in_dst_buffer_ptr in_dst_offset in_size in_data)).1 = true ∧
          cb.m_command_stashing_disabled = false then
        cb.m_commands ++
          [.fill_buffer { data := in_data, dst_buffer := in_dst_buffer_ptr.get_buffer,
                          dst_buffer_ptr := in_dst_buffer_ptr, dst_offset := in_dst_offset,
                          size := in_size }]
      else cb.m_commands) ∧
    (∀ (cb : CommandBufferBase) (in_buffer_ptr : BufferPtr) (in_offset : VkDeviceSize)
      (in_count in_stride : Nat),
      (record cb (.draw_indirect in_buffer_ptr in_offset in_count in_stride)).2.m_commands =
      if (record cb (.draw_indirect in_buffer_ptr in_offset in_count in_stride)).1 = true ∧
          cb.m_command_stashing_disabled = false then
        cb.m_commands ++
          [.draw_indirect { buffer := in_buffer_ptr.get_buffer, buffer_ptr := in_buffer_ptr,
                            count := in_count, offset := in_offset, stride := in_stride }]
      else cb.m_commands) ∧
    (∀ (cb : CommandBufferBase) (in_buffer_ptr : BufferPtr) (in_offset : VkDeviceSize)
      (in_count_buffer_ptr : BufferPtr) (in_count_offset : VkDeviceSize)
      (in_max_draw_count in_stride : Nat),
      (record cb (.draw_indirect_count_AMD in_buffer_ptr in_offset in_count_buffer_ptr
        in_count_offset in_max_draw_count in_stride)).2.m_commands =
      if (record cb (.draw_indirect_count_AMD in_buffer_ptr in_offset in_count_buffer_ptr
          in_count_offset in_max_draw_count in_stride)).1 = true ∧
          cb.m_command_stashing_disabled = false then
        cb.m_commands ++
          [.draw_indirect_count_AMD
            { buffer := in_buffer_ptr.get_buffer, buffer_ptr := in_buffer_ptr,
              count_buffer := in_count_buffer_ptr.get_buffer,
              count_buffer_ptr := in_count_buffer_ptr, count_offset := in_count_offset,
              max_draw_count := in_max_draw_count, stride := in_stride }]
      else cb.m_commands) ∧
    (∀ (cb : CommandBufferBase) (in_buffer_ptr : BufferPtr) (in_offset other_offset :
      VkDeviceSize) (in_count_buffer_ptr : BufferPtr) (in_count_offset : VkDeviceSize)
      (in_max_draw_count in_stride : Nat),
      (record cb (.draw_indirect_count_AMD in_buffer_ptr in_offset in_count_buffer_ptr
        in_count_offset in_max_draw_count in_stride)).2.m_commands =
      (record cb (.draw_indirect_count_AMD in_buffer_ptr other_offset in_count_buffer_ptr
        in_count_offset in_max_draw_count in_stride)).2.m_commands ∧
      (record cb (.draw_indexed_indirect_count_AMD in_buffer_ptr in_offset in_count_buffer_ptr
        in_count_offset in_max_draw_count in_stride)).2.m_commands =
      (record cb (.draw_indexed_indirect_count_AMD in_buffer_ptr other_offset
        in_count_buffer_ptr in_count_offset in_max_draw_count in_stride)).2.m_commands) ∧
    (record in_renderpass_primary (example_draw_indirect_count 64)).1 = true ∧
    (record in_renderpass_primary (example_draw_indirect_count 64)).2.m_commands =
      in_renderpass_primary.m_commands ++ [.draw_indirect_count_AMD
        { buffer := 41, buffer_ptr := example_buffer, count_buffer := 51,
          count_buffer_ptr := example_staging_buffer, count_offset := 0, max_draw_count := 1,
          stride := 16 }] ∧
    (record in_renderpass_primary (example_draw_indirect_count 64)).2.m_commands =
      (record in_renderpass_primary (example_draw_indirect_count 0)).2.m_commands ∧
    (record in_renderpass_primary (example_draw_indirect_count 64)).2.vk_calls =
      in_renderpass_primary.vk_calls ++ [.vkCmdDrawIndirectCountAMD 41 64 51 0 1 16] ∧
    (record in_renderpass_primary (example_draw_indirect_count 0)).2.vk_calls =
      in_renderpass_primary.vk_calls ++ [.vkCmdDrawIndirectCountAMD 41 0 51 0 1 16] ∧
    (record in_renderpass_primary (example_draw_indexed_indirect_count 64)).1 = true ∧
    (record in_renderpass_primary (example_draw_indexed_indirect_count 64)).2.m_commands =
      (record in_renderpass_primary (example_draw_indexed_indirect_count 0)).2.m_commands ∧
    (record in_renderpass_primary (example_draw_indexed_indirect_count 64)).2.vk_calls =
      in_renderpass_primary.vk_calls ++ [.vkCmdDrawIndexedIndirectCountAMD 41 64 51 0 1 16] := by
  refine ⟨fun cb _ _ _ _ => record_m_commands cb _, fun cb _ _ _ _ _ => record_m_commands cb _,
    fun cb _ _ _ => record_m_commands cb _, fun cb _ _ _ _ => record_m_commands cb _,
    fun cb _ _ _ _ => record_m_commands cb _, fun cb _ _ _ _ _ _ => record_m_commands cb _, ?_,
    by decide, by decide, by decide, rfl, rfl, by decide, by decide, rfl⟩
  intro cb in_buffer_ptr in_offset other_offset in_count_buffer_ptr in_count_offset
    in_max_draw_count in_stride
  constructor <;>
  · rw [record_m_commands, record_m_commands, record_result, record_result]
    rfl

/-- Claim C38: a recording function that is neither `record_begin_render_pass`
nor `record_end_render_pass` leaves `m_recording_in_progress` and
`m_is_renderpass_active` as they were, whether it returns `true` or `false`;
`stop_recording` and `reset` never change `m_is_renderpass_active`, and neither
does the `start_recording` of a primary command buffer; so a call of the
interface after which `m_is_renderpass_active` differs is a
`record_begin_render_pass`, a `record_end_render_pass` or the `start_recording`
of a secondary command buffer. -/
theorem C38_flags_change_only_in_render_pass_brackets (cb : CommandBufferBase)
    (call : RecordCall)
    (hbegin : call.command_type ≠ CommandType.COMMAND_TYPE_BEGIN_RENDER_PASS)
    (hend : call.command_type ≠ CommandType.COMMAND_TYPE_END_RENDER_PASS) :
    (record cb call).2.m_recording_in_progress = cb.m_recording_in_progress ∧
    (record cb call).2.m_is_renderpass_active = cb.m_is_renderpass_active ∧
    (∀ (other : CommandBufferBase) (ok : Bool),
      (other.stop_recording ok).2.m_is_renderpass_active = other.m_is_renderpass_active) ∧
    (∀ (other : CommandBufferBase) (should_release_resources ok : Bool),
      (other.reset should_release_resources ok).2.m_is_renderpass_active =
        other.m_is_renderpass_active) ∧
    (∀ (other : CommandBufferBase) (one_time_submit simultaneous_use_allowed ok : Bool),
      (PrimaryCommandBuffer.start_recording other one_time_submit simultaneous_use_allowed
        ok).2.m_is_renderpass_active = other.m_is_renderpass_active) ∧
    (∀ (other : CommandBufferBase) (api : ApiCall),
      (api.apply other).2.m_is_renderpass_active ≠ other.m_is_renderpass_active →
      (∃ bracket : RecordCall, api = .record bracket ∧ (record other bracket).1 = true ∧
        (bracket.command_type = CommandType.COMMAND_TYPE_BEGIN_RENDER_PASS ∨
         bracket.command_type = CommandType.COMMAND_TYPE_END_RENDER_PASS)) ∨
      (∃ a0 a1 a2 a3 a4 a5 a6 a7 ok,
        api = .secondary_start_recording a0 a1 a2 a3 a4 a5 a6 a7 ok)) := by
  have hstop : ∀ (other : CommandBufferBase) (ok : Bool),
      (other.stop_recording ok).2.m_is_renderpass_active = other.m_is_renderpass_active := by
    intro other ok
    cases hrec : other.m_recording_in_progress <;> cases ok <;>
    simp [CommandBufferBase.stop_recording, hrec]
  have hreset : ∀ (other : CommandBufferBase) (should_release_resources ok : Bool),
      (other.reset should_release_resources ok).2.m_is_renderpass_active =
        other.m_is_renderpass_active := by
    intro other a ok
    cases hrec : other.m_recording_in_progress <;> cases ok <;>
    simp [CommandBufferBase.reset, hrec]
  have hstart : ∀ (other : CommandBufferBase) (one_time_submit simultaneous_use_allowed
      ok : Bool),
      (PrimaryCommandBuffer.start_recording other one_time_submit simultaneous_use_allowed
        ok).2.m_is_renderpass_active = other.m_is_renderpass_active := by
    intro other a0 a1 ok
    cases hrec : other.m_recording_in_progress <;> cases ok <;>
    simp [PrimaryCommandBuffer.start_recording, hrec]
  have hframe : ∀ (other : CommandBufferBase) (c : RecordCall),
      (record other c).2.m_is_renderpass_active ≠ other.m_is_renderpass_active →
      (record other c).1 = true ∧
        (c.command_type = CommandType.COMMAND_TYPE_BEGIN_RENDER_PASS ∨
         c.command_type = CommandType.COMMAND_TYPE_END_RENDER_PASS) := by
    intro other c hne
    rw [record_m_is_renderpass_active] at hne
    by_cases hres : (record other c).1 = true
    · refine ⟨hres, ?_⟩
      rw [if_pos hres] at hne
      clear hres
      cases c <;>
      first
        | exact absurd rfl hne
        | exact Or.inl rfl
        | exact Or.inr rfl
    · rw [if_neg hres] at hne
      exact absurd rfl hne
  refine ⟨record_recording_in_progress cb call, ?_, hstop, hreset, hstart, ?_⟩
  · by_contra hne
    rcases (hframe cb call hne).2 with h | h
    · exact hbegin h
    · exact hend h
  · intro other api hne
    cases api with
    | record c => exact Or.inl ⟨c, rfl, (hframe other c hne).1, (hframe other c hne).2⟩
    | primary_start_recording a0 a1 ok => exact absurd (hstart other a0 a1 ok) hne
    | secondary_start_recording a0 a1 a2 a3 a4 a5 a6 a7 ok =>
        exact Or.inr ⟨a0, a1, a2, a3, a4, a5, a6, a7, ok, rfl⟩
    | stop_recording ok => exact absurd (hstop other ok) hne
    | reset a0 ok => exact absurd (hreset other a0 ok) hne

/-- A draw recorded inside a render pass leaves both flags set. -/
theorem C38_flags_change_only_in_render_pass_brackets_witness :
    example_draw.command_type ≠ CommandType.COMMAND_TYPE_BEGIN_RENDER_PASS ∧
    example_draw.command_type ≠ CommandType.COMMAND_TYPE_END_RENDER_PASS ∧
    (record in_renderpass_primary example_draw).1 = true ∧
    (record in_renderpass_primary example_draw).2.m_recording_in_progress = true ∧
    (record in_renderpass_primary example_draw).2.m_is_renderpass_active = true :=
  ⟨by decide, by decide, by decide,
    (C38_flags_change_only_in_render_pass_brackets in_renderpass_primary example_draw
      (by decide) (by decide)).1,
    (C38_flags_change_only_in_render_pass_brackets in_renderpass_primary example_draw
      (by decide) (by decide)).2.1⟩

/-- Claim C39: `get_base_buffer` climbs one level. Its result is the buffer
itself when the buffer has no parent and the parent otherwise, so the parent of
the result is the parent of the buffer's parent, if any. For `view_of_view`, a
view created from a view of `device_only_buffer`, the result is the
intermediate view `view_of_root`, which has a parent, and not the root
`device_only_buffer`. -/
theorem C39_get_base_buffer_climbs_one_level :
    (∀ b : Buffer, b.get_base_buffer.m_parent_buffer_ptr =
      b.m_parent_buffer_ptr.bind Buffer.m_parent_buffer_ptr) ∧
    (∀ b : Buffer, b.get_base_buffer.object =
      (b.m_parent_buffer_ptr.map Buffer.object).getD b.object) ∧
    device_only_buffer.1.m_parent_buffer_ptr.isNone = true ∧
    device_only_buffer.1.object = 1 ∧
    device_only_buffer.1.get_base_buffer.object = 1 ∧
    view_of_root.1.object = 4 ∧
    view_of_root.1.get_base_buffer.object = 1 ∧
    view_of_root.1.get_base_buffer.m_parent_buffer_ptr.isNone = true ∧
    view_of_view.1.object = 5 ∧
    view_of_view.1.m_parent_buffer_ptr.map Buffer.object = some 4 ∧
    view_of_view.1.get_base_buffer.object = 4 ∧
    view_of_view.1.get_base_buffer.m_parent_buffer_ptr.isSome = true ∧
    view_of_view.1.get_base_buffer.m_parent_buffer_ptr.map Buffer.object = some 1 := by
  refine ⟨?_, ?_, by decide, by decide, by decide, by decide, by decide, by decide, by decide,
    by decide, by decide, by decide, by decide⟩
  · intro b
    unfold Buffer.get_base_buffer Buffer.get_parent_buffer_ptr
    cases h : b.m_parent_buffer_ptr <;> simp [h]
  · intro b
    unfold Buffer.get_base_buffer Buffer.get_parent_buffer_ptr
    cases h : b.m_parent_buffer_ptr <;> simp [h]

/-- Claim C40: on a list of cached devices without duplicates,
`register_device` leaves a list without duplicates that contains the device:
the old list with the device appended when it was absent, the old list when it
was present. `unregister_device` leaves a list without duplicates that does not
contain the device: the old list without that entry, the others in their
order. Registering an absent device and unregistering it again restores the
list. -/
theorem C40_cached_devices_stay_distinct (p : PhysicalDevice) (device_ptr : DevicePtr)
    (hdistinct : p.m_cached_devices.Nodup) :
    (p.register_device device_ptr).m_cached_devices.Nodup ∧
    device_ptr ∈ (p.register_device device_ptr).m_cached_devices ∧
    (device_ptr ∉ p.m_cached_devices →
      (p.register_device device_ptr).m_cached_devices = p.m_cached_devices ++ [device_ptr]) ∧
    (device_ptr ∈ p.m_cached_devices →
      (p.register_device device_ptr).m_cached_devices = p.m_cached_devices) ∧
    (p.unregister_device device_ptr).m_cached_devices.Nodup ∧
    device_ptr ∉ (p.unregister_device device_ptr).m_cached_devices ∧
    (p.unregister_device device_ptr).m_cached_devices =
      p.m_cached_devices.filter (fun other => decide (other ≠ device_ptr)) ∧
    (device_ptr ∉ p.m_cached_devices →
      ((p.register_device device_ptr).unregister_device device_ptr).m_cached_devices =
        p.m_cached_devices) := by
  have hfilter : p.m_cached_devices.erase device_ptr =
      p.m_cached_devices.filter (fun other => decide (other ≠ device_ptr)) := by
    rw [hdistinct.erase_eq_filter]
    congr 1
    funext other
    by_cases h : other = device_ptr <;> simp [h]
  have hunregistered : (p.unregister_device device_ptr).m_cached_devices =
      p.m_cached_devices.erase device_ptr := by
    rw [PhysicalDevice.unregister_device_eq]
    by_cases h : device_ptr ∈ p.m_cached_devices
    · rw [if_pos h]
    · rw [if_neg h, List.erase_of_not_mem h]
  have habsent : device_ptr ∉ p.m_cached_devices →
      (p.register_device device_ptr).m_cached_devices = p.m_cached_devices ++ [device_ptr] := by
    intro h
    rw [PhysicalDevice.register_device_eq, if_neg h]
  have hpresent : device_ptr ∈ p.m_cached_devices →
      (p.register_device device_ptr).m_cached_devices = p.m_cached_devices := by
    intro h
    rw [PhysicalDevice.register_device_eq, if_pos h]
  refine ⟨?_, ?_, habsent, hpresent, ?_, ?_, ?_, ?_⟩
  · by_cases h : device_ptr ∈ p.m_cached_devices
    · rw [hpresent h]
      exact hdistinct
    · rw [habsent h, ← List.concat_eq_append]
      exact List.Nodup.concat h hdistinct
  · by_cases h : device_ptr ∈ p.m_cached_devices
    · rw [hpresent h]
      exact h
    · rw [habsent h]
      exact List.mem_append_right _ (List.mem_singleton_self _)
  · rw [hunregistered]
    exact hdistinct.erase device_ptr
  · rw [hunregistered, hdistinct.mem_erase_iff]
    exact fun h => h.1 rfl
  · rw [hunregistered, hfilter]
  · intro h
    rw [PhysicalDevice.unregister_device_eq, habsent h,
      if_pos (List.mem_append_right _ (List.mem_singleton_self _))]
    show (p.m_cached_devices ++ [device_ptr]).erase device_ptr = p.m_cached_devices
    rw [List.erase_append_right _ h]
    simp

/-- Device 4 is registered with a physical device that caches the devices 1, 2
and 3, and device 2 is unregistered from it. -/
theorem C40_cached_devices_stay_distinct_witness :
    example_physical_device.m_cached_devices.Nodup ∧
    (example_physical_device.register_device { object := 4 }).m_cached_devices =
      [{ object := 1 }, { object := 2 }, { object := 3 }, { object := 4 }] ∧
    (example_physical_device.unregister_device { object := 2 }).m_cached_devices =
      [{ object := 1 }, { object := 3 }] ∧
    (example_physical_device.register_device { object := 2 }).m_cached_devices =
      [{ object := 1 }, { object := 2 }, { object := 3 }] :=
  ⟨by decide,
    (C40_cached_devices_stay_distinct example_physical_device { object := 4 }
      (by decide)).2.2.1 (by decide),
    (C40_cached_devices_stay_distinct example_physical_device { object := 2 }
      (by decide)).2.2.2.2.2.2.1,
    (C40_cached_devices_stay_distinct example_physical_device { object := 2 }
      (by decide)).2.2.2.1 (by decide)⟩

end Claims

end Anvil
